import Mathlib

/-!
The modesetting driver's display layer (`drmmode_display.c`)

A shallow embedding of the CRTC / output / buffer-object code of
`hw/xfree86/drivers/modesetting/drmmode_display.c`, and theorems about it.

Conventions of the embedding.

* C `int` values are `Int`; `uint32_t` / `uint16_t` values are `Nat`, reduced
  modulo `2^32` / `2^16` at every conversion the C code performs.
* Pointers to pixmaps and buffer objects are addresses (`Nat`), `0` is `NULL`;
  the records they point to live in total stores indexed by address.
* Calls that leave the file (kernel ioctls, the windowing framework, the
  allocator) are recorded in a trace; when the code uses their result, the
  result is taken from an explicit outcome argument or from the list of
  pending answers carried by the state.
-/

namespace Drmmode

/-! ## Machine integers -/

/-- Conversion of a C `int` to `uint32_t`. -/
def toU32 (x : Int) : Nat := (x % 4294967296).toNat

/-- Conversion of a C `int` to `uint16_t`. -/
def toU16 (x : Int) : Nat := (x % 65536).toNat

/-- Conversion of a `uint32_t` to a 32-bit C `int`. -/
def toInt32 (n : Nat) : Int :=
  if n % 4294967296 < 2147483648 then ((n % 4294967296 : Nat) : Int)
  else ((n % 4294967296 : Nat) : Int) - 4294967296

/-- The values a 32-bit C `int` can hold. -/
def IsInt32 (x : Int) : Prop := -2147483648 ≤ x ∧ x < 2147483648

instance (x : Int) : Decidable (IsInt32 x) := by
  unfold IsInt32; exact inferInstance

/-! ## Mode descriptors -/

/-- Modelled from the spec: `DRM_DISPLAY_MODE_LEN`, the length of the fixed name
field of the kernel mode descriptor (libdrm header, not under src). -/
def DRM_DISPLAY_MODE_LEN : Nat := 32

/-- Modelled from the spec: kernel mode type bit "driver" (libdrm header). -/
def DRM_MODE_TYPE_DRIVER : Nat := 64

/-- Modelled from the spec: kernel mode type bit "preferred" (libdrm header). -/
def DRM_MODE_TYPE_PREFERRED : Nat := 8

/-- Modelled from the spec: internal mode type "driver-defined" (`xf86str.h`). -/
def M_T_DRIVER : Nat := 64

/-- Modelled from the spec: internal mode type "preferred" (`xf86str.h`). -/
def M_T_PREFERRED : Nat := 8

/-- Modelled from the spec: the mode status `MODE_OK` (`xf86str.h`). -/
def MODE_OK : Int := 0

/-- The `Crtc*` block of `DisplayModeRec`, the timings as adjusted for the
hardware.  It is written by `xf86SetModeCrtc` only. -/
structure CrtcTimings where
  CrtcHDisplay : Int := 0
  CrtcHBlankStart : Int := 0
  CrtcHSyncStart : Int := 0
  CrtcHSyncEnd : Int := 0
  CrtcHBlankEnd : Int := 0
  CrtcHTotal : Int := 0
  CrtcHSkew : Int := 0
  CrtcVDisplay : Int := 0
  CrtcVBlankStart : Int := 0
  CrtcVSyncStart : Int := 0
  CrtcVSyncEnd : Int := 0
  CrtcVBlankEnd : Int := 0
  CrtcVTotal : Int := 0
  deriving DecidableEq, Repr

/-- The display server's mode descriptor `DisplayModeRec`.  `name` is `none`
for a `NULL` name and otherwise the bytes of the C string (no terminator). -/
structure DisplayModeRec where
  name : Option (List Nat) := none
  status : Int := 0
  type : Nat := 0
  Clock : Int := 0
  HDisplay : Int := 0
  HSyncStart : Int := 0
  HSyncEnd : Int := 0
  HTotal : Int := 0
  HSkew : Int := 0
  VDisplay : Int := 0
  VSyncStart : Int := 0
  VSyncEnd : Int := 0
  VTotal : Int := 0
  VScan : Int := 0
  Flags : Int := 0
  crtc : CrtcTimings := {}
  deriving DecidableEq, Repr

/-- The kernel's mode descriptor `drmModeModeInfo`: 32-bit clock, flags and type,
16-bit timings, and a name field of `DRM_DISPLAY_MODE_LEN` bytes. -/
structure drmModeModeInfo where
  clock : Nat := 0
  hdisplay : Nat := 0
  hsync_start : Nat := 0
  hsync_end : Nat := 0
  htotal : Nat := 0
  hskew : Nat := 0
  vdisplay : Nat := 0
  vsync_start : Nat := 0
  vsync_end : Nat := 0
  vtotal : Nat := 0
  vscan : Nat := 0
  vrefresh : Nat := 0
  flags : Nat := 0
  type : Nat := 0
  name : List Nat := List.replicate DRM_DISPLAY_MODE_LEN 0
  deriving DecidableEq, Repr

/-- The C string held in a byte buffer: the bytes before the first NUL. -/
def cstr (buf : List Nat) : List Nat := buf.takeWhile (fun b => b ≠ 0)

/-- C `strncpy(dst, src, n)`: the first `n` bytes of `dst` receive the bytes of the
string `src` (at most `n` of them), padded with NULs up to `n`. -/
def strncpy (dst src : List Nat) (n : Nat) : List Nat :=
  let body := (cstr src).take n
  body ++ List.replicate (n - body.length) 0 ++ dst.drop n

/-- `drmmode_ConvertFromKMode`.  `xf86SetModeCrtc` is the mode helper that fills
the `Crtc*` block from the mode and the screen's `adjustFlags`; it is not part
of this file and is passed in. -/
def drmmode_ConvertFromKMode (xf86SetModeCrtc : DisplayModeRec → Int → CrtcTimings)
    (adjustFlags : Int) (kmode : drmModeModeInfo) : DisplayModeRec :=
  -- memset(mode, 0, sizeof(DisplayModeRec)); mode->status = MODE_OK;
  let mode : DisplayModeRec := { status := MODE_OK }
  let mode := { mode with Clock := toInt32 kmode.clock }
  let mode := { mode with
    HDisplay := (kmode.hdisplay : Int), HSyncStart := (kmode.hsync_start : Int),
    HSyncEnd := (kmode.hsync_end : Int), HTotal := (kmode.htotal : Int),
    HSkew := (kmode.hskew : Int) }
  let mode := { mode with
    VDisplay := (kmode.vdisplay : Int), VSyncStart := (kmode.vsync_start : Int),
    VSyncEnd := (kmode.vsync_end : Int), VTotal := (kmode.vtotal : Int),
    VScan := (kmode.vscan : Int) }
  let mode := { mode with Flags := toInt32 kmode.flags }
  let mode := { mode with name := some (cstr kmode.name) }
  let mode := if kmode.type &&& DRM_MODE_TYPE_DRIVER ≠ 0 then
    { mode with type := M_T_DRIVER } else mode
  let mode := if kmode.type &&& DRM_MODE_TYPE_PREFERRED ≠ 0 then
    { mode with type := mode.type ||| M_T_PREFERRED } else mode
  { mode with crtc := xf86SetModeCrtc mode adjustFlags }

/-- `drmmode_ConvertToKMode`. -/
def drmmode_ConvertToKMode (mode : DisplayModeRec) : drmModeModeInfo :=
  -- memset(kmode, 0, sizeof(*kmode));
  let kmode : drmModeModeInfo := {}
  let kmode := { kmode with
    clock := toU32 mode.Clock,
    hdisplay := toU16 mode.HDisplay, hsync_start := toU16 mode.HSyncStart,
    hsync_end := toU16 mode.HSyncEnd, htotal := toU16 mode.HTotal,
    hskew := toU16 mode.HSkew }
  let kmode := { kmode with
    vdisplay := toU16 mode.VDisplay, vsync_start := toU16 mode.VSyncStart,
    vsync_end := toU16 mode.VSyncEnd, vtotal := toU16 mode.VTotal,
    vscan := toU16 mode.VScan }
  let kmode := { kmode with flags := toU32 mode.Flags }
  let kmode := match mode.name with
    | some s => { kmode with name := strncpy kmode.name s DRM_DISPLAY_MODE_LEN }
    | none => kmode
  { kmode with name := kmode.name.set (DRM_DISPLAY_MODE_LEN - 1) 0 }

/-- Every `int` field of the mode descriptor holds a 32-bit value. -/
def DisplayModeRec.WF (m : DisplayModeRec) : Prop :=
  IsInt32 m.Clock ∧ IsInt32 m.HDisplay ∧ IsInt32 m.HSyncStart ∧ IsInt32 m.HSyncEnd ∧
  IsInt32 m.HTotal ∧ IsInt32 m.HSkew ∧ IsInt32 m.VDisplay ∧ IsInt32 m.VSyncStart ∧
  IsInt32 m.VSyncEnd ∧ IsInt32 m.VTotal ∧ IsInt32 m.VScan ∧ IsInt32 m.Flags

/-- The bytes of a C string: none of them is the terminator. -/
def IsCStr (s : List Nat) : Prop := ∀ b ∈ s, b ≠ 0


/-- The timing fields of a mode fit the kernel's 16-bit fields. -/
def DisplayModeRec.FitsKernel (m : DisplayModeRec) : Prop :=
  (0 ≤ m.HDisplay ∧ m.HDisplay < 65536) ∧ (0 ≤ m.HSyncStart ∧ m.HSyncStart < 65536) ∧
  (0 ≤ m.HSyncEnd ∧ m.HSyncEnd < 65536) ∧ (0 ≤ m.HTotal ∧ m.HTotal < 65536) ∧
  (0 ≤ m.HSkew ∧ m.HSkew < 65536) ∧ (0 ≤ m.VDisplay ∧ m.VDisplay < 65536) ∧
  (0 ≤ m.VSyncStart ∧ m.VSyncStart < 65536) ∧ (0 ≤ m.VSyncEnd ∧ m.VSyncEnd < 65536) ∧
  (0 ≤ m.VTotal ∧ m.VTotal < 65536) ∧ (0 ≤ m.VScan ∧ m.VScan < 65536)

/-- A 1920x1080 mode at 148.5 MHz, used to instantiate the theorems. -/
def mode_1080p : DisplayModeRec :=
  { name := some [49, 57, 50, 48, 120, 49, 48, 56, 48], Clock := 148500,
    HDisplay := 1920, HSyncStart := 2008, HSyncEnd := 2052, HTotal := 2200,
    VDisplay := 1080, VSyncStart := 1084, VSyncEnd := 1089, VTotal := 1125, Flags := 5 }

/-- A stand-in for `xf86SetModeCrtc` that copies the timings into the `Crtc*` block. -/
def copyModeCrtc (m : DisplayModeRec) (_adjustFlags : Int) : CrtcTimings :=
  { CrtcHDisplay := m.HDisplay, CrtcHSyncStart := m.HSyncStart, CrtcHSyncEnd := m.HSyncEnd,
    CrtcHTotal := m.HTotal, CrtcHSkew := m.HSkew, CrtcVDisplay := m.VDisplay,
    CrtcVSyncStart := m.VSyncStart, CrtcVSyncEnd := m.VSyncEnd, CrtcVTotal := m.VTotal }

/-! ## Build configuration and the trace of outside calls -/

/-- The preprocessor switches the file is compiled under. -/
structure BuildConfig where
  GLAMOR : Bool
  GLAMOR_HAS_GBM : Bool
  deriving DecidableEq, Repr

/-- The record passed to the vblank event queue, `struct vblank_event_args`.  Pixmaps
are named by address (`0` is `NULL`), the CRTC by its index in the CRTC array. -/
structure vblank_event_args where
  frontTarget : Nat
  backTarget : Nat
  crtc : Nat
  flip : Bool
  deriving DecidableEq, Repr

/-- Calls that leave the file, in the order they are made. -/
inductive Call where
  | gbm_bo_destroy (bo : Nat)
  | dumb_bo_destroy (bo : Nat) (ret : Int)
  | gbm_bo_create (width height : Int) (bo : Nat)
  | dumb_bo_create (width height bpp : Int) (bo : Nat)
  | dumb_bo_map (bo : Nat) (ret : Int)
  | glamor_gbm_bo_from_pixmap (pixmap : Nat) (bo : Nat)
  | glamor_fd_from_pixmap (pixmap : Nat) (fd : Int)
  | dumb_get_bo_from_fd (fd : Int) (bo : Nat)
  | close (fd : Int)
  | PresentSharedPixmap (ppix : Nat) (ok : Bool)
  | RequestSharedPixmapNotifyDamage (ppix : Nat) (ok : Bool)
  | calloc (ptr : Int)
  | free (ptr : Nat)
  | free_event_args (args : vblank_event_args)
  | drmWaitVBlank (pipe seq : Nat) (ret : Int)
  | drmModePageFlip (crtc_id fb_id seq : Nat) (ret : Int)
  | drmModeRmFB (fb_id : Nat)
  | drmModeAddFB (width height depth bpp : Int) (pitch handle : Nat) (ret : Int)
  | drmModeSetCrtc (crtc_id fb_id : Nat) (x y : Int) (output_ids : List Nat)
      (kmode : drmModeModeInfo) (ret : Int)
  | drmModeCrtcSetGamma (crtc_id : Nat)
  | drmModeConnectorSetProperty (connector_id prop_id : Nat) (value : Int)
  | xf86CrtcRotate (crtc : Nat) (ok : Bool)
  | xf86CrtcSetScreenSubpixelOrder
  | DamageCreate (damage : Nat)
  | DamageRegister (ppix damage : Nat)
  | DamageUnregister (damage : Nat)
  | PixmapStopDirtyTracking (src dst : Nat)
  | PixmapStartDirtyTracking (src dst : Nat) (x : Int)
  | ModifyPixmapHeader (ppix : Nat) (width height devKind : Int) (pixels : Nat)
  | glamor_egl_create_textured_pixmap (pixmap : Nat) (ok : Bool)
  | glamor_set_screen_pixmap (pixmap : Nat)
  | ErrorF
  | drmModeSetCursor2 (crtc_id handle : Nat) (ret : Int)
  | drmModeSetCursor (crtc_id handle : Nat) (ret : Int)
  | drmModeGetConnector (id : Nat)
  | drmModeFreeConnector
  | RRSetChanged
  | RRTellChanged
  | RRGetInfo
  | RROutputCreate (name : List Char)
  | CreatePixmap (pixmap : Nat)
  | DestroyPixmap (pixmap : Nat)
  deriving DecidableEq, Repr

/-! ## Buffer objects -/

/-- The simple (dumb) buffer `struct dumb_bo`; `ptr` is `0` while unmapped. -/
structure dumb_bo where
  handle : Nat := 0
  size : Nat := 0
  ptr : Nat := 0
  pitch : Nat := 0
  deriving DecidableEq, Repr

/-- What the driver reads from a GPU-native buffer `struct gbm_bo`. -/
structure gbm_bo where
  stride : Nat := 0
  handle : Nat := 0
  deriving DecidableEq, Repr

/-- The driver's buffer object `drmmode_bo`: a pointer to a dumb buffer and, when
built with `GLAMOR_HAS_GBM`, a pointer to a GPU-native buffer. -/
structure drmmode_bo where
  dumb : Nat := 0
  gbm : Nat := 0
  deriving DecidableEq, Repr

/-- The result of `drmmode_bo_destroy`: the buffer object afterwards, the free calls
made, and the return value. -/
structure BoDestroyResult where
  bo : drmmode_bo
  calls : List Call
  ret : Int
  deriving DecidableEq, Repr

/-- `drmmode_bo_destroy`.  `free_ret` is what `dumb_bo_destroy` returns if it is
called. -/
def drmmode_bo_destroy (cfg : BuildConfig) (free_ret : Int) (bo : drmmode_bo) :
    BoDestroyResult :=
  -- #ifdef GLAMOR_HAS_GBM: if (bo->gbm) { gbm_bo_destroy(bo->gbm); bo->gbm = NULL; }
  let r1 : drmmode_bo × List Call :=
    if cfg.GLAMOR_HAS_GBM = true ∧ bo.gbm ≠ 0 then
      ({ bo with gbm := 0 }, [Call.gbm_bo_destroy bo.gbm])
    else (bo, [])
  -- if (bo->dumb) { ret = dumb_bo_destroy(fd, bo->dumb); if (ret == 0) bo->dumb = NULL; }
  let r2 : drmmode_bo × List Call :=
    if r1.1.dumb ≠ 0 then
      (if free_ret = 0 then { r1.1 with dumb := 0 } else r1.1,
        r1.2 ++ [Call.dumb_bo_destroy r1.1.dumb free_ret])
    else r1
  { bo := r2.1, calls := r2.2, ret := 0 }

/-- The allocated backend objects, by address. -/
structure BoHeap where
  dumb : List Nat
  gbm : List Nat
  deriving DecidableEq, Repr

/-- Modelled from the spec: the free calls `gbm_bo_destroy` and `dumb_bo_destroy`
(libgbm and `dumb_bo.c`, not under src).  A free call on an object that is not
allocated is a fault (`none`); `gbm_bo_destroy` releases its object, and the kernel
free releases its object when it reports `0` and keeps it when it fails. -/
def BoHeap.step (h : BoHeap) : Call → Option BoHeap
  | Call.gbm_bo_destroy p =>
    if p ∈ h.gbm then some { h with gbm := h.gbm.erase p } else none
  | Call.dumb_bo_destroy p ret =>
    if p ∈ h.dumb then some (if ret = 0 then { h with dumb := h.dumb.erase p } else h)
    else none
  | _ => some h

/-- Run a sequence of calls against the heap; `none` as soon as one faults. -/
def BoHeap.run (h : BoHeap) : List Call → Option BoHeap
  | [] => some h
  | c :: cs => (h.step c).bind (fun h1 => h1.run cs)

/-- The non-null backend pointers of a buffer object refer to allocated objects, and
a build without `GLAMOR_HAS_GBM` has no GPU-native field. -/
def drmmode_bo.WF (cfg : BuildConfig) (h : BoHeap) (bo : drmmode_bo) : Prop :=
  (bo.dumb ≠ 0 → bo.dumb ∈ h.dumb) ∧ (bo.gbm ≠ 0 → bo.gbm ∈ h.gbm) ∧
  (cfg.GLAMOR_HAS_GBM = false → bo.gbm = 0)

/-! ## Hardware cursor -/

/-- What `drmmode_set_cursor` reads and writes: the function-local static flag
`use_set_cursor2` (one per process, initially `TRUE`), the cursor layer's maximum
cursor size, the driver's software-cursor flag, and the calls made so far. -/
structure CursorState where
  use_set_cursor2 : Bool := true
  MaxWidth : Int
  MaxHeight : Int
  sw_cursor : Bool
  trace : List Call := []
  deriving DecidableEq, Repr

/-- One call of `drmmode_set_cursor`: the CRTC it is made for (kernel id and cursor
buffer handle) and what the kernel would answer to each cursor-set variant. -/
structure CursorCall where
  crtc_id : Nat
  handle : Nat
  ret2 : Int
  ret : Int
  deriving DecidableEq, Repr

/-- The tail of `drmmode_set_cursor`: the basic variant `drmModeSetCursor` and the
fallback to the software cursor when it fails. -/
def drmmode_set_cursor_basic (c : CursorCall) (s : CursorState) : Bool × CursorState :=
  let s := { s with trace := s.trace ++ [Call.drmModeSetCursor c.crtc_id c.handle c.ret] }
  if c.ret ≠ 0 then
    -- cursor_info->MaxWidth = cursor_info->MaxHeight = 0; drmmode->sw_cursor = TRUE;
    (false, { s with MaxWidth := 0, MaxHeight := 0, sw_cursor := true })
  else (true, s)

/-- `drmmode_set_cursor`. -/
def drmmode_set_cursor (c : CursorCall) (s : CursorState) : Bool × CursorState :=
  if s.use_set_cursor2 = true then
    let s := { s with trace := s.trace ++ [Call.drmModeSetCursor2 c.crtc_id c.handle c.ret2] }
    if c.ret2 = 0 then (true, s)
    else drmmode_set_cursor_basic c { s with use_set_cursor2 := false }
  else drmmode_set_cursor_basic c s

/-- A sequence of `drmmode_set_cursor` calls of one process, on any CRTCs. -/
def run_set_cursor (s : CursorState) : List CursorCall → CursorState
  | [] => s
  | c :: cs => run_set_cursor (drmmode_set_cursor c s).2 cs

/-! ## Kernel resources, outputs and hot-plug -/

/-- Kernel property descriptor `drmModePropertyRes` (the fields the file reads). -/
structure drmModePropertyRes where
  prop_id : Nat := 0
  flags : Nat := 0
  name : List Char := []
  deriving DecidableEq, Repr

/-- Kernel property blob `drmModePropertyBlobRes`; `data` is read as a C string. -/
structure drmModePropertyBlobRes where
  id : Nat := 0
  data : List Char := []
  deriving DecidableEq, Repr

/-- Kernel encoder descriptor `drmModeEncoder`. -/
structure drmModeEncoder where
  encoder_id : Nat := 0
  possible_crtcs : Nat := 0
  possible_clones : Nat := 0
  deriving DecidableEq, Repr

/-- Kernel connector descriptor `drmModeConnector`.  `props` pairs each property id
with its value (`props[i]`, `prop_values[i]`). -/
structure drmModeConnector where
  connector_id : Nat := 0
  connector_type : Nat := 0
  connector_type_id : Nat := 0
  connection : Nat := 0
  mmWidth : Nat := 0
  mmHeight : Nat := 0
  subpixel : Nat := 0
  props : List (Nat × Nat) := []
  encoders : List Nat := []
  modes : List drmModeModeInfo := []
  deriving DecidableEq, Repr

/-- Kernel resource listing `drmModeRes`. -/
structure drmModeRes where
  count_crtcs : Int := 0
  connectors : List Nat := []
  encoders : List Nat := []
  deriving DecidableEq, Repr

/-- Modelled from the spec: property flag `DRM_MODE_PROP_BLOB` (libdrm header). -/
def DRM_MODE_PROP_BLOB : Nat := 16

/-- Modelled from the spec: property flag `DRM_MODE_PROP_ENUM` (libdrm header). -/
def DRM_MODE_PROP_ENUM : Nat := 8

/-- Modelled from the spec: `GPU_SCREEN_OFFSET` (`globals.h`). -/
def GPU_SCREEN_OFFSET : Int := 256

/-- The driver's private output record `drmmode_output_private_rec`. -/
structure drmmode_output_private_rec where
  output_id : Int := 0
  mode_output : Option drmModeConnector := none
  mode_encoders : List drmModeEncoder := []
  dpms_enum_id : Nat := 0
  enc_mask : Nat := 0
  enc_clone_mask : Nat := 0
  deriving DecidableEq, Repr

/-- The output object `xf86OutputRec` with its driver private record.  `crtc` is the
index of the CRTC driving the output, `none` for `NULL`. -/
structure xf86OutputRec where
  name : List Char := []
  crtc : Option Nat := none
  mm_width : Nat := 0
  mm_height : Nat := 0
  subpixel_order : Nat := 0
  interlaceAllowed : Bool := false
  doubleScanAllowed : Bool := false
  possible_crtcs : Nat := 0
  possible_clones : Nat := 0
  randr_output : Bool := false
  driver_private : drmmode_output_private_rec := {}
  deriving DecidableEq, Repr

/-- What the code asks of the kernel and of the framework while it builds outputs.
Every answer is a function of the question: the environment is deterministic. -/
structure DrmEnv where
  drmModeGetConnector : Nat → Option drmModeConnector
  drmModeGetProperty : Nat → Option drmModePropertyRes
  drmModeGetPropertyBlob : Nat → Option drmModePropertyBlobRes
  drmModeGetEncoder : Nat → Option drmModeEncoder
  /-- does `calloc` of the encoder array succeed, per connector id -/
  calloc_kencoders : Nat → Bool
  /-- does `calloc` of the private record succeed, per connector id -/
  calloc_private : Nat → Bool
  /-- does `xf86OutputCreate` return an output, per name -/
  xf86OutputCreate : List Char → Bool
  xf86IsEntityShared : Bool
  ZaphodHeads : Option (List Char)
  is_secondary : Bool
  MODESETTING_OUTPUT_SLAVE_SUPPORT : Bool
  is_gpu : Bool
  scrnIndex : Int
  /-- the bytes found in the local buffer `conn_id` of `parse_path_blob` and right
  after it, before the function writes to it -/
  stack : List Char

/-- The output list of the screen (`xf86_config->output`), the number of CRTCs
initialised (`xf86_config->num_crtc`) and the calls made. -/
structure OutputConfig where
  output : List xf86OutputRec := []
  num_crtc : Int := 0
  trace : List Call := []
  deriving DecidableEq, Repr

/-- Append a call to the trace. -/
def OutputConfig.emit (s : OutputConfig) (c : Call) : OutputConfig :=
  { s with trace := s.trace ++ [c] }

/-- `drmmode_zaphod_string_matches`: the option string is cut at commas, blanks are
dropped, and each piece is compared with the output name.  (The 20-byte bound of the
local buffer `s1` is not represented.) -/
def drmmode_zaphod_string_matches (s : List Char) (output_name : List Char) : Bool :=
  let rec go (cur : List Char) : List Char → Bool
    | [] => cur == output_name
    | c :: rest =>
      if c = ',' then (if cur == output_name then true else go [] rest)
      else if c = ' ' ∨ c = '\t' ∨ c = '\n' ∨ c = '\r' then go cur rest
      else go (cur ++ [c]) rest
  go [] s

/-- `find_output`: the first output whose identifier is `id`. -/
def find_output (outputs : List xf86OutputRec) (id : Int) : Option xf86OutputRec :=
  outputs.find? (fun o => o.driver_private.output_id = id)

/-- C `isspace` in the "C" locale. -/
def isspace (c : Char) : Bool :=
  c = ' ' ∨ c = '\t' ∨ c = '\n' ∨ c.toNat = 11 ∨ c.toNat = 12 ∨ c = '\r'

/-- The value of a run of leading decimal digits, and whether there is any. -/
def digits_value : List Char → Nat → Nat
  | [], acc => acc
  | c :: rest, acc => if c.isDigit then digits_value rest (acc * 10 + (c.toNat - 48)) else acc

/-- C `strtoul(s, NULL, 10)` on a 64-bit `unsigned long`: leading white space, an
optional sign, then decimal digits; out-of-range values give `ULONG_MAX`. -/
def strtoul10 (s : List Char) : Nat :=
  let s := s.dropWhile isspace
  let neg := s.head? = some '-'
  let s := if s.head? = some '-' ∨ s.head? = some '+' then s.drop 1 else s
  let v := digits_value s 0
  if 18446744073709551616 ≤ v then 18446744073709551615
  else if neg then (18446744073709551616 - v) % 18446744073709551616 else v

/-- The outcome of `parse_path_blob`: the return value, the values stored through
`conn_base_id` and `path` (`none` when nothing is stored), the local buffer
`conn_id` together with the bytes after it as the function leaves them, and the
offsets from `conn_id` the function wrote to. -/
structure PathBlobResult where
  ret : Int
  conn_base_id : Option Int := none
  path : Option (List Char) := none
  conn_id : List Char := []
  writes : List Nat := []
  deriving DecidableEq, Repr

/-- The index of the first occurrence of a character, as `strchr` finds it. -/
def strchr_index (s : List Char) (c : Char) : Option Nat :=
  if s.contains c then some (s.indexOf c) else none

/-- `parse_path_blob`.  `stack` holds the bytes of the uninitialised local buffer
`char conn_id[5]` followed by the bytes that lie after it. -/
def parse_path_blob (stack : List Char) (path_blob : Option drmModePropertyBlobRes) :
    PathBlobResult :=
  match path_blob with
  | none => { ret := -1, conn_id := stack }
  | some blob =>
    let blob_data := blob.data
    -- if (strncmp(blob_data, "mst:", 4)) return -1;
    if blob_data.take 4 ≠ ['m', 's', 't', ':'] then { ret := -1, conn_id := stack }
    else
      -- conn = strchr(blob_data + 4, '-');
      match strchr_index (blob_data.drop 4) '-' with
      | none => { ret := -1, conn_id := stack }
      | some len =>
        if len + 1 > 5 then { ret := -1, conn_id := stack }
        else
          -- memcpy(conn_id, blob_data + 4, len);
          let buf := (blob_data.drop 4).take len ++ stack.drop len
          -- conn_id[len + 1] = '\0';
          let buf := buf.set (len + 1) (Char.ofNat 0)
          -- id = strtoul(conn_id, NULL, 10);
          let id := toInt32 (strtoul10 (buf.takeWhile (fun c => c ≠ Char.ofNat 0)) % 4294967296)
          { ret := 0, conn_base_id := some id, path := some (blob_data.drop (4 + len + 1)),
            conn_id := buf, writes := List.range len ++ [len + 1] }

/-- The table `output_names`. -/
def output_names : List (List Char) :=
  ["None".toList, "VGA".toList, "DVI-I".toList, "DVI-D".toList, "DVI-A".toList,
   "Composite".toList, "SVIDEO".toList, "LVDS".toList, "Component".toList, "DIN".toList,
   "DP".toList, "HDMI".toList, "HDMI-B".toList, "TV".toList, "eDP".toList,
   "Virtual".toList, "DSI".toList]

/-- The table `subpixel_conv_table`. -/
def subpixel_conv_table : List Nat := [0, 0, 1, 2, 3, 4, 5]

/-- The characters `printf` writes for `%d`. -/
def fmt_d (i : Int) : List Char :=
  if i < 0 then '-' :: Nat.toDigits 10 i.natAbs else Nat.toDigits 10 i.toNat

/-- `drmmode_create_name`: the name written into the 32-byte buffer `name`. -/
def drmmode_create_name (env : DrmEnv) (outputs : List xf86OutputRec)
    (koutput : drmModeConnector) (path_blob : Option drmModePropertyBlobRes) : List Char :=
  let fallback : List Char :=
    if koutput.connector_type ≥ output_names.length then
      ("Unknown".toList ++ fmt_d (toInt32 koutput.connector_type) ++ ['-'] ++
        fmt_d (toInt32 koutput.connector_type_id)).take 31
    else if env.MODESETTING_OUTPUT_SLAVE_SUPPORT = true ∧ env.is_gpu = true then
      (output_names.getD koutput.connector_type [] ++ ['-'] ++
        fmt_d (env.scrnIndex - GPU_SCREEN_OFFSET + 1) ++ ['-'] ++
        fmt_d (toInt32 koutput.connector_type_id)).take 31
    else
      (output_names.getD koutput.connector_type [] ++ ['-'] ++
        fmt_d (toInt32 koutput.connector_type_id)).take 31
  let r := parse_path_blob env.stack path_blob
  if r.ret = -1 then fallback
  else
    match find_output outputs (r.conn_base_id.getD 0) with
    | none => fallback
    | some output => (output.name ++ ['-'] ++ r.path.getD []).take 31

/-- The first loop of `drmmode_output_init`: look for a blob property named `PATH`
and fetch its blob. -/
def find_path_blob (env : DrmEnv) : List (Nat × Nat) → Option drmModePropertyBlobRes
  | [] => none
  | (p, v) :: rest =>
    match env.drmModeGetProperty p with
    | some props =>
      if props.flags &&& DRM_MODE_PROP_BLOB ≠ 0 then
        if props.name = "PATH".toList then env.drmModeGetPropertyBlob v
        else find_path_blob env rest
      else find_path_blob env rest
    | none => find_path_blob env rest

/-- The last loop of `drmmode_output_init`: the id of the enum property `DPMS`. -/
def find_dpms_enum_id (env : DrmEnv) : List (Nat × Nat) → Option Nat
  | [] => none
  | (p, _) :: rest =>
    match env.drmModeGetProperty p with
    | some props =>
      if props.flags &&& DRM_MODE_PROP_ENUM ≠ 0 then
        if props.name = "DPMS".toList then some p
        else find_dpms_enum_id env rest
      else find_dpms_enum_id env rest
    | none => find_dpms_enum_id env rest

/-- Fetch the encoders of a connector; `none` as soon as one cannot be fetched. -/
def get_encoders (env : DrmEnv) : List Nat → Option (List drmModeEncoder)
  | [] => some []
  | e :: rest =>
    match env.drmModeGetEncoder e with
    | none => none
    | some k => (get_encoders env rest).map (fun ks => k :: ks)

/-- The reuse loop of `drmmode_output_init`: the first output whose name equals
`name` in its first 32 bytes takes over the connector. -/
def reuse_output (name : List Char) (id : Nat) (koutput : drmModeConnector) :
    List xf86OutputRec → Option (List xf86OutputRec)
  | [] => none
  | o :: rest =>
    if o.name.take 32 = name.take 32 then
      some ({ o with driver_private :=
                { o.driver_private with output_id := toInt32 id, mode_output := some koutput } }
            :: rest)
    else (reuse_output name id koutput rest).map (fun r => o :: r)

/-- The part of `drmmode_output_init` after the reuse loop: fetch the encoders, apply
the ZaphodHeads filter, create the output object and fill it in.  `none` stands for
the exit through `out_free_encoders`. -/
def output_init_create (env : DrmEnv) (id : Nat) (koutput : drmModeConnector)
    (name : List Char) (num : Nat) (dynamic : Bool) (crtcshift : Nat) :
    Option xf86OutputRec :=
  -- kencoders = calloc(sizeof(drmModeEncoderPtr), koutput->count_encoders);
  if env.calloc_kencoders id = false then none
  else
    match get_encoders env koutput.encoders with
    | none => none
    | some kencoders =>
      let zaphod_ok : Bool :=
        if env.xf86IsEntityShared = true then
          match env.ZaphodHeads with
          | some z => drmmode_zaphod_string_matches z name
          | none =>
            if env.is_secondary = false ∧ num ≠ 0 then false
            else if env.is_secondary = true ∧ num ≠ 1 then false
            else true
        else true
      if zaphod_ok = false then none
      -- output = xf86OutputCreate(pScrn, &drmmode_output_funcs, name);
      else if env.xf86OutputCreate name = false then none
      -- drmmode_output = calloc(...); on failure xf86OutputDestroy(output) takes the
      -- output just created off the list again
      else if env.calloc_private id = false then none
      else
        some
          { name := name,
            mm_width := koutput.mmWidth, mm_height := koutput.mmHeight,
            subpixel_order := subpixel_conv_table.getD koutput.subpixel 0,
            interlaceAllowed := true, doubleScanAllowed := true,
            possible_crtcs :=
              kencoders.foldl (fun acc k => acc &&& (k.possible_crtcs >>> crtcshift)) 127,
            possible_clones := 0,
            randr_output := dynamic,
            driver_private :=
              { output_id := toInt32 id, mode_output := some koutput,
                mode_encoders := kencoders,
                dpms_enum_id := (find_dpms_enum_id env koutput.props).getD 0 } }

/-- `drmmode_output_init` for the connector `mode_res->connectors[num]`. -/
def drmmode_output_init (env : DrmEnv) (s : OutputConfig) (mode_res : drmModeRes)
    (num : Nat) (dynamic : Bool) (crtcshift : Nat) : Nat × OutputConfig :=
  let id := mode_res.connectors.getD num 0
  let s := s.emit (Call.drmModeGetConnector id)
  match env.drmModeGetConnector id with
  | none => (0, s)
  | some koutput =>
    let path_blob := find_path_blob env koutput.props
    let name := drmmode_create_name env s.output koutput path_blob
    let reused : Option (List xf86OutputRec) :=
      if path_blob.isSome = true ∧ dynamic = true then reuse_output name id koutput s.output
      else none
    match reused with
    | some outputs => (1, { s with output := outputs })
    | none =>
      match output_init_create env id koutput name num dynamic crtcshift with
      | none => (0, s.emit Call.drmModeFreeConnector)
      | some output =>
        let s := { s with output := s.output ++ [output] }
        -- if (dynamic) output->randr_output = RROutputCreate(...);
        (1, if dynamic = true then s.emit (Call.RROutputCreate name) else s)

/-- The first loop of `drmmode_handle_uevents`: every output whose identifier is not
among the connectors listed is invalidated in place.  Returns the outputs, whether
any was touched (`changed`), and the calls made. -/
def uevents_invalidate (mode_res : drmModeRes) :
    List xf86OutputRec → List xf86OutputRec × Bool × List Call
  | [] => ([], false, [])
  | o :: rest =>
    let r := uevents_invalidate mode_res rest
    -- mode_res->connectors[j] == drmmode_output->output_id, compared as unsigned
    if mode_res.connectors.any (fun c => c = toU32 o.driver_private.output_id) then
      (o :: r.1, r.2.1, r.2.2)
    else
      ({ o with driver_private :=
           { o.driver_private with mode_output := none, output_id := -1 } } :: r.1,
        true, Call.drmModeFreeConnector :: r.2.2)

/-- One round of the second loop of `drmmode_handle_uevents`, for connector index
`i`: a connector id no output has is handed to `drmmode_output_init`. -/
def uevents_discover_one (env : DrmEnv) (mode_res : drmModeRes) (acc : Bool × OutputConfig)
    (i : Nat) : Bool × OutputConfig :=
  let c := mode_res.connectors.getD i 0
  if acc.2.output.any (fun o => c = toU32 o.driver_private.output_id) then acc
  else (true, (drmmode_output_init env acc.2 mode_res i true 0).2)

/-- The second loop of `drmmode_handle_uevents`. -/
def uevents_discover (env : DrmEnv) (mode_res : drmModeRes) (acc : Bool × OutputConfig) :
    Bool × OutputConfig :=
  (List.range mode_res.connectors.length).foldl (uevents_discover_one env mode_res) acc

/-- `drmmode_handle_uevents` (built with `CONFIG_UDEV_KMS`).  `dev` tells whether
`udev_monitor_receive_device` returned a device, `mode_res` is what
`drmModeGetResources` returns. -/
def drmmode_handle_uevents (env : DrmEnv) (dev : Bool) (mode_res : Option drmModeRes)
    (s : OutputConfig) : OutputConfig :=
  if dev = false then s
  else
    let s1 : OutputConfig :=
      match mode_res with
      | none => s
      | some r =>
        if r.count_crtcs ≠ s.num_crtc then s.emit Call.ErrorF
        else
          let inv := uevents_invalidate r s.output
          let s := { s with output := inv.1, trace := s.trace ++ inv.2.2 }
          let d := uevents_discover env r (inv.2.1, s)
          if d.1 = true then (d.2.emit Call.RRSetChanged).emit Call.RRTellChanged else d.2
    -- out: RRGetInfo(xf86ScrnToScreen(scrn), TRUE);
    s1.emit Call.RRGetInfo

/-- A kernel with two connectors, ids 1 and 2, of the same connector type and type
index; connector 2 carries a `PATH` blob whose base connector 7 has no output. -/
def twin_env : DrmEnv :=
  { drmModeGetConnector := fun id =>
      if id = 1 then some { connector_id := 1, connector_type := 10, connector_type_id := 1 }
      else if id = 2 then
        some { connector_id := 2, connector_type := 10, connector_type_id := 1,
               props := [(7, 9)] }
      else none,
    drmModeGetProperty := fun p =>
      if p = 7 then some { prop_id := 7, flags := 16, name := "PATH".toList } else none,
    drmModeGetPropertyBlob := fun v =>
      if v = 9 then some { id := 9, data := "mst:7-1".toList } else none,
    drmModeGetEncoder := fun _ => none,
    calloc_kencoders := fun _ => true,
    calloc_private := fun _ => true,
    xf86OutputCreate := fun _ => true,
    xf86IsEntityShared := false,
    ZaphodHeads := none,
    is_secondary := false,
    MODESETTING_OUTPUT_SLAVE_SUPPORT := true,
    is_gpu := false,
    scrnIndex := 0,
    stack := [' ', ' ', ' ', ' ', ' ', ' '] }

/-- The resource listing of `twin_env`: one CRTC, connectors 1 and 2. -/
def twin_res : drmModeRes := { count_crtcs := 1, connectors := [1, 2] }

/-- An output is settled with respect to a resource listing when its identifier is
one of the connectors listed, or it is invalidated (identifier -1, no descriptor). -/
def Settled (r : drmModeRes) (o : xf86OutputRec) : Prop :=
  r.connectors.any (fun c => c = toU32 o.driver_private.output_id) = true ∨
  (o.driver_private.output_id = -1 ∧ o.driver_private.mode_output = none)

/-! ## The screen: CRTCs, pixmaps, the event queue -/

/-- Modelled from the spec: `DPMSModeOn` (`dpmsconst.h`). -/
def DPMSModeOn : Int := 0

/-- The driver's per-pixmap private record `msPixmapPrivRec` (`driver.h`). -/
structure msPixmapPrivRec where
  fb_id : Nat := 0
  slave_damage : Nat := 0
  backing_bo : Nat := 0
  flip_seq : Nat := 0
  wait_for_damage : Bool := false
  deriving DecidableEq, Repr

/-- A pixmap: the drawable geometry the file reads, and the private record. -/
structure PixmapRec where
  width : Int := 0
  height : Int := 0
  depth : Int := 0
  bitsPerPixel : Int := 0
  devKind : Int := 0
  devPrivate_ptr : Nat := 0
  priv : msPixmapPrivRec := {}
  deriving DecidableEq, Repr

/-- The driver's per-CRTC private record `drmmode_crtc_private_rec`; `crtc_id` stands
for `mode_crtc->crtc_id`. -/
structure drmmode_crtc_private_rec where
  crtc_id : Nat := 0
  vblank_pipe : Nat := 0
  dpms_mode : Int := 0
  cursor_bo : Nat := 0
  rotate_bo : drmmode_bo := {}
  rotate_fb_id : Nat := 0
  prime_pixmap : Nat := 0
  prime_pixmap_back : Nat := 0
  prime_pixmap_x : Int := 0
  need_modeset : Bool := false
  enable_flipping : Bool := false
  flipping_active : Bool := false
  deriving DecidableEq, Repr

/-- The CRTC object `xf86CrtcRec` with its driver private record. -/
structure xf86CrtcRec where
  enabled : Bool := false
  active : Bool := false
  mode : DisplayModeRec := {}
  rotation : Nat := 1
  x : Int := 0
  y : Int := 0
  driver_private : drmmode_crtc_private_rec := {}
  deriving DecidableEq, Repr

/-- The driver's per-screen record `drmmode_rec`; `gbm` is the GBM device pointer. -/
structure drmmode_rec where
  fb_id : Nat := 0
  front_bo : drmmode_bo := {}
  kbpp : Int := 32
  glamor : Bool := false
  gbm : Nat := 0
  shadow_enable : Bool := false
  shadow_enable2 : Bool := false
  shadow_fb : Nat := 0
  shadow_fb2 : Nat := 0
  reverse_prime_offload_mode : Bool := false
  deriving DecidableEq, Repr

/-- Everything the CRTC code reads and writes.  `crtc` is the array
`xf86_config->crtc` (`num_crtc` entries), `output` the array `xf86_config->output`;
`pixmap`, `dumb` and `gbm_bos` are the stores of pixmaps and buffer backends by
address; `ms_drm_queue` / `ms_drm_seq` are the event queue of `vblank.c` restricted
to the records this file registers; `answers` are the results the outside calls will
give, in order, and `trace` the calls made so far.  `fault` is set when the code reads
through a null pixmap pointer in `drmmode_FiniSharedPixmapFlipping`: the process dies
there with a segmentation fault and nothing after that point runs. -/
structure ScrnState where
  cfg : BuildConfig := { GLAMOR := false, GLAMOR_HAS_GBM := false }
  virtualX : Int := 0
  virtualY : Int := 0
  displayWidth : Int := 0
  depth : Int := 24
  bitsPerPixel : Int := 32
  has_pScreen : Bool := true
  num_crtc : Nat := 0
  crtc : Nat → xf86CrtcRec := fun _ => {}
  output : List xf86OutputRec := []
  drmmode : drmmode_rec := {}
  pixmap : Nat → PixmapRec := fun _ => {}
  dumb : Nat → dumb_bo := fun _ => {}
  gbm_bos : Nat → gbm_bo := fun _ => {}
  screen_pixmap : Nat := 0
  screen_width : Int := 0
  screen_height : Int := 0
  has_RequestSharedPixmapNotifyDamage : Bool := false
  ms_drm_queue : List (Nat × vblank_event_args) := []
  ms_drm_seq : Nat := 1
  answers : List Int := []
  trace : List Call := []
  fault : Bool := false

/-- Take the next answer of the outside world (`0` when none is left). -/
def ScrnState.ask (s : ScrnState) : Int × ScrnState :=
  match s.answers with
  | [] => (0, s)
  | a :: rest => (a, { s with answers := rest })

/-- Append a call to the trace. -/
def ScrnState.emit (s : ScrnState) (c : Call) : ScrnState :=
  { s with trace := s.trace ++ [c] }

/-- Store a CRTC record. -/
def ScrnState.setCrtc (s : ScrnState) (c : Nat) (v : xf86CrtcRec) : ScrnState :=
  { s with crtc := Function.update s.crtc c v }

/-- The driver private record of a CRTC, `crtc->driver_private`. -/
def ScrnState.priv (s : ScrnState) (c : Nat) : drmmode_crtc_private_rec :=
  (s.crtc c).driver_private

/-- Store the driver private record of a CRTC. -/
def ScrnState.setPriv (s : ScrnState) (c : Nat) (v : drmmode_crtc_private_rec) : ScrnState :=
  s.setCrtc c { s.crtc c with driver_private := v }

/-- The private record of a pixmap, `msGetPixmapPriv(drmmode, p)`. -/
def ScrnState.ppriv (s : ScrnState) (p : Nat) : msPixmapPrivRec := (s.pixmap p).priv

/-- Store the private record of a pixmap. -/
def ScrnState.setPpriv (s : ScrnState) (p : Nat) (v : msPixmapPrivRec) : ScrnState :=
  { s with pixmap := Function.update s.pixmap p { s.pixmap p with priv := v } }

/-- Store the buffer record of a dumb buffer. -/
def ScrnState.setDumb (s : ScrnState) (p : Nat) (v : dumb_bo) : ScrnState :=
  { s with dumb := Function.update s.dumb p v }

/-- Store the record of a GPU-native buffer. -/
def ScrnState.setGbm (s : ScrnState) (p : Nat) (v : gbm_bo) : ScrnState :=
  { s with gbm_bos := Function.update s.gbm_bos p v }

/-- Store the driver's per-screen record. -/
def ScrnState.setDrmmode (s : ScrnState) (v : drmmode_rec) : ScrnState :=
  { s with drmmode := v }

/-! ### The event queue -/

/-- Modelled from the spec: `ms_drm_queue_alloc` (`vblank.c`, not under src) registers
the record under a freshly allocated, never zero, monotonically increasing sequence
number and returns that number. -/
def ms_drm_queue_alloc (s : ScrnState) (args : vblank_event_args) : Nat × ScrnState :=
  let seq := if s.ms_drm_seq = 0 then 1 else s.ms_drm_seq
  (seq, { s with ms_drm_seq := seq + 1, ms_drm_queue := (seq, args) :: s.ms_drm_queue })

/-- Take the record registered under `seq` out of the queue, if there is one. -/
def queue_take (seq : Nat) :
    List (Nat × vblank_event_args) → Option (vblank_event_args × List (Nat × vblank_event_args))
  | [] => none
  | q :: rest =>
    if q.1 = seq then some (q.2, rest)
    else (queue_take seq rest).map (fun r => (r.1, q :: r.2))

/-- `drmmode_SharedPixmapVBlankEventAbort`. -/
def drmmode_SharedPixmapVBlankEventAbort (s : ScrnState) (args : vblank_event_args) :
    ScrnState :=
  let s := s.setPpriv args.frontTarget { s.ppriv args.frontTarget with flip_seq := 0 }
  s.emit (Call.free_event_args args)

/-- Modelled from the spec: `ms_drm_abort_seq` (`vblank.c`, not under src) takes the
record registered under `seq` off the queue and runs its abort handler; an unknown
sequence number is a no-op. -/
def ms_drm_abort_seq (s : ScrnState) (seq : Nat) : ScrnState :=
  match queue_take seq s.ms_drm_queue with
  | none => s
  | some r => drmmode_SharedPixmapVBlankEventAbort { s with ms_drm_queue := r.2 } r.1

/-! ### Shared-pixmap flipping -/

/-- `drmmode_SharedPixmapPresentOnVBlank`. -/
def drmmode_SharedPixmapPresentOnVBlank (s : ScrnState) (ppix : Nat) (crtc : Nat) :
    Bool × ScrnState :=
  let drmmode_crtc := s.priv crtc
  if ppix = drmmode_crtc.prime_pixmap then (false, s)
  else if ppix ≠ drmmode_crtc.prime_pixmap_back then (false, s)
  else
    -- event_args = calloc(1, sizeof(*event_args));
    let a := s.ask
    let s := a.2.emit (Call.calloc a.1)
    if a.1 = 0 then (false, s)
    else
      let event_args : vblank_event_args :=
        { frontTarget := ppix, backTarget := drmmode_crtc.prime_pixmap, crtc := crtc,
          flip := false }
      let q := ms_drm_queue_alloc s event_args
      let s := q.2.setPpriv ppix { q.2.ppriv ppix with flip_seq := q.1 }
      -- return drmWaitVBlank(drmmode->fd, &vbl) >= 0;
      let r := s.ask
      let s := r.2.emit (Call.drmWaitVBlank drmmode_crtc.vblank_pipe (s.ppriv ppix).flip_seq r.1)
      (decide (0 ≤ r.1), s)

/-- `drmmode_SharedPixmapFlip`. -/
def drmmode_SharedPixmapFlip (s : ScrnState) (frontTarget : Nat) (crtc : Nat) :
    Bool × ScrnState :=
  let drmmode_crtc := s.priv crtc
  -- event_args = calloc(1, sizeof(*event_args));
  let a := s.ask
  let s := a.2.emit (Call.calloc a.1)
  if a.1 = 0 then (false, s)
  else
    let event_args : vblank_event_args :=
      { frontTarget := frontTarget, backTarget := drmmode_crtc.prime_pixmap, crtc := crtc,
        flip := true }
    let q := ms_drm_queue_alloc s event_args
    let s := q.2.setPpriv frontTarget { q.2.ppriv frontTarget with flip_seq := q.1 }
    let r := s.ask
    let s := r.2.emit (Call.drmModePageFlip drmmode_crtc.crtc_id (s.ppriv frontTarget).fb_id
      (s.ppriv frontTarget).flip_seq r.1)
    if r.1 < 0 then
      -- ms_drm_abort_seq(crtc->scrn, ppriv_front->flip_seq); return FALSE;
      (false, ms_drm_abort_seq s (s.ppriv frontTarget).flip_seq)
    else (true, s)

/-- `drmmode_SharedPixmapPresent`. -/
def drmmode_SharedPixmapPresent (s : ScrnState) (ppix : Nat) (crtc : Nat) :
    Bool × ScrnState :=
  -- if (master->PresentSharedPixmap(ppix))
  let a := s.ask
  let s := a.2.emit (Call.PresentSharedPixmap ppix (decide (a.1 ≠ 0)))
  if a.1 ≠ 0 then
    let f := drmmode_SharedPixmapFlip s ppix crtc
    if f.1 = true then (true, f.2)
    else drmmode_SharedPixmapPresentOnVBlank f.2 ppix crtc
  else if s.has_RequestSharedPixmapNotifyDamage = true then
    -- ppriv->wait_for_damage = TRUE;
    let s := s.setPpriv ppix { s.ppriv ppix with wait_for_damage := true }
    let b := s.ask
    let s := b.2.emit (Call.RequestSharedPixmapNotifyDamage ppix (decide (b.1 ≠ 0)))
    if b.1 ≠ 0 then (true, s)
    else
      let s := s.setPpriv ppix { s.ppriv ppix with wait_for_damage := false }
      drmmode_SharedPixmapPresentOnVBlank s ppix crtc
  else drmmode_SharedPixmapPresentOnVBlank s ppix crtc

/-- `drmmode_SharedPixmapVBlankEventHandler`. -/
def drmmode_SharedPixmapVBlankEventHandler (s : ScrnState) (args : vblank_event_args) :
    ScrnState :=
  let s :=
    if args.flip = true then
      -- frontTarget is being displayed, update crtc to reflect
      let s := s.setPriv args.crtc
        { s.priv args.crtc with prime_pixmap := args.frontTarget,
                                prime_pixmap_back := args.backTarget }
      (drmmode_SharedPixmapPresent s args.backTarget args.crtc).2
    else
      (drmmode_SharedPixmapPresent s args.frontTarget args.crtc).2
  s.emit (Call.free_event_args args)

/-- Modelled from the spec: `ms_drm_handler` (`vblank.c`, not under src), the delivery
of a kernel event: the record registered under `seq` is taken off the queue and its
completion handler runs; an unknown sequence number is a no-op. -/
def ms_drm_handler (s : ScrnState) (seq : Nat) : ScrnState :=
  match queue_take seq s.ms_drm_queue with
  | none => s
  | some r => drmmode_SharedPixmapVBlankEventHandler { s with ms_drm_queue := r.2 } r.1

/-- `drmmode_InitSharedPixmapFlipping`. -/
def drmmode_InitSharedPixmapFlipping (s : ScrnState) (crtc : Nat) : Bool × ScrnState :=
  if (s.priv crtc).enable_flipping = false then (false, s)
  else if (s.priv crtc).flipping_active = true then (true, s)
  else
    let p := drmmode_SharedPixmapPresent s (s.priv crtc).prime_pixmap_back crtc
    let s := p.2.setPriv crtc { p.2.priv crtc with flipping_active := p.1 }
    ((s.priv crtc).flipping_active, s)

/-- `drmmode_FiniSharedPixmapFlipping`.  `msGetPixmapPriv(drmmode, p)->flip_seq` reads
through the pixmap pointer `p`: when the target is null the read is a null
dereference and the run ends there (`fault`). -/
def drmmode_FiniSharedPixmapFlipping (s : ScrnState) (crtc : Nat) : ScrnState :=
  if (s.priv crtc).flipping_active = false then s
  else
    let s := s.setPriv crtc { s.priv crtc with flipping_active := false }
    -- Abort page flip event handler on prime_pixmap
    if (s.priv crtc).prime_pixmap = 0 then { s with fault := true }
    else
      let seq := (s.ppriv (s.priv crtc).prime_pixmap).flip_seq
      let s := if seq ≠ 0 then ms_drm_abort_seq s seq else s
      -- Abort page flip event handler on prime_pixmap_back
      if (s.priv crtc).prime_pixmap_back = 0 then { s with fault := true }
      else
        let seq := (s.ppriv (s.priv crtc).prime_pixmap_back).flip_seq
        if seq ≠ 0 then ms_drm_abort_seq s seq else s

/-! ### Buffer objects inside the screen state -/

/-- `drmmode_bo_get_pitch`. -/
def drmmode_bo_get_pitch (s : ScrnState) (bo : drmmode_bo) : Nat :=
  if s.cfg.GLAMOR_HAS_GBM = true ∧ bo.gbm ≠ 0 then (s.gbm_bos bo.gbm).stride
  else (s.dumb bo.dumb).pitch

/-- `drmmode_bo_get_handle`. -/
def drmmode_bo_get_handle (s : ScrnState) (bo : drmmode_bo) : Nat :=
  if s.cfg.GLAMOR_HAS_GBM = true ∧ bo.gbm ≠ 0 then (s.gbm_bos bo.gbm).handle
  else (s.dumb bo.dumb).handle

/-- Modelled from the spec: `dumb_bo_map` (`dumb_bo.c`, not under src) asks the kernel
to map the buffer; when that succeeds (return value 0) the mapped address is stored
in the buffer's `ptr`.  Two answers are taken: the return value and the address. -/
def dumb_bo_map (s : ScrnState) (bo : Nat) : Int × ScrnState :=
  let r := s.ask
  let m := r.2.ask
  let s := m.2.emit (Call.dumb_bo_map bo r.1)
  if r.1 = 0 then (0, s.setDumb bo { s.dumb bo with ptr := m.1.toNat })
  else (r.1, s)

/-- `drmmode_bo_map`. -/
def drmmode_bo_map (s : ScrnState) (bo : drmmode_bo) : Nat × ScrnState :=
  if s.cfg.GLAMOR_HAS_GBM = true ∧ bo.gbm ≠ 0 then (0, s)
  else if (s.dumb bo.dumb).ptr ≠ 0 then ((s.dumb bo.dumb).ptr, s)
  else
    let r := dumb_bo_map s bo.dumb
    if r.1 ≠ 0 then (0, r.2)
    else ((r.2.dumb bo.dumb).ptr, r.2)

/-- `drmmode_map_slave_bo`. -/
def drmmode_map_slave_bo (s : ScrnState) (ppriv : msPixmapPrivRec) : Nat × ScrnState :=
  if (s.dumb ppriv.backing_bo).ptr ≠ 0 then ((s.dumb ppriv.backing_bo).ptr, s)
  else
    let r := dumb_bo_map s ppriv.backing_bo
    if r.1 ≠ 0 then (0, r.2)
    else ((r.2.dumb ppriv.backing_bo).ptr, r.2)

/-- `drmmode_create_bo`, on a buffer object passed by reference: returns the result,
the buffer object afterwards and the state.  The allocator's answers are the address
of the new backend (0 for failure) and, for a successful allocation, its stride (or
pitch) and handle. -/
def drmmode_create_bo (s : ScrnState) (bo : drmmode_bo) (width height bpp : Int) :
    Bool × drmmode_bo × ScrnState :=
  if s.cfg.GLAMOR_HAS_GBM = true ∧ s.drmmode.glamor = true then
    -- bo->gbm = gbm_bo_create(...); return bo->gbm != NULL;
    let a := s.ask
    let s := a.2.emit (Call.gbm_bo_create width height a.1.toNat)
    if a.1.toNat = 0 then (false, { bo with gbm := 0 }, s)
    else
      let st := s.ask
      let h := st.2.ask
      (true, { bo with gbm := a.1.toNat },
        h.2.setGbm a.1.toNat { stride := st.1.toNat, handle := h.1.toNat })
  else
    -- bo->dumb = dumb_bo_create(drmmode->fd, width, height, bpp); return bo->dumb != NULL;
    let a := s.ask
    let s := a.2.emit (Call.dumb_bo_create width height bpp a.1.toNat)
    if a.1.toNat = 0 then (false, { bo with dumb := 0 }, s)
    else
      let pt := s.ask
      let h := pt.2.ask
      (true, { bo with dumb := a.1.toNat },
        h.2.setDumb a.1.toNat { handle := h.1.toNat, ptr := 0, pitch := pt.1.toNat })

/-- `drmmode_bo_destroy` on a buffer object of the screen: the outcome of the kernel
free call is the next answer, taken only when the call is made. -/
def bo_destroy_st (s : ScrnState) (bo : drmmode_bo) : drmmode_bo × ScrnState :=
  if bo.dumb ≠ 0 then
    let a := s.ask
    let d := drmmode_bo_destroy s.cfg a.1 bo
    (d.bo, { a.2 with trace := a.2.trace ++ d.calls })
  else
    let d := drmmode_bo_destroy s.cfg 0 bo
    (d.bo, { s with trace := s.trace ++ d.calls })

/-- `drmmode_set_pixmap_bo`. -/
def drmmode_set_pixmap_bo (s : ScrnState) (pixmap : Nat) (_bo : drmmode_bo) : Bool × ScrnState :=
  if s.cfg.GLAMOR = false then (true, s)
  else if s.drmmode.glamor = false then (true, s)
  else
    let a := s.ask
    let s := a.2.emit (Call.glamor_egl_create_textured_pixmap pixmap (decide (a.1 ≠ 0)))
    (decide (a.1 ≠ 0), s)

/-- `drmmode_glamor_handle_new_screen_pixmap`. -/
def drmmode_glamor_handle_new_screen_pixmap (s : ScrnState) : Bool × ScrnState :=
  let screen_pixmap := s.screen_pixmap
  let r := drmmode_set_pixmap_bo s screen_pixmap s.drmmode.front_bo
  if r.1 = false then (false, r.2)
  else if r.2.cfg.GLAMOR = true ∧ r.2.drmmode.glamor = true then
    (true, r.2.emit (Call.glamor_set_screen_pixmap screen_pixmap))
  else (true, r.2)

/-! ### Mode setting -/

/-- `drmmode_crtc_dpms`. -/
def drmmode_crtc_dpms (s : ScrnState) (crtc : Nat) (mode : Int) : ScrnState :=
  s.setPriv crtc { s.priv crtc with dpms_mode := mode }

/-- `drmmode_crtc_gamma_set`. -/
def drmmode_crtc_gamma_set (s : ScrnState) (crtc : Nat) : ScrnState :=
  s.emit (Call.drmModeCrtcSetGamma (s.priv crtc).crtc_id)

/-- Is the output driven by this CRTC and not invalidated: the test both output loops
of `drmmode_set_mode_major` make. -/
def output_on_crtc (crtc : Nat) (o : xf86OutputRec) : Bool :=
  decide (o.crtc = some crtc) && decide (o.driver_private.output_id ≠ -1)

/-- The first output loop of `drmmode_set_mode_major`: the connector ids of the outputs
on this CRTC (`mode_output->connector_id`; read as 0 through a null descriptor). -/
def collect_output_ids (outputs : List xf86OutputRec) (crtc : Nat) : List Nat :=
  (outputs.filter (output_on_crtc crtc)).map
    (fun o => (o.driver_private.mode_output.map (fun k => k.connector_id)).getD 0)

/-- The body of `drmmode_output_dpms`; the call of `drmmode_set_mode_major` it may make
is passed in. -/
def output_dpms_body
    (set_mode_major :
      ScrnState → Nat → Option DisplayModeRec → Nat → Int → Int → Bool × ScrnState)
    (s : ScrnState) (output : xf86OutputRec) (mode : Int) : ScrnState :=
  match output.driver_private.mode_output with
  | none => s
  | some koutput =>
    let s := s.emit (Call.drmModeConnectorSetProperty koutput.connector_id
      output.driver_private.dpms_enum_id mode)
    match output.crtc with
    | none => s
    | some crtc =>
      if mode = DPMSModeOn then
        let s :=
          if (s.priv crtc).need_modeset = true then
            (set_mode_major s crtc (some (s.crtc crtc).mode) (s.crtc crtc).rotation
              (s.crtc crtc).x (s.crtc crtc).y).2
          else s
        if (s.priv crtc).enable_flipping = true then
          (drmmode_InitSharedPixmapFlipping s crtc).2
        else s
      else
        if (s.priv crtc).enable_flipping = true then drmmode_FiniSharedPixmapFlipping s crtc
        else s

/-- The framebuffer and the position `drmmode_set_mode_major` hands to the kernel,
before the primary framebuffer is created on demand: `(fb_id, x, y)`. -/
def select_scanout (s : ScrnState) (crtc : Nat) (x y : Int) : Nat × Int × Int :=
  let drmmode_crtc := s.priv crtc
  if drmmode_crtc.prime_pixmap ≠ 0 then
    if s.drmmode.reverse_prime_offload_mode = false then
      ((s.ppriv drmmode_crtc.prime_pixmap).fb_id, 0, 0)
    else (s.drmmode.fb_id, drmmode_crtc.prime_pixmap_x, 0)
  else if drmmode_crtc.rotate_fb_id ≠ 0 then (drmmode_crtc.rotate_fb_id, 0, 0)
  else (s.drmmode.fb_id, x, y)

/-- The step of `drmmode_set_mode_major` that creates the primary framebuffer when the
framebuffer selected is 0: returns whether `drmModeAddFB` failed, the framebuffer id
to use, and the state.  The answers taken are the return value of `drmModeAddFB`
and the id it stores on success. -/
def set_mode_major_addfb (s : ScrnState) (fb_id : Nat) : Bool × Nat × ScrnState :=
  if fb_id = 0 then
    let r := s.ask
    let id := r.2.ask
    let s1 := id.2.emit (Call.drmModeAddFB s.virtualX s.virtualY s.depth s.drmmode.kbpp
      (drmmode_bo_get_pitch s s.drmmode.front_bo)
      (drmmode_bo_get_handle s s.drmmode.front_bo) r.1)
    let s2 := if r.1 = 0 then s1.setDrmmode { s1.drmmode with fb_id := toU32 id.1 } else s1
    if r.1 < 0 then (true, s2.drmmode.fb_id, s2.emit Call.ErrorF)
    else (false, s2.drmmode.fb_id, s2)
  else (false, fb_id, s)

/-- The part of `drmmode_set_mode_major` that follows a successful `drmModeSetCrtc`.
`output_dpms` is the hook `output->funcs->dpms`. -/
def set_mode_major_finish (output_dpms : ScrnState → xf86OutputRec → Int → ScrnState)
    (s : ScrnState) (crtc : Nat) : ScrnState :=
  let s := if s.has_pScreen = true then s.emit Call.xf86CrtcSetScreenSubpixelOrder else s
  let s := s.setPriv crtc { s.priv crtc with need_modeset := false }
  let s := drmmode_crtc_dpms s crtc DPMSModeOn
  let s :=
    if (s.priv crtc).prime_pixmap_back ≠ 0 then (drmmode_InitSharedPixmapFlipping s crtc).2
    else s
  -- go through all the outputs and force DPMS them back on
  s.output.foldl
    (fun st o => if output_on_crtc crtc o = true then output_dpms st o DPMSModeOn else st) s

/-- The part of `drmmode_set_mode_major` between the snapshot and the label `done`,
for a non-null mode: returns `ret` and the state at `done`.  `output_dpms` is the
hook `output->funcs->dpms`. -/
def set_mode_major_apply (output_dpms : ScrnState → xf86OutputRec → Int → ScrnState)
    (s : ScrnState) (crtc : Nat) (mode : DisplayModeRec) (x y : Int) : Bool × ScrnState :=
  let output_ids := collect_output_ids s.output crtc
  -- if (!xf86CrtcRotate(crtc)) goto done;   (ret is still TRUE)
  let rot := s.ask
  let s := rot.2.emit (Call.xf86CrtcRotate crtc (decide (rot.1 ≠ 0)))
  if rot.1 = 0 then (true, s)
  else
    let s := drmmode_crtc_gamma_set s crtc
    let kmode := drmmode_ConvertToKMode mode
    let sel := select_scanout s crtc x y
    -- if (fb_id == 0) { ret = drmModeAddFB(..., &drmmode->fb_id); ... }
    let add := set_mode_major_addfb s sel.1
    if add.1 = true then (false, add.2.2)
    else
      let r := add.2.2.ask
      let s := r.2.emit (Call.drmModeSetCrtc (add.2.2.priv crtc).crtc_id add.2.1 sel.2.1 sel.2.2
        output_ids kmode r.1)
      if r.1 ≠ 0 then (false, s)
      else (true, set_mode_major_finish output_dpms s crtc)

/-- The start of `drmmode_set_mode_major`: with a non-null mode the requested values
are stored in the CRTC (`crtc->mode = *mode; crtc->x = x; ...`). -/
def set_mode_major_tentative (s : ScrnState) (crtc : Nat) (mode : Option DisplayModeRec)
    (rotation : Nat) (x y : Int) : ScrnState :=
  match mode with
  | some m => s.setCrtc crtc { s.crtc crtc with mode := m, x := x, y := y, rotation := rotation }
  | none => s

/-- The block at the label `done` of `drmmode_set_mode_major`: on failure the snapshot
`saved` (mode, x, y, rotation) is restored, otherwise the CRTC is marked active. -/
def set_mode_major_done (s : ScrnState) (crtc : Nat) (ret : Bool) (saved : xf86CrtcRec) :
    Bool × ScrnState :=
  if ret = false then
    (ret, s.setCrtc crtc
      { s.crtc crtc with
        x := saved.x, y := saved.y, rotation := saved.rotation, mode := saved.mode })
  else (ret, s.setCrtc crtc { s.crtc crtc with active := true })

/-- The body of `drmmode_set_mode_major`; `output_dpms` is the hook
`output->funcs->dpms`.  `mode` is `none` for a null mode. -/
def set_mode_major_body (output_dpms : ScrnState → xf86OutputRec → Int → ScrnState)
    (s : ScrnState) (crtc : Nat) (mode : Option DisplayModeRec) (rotation : Nat)
    (x y : Int) : Bool × ScrnState :=
  -- saved_mode = crtc->mode; saved_x = crtc->x; saved_y = crtc->y; saved_rotation = ...
  let saved := s.crtc crtc
  let s1 := set_mode_major_tentative s crtc mode rotation x y
  -- output_ids = calloc(sizeof(uint32_t), xf86_config->num_output);
  let a := s1.ask
  let s2 := a.2.emit (Call.calloc a.1)
  let r : Bool × ScrnState :=
    if a.1 = 0 then (false, s2)
    else
      match mode with
      | some m => set_mode_major_apply output_dpms s2 crtc m x y
      | none => (true, s2)
  set_mode_major_done r.2 crtc r.1 saved

/-- `drmmode_set_mode_major`.  The function and the output hook `drmmode_output_dpms`
call each other; `depth` bounds how deep a mode-set started from the hook may nest
(at depth 0 the hook does not enter a nested mode-set). -/
def drmmode_set_mode_major :
    Nat → ScrnState → Nat → Option DisplayModeRec → Nat → Int → Int → Bool × ScrnState
  | 0 => set_mode_major_body (output_dpms_body (fun s _ _ _ _ _ => (false, s)))
  | depth + 1 => set_mode_major_body (output_dpms_body (drmmode_set_mode_major depth))

/-- `drmmode_output_dpms`. -/
def drmmode_output_dpms (depth : Nat) (s : ScrnState) (output : xf86OutputRec) (mode : Int) :
    ScrnState :=
  output_dpms_body (drmmode_set_mode_major depth) s output mode

/-! ### Resize and scanout targets -/

/-- The locals of `drmmode_xf86crtc_resize` that hold the previous configuration
(`old_pitch` is an `int` that receives the `uint32_t` pitch). -/
structure ResizeSaved where
  old_front : drmmode_bo
  old_width : Int
  old_height : Int
  old_pitch : Int
  old_fb_id : Nat
  kcpp : Int
  deriving DecidableEq, Repr

/-- The exit through the label `fail` of `drmmode_xf86crtc_resize`. -/
def resize_fail (s : ScrnState) (sv : ResizeSaved) : Bool × ScrnState :=
  -- drmmode_bo_destroy(drmmode, &drmmode->front_bo);
  let d := bo_destroy_st s s.drmmode.front_bo
  (false,
    { d.2 with
      drmmode := { d.2.drmmode with front_bo := sv.old_front, fb_id := sv.old_fb_id },
      virtualX := sv.old_width, virtualY := sv.old_height,
      displayWidth := Int.tdiv sv.old_pitch sv.kcpp })

/-- The loop of `drmmode_xf86crtc_resize` that sets the mode of every enabled CRTC
again; the results of the mode-sets are not looked at. -/
def resize_set_modes (depth : Nat) (s : ScrnState) : ScrnState :=
  (List.range s.num_crtc).foldl
    (fun st i =>
      if (st.crtc i).enabled = true then
        (drmmode_set_mode_major depth st i (some (st.crtc i).mode) (st.crtc i).rotation
          (st.crtc i).x (st.crtc i).y).2
      else st) s

/-- The shadow buffers of `drmmode_xf86crtc_resize`: with `shadow_enable` a new shadow
framebuffer replaces `new_pixels` (failure when it cannot be allocated), with
`shadow_enable2` the second one is replaced too.  Returns whether the step failed,
`new_pixels`, and the state. -/
def resize_shadow (s : ScrnState) (new_pixels : Nat) : Bool × Nat × ScrnState :=
  let a := s.ask
  if s.drmmode.shadow_enable = true ∧ a.1.toNat = 0 then (true, 0, a.2.emit (Call.calloc a.1))
  else
    let r1 : Nat × ScrnState :=
      if s.drmmode.shadow_enable = true then
        -- free(drmmode->shadow_fb); drmmode->shadow_fb = new_pixels;
        (a.1.toNat,
          ((a.2.emit (Call.calloc a.1)).emit (Call.free s.drmmode.shadow_fb)).setDrmmode
            { s.drmmode with shadow_fb := a.1.toNat })
      else (new_pixels, s)
    let b := r1.2.ask
    let s2 :=
      if r1.2.drmmode.shadow_enable2 = true then
        -- fb2 = calloc(1, size); free(drmmode->shadow_fb2); drmmode->shadow_fb2 = fb2;
        ((b.2.emit (Call.calloc b.1)).emit (Call.free r1.2.drmmode.shadow_fb2)).setDrmmode
          { r1.2.drmmode with shadow_fb2 := b.1.toNat }
      else r1.2
    (false, r1.1, s2)

/-- The end of `drmmode_xf86crtc_resize`: the modes are set again, the old framebuffer
and the old front buffer are released. -/
def resize_finish (depth : Nat) (s : ScrnState) (sv : ResizeSaved) : Bool × ScrnState :=
  let s := resize_set_modes depth s
  if sv.old_fb_id ≠ 0 then
    let s := s.emit (Call.drmModeRmFB sv.old_fb_id)
    -- drmmode_bo_destroy(drmmode, &old_front);  (the local copy)
    (true, (bo_destroy_st s sv.old_front).2)
  else (true, s)

/-- `drmmode_xf86crtc_resize` from `screen->ModifyPixmapHeader` on: the screen pixmap is
bound to the new buffer, then the modes are set again. -/
def resize_rebind (depth : Nat) (s : ScrnState) (sv : ResizeSaved) (width height : Int)
    (new_pixels : Nat) : Bool × ScrnState :=
  let cpp := Int.tdiv (s.bitsPerPixel + 7) 8
  let s := s.emit (Call.ModifyPixmapHeader s.screen_pixmap width height (s.displayWidth * cpp)
    new_pixels)
  let g := drmmode_glamor_handle_new_screen_pixmap s
  if g.1 = false then resize_fail g.2 sv
  else resize_finish depth g.2 sv

/-- `drmmode_xf86crtc_resize` from the mapping of the new front buffer on. -/
def resize_map (depth : Nat) (s : ScrnState) (sv : ResizeSaved) (width height : Int) :
    Bool × ScrnState :=
  -- if (!drmmode->gbm) { new_pixels = drmmode_map_front_bo(drmmode); ... }
  let mp : Nat × ScrnState :=
    if s.drmmode.gbm = 0 then drmmode_bo_map s s.drmmode.front_bo else (0, s)
  if s.drmmode.gbm = 0 ∧ mp.1 = 0 then resize_fail mp.2 sv
  else
    let sh := resize_shadow mp.2 mp.1
    if sh.1 = true then resize_fail sh.2.2 sv
    else resize_rebind depth sh.2.2 sv width height sh.2.1

/-- `drmmode_xf86crtc_resize`. -/
def drmmode_xf86crtc_resize (depth : Nat) (s : ScrnState) (width height : Int) :
    Bool × ScrnState :=
  if s.virtualX = width ∧ s.virtualY = height then (true, s)
  else
    let sv : ResizeSaved :=
      { old_width := s.virtualX, old_height := s.virtualY,
        old_pitch := toInt32 (drmmode_bo_get_pitch s s.drmmode.front_bo),
        old_front := s.drmmode.front_bo, old_fb_id := s.drmmode.fb_id,
        kcpp := Int.tdiv (s.drmmode.kbpp + 7) 8 }
    let s0 := s.setDrmmode { s.drmmode with fb_id := 0 }
    let cb := drmmode_create_bo s0 s0.drmmode.front_bo width height s0.drmmode.kbpp
    let s1 := cb.2.2.setDrmmode { cb.2.2.drmmode with front_bo := cb.2.1 }
    if cb.1 = false then resize_fail s1 sv
    else
      let pitch : Int := toInt32 (drmmode_bo_get_pitch s1 s1.drmmode.front_bo)
      resize_map depth
        { s1 with virtualX := width, virtualY := height,
                  displayWidth := Int.tdiv pitch sv.kcpp }
        sv width height

/-- Which field of the CRTC the parameter `target` of
`drmmode_set_target_scanout_pixmap` points to: `&drmmode_crtc->prime_pixmap` or
`&drmmode_crtc->prime_pixmap_back`. -/
inductive Target where
  | front
  | back
  deriving DecidableEq, Repr

/-- Read `*target`. -/
def Target.get (t : Target) (p : drmmode_crtc_private_rec) : Nat :=
  match t with
  | Target.front => p.prime_pixmap
  | Target.back => p.prime_pixmap_back

/-- Write `*target`. -/
def Target.set (t : Target) (p : drmmode_crtc_private_rec) (v : Nat) :
    drmmode_crtc_private_rec :=
  match t with
  | Target.front => { p with prime_pixmap := v }
  | Target.back => { p with prime_pixmap_back := v }

/-- The bounding-box loop of `drmmode_set_target_scanout_pixmap_gpu`: returns
`(total_width, max_height, this_x)`. -/
def scanout_bounding_box (s : ScrnState) (crtc : Nat) (ppix : Nat) : Int × Int × Int :=
  (List.range s.num_crtc).foldl
    (fun (acc : Int × Int × Int) c =>
      if (s.crtc c).enabled = false ∧ c ≠ crtc then acc
      else if c = crtc then
        (acc.1 + (s.pixmap ppix).width,
          if acc.2.1 < (s.pixmap ppix).height then (s.pixmap ppix).height else acc.2.1,
          acc.1)
      else
        (acc.1 + (s.crtc c).mode.HDisplay,
          if acc.2.1 < (s.crtc c).mode.VDisplay then (s.crtc c).mode.VDisplay else acc.2.1,
          acc.2.2))
    (0, 0, 0)

/-- The first block of `drmmode_set_target_scanout_pixmap_gpu`: a target that is set
is released (`if (*target) { ... *target = NULL; }`). -/
def scanout_release_gpu (s : ScrnState) (crtc : Nat) (target : Target) : ScrnState :=
  if target.get (s.priv crtc) ≠ 0 then
    let s1 := s.emit (Call.PixmapStopDirtyTracking (target.get (s.priv crtc)) s.screen_pixmap)
    let s2 :=
      if s1.drmmode.fb_id ≠ 0 then
        (s1.emit (Call.drmModeRmFB s1.drmmode.fb_id)).setDrmmode { s1.drmmode with fb_id := 0 }
      else s1
    let s3 := s2.setPriv crtc { s2.priv crtc with prime_pixmap_x := 0 }
    s3.setPriv crtc (target.set (s3.priv crtc) 0)
  else s

/-- The resize step of `drmmode_set_target_scanout_pixmap_gpu`: when the bounding box
differs from the screen pixmap, the screen is resized and the screen pixmap takes the
new size.  Returns `false` when the resize fails. -/
def scanout_resize_gpu (depth : Nat) (s : ScrnState) (total_width max_height : Int) :
    Bool × ScrnState :=
  if total_width ≠ (s.pixmap s.screen_pixmap).width ∨
      max_height ≠ (s.pixmap s.screen_pixmap).height then
    let r := drmmode_xf86crtc_resize depth s total_width max_height
    if r.1 = false then (false, r.2)
    else
      (true,
        { r.2 with
          screen_width := total_width, screen_height := max_height,
          pixmap := Function.update r.2.pixmap r.2.screen_pixmap
            { r.2.pixmap r.2.screen_pixmap with width := total_width, height := max_height } })
  else (true, s)

/-- `drmmode_set_target_scanout_pixmap_gpu`. -/
def drmmode_set_target_scanout_pixmap_gpu (depth : Nat) (s : ScrnState) (crtc : Nat)
    (ppix : Nat) (target : Target) : Bool × ScrnState :=
  let s := scanout_release_gpu s crtc target
  if ppix = 0 then (true, s)
  else
    -- iterate over all the attached crtcs to work out the bounding box
    let box := scanout_bounding_box s crtc ppix
    let rz := scanout_resize_gpu depth s box.1 box.2.1
    if rz.1 = false then (false, rz.2)
    else
      let s1 := rz.2.setPriv crtc { rz.2.priv crtc with prime_pixmap_x := box.2.2 }
      let s2 := s1.emit (Call.PixmapStartDirtyTracking ppix s1.screen_pixmap box.2.2)
      (true, s2.setPriv crtc (target.set (s2.priv crtc) ppix))

/-- The first block of `drmmode_set_target_scanout_pixmap_cpu`: a target that is set is
released (`if (*target) { ... *target = NULL; }`). -/
def scanout_release_cpu (s : ScrnState) (crtc : Nat) (target : Target) : ScrnState :=
  if target.get (s.priv crtc) ≠ 0 then
    let t := target.get (s.priv crtc)
    let s1 := s.emit (Call.drmModeRmFB (s.ppriv t).fb_id)
    let s2 := s1.setPpriv t { s1.ppriv t with fb_id := 0 }
    let s3 :=
      if (s2.ppriv t).slave_damage ≠ 0 then
        (s2.emit (Call.DamageUnregister (s2.ppriv t).slave_damage)).setPpriv t
          { s2.ppriv t with slave_damage := 0 }
      else s2
    s3.setPriv crtc (target.set (s3.priv crtc) 0)
  else s

/-- The second half of `drmmode_set_target_scanout_pixmap_cpu`, for a pixmap that is
not null: damage tracking, mapping, framebuffer, and `*target = ppix`. -/
def scanout_attach_cpu (s : ScrnState) (crtc : Nat) (ppix : Nat) (target : Target) :
    ScrnState :=
  -- if (!ppriv->slave_damage) ppriv->slave_damage = DamageCreate(...);
  let a := s.ask
  let s1 :=
    if (s.ppriv ppix).slave_damage = 0 then
      (a.2.emit (Call.DamageCreate a.1.toNat)).setPpriv ppix
        { s.ppriv ppix with slave_damage := a.1.toNat }
    else s
  let m := drmmode_map_slave_bo s1 (s1.ppriv ppix)
  let s2 : ScrnState :=
    { m.2 with
      pixmap := Function.update m.2.pixmap ppix { m.2.pixmap ppix with devPrivate_ptr := m.1 } }
  let s3 := s2.emit (Call.DamageRegister ppix (s2.ppriv ppix).slave_damage)
  -- if (ppriv->fb_id == 0) drmModeAddFB(..., &ppriv->fb_id);
  let r := s3.ask
  let id := r.2.ask
  let s4 :=
    if (s3.ppriv ppix).fb_id = 0 then
      let s5 := id.2.emit (Call.drmModeAddFB (s3.pixmap ppix).width (s3.pixmap ppix).height
        (s3.pixmap ppix).depth (s3.pixmap ppix).bitsPerPixel (s3.pixmap ppix).devKind.toNat
        (s3.dumb (s3.ppriv ppix).backing_bo).handle r.1)
      if r.1 = 0 then s5.setPpriv ppix { s5.ppriv ppix with fb_id := toU32 id.1 } else s5
    else s3
  s4.setPriv crtc (target.set (s4.priv crtc) ppix)

/-- `drmmode_set_target_scanout_pixmap_cpu`. -/
def drmmode_set_target_scanout_pixmap_cpu (s : ScrnState) (crtc : Nat) (ppix : Nat)
    (target : Target) : Bool × ScrnState :=
  let s := scanout_release_cpu s crtc target
  if ppix = 0 then (true, s)
  else (true, scanout_attach_cpu s crtc ppix target)

/-- `drmmode_set_target_scanout_pixmap`. -/
def drmmode_set_target_scanout_pixmap (depth : Nat) (s : ScrnState) (crtc : Nat)
    (ppix : Nat) (target : Target) : Bool × ScrnState :=
  if s.drmmode.reverse_prime_offload_mode = true then
    drmmode_set_target_scanout_pixmap_gpu depth s crtc ppix target
  else drmmode_set_target_scanout_pixmap_cpu s crtc ppix target

/-- `drmmode_EnableSharedPixmapFlipping`.  In `enable_flipping &= f(...)` the call is
made first and the flag is read afterwards. -/
def drmmode_EnableSharedPixmapFlipping (depth : Nat) (s : ScrnState) (crtc : Nat)
    (front back : Nat) : Bool × ScrnState :=
  let s := s.setPriv crtc { s.priv crtc with enable_flipping := true }
  -- Set front scanout pixmap
  let r := drmmode_set_target_scanout_pixmap depth s crtc front Target.front
  let s := r.2.setPriv crtc
    { r.2.priv crtc with enable_flipping := (r.2.priv crtc).enable_flipping && r.1 }
  if (s.priv crtc).enable_flipping = false then (false, s)
  else
    -- Set back scanout pixmap
    let r := drmmode_set_target_scanout_pixmap depth s crtc back Target.back
    let s := r.2.setPriv crtc
      { r.2.priv crtc with enable_flipping := (r.2.priv crtc).enable_flipping && r.1 }
    if (s.priv crtc).enable_flipping = false then
      (false, (drmmode_set_target_scanout_pixmap depth s crtc 0 Target.front).2)
    else (true, s)

/-- `drmmode_DisableSharedPixmapFlipping`.  When `drmmode_FiniSharedPixmapFlipping`
ends in a null dereference (`fault`), the two releases that follow it do not run. -/
def drmmode_DisableSharedPixmapFlipping (depth : Nat) (s : ScrnState) (crtc : Nat) :
    ScrnState :=
  let s := s.setPriv crtc { s.priv crtc with enable_flipping := false }
  let s := drmmode_FiniSharedPixmapFlipping s crtc
  if s.fault = true then s
  else
    let s := (drmmode_set_target_scanout_pixmap depth s crtc 0 Target.front).2
    (drmmode_set_target_scanout_pixmap depth s crtc 0 Target.back).2

/-- `drmmode_set_scanout_pixmap`. -/
def drmmode_set_scanout_pixmap (depth : Nat) (s : ScrnState) (crtc : Nat) (ppix : Nat) :
    Bool × ScrnState :=
  -- Use DisableSharedPixmapFlipping before switching to single buf
  if (s.priv crtc).enable_flipping = true then (false, s)
  else drmmode_set_target_scanout_pixmap depth s crtc ppix Target.front
/-! ## Auxiliary notions for the shared-scanout state -/

/-- The shared-scanout configuration of every CRTC: displayed target, back target and
the enable flag. -/
def flipcfg (s : ScrnState) (c : Nat) : Nat × Nat × Bool :=
  ((s.priv c).prime_pixmap, (s.priv c).prime_pixmap_back, (s.priv c).enable_flipping)

/-- A step of the resize keeps the CRTC array when it fails and the shared-scanout
configuration in any case. -/
def ResizeFrame (s : ScrnState) (r : Bool × ScrnState) : Prop :=
  (r.1 = false → r.2.crtc = s.crtc) ∧ flipcfg r.2 = flipcfg s

/-- The shared-scanout configuration with the slot `t` set to `v`. -/
def slotcfg (t : Target) (cfg : Nat × Nat × Bool) (v : Nat) : Nat × Nat × Bool :=
  match t with
  | Target.front => (v, cfg.2.1, cfg.2.2)
  | Target.back => (cfg.1, v, cfg.2.2)

/-- The first attach of `drmmode_EnableSharedPixmapFlipping`: the call
`drmmode_set_target_scanout_pixmap(crtc, front, &drmmode_crtc->prime_pixmap)`, made
after `enable_flipping = TRUE`. -/
def enable_front_attach (depth : Nat) (s : ScrnState) (crtc front : Nat) : Bool × ScrnState :=
  drmmode_set_target_scanout_pixmap depth
    (s.setPriv crtc { s.priv crtc with enable_flipping := true }) crtc front Target.front

/-- The second attach of `drmmode_EnableSharedPixmapFlipping`: the call
`drmmode_set_target_scanout_pixmap(crtc, back, &drmmode_crtc->prime_pixmap_back)`, in
the state the first attach and the update of `enable_flipping` leave. -/
def enable_back_attach (depth : Nat) (s : ScrnState) (crtc front back : Nat) :
    Bool × ScrnState :=
  let r := enable_front_attach depth s crtc front
  drmmode_set_target_scanout_pixmap depth
    (r.2.setPriv crtc
      { r.2.priv crtc with enable_flipping := (r.2.priv crtc).enable_flipping && r.1 })
    crtc back Target.back

/-- A screen in reverse PRIME offload mode with one CRTC: a 100x100 screen with a dumb
front buffer (address 9) and framebuffer 3; the screen pixmap (address 1) and the
pixmaps 5 and 7 are 100x100, the pixmap 6 is 200x200; the outside world answers 0 to
every call (an allocation fails). -/
def offload_screen : ScrnState :=
  { num_crtc := 1
    virtualX := 100
    virtualY := 100
    displayWidth := 100
    screen_pixmap := 1
    screen_width := 100
    screen_height := 100
    pixmap := fun p =>
      if p = 1 ∨ p = 5 ∨ p = 7 then { width := 100, height := 100 }
      else if p = 6 then { width := 200, height := 200 }
      else {}
    dumb := fun p => if p = 9 then { handle := 1, pitch := 400, ptr := 0 } else {}
    drmmode := { reverse_prime_offload_mode := true, front_bo := { dumb := 9 }, fb_id := 3 } }

/-- The screen `offload_screen` after flipping was enabled on CRTC 0 with the pixmaps
5 and 7. -/
def offload_enabled : ScrnState :=
  (drmmode_EnableSharedPixmapFlipping 0 offload_screen 0 5 7).2

/-! ### The operations of the flip state machine -/

/-- One operation of the flip state machine on a CRTC: a present attempt
(`drmmode_SharedPixmapPresent`), a flip submission (`drmmode_SharedPixmapFlip`), a
vblank retry (`drmmode_SharedPixmapPresentOnVBlank`), the completion of the event
registered under a sequence number, and its abort. -/
inductive FlipOp where
  | present (ppix : Nat)
  | flip (ppix : Nat)
  | retry (ppix : Nat)
  | complete (seq : Nat)
  | abort (seq : Nat)
  deriving DecidableEq, Repr

/-- Run one operation on the CRTC `c`. -/
def FlipOp.run (c : Nat) (s : ScrnState) : FlipOp → ScrnState
  | FlipOp.present p => (drmmode_SharedPixmapPresent s p c).2
  | FlipOp.flip p => (drmmode_SharedPixmapFlip s p c).2
  | FlipOp.retry p => (drmmode_SharedPixmapPresentOnVBlank s p c).2
  | FlipOp.complete seq => ms_drm_handler s seq
  | FlipOp.abort seq => ms_drm_abort_seq s seq

/-- Run a sequence of operations on the CRTC `c`. -/
def run_ops (c : Nat) (s : ScrnState) (ops : List FlipOp) : ScrnState :=
  ops.foldl (FlipOp.run c) s

/-- The discipline of one operation in the state `s`: a present attempt and a flip
submission are made on the current back surface of the CRTC, and the completion of a
flip event of the CRTC is delivered only when no other event of the CRTC is
outstanding. -/
def FlipOp.ok (c : Nat) (s : ScrnState) : FlipOp → Bool
  | FlipOp.present p => decide (p = (s.priv c).prime_pixmap_back)
  | FlipOp.flip p => decide (p = (s.priv c).prime_pixmap_back)
  | FlipOp.retry _ => true
  | FlipOp.complete seq =>
    match queue_take seq s.ms_drm_queue with
    | none => true
    | some r =>
      !(decide (r.1.crtc = c) && r.1.flip) || r.2.all (fun e => decide (e.2.crtc ≠ c))
  | FlipOp.abort _ => true

/-- The discipline along a sequence of operations. -/
def ops_ok (c : Nat) (s : ScrnState) : List FlipOp → Bool
  | [] => true
  | op :: rest => op.ok c s && ops_ok c (op.run c s) rest

/-- Every present attempt and flip submission of the sequence is made on the current
back surface of the CRTC. -/
def ops_on_back (c : Nat) (s : ScrnState) : List FlipOp → Bool
  | [] => true
  | op :: rest =>
    (match op with
      | FlipOp.present p => decide (p = (s.priv c).prime_pixmap_back)
      | FlipOp.flip p => decide (p = (s.priv c).prime_pixmap_back)
      | _ => true) && ops_on_back c (op.run c s) rest

/-- A screen with one CRTC and two shared pixmaps 5 and 7 that are mapped and have
framebuffers; the answers of the outside world make every allocation and kernel call
of the runs below succeed, the presents succeed or fail as listed. -/
def flip_screen (answers : List Int) : ScrnState :=
  { num_crtc := 1
    pixmap := fun p =>
      if p = 5 then { priv := { fb_id := 11, slave_damage := 21, backing_bo := 31 } }
      else if p = 7 then { priv := { fb_id := 12, slave_damage := 22, backing_bo := 32 } }
      else {}
    dumb := fun p =>
      if p = 31 then { handle := 1, ptr := 4096 }
      else if p = 32 then { handle := 2, ptr := 8192 }
      else {}
    answers := answers }

/-- The invariant of the flip state machine of the CRTC `c` with the surfaces `front`
and `back`: the displayed and the back target are different and are the two surfaces,
and every outstanding event of the CRTC was recorded for the current back target as
its front and the displayed target as its back. -/
def FlipInv (c front back : Nat) (s : ScrnState) : Prop :=
  (s.priv c).prime_pixmap ≠ (s.priv c).prime_pixmap_back ∧
  (((s.priv c).prime_pixmap = front ∧ (s.priv c).prime_pixmap_back = back) ∨
    ((s.priv c).prime_pixmap = back ∧ (s.priv c).prime_pixmap_back = front)) ∧
  ∀ e ∈ s.ms_drm_queue, e.2.crtc = c →
    e.2.frontTarget = (s.priv c).prime_pixmap_back ∧ e.2.backTarget = (s.priv c).prime_pixmap

/-- The events of `t` are those of `s` and events recorded for the CRTC `c` with the
front target `p` and the target displayed in `s` as back target. -/
def QueueNew (s t : ScrnState) (c p : Nat) : Prop :=
  ∀ e ∈ t.ms_drm_queue, e ∈ s.ms_drm_queue ∨
    (e.2.crtc = c ∧ e.2.frontTarget = p ∧ e.2.backTarget = (s.priv c).prime_pixmap)

/-- The screen `flip_screen` with flipping enabled and active on CRTC 0 for the
surfaces 5 and 7, and no event outstanding: both pending sequence numbers are zero. -/
def flip_active_idle : ScrnState :=
  let s := (drmmode_EnableSharedPixmapFlipping 0 (flip_screen []) 0 5 7).2
  s.setPriv 0 { s.priv 0 with flipping_active := true }

/-- A screen with one CRTC at position (3, 4) and a primary framebuffer; the outside
world lets the allocation and the rotation setup succeed and rejects the kernel
mode-set with -22. -/
def modeset_rejected : ScrnState :=
  { num_crtc := 1
    virtualX := 1920
    virtualY := 1080
    crtc := fun _ => { x := 3, y := 4 }
    dumb := fun p => if p = 9 then { handle := 1, pitch := 7680 } else {}
    drmmode := { fb_id := 5, front_bo := { dumb := 9 } }
    answers := [1, 1, -22] }

/-- What the exit through `fail` of `drmmode_xf86crtc_resize` guarantees, in terms of
the saved locals: a failed step leaves the saved size, front buffer and framebuffer in
place. -/
def ResizeRestores (sv : ResizeSaved) (r : Bool × ScrnState) : Prop :=
  r.1 = false →
    r.2.virtualX = sv.old_width ∧ r.2.virtualY = sv.old_height ∧
    r.2.drmmode.front_bo = sv.old_front ∧ r.2.drmmode.fb_id = sv.old_fb_id ∧
    r.2.displayWidth = Int.tdiv sv.old_pitch sv.kcpp

/-- A 100x100 screen with a dumb front buffer (address 9, pitch 400) and framebuffer 3,
on which every allocation fails (the outside world answers 0). -/
def small_screen : ScrnState :=
  { num_crtc := 1
    virtualX := 100
    virtualY := 100
    displayWidth := 100
    screen_pixmap := 1
    pixmap := fun p => if p = 1 then { width := 100, height := 100 } else {}
    dumb := fun p => if p = 9 then { handle := 1, pitch := 400 } else {}
    drmmode := { front_bo := { dumb := 9 }, fb_id := 3 } }

/-- The screen `modeset_rejected` with other answers: the allocation of the output-id
array succeeds and `xf86CrtcRotate` fails. -/
def rotate_refused : ScrnState :=
  { modeset_rejected with answers := [1, 0] }

/-- A relation between the state before and after a step that every elementary step of
a mode-set respects: taking an answer, recording a call, storing a CRTC record or the
screen record, and a present attempt. -/
structure Frame (R : ScrnState → ScrnState → Prop) : Prop where
  refl : ∀ s, R s s
  trans : ∀ a b c, R a b → R b c → R a c
  ask : ∀ s, R s s.ask.2
  emit : ∀ s c, R s (s.emit c)
  setCrtc : ∀ s c v, R s (s.setCrtc c v)
  setDrmmode : ∀ s v, R s (s.setDrmmode v)
  present : ∀ s p c, R s (drmmode_SharedPixmapPresent s p c).2

/-- Every event registered in `s` is still registered in `t`. -/
def EventsKept (s t : ScrnState) : Prop :=
  ∀ e ∈ s.ms_drm_queue, e ∈ t.ms_drm_queue

/-- The detection result `xf86OutputStatus`. -/
inductive xf86OutputStatus where
  | XF86OutputStatusConnected
  | XF86OutputStatusDisconnected
  | XF86OutputStatusUnknown
  deriving DecidableEq, Repr

/-- Modelled from the spec: `DRM_MODE_CONNECTED` of the kernel interface header. -/
def DRM_MODE_CONNECTED : Nat := 1

/-- Modelled from the spec: `DRM_MODE_DISCONNECTED` of the kernel interface header. -/
def DRM_MODE_DISCONNECTED : Nat := 2

/-- What `drmmode_output_detect` gives: the status, the output afterwards and the calls
made so far. -/
structure DetectResult where
  status : xf86OutputStatus
  output : xf86OutputRec
  trace : List Call
  deriving DecidableEq, Repr

/-- `drmmode_output_detect`.  `drmModeGetConnector` is what the kernel answers to a
connector query. -/
def drmmode_output_detect (drmModeGetConnector : Nat → Option drmModeConnector)
    (output : xf86OutputRec) (trace : List Call) : DetectResult :=
  if output.driver_private.output_id = -1 then
    { status := xf86OutputStatus.XF86OutputStatusDisconnected, output := output, trace := trace }
  else
    -- drmModeFreeConnector(drmmode_output->mode_output);
    -- drmmode_output->mode_output = drmModeGetConnector(fd, drmmode_output->output_id);
    let id := toU32 output.driver_private.output_id
    let trace := trace ++ [Call.drmModeFreeConnector, Call.drmModeGetConnector id]
    let output : xf86OutputRec :=
      { output with
        driver_private := { output.driver_private with mode_output := drmModeGetConnector id } }
    match drmModeGetConnector id with
    | none =>
      { status := xf86OutputStatus.XF86OutputStatusDisconnected, output := output,
        trace := trace }
    | some k =>
      { status :=
          if k.connection = DRM_MODE_CONNECTED then xf86OutputStatus.XF86OutputStatusConnected
          else if k.connection = DRM_MODE_DISCONNECTED then
            xf86OutputStatus.XF86OutputStatusDisconnected
          else xf86OutputStatus.XF86OutputStatusUnknown,
        output := output, trace := trace }

/-- A screen whose front buffer is a dumb buffer (address 9) that is not mapped yet;
the kernel map succeeds (answer 0) and gives the address 4096. -/
def unmapped_screen : ScrnState :=
  { dumb := fun p => if p = 9 then { handle := 1, pitch := 400 } else {}
    drmmode := { front_bo := { dumb := 9 } }
    answers := [0, 4096] }

/-! ## Outputs across a hot-plug event -/

/-- The output `o'` is the output object `o`, up to the connector it is bound to: all
fields agree except the identifier and the cached connector descriptor. -/
def SameObject (o o' : xf86OutputRec) : Prop :=
  { o' with
    driver_private :=
      { o'.driver_private with
        output_id := o.driver_private.output_id,
        mode_output := o.driver_private.mode_output } } = o

/-- Every output of `pre` is still in `post`, at the same position. -/
def OutputsKept (pre post : List xf86OutputRec) : Prop :=
  ∀ (i : Nat) (o : xf86OutputRec), pre[i]? = some o →
    ∃ o' : xf86OutputRec, post[i]? = some o' ∧ SameObject o o'

/-- The output list before the hot-plug event of the example: one valid output "DP-1"
bound to connector 1. -/
def replug_before : OutputConfig :=
  { num_crtc := 1
    output :=
      [{ name := "DP-1".toList,
         driver_private :=
           { output_id := 1,
             mode_output :=
               some { connector_id := 1, connector_type := 10, connector_type_id := 1 } } }] }

/-- The hot-plug event of the example: connector 1 is gone, connector 2 (which derives the
same output name and carries a `PATH` blob) is listed. -/
def replug_after : OutputConfig :=
  drmmode_handle_uevents twin_env true (some { count_crtcs := 1, connectors := [2] })
    replug_before

/-! ## Accounting of the event records -/

/-- Does the call allocate an event record: a `calloc` that returned a non-null
pointer counts 1. -/
def Call.allocs : Call → Int
  | Call.calloc p => if p = 0 then 0 else 1
  | _ => 0

/-- Does the call free an event record (`free(args)` in a handler). -/
def Call.frees : Call → Int
  | Call.free_event_args _ => 1
  | _ => 0

/-- Event records allocated, minus event records freed, minus event records still
registered in the queue. -/
def event_balance (s : ScrnState) : Int :=
  (s.trace.map Call.allocs).sum - (s.trace.map Call.frees).sum - s.ms_drm_queue.length

/-- The screen `flip_screen` after flipping was enabled on CRTC 0 with the surfaces 5
and 7 and the start of flipping stalled: the present on the back surface 7 failed, the
vblank retry registered its record (event 1) and `drmWaitVBlank` failed, so
`flipping_active` stayed FALSE. -/
def stalled_start : ScrnState :=
  (drmmode_InitSharedPixmapFlipping
    (drmmode_EnableSharedPixmapFlipping 0 (flip_screen [0, 1, -1]) 0 5 7).2 0).2

/-- The state in which `drmmode_DisableSharedPixmapFlipping` starts to release the
scanout targets: `enable_flipping` is cleared and `drmmode_FiniSharedPixmapFlipping`
has run. -/
def disable_before_release (s : ScrnState) (crtc : Nat) : ScrnState :=
  drmmode_FiniSharedPixmapFlipping
    (s.setPriv crtc { s.priv crtc with enable_flipping := false }) crtc

/-- A screen on which flipping is active on CRTC 0 with the surfaces 5 (displayed)
and 7 (back): the flip to 7 is pending as event 1. -/
def flipping_started : ScrnState :=
  { num_crtc := 1
    crtc := fun _ =>
      { driver_private :=
          { prime_pixmap := 5, prime_pixmap_back := 7, enable_flipping := true,
            flipping_active := true } }
    pixmap := fun p =>
      if p = 5 then { priv := { fb_id := 11, slave_damage := 21, backing_bo := 31 } }
      else if p = 7 then
        { priv := { fb_id := 12, slave_damage := 22, backing_bo := 32, flip_seq := 1 } }
      else {}
    dumb := fun p =>
      if p = 31 then { handle := 1, ptr := 4096 }
      else if p = 32 then { handle := 2, ptr := 8192 }
      else {}
    ms_drm_queue := [(1, { frontTarget := 7, backTarget := 5, crtc := 0, flip := true })]
    ms_drm_seq := 2 }

/-- In the CPU scanout path (no reverse PRIME offload) nothing of the event machinery
changes from `s` to `t`: the path, the event queue and every pending sequence number
are the same. -/
def EventsUntouched (s t : ScrnState) : Prop :=
  s.drmmode.reverse_prime_offload_mode = false →
    t.drmmode.reverse_prime_offload_mode = false ∧
    t.ms_drm_queue = s.ms_drm_queue ∧
    ∀ p, (t.ppriv p).flip_seq = (s.ppriv p).flip_seq

/-! ### Buffer objects and the backend in use -/

/-- `drmmode_bo_for_pixmap`, on a buffer object passed by reference: returns the
result, the buffer object afterwards and the state.  The answers taken are the
address of the GPU-native buffer of the pixmap; or the file descriptor
`glamor_fd_from_pixmap` returns and the address `dumb_get_bo_from_fd` returns. -/
def drmmode_bo_for_pixmap (s : ScrnState) (bo : drmmode_bo) (pixmap : Nat) :
    Bool × drmmode_bo × ScrnState :=
  if s.cfg.GLAMOR = true then
    if s.cfg.GLAMOR_HAS_GBM = true ∧ s.drmmode.glamor = true then
      -- bo->gbm = glamor_gbm_bo_from_pixmap(screen, pixmap); bo->dumb = NULL;
      let a := s.ask
      let s := a.2.emit (Call.glamor_gbm_bo_from_pixmap pixmap a.1.toNat)
      (decide (a.1.toNat ≠ 0), { bo with gbm := a.1.toNat, dumb := 0 }, s)
    else
      -- fd = glamor_fd_from_pixmap(screen, pixmap, &pitch, &size);
      let f := s.ask
      let s := f.2.emit (Call.glamor_fd_from_pixmap pixmap f.1)
      if f.1 < 0 then (false, bo, s)
      else
        -- bo->dumb = dumb_get_bo_from_fd(drmmode->fd, fd, pitch, size); close(fd);
        let d := s.ask
        let s := (d.2.emit (Call.dumb_get_bo_from_fd f.1 d.1.toNat)).emit (Call.close f.1)
        (decide (d.1.toNat ≠ 0), { bo with dumb := d.1.toNat }, s)
  else (decide (bo.dumb ≠ 0), bo, s)

/-- At most one backend field of the buffer object is non-null. -/
def drmmode_bo.AtMostOne (bo : drmmode_bo) : Prop := bo.dumb = 0 ∨ bo.gbm = 0

instance (bo : drmmode_bo) : Decidable bo.AtMostOne := by
  unfold drmmode_bo.AtMostOne
  exact inferInstance

/-- The buffer object has no backend of the kind that is not in use: no simple buffer
when buffers are GPU-native (built with `GLAMOR_HAS_GBM`, `drmmode->glamor` set), no
GPU-native buffer otherwise. -/
def drmmode_bo.OfBackend (s : ScrnState) (bo : drmmode_bo) : Prop :=
  if s.cfg.GLAMOR_HAS_GBM = true ∧ s.drmmode.glamor = true then bo.dumb = 0 else bo.gbm = 0

instance (s : ScrnState) (bo : drmmode_bo) : Decidable (bo.OfBackend s) := by
  unfold drmmode_bo.OfBackend
  exact inferInstance

/-- A screen with GPU-native buffers in use whose allocator will hand out the buffer at
address 7 (stride 400, handle 2). -/
def gbm_screen : ScrnState :=
  { cfg := { GLAMOR := true, GLAMOR_HAS_GBM := true },
    drmmode := { glamor := true, gbm := 1 },
    answers := [7, 400, 2] }
/-! ### Calls made and the retry example -/

/-- Every call recorded in `s` is recorded in `t`, in the same order and before any
other call of `t`: the trace of `s` is a prefix of the trace of `t`. -/
def TraceKept (s t : ScrnState) : Prop := s.trace <+: t.trace

/-- A screen whose CRTC 0 displays surface 5 and has surface 7 as its back surface;
no event is pending.  The record allocation will succeed (address 64) and the kernel
will accept the vblank request. -/
def retry_screen : ScrnState :=
  { num_crtc := 1
    crtc := fun _ =>
      { driver_private :=
          { crtc_id := 40, vblank_pipe := 0, prime_pixmap := 5, prime_pixmap_back := 7,
            enable_flipping := true, flipping_active := true } }
    pixmap := fun p =>
      if p = 5 then { priv := { fb_id := 11 } }
      else if p = 7 then { priv := { fb_id := 12 } }
      else {}
    ms_drm_seq := 1
    answers := [64, 0] }

/-- The screen of `retry_screen` when the kernel will refuse the page flip (-16). -/
def flip_refused_screen : ScrnState :=
  { retry_screen with answers := [64, -16] }
/-! ### The rotation shadow -/

/-- A screen in reverse PRIME offload mode whose CRTC 0 (kernel id 40) has the prime
pixmap 5 attached, with its own framebuffer 11 and at offset 1920; the primary
framebuffer is 5.  The allocation, the rotation setup and the kernel mode-set will
succeed. -/
def reverse_prime_screen : ScrnState :=
  { num_crtc := 1
    virtualX := 3840
    virtualY := 1080
    has_pScreen := false
    crtc := fun _ =>
      { driver_private := { crtc_id := 40, prime_pixmap := 5, prime_pixmap_x := 1920 } }
    pixmap := fun p => if p = 5 then { priv := { fb_id := 11 } } else {}
    dumb := fun p => if p = 9 then { handle := 1, pitch := 15360 } else {}
    drmmode := { fb_id := 5, front_bo := { dumb := 9 }, reverse_prime_offload_mode := true }
    answers := [1, 1, 0] }
/-! ### Clone candidates -/

/-- The body of the first loop of `drmmode_clones_init` for one output: the
eligibility mask `enc_clone_mask` starts from `0xff` and is and-ed with the
`possible_clones` of every encoder of the output; the bit position of every resource
encoder that is an encoder of the output is or-ed into `enc_mask`.  The encoders read
are the first `mode_output->count_encoders` entries of `mode_encoders` (none through
a null descriptor).  The masks are not cut to the width of their C type. -/
def clones_init_masks (mode_res : drmModeRes) (o : xf86OutputRec) : xf86OutputRec :=
  let drmmode_output := o.driver_private
  let count_encoders := (drmmode_output.mode_output.map (fun k => k.encoders.length)).getD 0
  let r : Nat × Nat :=
    (drmmode_output.mode_encoders.take count_encoders).foldl
      (fun acc enc =>
        ((List.range mode_res.encoders.length).foldl
            (fun enc_mask k =>
              if mode_res.encoders.getD k 0 = enc.encoder_id then enc_mask ||| (1 <<< k)
              else enc_mask) acc.1,
          acc.2 &&& enc.possible_clones))
      (drmmode_output.enc_mask, 255)
  { o with driver_private := { drmmode_output with enc_mask := r.1, enc_clone_mask := r.2 } }

/-- `find_clones` for the output at index `output` of the output list. -/
def find_clones (outputs : List xf86OutputRec) (output : Nat) : Nat :=
  let drmmode_output := (outputs.getD output {}).driver_private
  if drmmode_output.enc_clone_mask = 0 then 0
  else
    (List.range outputs.length).foldl
      (fun index_mask i =>
        let clone_drmout := (outputs.getD i {}).driver_private
        -- if (output == clone_output) continue;
        if output = i then index_mask
        else if clone_drmout.enc_mask = 0 then index_mask
        else if drmmode_output.enc_clone_mask = clone_drmout.enc_mask then
          index_mask ||| (1 <<< i)
        else index_mask) 0

/-- `drmmode_clones_init`: the output list afterwards. -/
def drmmode_clones_init (outputs : List xf86OutputRec) (mode_res : drmModeRes) :
    List xf86OutputRec :=
  let outs := outputs.map (clones_init_masks mode_res)
  (List.range outs.length).map
    (fun i => { outs.getD i {} with possible_clones := find_clones outs i })

/-- Two outputs, each with one encoder: the encoder of the first (id 1) may be cloned
with the encoder at position 1, the encoder of the second (id 2) with none. -/
def clone_pair : List xf86OutputRec :=
  [ { name := "DP-1".toList,
      driver_private :=
        { output_id := 11, mode_output := some { connector_id := 11, encoders := [1] },
          mode_encoders := [{ encoder_id := 1, possible_clones := 2 }] } },
    { name := "DP-2".toList,
      driver_private :=
        { output_id := 12, mode_output := some { connector_id := 12, encoders := [2] },
          mode_encoders := [{ encoder_id := 2, possible_clones := 0 }] } } ]

/-- The resource listing for `clone_pair`: encoders 1 and 2. -/
def clone_pair_res : drmModeRes := { count_crtcs := 1, connectors := [11, 12], encoders := [1, 2] }
/-! ### A disable after a failed second enable -/

/-- The screen `offload_screen` after flipping was enabled on CRTC 0 with the pixmaps 5
and 7 and started: the present of the back pixmap succeeded and the page flip was
queued as event 1, so `flipping_active` is TRUE. -/
def offload_flipping : ScrnState :=
  (drmmode_InitSharedPixmapFlipping
    (drmmode_EnableSharedPixmapFlipping 0 { offload_screen with answers := [1, 64, 0] }
      0 5 7).2 0).2

/-- The screen `offload_flipping` after flipping was enabled again with the 200x200
pixmap 6 as front: the old front target was released and the resize of the screen
failed (the new front buffer could not be allocated), so the front target is null. -/
def offload_reenable_failed : ScrnState :=
  (drmmode_EnableSharedPixmapFlipping 0 offload_flipping 0 6 7).2
/-! ### The steps of a resize that come before the mode-sets -/

/-- A kernel with the connector 1 (`DP-1`), the connector 2 (`DP-2`, carrying a `PATH`
blob whose base connector 7 is not listed) and the connector 4294967295 (`DP-3`). -/
def apart_env : DrmEnv :=
  { twin_env with
    drmModeGetConnector := fun id =>
      if id = 1 then some { connector_id := 1, connector_type := 10, connector_type_id := 1 }
      else if id = 2 then
        some { connector_id := 2, connector_type := 10, connector_type_id := 2,
               props := [(7, 9)] }
      else if id = 4294967295 then
        some { connector_id := 4294967295, connector_type := 10, connector_type_id := 3 }
      else none }

/-- An output list whose only output is bound to the connector 5 and named `DP-2`. -/
def stale_outputs : OutputConfig :=
  { output := [{ name := "DP-2".toList, driver_private := { output_id := 5 } }],
    num_crtc := 1 }

/-- The first reconciliation of `stale_outputs` with the connectors 4294967295 and
2: the identifier -1 of the invalidated output reads as 4294967295. -/
def stale_first : OutputConfig :=
  drmmode_handle_uevents apart_env true
    (some { count_crtcs := 1, connectors := [4294967295, 2] }) stale_outputs

/-- The second reconciliation of `stale_outputs`, with the same connector set. -/
def stale_second : OutputConfig :=
  drmmode_handle_uevents apart_env true
    (some { count_crtcs := 1, connectors := [4294967295, 2] }) stale_first

/-! ## Mode conversion: round trip and name truncation -/

theorem toInt32_toU32 (x : Int) (h : IsInt32 x) : toInt32 (toU32 x) = x := by
  unfold IsInt32 at h
  unfold toInt32 toU32
  have h0 : (0 : Int) ≤ x % 4294967296 := Int.emod_nonneg _ (by norm_num)
  have h1 : x % 4294967296 < 4294967296 := Int.emod_lt_of_pos _ (by norm_num)
  have h2 : (((x % 4294967296).toNat % 4294967296 : Nat) : Int) = x % 4294967296 := by
    rw [Nat.mod_eq_of_lt (by omega)]
    exact Int.toNat_of_nonneg h0
  split_ifs with hc
  · rw [h2]
    have : (x % 4294967296).toNat % 4294967296 = (x % 4294967296).toNat :=
      Nat.mod_eq_of_lt (by omega)
    rw [this] at hc
    omega
  · rw [h2]
    have : (x % 4294967296).toNat % 4294967296 = (x % 4294967296).toNat :=
      Nat.mod_eq_of_lt (by omega)
    rw [this] at hc
    omega

theorem toU16_cast (x : Int) : ((toU16 x : Nat) : Int) = x % 65536 := by
  unfold toU16
  exact Int.toNat_of_nonneg (Int.emod_nonneg _ (by norm_num))

theorem toU16_lt (x : Int) : toU16 x < 65536 := by
  have h := toU16_cast x
  have h1 : x % 65536 < 65536 := Int.emod_lt_of_pos _ (by norm_num)
  omega

theorem ConvertFromKMode_fields (f : DisplayModeRec → Int → CrtcTimings) (adj : Int)
    (k : drmModeModeInfo) :
    let r := drmmode_ConvertFromKMode f adj k
    r.Clock = toInt32 k.clock ∧ r.Flags = toInt32 k.flags ∧
    r.HDisplay = k.hdisplay ∧ r.HSyncStart = k.hsync_start ∧ r.HSyncEnd = k.hsync_end ∧
    r.HTotal = k.htotal ∧ r.HSkew = k.hskew ∧ r.VDisplay = k.vdisplay ∧
    r.VSyncStart = k.vsync_start ∧ r.VSyncEnd = k.vsync_end ∧ r.VTotal = k.vtotal ∧
    r.VScan = k.vscan ∧ r.name = some (cstr k.name) ∧ r.status = MODE_OK := by
  simp only [drmmode_ConvertFromKMode]
  split_ifs <;> simp

theorem ConvertToKMode_fields (m : DisplayModeRec) :
    let k := drmmode_ConvertToKMode m
    k.clock = toU32 m.Clock ∧ k.flags = toU32 m.Flags ∧
    k.hdisplay = toU16 m.HDisplay ∧ k.hsync_start = toU16 m.HSyncStart ∧
    k.hsync_end = toU16 m.HSyncEnd ∧ k.htotal = toU16 m.HTotal ∧ k.hskew = toU16 m.HSkew ∧
    k.vdisplay = toU16 m.VDisplay ∧ k.vsync_start = toU16 m.VSyncStart ∧
    k.vsync_end = toU16 m.VSyncEnd ∧ k.vtotal = toU16 m.VTotal ∧ k.vscan = toU16 m.VScan ∧
    k.type = 0 ∧ k.vrefresh = 0 := by
  simp only [drmmode_ConvertToKMode]
  cases m.name <;> simp

/-- C2: converting an internal mode to the kernel descriptor and back gives back the
clock and the flags in all their 32 bits, and every timing field reduced to the
kernel's 16-bit field width (its low 16 bits, zero-extended); so a mode whose timing
fields fit the 16-bit kernel fields gets all twelve fields back unchanged. -/
theorem convert_roundtrip (f : DisplayModeRec → Int → CrtcTimings) (adj : Int)
    (m : DisplayModeRec) (h : m.WF) :
    let r := drmmode_ConvertFromKMode f adj (drmmode_ConvertToKMode m)
    (r.Clock = m.Clock ∧ r.Flags = m.Flags) ∧
    (r.HDisplay = m.HDisplay % 65536 ∧ r.HSyncStart = m.HSyncStart % 65536 ∧
     r.HSyncEnd = m.HSyncEnd % 65536 ∧ r.HTotal = m.HTotal % 65536 ∧
     r.HSkew = m.HSkew % 65536 ∧ r.VDisplay = m.VDisplay % 65536 ∧
     r.VSyncStart = m.VSyncStart % 65536 ∧ r.VSyncEnd = m.VSyncEnd % 65536 ∧
     r.VTotal = m.VTotal % 65536 ∧ r.VScan = m.VScan % 65536) ∧
    (m.FitsKernel →
      r.Clock = m.Clock ∧ r.HDisplay = m.HDisplay ∧ r.HSyncStart = m.HSyncStart ∧
      r.HSyncEnd = m.HSyncEnd ∧ r.HTotal = m.HTotal ∧ r.HSkew = m.HSkew ∧
      r.VDisplay = m.VDisplay ∧ r.VSyncStart = m.VSyncStart ∧ r.VSyncEnd = m.VSyncEnd ∧
      r.VTotal = m.VTotal ∧ r.VScan = m.VScan ∧ r.Flags = m.Flags) := by
  intro r
  obtain ⟨hc, hf, a1, a2, a3, a4, a5, a6, a7, a8, a9, a10, -, -⟩ :=
    ConvertFromKMode_fields f adj (drmmode_ConvertToKMode m)
  obtain ⟨kc, kf, b1, b2, b3, b4, b5, b6, b7, b8, b9, b10, -, -⟩ := ConvertToKMode_fields m
  obtain ⟨w1, -, -, -, -, -, -, -, -, -, -, w12⟩ := h
  have eC : r.Clock = m.Clock := by rw [hc, kc]; exact toInt32_toU32 _ w1
  have eF : r.Flags = m.Flags := by rw [hf, kf]; exact toInt32_toU32 _ w12
  have e1 : r.HDisplay = m.HDisplay % 65536 := by rw [a1, b1]; exact toU16_cast _
  have e2 : r.HSyncStart = m.HSyncStart % 65536 := by rw [a2, b2]; exact toU16_cast _
  have e3 : r.HSyncEnd = m.HSyncEnd % 65536 := by rw [a3, b3]; exact toU16_cast _
  have e4 : r.HTotal = m.HTotal % 65536 := by rw [a4, b4]; exact toU16_cast _
  have e5 : r.HSkew = m.HSkew % 65536 := by rw [a5, b5]; exact toU16_cast _
  have e6 : r.VDisplay = m.VDisplay % 65536 := by rw [a6, b6]; exact toU16_cast _
  have e7 : r.VSyncStart = m.VSyncStart % 65536 := by rw [a7, b7]; exact toU16_cast _
  have e8 : r.VSyncEnd = m.VSyncEnd % 65536 := by rw [a8, b8]; exact toU16_cast _
  have e9 : r.VTotal = m.VTotal % 65536 := by rw [a9, b9]; exact toU16_cast _
  have e10 : r.VScan = m.VScan % 65536 := by rw [a10, b10]; exact toU16_cast _
  refine ⟨⟨eC, eF⟩, ⟨e1, e2, e3, e4, e5, e6, e7, e8, e9, e10⟩, ?_⟩
  rintro ⟨g1, g2, g3, g4, g5, g6, g7, g8, g9, g10⟩
  refine ⟨eC, ?_, ?_, ?_, ?_, ?_, ?_, ?_, ?_, ?_, ?_, eF⟩
  · rw [e1]; exact Int.emod_eq_of_lt g1.1 g1.2
  · rw [e2]; exact Int.emod_eq_of_lt g2.1 g2.2
  · rw [e3]; exact Int.emod_eq_of_lt g3.1 g3.2
  · rw [e4]; exact Int.emod_eq_of_lt g4.1 g4.2
  · rw [e5]; exact Int.emod_eq_of_lt g5.1 g5.2
  · rw [e6]; exact Int.emod_eq_of_lt g6.1 g6.2
  · rw [e7]; exact Int.emod_eq_of_lt g7.1 g7.2
  · rw [e8]; exact Int.emod_eq_of_lt g8.1 g8.2
  · rw [e9]; exact Int.emod_eq_of_lt g9.1 g9.2
  · rw [e10]; exact Int.emod_eq_of_lt g10.1 g10.2

theorem mode_1080p_WF : mode_1080p.WF := by
  simp [DisplayModeRec.WF, IsInt32, mode_1080p]

theorem mode_1080p_FitsKernel : mode_1080p.FitsKernel := by
  simp [DisplayModeRec.FitsKernel, mode_1080p]

/-- Witness of C2 at the 1920x1080 mode: the mode is a well-formed descriptor that
fits the kernel fields, and its horizontal size survives the round trip. -/
theorem convert_roundtrip_witness :
    mode_1080p.WF ∧ mode_1080p.FitsKernel ∧
    (drmmode_ConvertFromKMode copyModeCrtc 0 (drmmode_ConvertToKMode mode_1080p)).HDisplay
      = mode_1080p.HDisplay :=
  ⟨mode_1080p_WF, mode_1080p_FitsKernel,
    ((convert_roundtrip copyModeCrtc 0 mode_1080p mode_1080p_WF).2.2
      mode_1080p_FitsKernel).2.1⟩

theorem cstr_of_IsCStr (s : List Nat) (hs : IsCStr s) : cstr s = s := by
  unfold cstr
  rw [List.takeWhile_eq_self_iff]
  intro b hb
  simpa using hs b hb

theorem cstr_append_zero (s rest : List Nat) (hs : IsCStr s) : cstr (s ++ 0 :: rest) = s := by
  unfold cstr
  rw [List.takeWhile_append_of_pos (by intro b hb; simpa using hs b hb)]
  simp

theorem strncpy_name_short (s : List Nat) (hs : IsCStr s) (hl : s.length ≤ 31) :
    (strncpy (List.replicate 32 0) s 32).set 31 0
      = s ++ List.replicate (32 - s.length) 0 := by
  unfold strncpy
  simp only [cstr_of_IsCStr s hs]
  have ht : List.take 32 s = s := List.take_of_length_le (by omega)
  rw [ht]
  simp only [List.drop_replicate, Nat.sub_self, List.replicate_zero, List.append_nil]
  rw [List.set_append_right _ _ (by omega)]
  congr 1
  apply List.ext_getElem?
  intro i
  simp only [List.getElem?_set, List.getElem?_replicate, List.length_replicate]
  split_ifs <;> first | rfl | omega

theorem strncpy_name_long (s : List Nat) (hs : IsCStr s) (hl : 32 ≤ s.length) :
    (strncpy (List.replicate 32 0) s 32).set 31 0 = s.take 31 ++ [0] := by
  unfold strncpy
  simp only [cstr_of_IsCStr s hs]
  have hlen : (List.take 32 s).length = 32 := by simp; omega
  simp only [hlen, List.drop_replicate, Nat.sub_self, List.replicate_zero, List.append_nil]
  apply List.ext_getElem?
  intro i
  simp only [List.getElem?_set, List.getElem?_append, List.getElem?_take, List.length_take]
  by_cases h31 : i = 31
  · subst h31
    have hm : min 31 s.length = 31 := by omega
    have hm2 : min 32 s.length = 32 := by omega
    simp [hm, hm2]
  · by_cases hlt : i < 31
    · have h1 : i < 32 := by omega
      have h2 : i < s.length := by omega
      have hm : min 31 s.length = 31 := by omega
      simp [Ne.symm h31, hlt, h1, h2, hm]
    · have h1 : ¬ (i < 32) := by omega
      have hm : min 31 s.length = 31 := by omega
      have h3 : i - 31 ≠ 0 := by omega
      simp [Ne.symm h31, h1, hlt, hm, h3]
      omega

theorem ConvertToKMode_name_some (m : DisplayModeRec) (s : List Nat) (h : m.name = some s) :
    (drmmode_ConvertToKMode m).name = (strncpy (List.replicate 32 0) s 32).set 31 0 := by
  simp [drmmode_ConvertToKMode, h, DRM_DISPLAY_MODE_LEN]

theorem ConvertToKMode_name_none (m : DisplayModeRec) (h : m.name = none) :
    (drmmode_ConvertToKMode m).name = List.replicate 32 0 := by
  simp only [drmmode_ConvertToKMode, h, DRM_DISPLAY_MODE_LEN]
  decide

/-- C3: the name field produced by `drmmode_ConvertToKMode` has `DRM_DISPLAY_MODE_LEN`
(32) bytes and its last byte is NUL, so the name is terminated inside the field; the
string it holds is the mode name itself when that has at most 31 bytes, the first 31
bytes of the mode name when that has 32 bytes or more, and the empty string when the
mode has no name. -/
theorem ConvertToKMode_name (m : DisplayModeRec) (hm : ∀ s, m.name = some s → IsCStr s) :
    let nm := (drmmode_ConvertToKMode m).name
    nm.length = DRM_DISPLAY_MODE_LEN ∧ nm[DRM_DISPLAY_MODE_LEN - 1]? = some 0 ∧
    (cstr nm).length ≤ DRM_DISPLAY_MODE_LEN - 1 ∧
    (∀ s, m.name = some s →
      (s.length ≤ 31 → cstr nm = s) ∧ (32 ≤ s.length → cstr nm = s.take 31)) ∧
    (m.name = none → cstr nm = []) := by
  intro nm
  have key : nm.length = 32 ∧ nm[31]? = some 0 ∧ (cstr nm).length ≤ 31 ∧
      (∀ s, m.name = some s →
        (s.length ≤ 31 → cstr nm = s) ∧ (32 ≤ s.length → cstr nm = s.take 31)) ∧
      (m.name = none → cstr nm = []) := by
    cases hn : m.name with
    | none =>
      have e : nm = List.replicate 32 0 := ConvertToKMode_name_none m hn
      rw [e]
      refine ⟨by simp, by decide, by decide, ?_, fun _ => by decide⟩
      intro s hs
      exact absurd hs (by simp)
    | some s =>
      have hs : IsCStr s := hm s hn
      have e : nm = (strncpy (List.replicate 32 0) s 32).set 31 0 :=
        ConvertToKMode_name_some m s hn
      have hshort : s.length ≤ 31 → cstr nm = s := by
        intro hl
        rw [e, strncpy_name_short s hs hl]
        have : List.replicate (32 - s.length) 0 = 0 :: List.replicate (31 - s.length) 0 := by
          have : 32 - s.length = (31 - s.length) + 1 := by omega
          rw [this, List.replicate_succ]
        rw [this]
        exact cstr_append_zero s _ hs
      have hlong : 32 ≤ s.length → cstr nm = s.take 31 := by
        intro hl
        rw [e, strncpy_name_long s hs hl]
        exact cstr_append_zero _ [] (fun b hb => hs b (List.mem_of_mem_take hb))
      have hlen : nm.length = 32 := by
        rw [e]
        simp only [List.length_set, strncpy, List.length_append, List.length_take,
          List.length_replicate, List.length_drop]
        omega
      have h31 : nm[31]? = some 0 := by
        rw [e, List.getElem?_set_self]
        have : (strncpy (List.replicate 32 0) s 32).length = 32 := by
          rw [← List.length_set (strncpy (List.replicate 32 0) s 32) 31 0, ← e]; exact hlen
        omega
      refine ⟨hlen, h31, ?_, ?_, fun h => by simp at h⟩
      · by_cases hl : s.length ≤ 31
        · rw [hshort hl]; exact hl
        · rw [hlong (by omega)]; simp
      · intro t ht
        have : t = s := by simpa using ht.symm
        subst this
        exact ⟨hshort, hlong⟩
  simpa [DRM_DISPLAY_MODE_LEN] using key

/-- Witness of C3 at the 1920x1080 mode, whose name "1920x1080" has nine bytes. -/
theorem ConvertToKMode_name_witness :
    (∀ s, mode_1080p.name = some s → IsCStr s) ∧
    cstr (drmmode_ConvertToKMode mode_1080p).name = [49, 57, 50, 48, 120, 49, 48, 56, 48] := by
  have h : ∀ s, mode_1080p.name = some s → IsCStr s := by
    intro s hs
    have : s = [49, 57, 50, 48, 120, 49, 48, 56, 48] := by
      simpa [mode_1080p] using hs.symm
    subst this
    intro b hb
    simp at hb
    omega
  exact ⟨h, ((ConvertToKMode_name mode_1080p h).2.2.2.1 _ rfl).1 (by decide)⟩

/-! ## Buffer-object destruction -/

/-- C4 (counterexample): when the kernel free call fails (here with `-EBUSY`), the
buffer object still refers to its simple backend after `drmmode_bo_destroy`. -/
theorem bo_destroy_keeps_dumb_on_failure :
    ¬ ((drmmode_bo_destroy { GLAMOR := true, GLAMOR_HAS_GBM := true } (-16)
          { dumb := 1, gbm := 0 }).bo.dumb = 0 ∧
       (drmmode_bo_destroy { GLAMOR := true, GLAMOR_HAS_GBM := true } (-16)
          { dumb := 1, gbm := 0 }).bo.gbm = 0) := by
  decide

/-- C4, amended: for every buffer object whose backend pointers are valid (also one
with no backend at all) and every outcome of the two kernel free calls, destroying it
twice makes no free call on a released object, both calls return 0, the GPU-native
field is null after the first call, and the simple field is null after a call
whenever it was null before or the kernel free succeeded; when the kernel free fails
the simple backend reference is kept. -/
theorem bo_destroy_twice (cfg : BuildConfig) (h : BoHeap) (bo : drmmode_bo) (r1 r2 : Int)
    (hwf : bo.WF cfg h) :
    let d1 := drmmode_bo_destroy cfg r1 bo
    let d2 := drmmode_bo_destroy cfg r2 d1.bo
    (h.run (d1.calls ++ d2.calls)).isSome = true ∧ d1.ret = 0 ∧ d2.ret = 0 ∧
    d1.bo.gbm = 0 ∧ (bo.dumb = 0 ∨ r1 = 0 → d1.bo.dumb = 0) ∧
    (r1 ≠ 0 → d1.bo.dumb = bo.dumb) ∧
    d2.bo.gbm = 0 ∧ (d1.bo.dumb = 0 ∨ r2 = 0 → d2.bo.dumb = 0) := by
  obtain ⟨hd, hg, hc⟩ := hwf
  rcases bo with ⟨dumb, gbm⟩
  simp only at hd hg hc
  by_cases c : cfg.GLAMOR_HAS_GBM = true
  · by_cases g : gbm = 0 <;> by_cases d : dumb = 0 <;> by_cases e1 : r1 = 0 <;>
      by_cases e2 : r2 = 0 <;>
      simp [drmmode_bo_destroy, BoHeap.run, BoHeap.step, c, g, d, e1, e2, hd, hg]
  · have c2 : cfg.GLAMOR_HAS_GBM = false := by simpa using c
    have g : gbm = 0 := hc c2
    by_cases d : dumb = 0 <;> by_cases e1 : r1 = 0 <;> by_cases e2 : r2 = 0 <;>
      simp [drmmode_bo_destroy, BoHeap.run, BoHeap.step, c2, g, d, e1, e2, hd]

/-- Witness of the amended C4: a buffer object with a live simple backend, a kernel
free that fails the first time and succeeds the second time. -/
theorem bo_destroy_twice_witness :
    (drmmode_bo.WF { GLAMOR := true, GLAMOR_HAS_GBM := true } { dumb := [1], gbm := [] }
        { dumb := 1, gbm := 0 }) ∧
    (drmmode_bo_destroy { GLAMOR := true, GLAMOR_HAS_GBM := true } 0
      (drmmode_bo_destroy { GLAMOR := true, GLAMOR_HAS_GBM := true } (-16)
        { dumb := 1, gbm := 0 }).bo).bo.dumb = 0 :=
  have hwf : drmmode_bo.WF { GLAMOR := true, GLAMOR_HAS_GBM := true }
      { dumb := [1], gbm := [] } { dumb := 1, gbm := 0 } := by
    simp [drmmode_bo.WF]
  ⟨hwf, (bo_destroy_twice _ _ _ (-16) 0 hwf).2.2.2.2.2.2.2 (Or.inr rfl)⟩

/-! ## The cursor downgrade is global and one-way -/

theorem set_cursor_basic_flag (c : CursorCall) (s : CursorState) :
    (drmmode_set_cursor_basic c s).2.use_set_cursor2 = s.use_set_cursor2 ∧
    (drmmode_set_cursor_basic c s).2.trace
      = s.trace ++ [Call.drmModeSetCursor c.crtc_id c.handle c.ret] := by
  unfold drmmode_set_cursor_basic
  split_ifs <;> simp

theorem set_cursor_downgraded (c : CursorCall) (s : CursorState)
    (h : s.use_set_cursor2 = false) :
    (drmmode_set_cursor c s).2.use_set_cursor2 = false ∧
    (drmmode_set_cursor c s).2.trace
      = s.trace ++ [Call.drmModeSetCursor c.crtc_id c.handle c.ret] := by
  unfold drmmode_set_cursor
  simp only [h, Bool.false_eq_true, if_false]
  have := set_cursor_basic_flag c s
  rw [h] at this
  exact this

theorem run_set_cursor_downgraded (cs : List CursorCall) (s : CursorState)
    (h : s.use_set_cursor2 = false) :
    (run_set_cursor s cs).trace
      = s.trace ++ cs.map (fun d => Call.drmModeSetCursor d.crtc_id d.handle d.ret) := by
  induction cs generalizing s with
  | nil => simp [run_set_cursor]
  | cons c cs ih =>
    obtain ⟨h1, h2⟩ := set_cursor_downgraded c s h
    simp only [run_set_cursor, List.map_cons]
    rw [ih _ h1, h2, List.append_assoc]
    rfl

theorem run_set_cursor_append (pre post : List CursorCall) (s : CursorState) :
    run_set_cursor s (pre ++ post) = run_set_cursor (run_set_cursor s pre) post := by
  induction pre generalizing s with
  | nil => rfl
  | cons c cs ih => exact ih _

theorem set_cursor_failure_clears_flag (c : CursorCall) (s : CursorState)
    (h : s.use_set_cursor2 = true) (hf : c.ret2 ≠ 0) :
    (drmmode_set_cursor c s).2.use_set_cursor2 = false := by
  unfold drmmode_set_cursor
  simp only [h, if_true, hf, if_false]
  exact (set_cursor_basic_flag c _).1

/-- C6: in any sequence of `drmmode_set_cursor` calls, whatever the CRTCs, once a call
`c` has tried the extended variant (the flag was still set) and seen it fail, every
later call `d` of the sequence makes exactly one kernel call, the basic variant
`drmModeSetCursor`; the extended variant `drmModeSetCursor2` is not invoked again. -/
theorem set_cursor2_never_retried (s : CursorState) (pre post : List CursorCall)
    (c : CursorCall) (hflag : (run_set_cursor s pre).use_set_cursor2 = true)
    (hfail : c.ret2 ≠ 0) :
    (run_set_cursor s (pre ++ c :: post)).trace
      = (run_set_cursor s (pre ++ [c])).trace
          ++ post.map (fun d => Call.drmModeSetCursor d.crtc_id d.handle d.ret) ∧
    (∀ id h r, Call.drmModeSetCursor2 id h r ∉
      post.map (fun d => Call.drmModeSetCursor d.crtc_id d.handle d.ret)) ∧
    (run_set_cursor s (pre ++ c :: post)).use_set_cursor2 = false := by
  have e1 : run_set_cursor s (pre ++ c :: post)
      = run_set_cursor (run_set_cursor s (pre ++ [c])) post := by
    rw [← run_set_cursor_append]; simp
  have e2 : run_set_cursor s (pre ++ [c])
      = (drmmode_set_cursor c (run_set_cursor s pre)).2 := by
    rw [run_set_cursor_append]; rfl
  have hoff : (run_set_cursor s (pre ++ [c])).use_set_cursor2 = false := by
    rw [e2]; exact set_cursor_failure_clears_flag c _ hflag hfail
  refine ⟨?_, ?_, ?_⟩
  · rw [e1]; exact run_set_cursor_downgraded post _ hoff
  · intro id h r hmem
    simp at hmem
  · rw [e1]
    clear e1 e2
    generalize run_set_cursor s (pre ++ [c]) = t at hoff
    induction post generalizing t with
    | nil => exact hoff
    | cons d ds ih => exact ih _ (set_cursor_downgraded d t hoff).1

/-- Witness of C6: a fresh process, a call for CRTC 40 whose extended variant fails
with `-EINVAL`, then calls for CRTC 41 and CRTC 40. -/
theorem set_cursor2_never_retried_witness :
    (run_set_cursor { MaxWidth := 64, MaxHeight := 64, sw_cursor := false }
      ([] ++ { crtc_id := 40, handle := 7, ret2 := -22, ret := 0 } ::
        [{ crtc_id := 41, handle := 8, ret2 := 0, ret := 0 },
         { crtc_id := 40, handle := 7, ret2 := 0, ret := 0 }])).trace
      = [Call.drmModeSetCursor2 40 7 (-22), Call.drmModeSetCursor 40 7 0,
         Call.drmModeSetCursor 41 8 0, Call.drmModeSetCursor 40 7 0] := by
  have h := (set_cursor2_never_retried
    { MaxWidth := 64, MaxHeight := 64, sw_cursor := false } []
    [{ crtc_id := 41, handle := 8, ret2 := 0, ret := 0 },
     { crtc_id := 40, handle := 7, ret2 := 0, ret := 0 }]
    { crtc_id := 40, handle := 7, ret2 := -22, ret := 0 } rfl (by decide)).1
  rw [h]
  decide

/-! ## Hot-plug reconciliation -/

/-- C7: when the kernel resource listing of a hot-plug event reports a CRTC count
different from the number of CRTCs initialised, `drmmode_handle_uevents` leaves the
output list exactly as it was (no output added or invalidated, no identifier or
cached descriptor changed), and the only calls it makes are the log message and the
closing `RRGetInfo`: it signals no configuration change (`RRSetChanged`,
`RRTellChanged`), queries no connector and frees none. -/
theorem handle_uevents_crtc_mismatch (env : DrmEnv) (s : OutputConfig) (r : drmModeRes)
    (h : r.count_crtcs ≠ s.num_crtc) :
    (drmmode_handle_uevents env true (some r) s).output = s.output ∧
    (drmmode_handle_uevents env true (some r) s).num_crtc = s.num_crtc ∧
    (drmmode_handle_uevents env true (some r) s).trace
      = s.trace ++ [Call.ErrorF, Call.RRGetInfo] ∧
    Call.RRSetChanged ∉ [Call.ErrorF, Call.RRGetInfo] ∧
    Call.RRTellChanged ∉ [Call.ErrorF, Call.RRGetInfo] := by
  simp [drmmode_handle_uevents, h, OutputConfig.emit]

/-- Witness of C7: initialisation saw 2 CRTCs, the event reports 3. -/
theorem handle_uevents_crtc_mismatch_witness :
    (drmmode_handle_uevents twin_env true (some { count_crtcs := 3, connectors := [1, 2] })
      { output := [{ name := "DP-1".toList, driver_private := { output_id := 5 } }],
        num_crtc := 2 }).output
      = [{ name := "DP-1".toList, driver_private := { output_id := 5 } }] :=
  (handle_uevents_crtc_mismatch twin_env
    { output := [{ name := "DP-1".toList, driver_private := { output_id := 5 } }],
      num_crtc := 2 }
    { count_crtcs := 3, connectors := [1, 2] } (by decide)).1

theorem toU32_toInt32 (c : Nat) (h : c < 4294967296) : toU32 (toInt32 c) = c := by
  unfold toU32 toInt32
  rw [Nat.mod_eq_of_lt h]
  split_ifs with h1
  · have : ((c : Int) % 4294967296) = c := Int.emod_eq_of_lt (by omega) (by omega)
    rw [this]; simp
  · have : (((c : Int) - 4294967296) % 4294967296) = c := by
      rw [Int.sub_emod, Int.emod_self, sub_zero, Int.emod_emod_of_dvd _ (dvd_refl _)]
      exact Int.emod_eq_of_lt (by omega) (by omega)
    rw [this]; simp

theorem uevents_invalidate_settled (r : drmModeRes) (outs : List xf86OutputRec) :
    ∀ o ∈ (uevents_invalidate r outs).1, Settled r o := by
  induction outs with
  | nil => simp [uevents_invalidate]
  | cons o rest ih =>
    intro x hx
    simp only [uevents_invalidate] at hx
    split_ifs at hx with hf
    · simp only [List.mem_cons] at hx
      rcases hx with rfl | hx
      · exact Or.inl hf
      · exact ih x hx
    · simp only [List.mem_cons] at hx
      rcases hx with rfl | hx
      · exact Or.inr ⟨rfl, rfl⟩
      · exact ih x hx

theorem reuse_output_settled (r : drmModeRes) (name : List Char) (id : Nat)
    (k : drmModeConnector) (hid : id ∈ r.connectors) (hlt : id < 4294967296)
    (outs res : List xf86OutputRec) (h : ∀ o ∈ outs, Settled r o)
    (hr : reuse_output name id k outs = some res) : ∀ o ∈ res, Settled r o := by
  induction outs generalizing res with
  | nil => simp [reuse_output] at hr
  | cons o rest ih =>
    simp only [reuse_output] at hr
    split_ifs at hr with hn
    · simp only [Option.some.injEq] at hr
      subst hr
      intro x hx
      simp only [List.mem_cons] at hx
      rcases hx with rfl | hx
      · left
        simp only [List.any_eq_true, decide_eq_true_eq]
        exact ⟨id, hid, (toU32_toInt32 id hlt).symm⟩
      · exact h x (List.mem_cons_of_mem _ hx)
    · cases hrest : reuse_output name id k rest with
      | none => simp [hrest] at hr
      | some rr =>
        simp only [hrest, Option.map_some', Option.some.injEq] at hr
        subst hr
        intro x hx
        simp only [List.mem_cons] at hx
        rcases hx with rfl | hx
        · exact h x (List.mem_cons_self _ _)
        · exact ih rr (fun y hy => h y (List.mem_cons_of_mem _ hy)) hrest x hx

theorem output_init_create_id (env : DrmEnv) (id : Nat) (k : drmModeConnector)
    (name : List Char) (num : Nat) (dyn : Bool) (sh : Nat) (o : xf86OutputRec)
    (h : output_init_create env id k name num dyn sh = some o) :
    o.driver_private.output_id = toInt32 id := by
  unfold output_init_create at h
  by_cases h1 : env.calloc_kencoders id = false
  · simp [h1] at h
  · simp only [h1, if_false] at h
    cases hg : get_encoders env k.encoders with
    | none => simp [hg] at h
    | some ks =>
      simp only [hg] at h
      split_ifs at h
      all_goals (simp only [Option.some.injEq] at h; rw [← h])

theorem output_init_cases (env : DrmEnv) (s : OutputConfig) (r : drmModeRes) (i : Nat)
    (dyn : Bool) (sh : Nat) :
    (drmmode_output_init env s r i dyn sh).2.output = s.output ∨
    (∃ name k, reuse_output name (r.connectors.getD i 0) k s.output
        = some (drmmode_output_init env s r i dyn sh).2.output) ∨
    (∃ o, o.driver_private.output_id = toInt32 (r.connectors.getD i 0) ∧
        (drmmode_output_init env s r i dyn sh).2.output = s.output ++ [o]) := by
  unfold drmmode_output_init
  simp only [OutputConfig.emit]
  cases hk : env.drmModeGetConnector (r.connectors.getD i 0) with
  | none => left; rfl
  | some k =>
    simp only
    cases hre : (if (find_path_blob env k.props).isSome = true ∧ dyn = true then
        reuse_output (drmmode_create_name env s.output k (find_path_blob env k.props))
          (r.connectors.getD i 0) k s.output else none) with
    | some outs =>
      right; left
      split_ifs at hre with hc
      exact ⟨_, _, hre⟩
    | none =>
      simp only
      cases hn : output_init_create env (r.connectors.getD i 0) k
          (drmmode_create_name env s.output k (find_path_blob env k.props)) i dyn sh with
      | none => left; rfl
      | some o =>
        right; right
        refine ⟨o, output_init_create_id _ _ _ _ _ _ _ _ hn, ?_⟩
        simp only
        split_ifs <;> rfl

theorem output_init_settled (env : DrmEnv) (s : OutputConfig) (r : drmModeRes) (i : Nat)
    (dyn : Bool) (sh : Nat) (hi : i < r.connectors.length)
    (hw : ∀ c ∈ r.connectors, c < 4294967296) (h : ∀ o ∈ s.output, Settled r o) :
    ∀ o ∈ (drmmode_output_init env s r i dyn sh).2.output, Settled r o := by
  have hmem : r.connectors.getD i 0 ∈ r.connectors := by
    rw [List.getD_eq_getElem _ _ hi]; exact List.getElem_mem _
  have hlt := hw _ hmem
  rcases output_init_cases env s r i dyn sh with h1 | ⟨name, k, h2⟩ | ⟨o, ho, h3⟩
  · rw [h1]; exact h
  · exact reuse_output_settled r _ _ _ hmem hlt _ _ h h2
  · rw [h3]
    intro x hx
    simp only [List.mem_append, List.mem_singleton] at hx
    rcases hx with hx | rfl
    · exact h x hx
    · left
      simp only [List.any_eq_true, decide_eq_true_eq]
      exact ⟨_, hmem, by rw [ho, toU32_toInt32 _ hlt]⟩

theorem uevents_discover_settled (env : DrmEnv) (r : drmModeRes)
    (hw : ∀ c ∈ r.connectors, c < 4294967296) (l : List Nat)
    (hl : ∀ i ∈ l, i < r.connectors.length) (acc : Bool × OutputConfig)
    (h : ∀ o ∈ acc.2.output, Settled r o) :
    ∀ o ∈ (l.foldl (uevents_discover_one env r) acc).2.output, Settled r o := by
  induction l generalizing acc with
  | nil => exact h
  | cons i rest ih =>
    simp only [List.foldl_cons]
    apply ih (fun j hj => hl j (List.mem_cons_of_mem _ hj))
    simp only [uevents_discover_one]
    split_ifs
    · exact h
    · exact output_init_settled env _ r i true 0 (hl i (List.mem_cons_self _ _)) hw h

theorem uevents_discover_fixed (env : DrmEnv) (r : drmModeRes) (l : List Nat)
    (hl : ∀ i ∈ l, i < r.connectors.length) (acc : Bool × OutputConfig)
    (H : ∀ c ∈ r.connectors,
      acc.2.output.any (fun o => c = toU32 o.driver_private.output_id) = true ∨
      env.drmModeGetConnector c = none) :
    (l.foldl (uevents_discover_one env r) acc).2.output = acc.2.output := by
  induction l generalizing acc with
  | nil => rfl
  | cons i rest ih =>
    simp only [List.foldl_cons]
    have hi := hl i (List.mem_cons_self _ _)
    have hmem : r.connectors.getD i 0 ∈ r.connectors := by
      rw [List.getD_eq_getElem _ _ hi]; exact List.getElem_mem _
    have hstep : (uevents_discover_one env r acc i).2.output = acc.2.output := by
      simp only [uevents_discover_one]
      split_ifs with hf
      · rfl
      · rcases H _ hmem with h1 | h1
        · exact absurd h1 hf
        · simp only [drmmode_output_init, h1, OutputConfig.emit]
    rw [ih (fun j hj => hl j (List.mem_cons_of_mem _ hj)) _ (by rw [hstep]; exact H), hstep]

theorem handle_uevents_output (env : DrmEnv) (r : drmModeRes) (s : OutputConfig)
    (hc : r.count_crtcs = s.num_crtc) :
    (drmmode_handle_uevents env true (some r) s).output
      = (uevents_discover env r ((uevents_invalidate r s.output).2.1,
          { s with output := (uevents_invalidate r s.output).1,
                   trace := s.trace ++ (uevents_invalidate r s.output).2.2 })).2.output := by
  simp only [drmmode_handle_uevents, hc, OutputConfig.emit]
  simp only [Bool.true_eq_false, if_false, ne_eq, not_true_eq_false]
  split_ifs <;> rfl

@[simp] theorem setCrtc_crtc_same (s : ScrnState) (c : Nat) (v : xf86CrtcRec) :
    (s.setCrtc c v).crtc c = v := by
  simp [ScrnState.setCrtc]

theorem set_mode_major_done_fst (s : ScrnState) (crtc : Nat) (ret : Bool) (saved : xf86CrtcRec) :
    (set_mode_major_done s crtc ret saved).1 = ret := by
  unfold set_mode_major_done
  split_ifs <;> rfl

theorem set_mode_major_done_restore (s : ScrnState) (crtc : Nat) (saved : xf86CrtcRec) :
    ((set_mode_major_done s crtc false saved).2.crtc crtc).mode = saved.mode ∧
    ((set_mode_major_done s crtc false saved).2.crtc crtc).x = saved.x ∧
    ((set_mode_major_done s crtc false saved).2.crtc crtc).y = saved.y ∧
    ((set_mode_major_done s crtc false saved).2.crtc crtc).rotation = saved.rotation := by
  simp [set_mode_major_done]

theorem set_mode_major_body_rollback (hook : ScrnState → xf86OutputRec → Int → ScrnState)
    (s : ScrnState) (crtc : Nat) (mode : Option DisplayModeRec) (rotation : Nat) (x y : Int)
    (h : (set_mode_major_body hook s crtc mode rotation x y).1 = false) :
    ((set_mode_major_body hook s crtc mode rotation x y).2.crtc crtc).mode = (s.crtc crtc).mode ∧
    ((set_mode_major_body hook s crtc mode rotation x y).2.crtc crtc).x = (s.crtc crtc).x ∧
    ((set_mode_major_body hook s crtc mode rotation x y).2.crtc crtc).y = (s.crtc crtc).y ∧
    ((set_mode_major_body hook s crtc mode rotation x y).2.crtc crtc).rotation
      = (s.crtc crtc).rotation := by
  unfold set_mode_major_body at h ⊢
  simp only at h ⊢
  rw [set_mode_major_done_fst] at h
  rw [h]
  exact set_mode_major_done_restore _ _ _

/-- C1: whenever `drmmode_set_mode_major` returns FALSE (the output-id array could not
be allocated, the framebuffer could not be created, or the kernel rejected the
mode-set), `crtc.mode`, `crtc.x`, `crtc.y` and `crtc.rotation` are what they were
before the call. -/
theorem set_mode_major_rollback (depth : Nat) (s : ScrnState) (crtc : Nat)
    (mode : Option DisplayModeRec) (rotation : Nat) (x y : Int)
    (h : (drmmode_set_mode_major depth s crtc mode rotation x y).1 = false) :
    ((drmmode_set_mode_major depth s crtc mode rotation x y).2.crtc crtc).mode
      = (s.crtc crtc).mode ∧
    ((drmmode_set_mode_major depth s crtc mode rotation x y).2.crtc crtc).x = (s.crtc crtc).x ∧
    ((drmmode_set_mode_major depth s crtc mode rotation x y).2.crtc crtc).y = (s.crtc crtc).y ∧
    ((drmmode_set_mode_major depth s crtc mode rotation x y).2.crtc crtc).rotation
      = (s.crtc crtc).rotation := by
  cases depth with
  | zero => exact set_mode_major_body_rollback _ s crtc mode rotation x y h
  | succ n => exact set_mode_major_body_rollback _ s crtc mode rotation x y h

/-- Witness of C1: the kernel rejects the mode-set of CRTC 0 to 1920x1080 at (10, 20)
with -22; the call returns FALSE and the CRTC is back at (3, 4) with its old mode. -/
theorem set_mode_major_rollback_witness :
    (drmmode_set_mode_major 1 modeset_rejected 0 (some mode_1080p) 1 10 20).1 = false ∧
    ((drmmode_set_mode_major 1 modeset_rejected 0 (some mode_1080p) 1 10 20).2.crtc 0).mode
      = (modeset_rejected.crtc 0).mode ∧
    ((drmmode_set_mode_major 1 modeset_rejected 0 (some mode_1080p) 1 10 20).2.crtc 0).x = 3 ∧
    ((drmmode_set_mode_major 1 modeset_rejected 0 (some mode_1080p) 1 10 20).2.crtc 0).y = 4 ∧
    ((drmmode_set_mode_major 1 modeset_rejected 0 (some mode_1080p) 1 10 20).2.crtc 0).rotation
      = (modeset_rejected.crtc 0).rotation :=
  ⟨by decide, set_mode_major_rollback 1 modeset_rejected 0 (some mode_1080p) 1 10 20 (by decide)⟩

/-! ## What the flipping code leaves alone -/

@[simp] theorem ask_crtc (s : ScrnState) : s.ask.2.crtc = s.crtc := by
  unfold ScrnState.ask; split <;> rfl

@[simp] theorem ask_pixmap (s : ScrnState) : s.ask.2.pixmap = s.pixmap := by
  unfold ScrnState.ask; split <;> rfl

@[simp] theorem ask_queue (s : ScrnState) : s.ask.2.ms_drm_queue = s.ms_drm_queue := by
  unfold ScrnState.ask; split <;> rfl

@[simp] theorem ask_seq (s : ScrnState) : s.ask.2.ms_drm_seq = s.ms_drm_seq := by
  unfold ScrnState.ask; split <;> rfl

@[simp] theorem ask_drmmode (s : ScrnState) : s.ask.2.drmmode = s.drmmode := by
  unfold ScrnState.ask; split <;> rfl

@[simp] theorem ask_output (s : ScrnState) : s.ask.2.output = s.output := by
  unfold ScrnState.ask; split <;> rfl

@[simp] theorem ask_trace (s : ScrnState) : s.ask.2.trace = s.trace := by
  unfold ScrnState.ask; split <;> rfl

@[simp] theorem ask_flag (s : ScrnState) :
    s.ask.2.has_RequestSharedPixmapNotifyDamage = s.has_RequestSharedPixmapNotifyDamage := by
  unfold ScrnState.ask; split <;> rfl

@[simp] theorem ask_priv (s : ScrnState) (c : Nat) : s.ask.2.priv c = s.priv c := by
  simp [ScrnState.priv]

@[simp] theorem ask_ppriv (s : ScrnState) (p : Nat) : s.ask.2.ppriv p = s.ppriv p := by
  simp [ScrnState.ppriv]

@[simp] theorem emit_crtc (s : ScrnState) (c : Call) : (s.emit c).crtc = s.crtc := rfl
@[simp] theorem emit_pixmap (s : ScrnState) (c : Call) : (s.emit c).pixmap = s.pixmap := rfl
@[simp] theorem emit_queue (s : ScrnState) (c : Call) :
    (s.emit c).ms_drm_queue = s.ms_drm_queue := rfl
@[simp] theorem emit_seq (s : ScrnState) (c : Call) : (s.emit c).ms_drm_seq = s.ms_drm_seq := rfl
@[simp] theorem emit_drmmode (s : ScrnState) (c : Call) : (s.emit c).drmmode = s.drmmode := rfl
@[simp] theorem emit_output (s : ScrnState) (c : Call) : (s.emit c).output = s.output := rfl
@[simp] theorem emit_trace (s : ScrnState) (c : Call) : (s.emit c).trace = s.trace ++ [c] := rfl
@[simp] theorem emit_answers (s : ScrnState) (c : Call) : (s.emit c).answers = s.answers := rfl
@[simp] theorem emit_flag (s : ScrnState) (c : Call) :
    (s.emit c).has_RequestSharedPixmapNotifyDamage = s.has_RequestSharedPixmapNotifyDamage := rfl
@[simp] theorem emit_priv (s : ScrnState) (c : Call) (k : Nat) : (s.emit c).priv k = s.priv k := rfl
@[simp] theorem emit_ppriv (s : ScrnState) (c : Call) (p : Nat) :
    (s.emit c).ppriv p = s.ppriv p := rfl

@[simp] theorem setPpriv_crtc (s : ScrnState) (p : Nat) (v : msPixmapPrivRec) :
    (s.setPpriv p v).crtc = s.crtc := rfl
@[simp] theorem setPpriv_queue (s : ScrnState) (p : Nat) (v : msPixmapPrivRec) :
    (s.setPpriv p v).ms_drm_queue = s.ms_drm_queue := rfl
@[simp] theorem setPpriv_seq (s : ScrnState) (p : Nat) (v : msPixmapPrivRec) :
    (s.setPpriv p v).ms_drm_seq = s.ms_drm_seq := rfl
@[simp] theorem setPpriv_drmmode (s : ScrnState) (p : Nat) (v : msPixmapPrivRec) :
    (s.setPpriv p v).drmmode = s.drmmode := rfl
@[simp] theorem setPpriv_output (s : ScrnState) (p : Nat) (v : msPixmapPrivRec) :
    (s.setPpriv p v).output = s.output := rfl
@[simp] theorem setPpriv_trace (s : ScrnState) (p : Nat) (v : msPixmapPrivRec) :
    (s.setPpriv p v).trace = s.trace := rfl
@[simp] theorem setPpriv_answers (s : ScrnState) (p : Nat) (v : msPixmapPrivRec) :
    (s.setPpriv p v).answers = s.answers := rfl
@[simp] theorem setPpriv_flag (s : ScrnState) (p : Nat) (v : msPixmapPrivRec) :
    (s.setPpriv p v).has_RequestSharedPixmapNotifyDamage
      = s.has_RequestSharedPixmapNotifyDamage := rfl
@[simp] theorem setPpriv_priv (s : ScrnState) (p : Nat) (v : msPixmapPrivRec) (k : Nat) :
    (s.setPpriv p v).priv k = s.priv k := rfl
@[simp] theorem setPpriv_ppriv_same (s : ScrnState) (p : Nat) (v : msPixmapPrivRec) :
    (s.setPpriv p v).ppriv p = v := by
  simp [ScrnState.setPpriv, ScrnState.ppriv]
theorem setPpriv_ppriv_ne (s : ScrnState) (p q : Nat) (v : msPixmapPrivRec) (h : q ≠ p) :
    (s.setPpriv p v).ppriv q = s.ppriv q := by
  simp [ScrnState.setPpriv, ScrnState.ppriv, Function.update_noteq h]

@[simp] theorem setPriv_pixmap (s : ScrnState) (c : Nat) (v : drmmode_crtc_private_rec) :
    (s.setPriv c v).pixmap = s.pixmap := rfl
@[simp] theorem setPriv_ppriv (s : ScrnState) (c : Nat) (v : drmmode_crtc_private_rec)
    (p : Nat) : (s.setPriv c v).ppriv p = s.ppriv p := rfl
@[simp] theorem setPriv_queue (s : ScrnState) (c : Nat) (v : drmmode_crtc_private_rec) :
    (s.setPriv c v).ms_drm_queue = s.ms_drm_queue := rfl
@[simp] theorem setPriv_seq (s : ScrnState) (c : Nat) (v : drmmode_crtc_private_rec) :
    (s.setPriv c v).ms_drm_seq = s.ms_drm_seq := rfl
@[simp] theorem setPriv_drmmode (s : ScrnState) (c : Nat) (v : drmmode_crtc_private_rec) :
    (s.setPriv c v).drmmode = s.drmmode := rfl
@[simp] theorem setPriv_output (s : ScrnState) (c : Nat) (v : drmmode_crtc_private_rec) :
    (s.setPriv c v).output = s.output := rfl
@[simp] theorem setPriv_trace (s : ScrnState) (c : Nat) (v : drmmode_crtc_private_rec) :
    (s.setPriv c v).trace = s.trace := rfl
@[simp] theorem setPriv_answers (s : ScrnState) (c : Nat) (v : drmmode_crtc_private_rec) :
    (s.setPriv c v).answers = s.answers := rfl
@[simp] theorem setPriv_flag (s : ScrnState) (c : Nat) (v : drmmode_crtc_private_rec) :
    (s.setPriv c v).has_RequestSharedPixmapNotifyDamage
      = s.has_RequestSharedPixmapNotifyDamage := rfl
@[simp] theorem setPriv_priv_same (s : ScrnState) (c : Nat) (v : drmmode_crtc_private_rec) :
    (s.setPriv c v).priv c = v := by
  simp [ScrnState.setPriv, ScrnState.priv, ScrnState.setCrtc]
theorem setPriv_priv_ne (s : ScrnState) (c k : Nat) (v : drmmode_crtc_private_rec)
    (h : k ≠ c) : (s.setPriv c v).priv k = s.priv k := by
  simp [ScrnState.setPriv, ScrnState.priv, ScrnState.setCrtc, Function.update_noteq h]

@[simp] theorem setDrmmode_crtc (s : ScrnState) (v : drmmode_rec) :
    (s.setDrmmode v).crtc = s.crtc := rfl
@[simp] theorem setDrmmode_priv (s : ScrnState) (v : drmmode_rec) (k : Nat) :
    (s.setDrmmode v).priv k = s.priv k := rfl
@[simp] theorem setDrmmode_drmmode (s : ScrnState) (v : drmmode_rec) :
    (s.setDrmmode v).drmmode = v := rfl
@[simp] theorem setDumb_crtc (s : ScrnState) (p : Nat) (v : dumb_bo) :
    (s.setDumb p v).crtc = s.crtc := rfl
@[simp] theorem setDumb_priv (s : ScrnState) (p : Nat) (v : dumb_bo) (k : Nat) :
    (s.setDumb p v).priv k = s.priv k := rfl
@[simp] theorem setGbm_crtc (s : ScrnState) (p : Nat) (v : gbm_bo) :
    (s.setGbm p v).crtc = s.crtc := rfl
@[simp] theorem setGbm_priv (s : ScrnState) (p : Nat) (v : gbm_bo) (k : Nat) :
    (s.setGbm p v).priv k = s.priv k := rfl

theorem flipcfg_of_crtc (s t : ScrnState) (h : t.crtc = s.crtc) : flipcfg t = flipcfg s := by
  funext c
  simp [flipcfg, ScrnState.priv, h]

theorem flipcfg_setPriv (s : ScrnState) (c : Nat) (v : drmmode_crtc_private_rec)
    (h1 : v.prime_pixmap = (s.priv c).prime_pixmap)
    (h2 : v.prime_pixmap_back = (s.priv c).prime_pixmap_back)
    (h3 : v.enable_flipping = (s.priv c).enable_flipping) :
    flipcfg (s.setPriv c v) = flipcfg s := by
  funext k
  by_cases hk : k = c
  · subst hk; simp [flipcfg, h1, h2, h3]
  · simp [flipcfg, setPriv_priv_ne _ _ _ _ hk]

theorem flipcfg_setCrtc (s : ScrnState) (c : Nat) (v : xf86CrtcRec)
    (h : v.driver_private = (s.crtc c).driver_private) :
    flipcfg (s.setCrtc c v) = flipcfg s := by
  funext k
  by_cases hk : k = c
  · subst hk; simp [flipcfg, ScrnState.priv, h]
  · simp [flipcfg, ScrnState.priv, ScrnState.setCrtc, Function.update_noteq hk]

@[simp] theorem flipcfg_set_flipping_active (s : ScrnState) (c : Nat) (b : Bool) :
    flipcfg (s.setPriv c { s.priv c with flipping_active := b }) = flipcfg s :=
  flipcfg_setPriv _ _ _ rfl rfl rfl

@[simp] theorem flipcfg_set_need_modeset (s : ScrnState) (c : Nat) (b : Bool) :
    flipcfg (s.setPriv c { s.priv c with need_modeset := b }) = flipcfg s :=
  flipcfg_setPriv _ _ _ rfl rfl rfl

@[simp] theorem flipcfg_set_dpms_mode (s : ScrnState) (c : Nat) (m : Int) :
    flipcfg (s.setPriv c { s.priv c with dpms_mode := m }) = flipcfg s :=
  flipcfg_setPriv _ _ _ rfl rfl rfl

@[simp] theorem flipcfg_set_prime_pixmap_x (s : ScrnState) (c : Nat) (m : Int) :
    flipcfg (s.setPriv c { s.priv c with prime_pixmap_x := m }) = flipcfg s :=
  flipcfg_setPriv _ _ _ rfl rfl rfl

@[simp] theorem flipcfg_emit (s : ScrnState) (c : Call) : flipcfg (s.emit c) = flipcfg s := rfl

@[simp] theorem flipcfg_ask (s : ScrnState) : flipcfg s.ask.2 = flipcfg s :=
  flipcfg_of_crtc _ _ (ask_crtc s)

@[simp] theorem flipcfg_setDrmmode (s : ScrnState) (v : drmmode_rec) :
    flipcfg (s.setDrmmode v) = flipcfg s := rfl

@[simp] theorem flipcfg_setPpriv (s : ScrnState) (p : Nat) (v : msPixmapPrivRec) :
    flipcfg (s.setPpriv p v) = flipcfg s := rfl

@[simp] theorem flipcfg_setDumb (s : ScrnState) (p : Nat) (v : dumb_bo) :
    flipcfg (s.setDumb p v) = flipcfg s := rfl

@[simp] theorem flipcfg_setGbm (s : ScrnState) (p : Nat) (v : gbm_bo) :
    flipcfg (s.setGbm p v) = flipcfg s := rfl

theorem abort_handler_crtc (s : ScrnState) (args : vblank_event_args) :
    (drmmode_SharedPixmapVBlankEventAbort s args).crtc = s.crtc := rfl

theorem abort_seq_crtc (s : ScrnState) (seq : Nat) : (ms_drm_abort_seq s seq).crtc = s.crtc := by
  unfold ms_drm_abort_seq
  split <;> rfl

theorem queue_alloc_crtc (s : ScrnState) (a : vblank_event_args) :
    (ms_drm_queue_alloc s a).2.crtc = s.crtc := rfl

theorem PresentOnVBlank_crtc (s : ScrnState) (ppix crtc : Nat) :
    (drmmode_SharedPixmapPresentOnVBlank s ppix crtc).2.crtc = s.crtc := by
  unfold drmmode_SharedPixmapPresentOnVBlank
  simp only
  split_ifs <;> simp [queue_alloc_crtc]

theorem Flip_crtc (s : ScrnState) (front crtc : Nat) :
    (drmmode_SharedPixmapFlip s front crtc).2.crtc = s.crtc := by
  unfold drmmode_SharedPixmapFlip
  simp only
  split_ifs <;> simp [queue_alloc_crtc, abort_seq_crtc]

theorem Present_crtc (s : ScrnState) (ppix crtc : Nat) :
    (drmmode_SharedPixmapPresent s ppix crtc).2.crtc = s.crtc := by
  unfold drmmode_SharedPixmapPresent
  simp only
  split_ifs <;> simp [PresentOnVBlank_crtc, Flip_crtc]

theorem Init_flipcfg (s : ScrnState) (crtc : Nat) :
    flipcfg (drmmode_InitSharedPixmapFlipping s crtc).2 = flipcfg s := by
  unfold drmmode_InitSharedPixmapFlipping
  split_ifs
  · rfl
  · rfl
  · simp only [flipcfg_set_flipping_active]
    exact flipcfg_of_crtc _ _ (Present_crtc _ _ _)

theorem Fini_crtc (s : ScrnState) (crtc : Nat) :
    (drmmode_FiniSharedPixmapFlipping s crtc).crtc = s.crtc ∨
    (drmmode_FiniSharedPixmapFlipping s crtc).crtc
      = (s.setPriv crtc { s.priv crtc with flipping_active := false }).crtc := by
  unfold drmmode_FiniSharedPixmapFlipping
  by_cases ha : (s.priv crtc).flipping_active = false
  · rw [if_pos ha]
    exact Or.inl rfl
  · rw [if_neg ha]
    right
    simp only
    split_ifs <;> first | rfl | simp only [abort_seq_crtc]

theorem Fini_flipcfg (s : ScrnState) (crtc : Nat) :
    flipcfg (drmmode_FiniSharedPixmapFlipping s crtc) = flipcfg s := by
  rcases Fini_crtc s crtc with h | h
  · exact flipcfg_of_crtc _ _ h
  · exact (flipcfg_of_crtc _ _ h).trans (flipcfg_set_flipping_active _ _ _)

theorem flipcfg_ite (c : Prop) [Decidable c] (a b s : ScrnState)
    (ha : flipcfg a = flipcfg s) (hb : flipcfg b = flipcfg s) :
    flipcfg (if c then a else b) = flipcfg s := by
  split_ifs
  · exact ha
  · exact hb

theorem crtc_dpms_flipcfg (s : ScrnState) (c : Nat) (m : Int) :
    flipcfg (drmmode_crtc_dpms s c m) = flipcfg s :=
  flipcfg_set_dpms_mode s c m

theorem output_dpms_body_flipcfg
    (smm : ScrnState → Nat → Option DisplayModeRec → Nat → Int → Int → Bool × ScrnState)
    (hsmm : ∀ s c m r x y, flipcfg (smm s c m r x y).2 = flipcfg s)
    (s : ScrnState) (o : xf86OutputRec) (mode : Int) :
    flipcfg (output_dpms_body smm s o mode) = flipcfg s := by
  unfold output_dpms_body
  split
  · rfl
  · split
    · rfl
    · simp only
      refine flipcfg_ite _ _ _ _ ?_ ?_
      · refine flipcfg_ite _ _ _ _ ((Init_flipcfg _ _).trans ?_) ?_
        all_goals exact flipcfg_ite _ _ _ _ ((hsmm _ _ _ _ _ _).trans rfl) rfl
      · exact flipcfg_ite _ _ _ _ ((Fini_flipcfg _ _).trans rfl) rfl

theorem foldl_flipcfg {α : Type} (f : ScrnState → α → ScrnState)
    (hf : ∀ s a, flipcfg (f s a) = flipcfg s) (l : List α) (s : ScrnState) :
    flipcfg (l.foldl f s) = flipcfg s := by
  induction l generalizing s with
  | nil => rfl
  | cons a rest ih => simp only [List.foldl_cons]; rw [ih, hf]

theorem addfb_flipcfg (s : ScrnState) (fb : Nat) :
    flipcfg (set_mode_major_addfb s fb).2.2 = flipcfg s := by
  unfold set_mode_major_addfb
  simp only
  split_ifs <;> simp

theorem finish_flipcfg (hook : ScrnState → xf86OutputRec → Int → ScrnState)
    (hh : ∀ s o m, flipcfg (hook s o m) = flipcfg s) (s : ScrnState) (crtc : Nat) :
    flipcfg (set_mode_major_finish hook s crtc) = flipcfg s := by
  unfold set_mode_major_finish
  simp only
  refine (foldl_flipcfg _ ?_ _ _).trans ?_
  · intro st o
    exact flipcfg_ite _ _ _ _ (hh _ _ _) rfl
  · have base : flipcfg (drmmode_crtc_dpms
        ((if s.has_pScreen = true then s.emit Call.xf86CrtcSetScreenSubpixelOrder else s).setPriv
          crtc { (if s.has_pScreen = true then s.emit Call.xf86CrtcSetScreenSubpixelOrder
                  else s).priv crtc with need_modeset := false }) crtc DPMSModeOn) = flipcfg s := by
      refine (crtc_dpms_flipcfg _ _ _).trans ((flipcfg_set_need_modeset _ _ _).trans ?_)
      exact flipcfg_ite _ _ _ _ rfl rfl
    exact flipcfg_ite _ _ _ _ ((Init_flipcfg _ _).trans base) base

theorem set_mode_major_apply_flipcfg (hook : ScrnState → xf86OutputRec → Int → ScrnState)
    (hh : ∀ s o m, flipcfg (hook s o m) = flipcfg s)
    (s : ScrnState) (crtc : Nat) (mode : DisplayModeRec) (x y : Int) :
    flipcfg (set_mode_major_apply hook s crtc mode x y).2 = flipcfg s := by
  unfold set_mode_major_apply
  simp only [drmmode_crtc_gamma_set]
  split_ifs <;> simp [addfb_flipcfg, finish_flipcfg hook hh]

theorem tentative_flipcfg (s : ScrnState) (crtc : Nat) (mode : Option DisplayModeRec)
    (rotation : Nat) (x y : Int) :
    flipcfg (set_mode_major_tentative s crtc mode rotation x y) = flipcfg s := by
  unfold set_mode_major_tentative
  cases mode with
  | none => rfl
  | some m => exact flipcfg_setCrtc _ _ _ rfl

theorem done_flipcfg (s : ScrnState) (crtc : Nat) (ret : Bool) (saved : xf86CrtcRec) :
    flipcfg (set_mode_major_done s crtc ret saved).2 = flipcfg s := by
  unfold set_mode_major_done
  split_ifs
  · exact flipcfg_setCrtc _ _ _ rfl
  · exact flipcfg_setCrtc _ _ _ rfl

theorem set_mode_major_body_flipcfg (hook : ScrnState → xf86OutputRec → Int → ScrnState)
    (hh : ∀ s o m, flipcfg (hook s o m) = flipcfg s)
    (s : ScrnState) (crtc : Nat) (mode : Option DisplayModeRec) (rotation : Nat) (x y : Int) :
    flipcfg (set_mode_major_body hook s crtc mode rotation x y).2 = flipcfg s := by
  unfold set_mode_major_body
  simp only
  rw [done_flipcfg]
  split_ifs
  · simp [tentative_flipcfg]
  · cases mode with
    | none => simp [tentative_flipcfg]
    | some m => simp [set_mode_major_apply_flipcfg hook hh, tentative_flipcfg]

theorem set_mode_major_flipcfg (depth : Nat) (s : ScrnState) (crtc : Nat)
    (mode : Option DisplayModeRec) (rotation : Nat) (x y : Int) :
    flipcfg (drmmode_set_mode_major depth s crtc mode rotation x y).2 = flipcfg s := by
  induction depth generalizing s crtc mode rotation x y with
  | zero =>
    exact set_mode_major_body_flipcfg _
      (fun s o m => output_dpms_body_flipcfg _ (fun _ _ _ _ _ _ => rfl) s o m) _ _ _ _ _ _
  | succ n ih =>
    exact set_mode_major_body_flipcfg _
      (fun s o m => output_dpms_body_flipcfg _ ih s o m) _ _ _ _ _ _

theorem ite_snd_crtc {α : Type} (c : Prop) [Decidable c] (a b : α × ScrnState)
    (x : Nat → xf86CrtcRec) (ha : a.2.crtc = x) (hb : b.2.crtc = x) :
    (if c then a else b).2.crtc = x := by
  split_ifs
  · exact ha
  · exact hb

theorem create_bo_crtc (s : ScrnState) (bo : drmmode_bo) (w h b : Int) :
    (drmmode_create_bo s bo w h b).2.2.crtc = s.crtc := by
  unfold drmmode_create_bo
  simp only
  split_ifs <;> simp

theorem dumb_bo_map_crtc (s : ScrnState) (bo : Nat) : (dumb_bo_map s bo).2.crtc = s.crtc := by
  unfold dumb_bo_map
  simp only
  split_ifs <;> simp

theorem bo_map_crtc (s : ScrnState) (bo : drmmode_bo) : (drmmode_bo_map s bo).2.crtc = s.crtc := by
  unfold drmmode_bo_map
  refine ite_snd_crtc _ _ _ _ rfl (ite_snd_crtc _ _ _ _ rfl ?_)
  exact ite_snd_crtc _ _ _ _ (dumb_bo_map_crtc _ _) (dumb_bo_map_crtc _ _)

theorem map_slave_bo_crtc (s : ScrnState) (p : msPixmapPrivRec) :
    (drmmode_map_slave_bo s p).2.crtc = s.crtc := by
  unfold drmmode_map_slave_bo
  refine ite_snd_crtc _ _ _ _ rfl ?_
  exact ite_snd_crtc _ _ _ _ (dumb_bo_map_crtc _ _) (dumb_bo_map_crtc _ _)

theorem bo_destroy_st_crtc (s : ScrnState) (bo : drmmode_bo) :
    (bo_destroy_st s bo).2.crtc = s.crtc := by
  unfold bo_destroy_st
  split_ifs <;> simp

theorem set_pixmap_bo_crtc (s : ScrnState) (p : Nat) (bo : drmmode_bo) :
    (drmmode_set_pixmap_bo s p bo).2.crtc = s.crtc := by
  unfold drmmode_set_pixmap_bo
  split_ifs <;> simp

theorem glamor_handle_crtc (s : ScrnState) :
    (drmmode_glamor_handle_new_screen_pixmap s).2.crtc = s.crtc := by
  unfold drmmode_glamor_handle_new_screen_pixmap
  simp only
  split_ifs <;> simp [set_pixmap_bo_crtc]

theorem resize_fail_crtc (s : ScrnState) (sv : ResizeSaved) :
    (resize_fail s sv).2.crtc = s.crtc := by
  unfold resize_fail
  simp [bo_destroy_st_crtc]

theorem resize_shadow_crtc (s : ScrnState) (np : Nat) :
    (resize_shadow s np).2.2.crtc = s.crtc := by
  unfold resize_shadow
  simp only
  split_ifs <;> simp

theorem resize_finish_fst (depth : Nat) (s : ScrnState) (sv : ResizeSaved) :
    (resize_finish depth s sv).1 = true := by
  unfold resize_finish
  simp only
  split_ifs <;> rfl

theorem resize_set_modes_flipcfg (depth : Nat) (s : ScrnState) :
    flipcfg (resize_set_modes depth s) = flipcfg s := by
  unfold resize_set_modes
  apply foldl_flipcfg
  intro st i
  exact flipcfg_ite _ _ _ _ (set_mode_major_flipcfg _ _ _ _ _ _ _) rfl

theorem resize_finish_flipcfg (depth : Nat) (s : ScrnState) (sv : ResizeSaved) :
    flipcfg (resize_finish depth s sv).2 = flipcfg s := by
  unfold resize_finish
  simp only
  split_ifs
  · exact (flipcfg_of_crtc _ _ (bo_destroy_st_crtc _ _)).trans
      ((flipcfg_emit _ _).trans (resize_set_modes_flipcfg _ _))
  · exact resize_set_modes_flipcfg _ _

theorem resize_fail_frame (s t : ScrnState) (sv : ResizeSaved) (ht : t.crtc = s.crtc) :
    ResizeFrame s (resize_fail t sv) := by
  have e : (resize_fail t sv).2.crtc = s.crtc := (resize_fail_crtc t sv).trans ht
  exact ⟨fun _ => e, flipcfg_of_crtc _ _ e⟩

theorem resize_finish_frame (depth : Nat) (s t : ScrnState) (sv : ResizeSaved)
    (ht : t.crtc = s.crtc) : ResizeFrame s (resize_finish depth t sv) := by
  refine ⟨fun hh => ?_, (resize_finish_flipcfg _ _ _).trans (flipcfg_of_crtc _ _ ht)⟩
  rw [resize_finish_fst] at hh
  simp at hh

theorem resize_rebind_frame (depth : Nat) (s t : ScrnState) (sv : ResizeSaved) (w h : Int)
    (np : Nat) (ht : t.crtc = s.crtc) : ResizeFrame s (resize_rebind depth t sv w h np) := by
  unfold resize_rebind
  simp only
  split_ifs
  · exact resize_fail_frame _ _ _ ((glamor_handle_crtc _).trans ht)
  · exact resize_finish_frame _ _ _ _ ((glamor_handle_crtc _).trans ht)

theorem resize_map_frame (depth : Nat) (s t : ScrnState) (sv : ResizeSaved) (w h : Int)
    (ht : t.crtc = s.crtc) : ResizeFrame s (resize_map depth t sv w h) := by
  unfold resize_map
  simp only
  have hmp : (if t.drmmode.gbm = 0 then drmmode_bo_map t t.drmmode.front_bo else (0, t)).2.crtc
      = s.crtc := ite_snd_crtc _ _ _ _ ((bo_map_crtc _ _).trans ht) ht
  generalize (if t.drmmode.gbm = 0 then drmmode_bo_map t t.drmmode.front_bo else (0, t)) = mp
    at hmp ⊢
  by_cases h1 : t.drmmode.gbm = 0 ∧ mp.1 = 0
  · rw [if_pos h1]
    exact resize_fail_frame _ _ _ hmp
  · rw [if_neg h1]
    by_cases h2 : (resize_shadow mp.2 mp.1).1 = true
    · rw [if_pos h2]
      exact resize_fail_frame _ _ _ ((resize_shadow_crtc _ _).trans hmp)
    · rw [if_neg h2]
      exact resize_rebind_frame _ _ _ _ _ _ _ ((resize_shadow_crtc _ _).trans hmp)

theorem resize_frame (depth : Nat) (s : ScrnState) (w h : Int) :
    ResizeFrame s (drmmode_xf86crtc_resize depth s w h) := by
  unfold drmmode_xf86crtc_resize
  simp only
  split_ifs
  · exact ⟨fun _ => rfl, rfl⟩
  · exact resize_fail_frame _ _ _ (by simp only [setDrmmode_crtc, create_bo_crtc])
  · exact resize_map_frame _ _ _ _ _ _ (by simp only [setDrmmode_crtc, create_bo_crtc])

theorem resize_false_crtc (depth : Nat) (s : ScrnState) (w h : Int)
    (hf : (drmmode_xf86crtc_resize depth s w h).1 = false) :
    (drmmode_xf86crtc_resize depth s w h).2.crtc = s.crtc :=
  (resize_frame depth s w h).1 hf

theorem resize_flipcfg (depth : Nat) (s : ScrnState) (w h : Int) :
    flipcfg (drmmode_xf86crtc_resize depth s w h).2 = flipcfg s :=
  (resize_frame depth s w h).2

/-! ## The scanout targets -/

theorem flipcfg_set_target (s : ScrnState) (c : Nat) (t : Target) (v : Nat) :
    flipcfg (s.setPriv c (t.set (s.priv c) v)) c = slotcfg t (flipcfg s c) v := by
  cases t <;> simp [flipcfg, Target.set, slotcfg]

theorem flipcfg_set_enable (s : ScrnState) (c : Nat) (b : Bool) :
    flipcfg (s.setPriv c { s.priv c with enable_flipping := b }) c
      = ((flipcfg s c).1, (flipcfg s c).2.1, b) := by
  simp [flipcfg]

theorem slotcfg_get (s : ScrnState) (c : Nat) (t : Target) (h : t.get (s.priv c) = 0) :
    slotcfg t (flipcfg s c) 0 = flipcfg s c := by
  cases t <;> simp_all [flipcfg, Target.get, slotcfg]

theorem release_gpu_cfg (s : ScrnState) (c : Nat) (t : Target) :
    flipcfg (scanout_release_gpu s c t) c = slotcfg t (flipcfg s c) 0 := by
  unfold scanout_release_gpu
  by_cases h : t.get (s.priv c) ≠ 0
  · rw [if_pos h]
    simp only
    rw [flipcfg_set_target, flipcfg_set_prime_pixmap_x]
    congr 1
    refine congrFun (?_ : flipcfg _ = flipcfg s) c
    exact flipcfg_ite _ _ _ _ rfl rfl
  · rw [if_neg h]
    exact (slotcfg_get s c t (not_not.mp h)).symm

theorem release_cpu_cfg (s : ScrnState) (c : Nat) (t : Target) :
    flipcfg (scanout_release_cpu s c t) c = slotcfg t (flipcfg s c) 0 := by
  unfold scanout_release_cpu
  by_cases h : t.get (s.priv c) ≠ 0
  · rw [if_pos h]
    simp only
    rw [flipcfg_set_target]
    congr 1
    refine congrFun (?_ : flipcfg _ = flipcfg s) c
    exact flipcfg_ite _ _ _ _ rfl rfl
  · rw [if_neg h]
    exact (slotcfg_get s c t (not_not.mp h)).symm

theorem slotcfg_slotcfg (t : Target) (cfg : Nat × Nat × Bool) (v w : Nat) :
    slotcfg t (slotcfg t cfg v) w = slotcfg t cfg w := by
  cases t <;> rfl

theorem scanout_resize_gpu_frame (depth : Nat) (s : ScrnState) (w h : Int) :
    ((scanout_resize_gpu depth s w h).1 = false →
      (scanout_resize_gpu depth s w h).2.crtc = s.crtc) ∧
    flipcfg (scanout_resize_gpu depth s w h).2 = flipcfg s := by
  unfold scanout_resize_gpu
  simp only
  split_ifs with h1 h2
  · exact ⟨fun _ => resize_false_crtc depth s w h h2, resize_flipcfg depth s w h⟩
  · exact ⟨fun hh => by simp at hh, resize_flipcfg depth s w h⟩
  · exact ⟨fun _ => rfl, rfl⟩

theorem attach_cpu_cfg (s : ScrnState) (c ppix : Nat) (t : Target) :
    flipcfg (scanout_attach_cpu s c ppix t) c = slotcfg t (flipcfg s c) ppix := by
  unfold scanout_attach_cpu
  simp only
  rw [flipcfg_set_target]
  congr 1
  refine congrFun (flipcfg_ite _ _ _ s ?_ ?_) c
  · refine flipcfg_ite _ _ _ s ?_ ?_
    all_goals
      simp only [flipcfg_setPpriv, flipcfg_emit, flipcfg_ask]
      refine (flipcfg_of_crtc _ _ (map_slave_bo_crtc _ _)).trans ?_
      exact flipcfg_ite _ _ _ s (by simp) rfl
  · simp only [flipcfg_emit]
    refine (flipcfg_of_crtc _ _ (map_slave_bo_crtc _ _)).trans ?_
    exact flipcfg_ite _ _ _ s (by simp) rfl

theorem set_target_gpu_cfg (depth : Nat) (s : ScrnState) (c ppix : Nat) (t : Target) :
    flipcfg (drmmode_set_target_scanout_pixmap_gpu depth s c ppix t).2 c
      = slotcfg t (flipcfg s c)
          (if (drmmode_set_target_scanout_pixmap_gpu depth s c ppix t).1 = true then ppix
           else 0) := by
  unfold drmmode_set_target_scanout_pixmap_gpu
  simp only
  have hrel := release_gpu_cfg s c t
  generalize scanout_release_gpu s c t = s1 at hrel ⊢
  by_cases hp : ppix = 0
  · rw [if_pos hp]
    simp [hrel, hp]
  · rw [if_neg hp]
    have hrz := scanout_resize_gpu_frame depth s1 (scanout_bounding_box s1 c ppix).1
      (scanout_bounding_box s1 c ppix).2.1
    generalize scanout_resize_gpu depth s1 (scanout_bounding_box s1 c ppix).1
      (scanout_bounding_box s1 c ppix).2.1 = rz at hrz ⊢
    by_cases hf : rz.1 = false
    · rw [if_pos hf]
      simp only [Bool.false_eq_true, if_false]
      rw [congrFun hrz.2 c, hrel]
    · rw [if_neg hf]
      simp only [if_true]
      rw [flipcfg_set_target]
      simp only [flipcfg_emit, flipcfg_set_prime_pixmap_x]
      rw [congrFun hrz.2 c, hrel, slotcfg_slotcfg]

theorem set_target_cpu_cfg (s : ScrnState) (c ppix : Nat) (t : Target) :
    flipcfg (drmmode_set_target_scanout_pixmap_cpu s c ppix t).2 c
      = slotcfg t (flipcfg s c) ppix := by
  unfold drmmode_set_target_scanout_pixmap_cpu
  simp only
  by_cases hp : ppix = 0
  · rw [if_pos hp, release_cpu_cfg, hp]
  · rw [if_neg hp, attach_cpu_cfg, release_cpu_cfg, slotcfg_slotcfg]

theorem set_target_cpu_fst (s : ScrnState) (c ppix : Nat) (t : Target) :
    (drmmode_set_target_scanout_pixmap_cpu s c ppix t).1 = true := by
  unfold drmmode_set_target_scanout_pixmap_cpu
  simp only
  split_ifs <;> rfl

/-- The effect of `drmmode_set_target_scanout_pixmap` on the shared-scanout
configuration of the CRTC: the slot `target` holds the pixmap when the call succeeds
and null when it fails; the other slot and the enable flag are kept. -/
theorem set_target_cfg (depth : Nat) (s : ScrnState) (c ppix : Nat) (t : Target) :
    flipcfg (drmmode_set_target_scanout_pixmap depth s c ppix t).2 c
      = slotcfg t (flipcfg s c)
          (if (drmmode_set_target_scanout_pixmap depth s c ppix t).1 = true then ppix
           else 0) := by
  unfold drmmode_set_target_scanout_pixmap
  by_cases h : s.drmmode.reverse_prime_offload_mode = true
  · simp only [if_pos h]
    exact set_target_gpu_cfg depth s c ppix t
  · simp only [if_neg h]
    rw [set_target_cpu_cfg, if_pos (set_target_cpu_fst s c ppix t)]

theorem set_target_null_fst (depth : Nat) (s : ScrnState) (c : Nat) (t : Target) :
    (drmmode_set_target_scanout_pixmap depth s c 0 t).1 = true := by
  unfold drmmode_set_target_scanout_pixmap drmmode_set_target_scanout_pixmap_gpu
    drmmode_set_target_scanout_pixmap_cpu
  simp only [if_true]
  split_ifs <;> rfl

theorem set_target_null_cfg (depth : Nat) (s : ScrnState) (c : Nat) (t : Target) :
    flipcfg (drmmode_set_target_scanout_pixmap depth s c 0 t).2 c
      = slotcfg t (flipcfg s c) 0 := by
  rw [set_target_cfg]
  simp

/-! ## Enabling shared-pixmap flipping -/

theorem enable_front_cfg (depth : Nat) (s : ScrnState) (c front : Nat) :
    flipcfg (enable_front_attach depth s c front).2 c
      = (if (enable_front_attach depth s c front).1 = true then front else 0,
         (s.priv c).prime_pixmap_back, true) := by
  unfold enable_front_attach
  rw [set_target_cfg, flipcfg_set_enable]
  rfl

theorem enable_back_cfg (depth : Nat) (s : ScrnState) (c front back : Nat) :
    flipcfg (enable_back_attach depth s c front back).2 c
      = (if (enable_front_attach depth s c front).1 = true then front else 0,
         if (enable_back_attach depth s c front back).1 = true then back else 0,
         (enable_front_attach depth s c front).1) := by
  unfold enable_back_attach
  simp only
  rw [set_target_cfg, flipcfg_set_enable, enable_front_cfg]
  have e : ((enable_front_attach depth s c front).2.priv c).enable_flipping = true :=
    congrArg (fun x => x.2.2) (enable_front_cfg depth s c front)
  simp [slotcfg, e]

/-- The control flow of `drmmode_EnableSharedPixmapFlipping` in terms of its two
attaches. -/
theorem enable_unfold (depth : Nat) (s : ScrnState) (c front back : Nat) :
    drmmode_EnableSharedPixmapFlipping depth s c front back
      = (if (((enable_front_attach depth s c front).2.setPriv c
              { (enable_front_attach depth s c front).2.priv c with
                enable_flipping :=
                  ((enable_front_attach depth s c front).2.priv c).enable_flipping &&
                    (enable_front_attach depth s c front).1 }).priv c).enable_flipping = false
         then (false, (enable_front_attach depth s c front).2.setPriv c
              { (enable_front_attach depth s c front).2.priv c with
                enable_flipping :=
                  ((enable_front_attach depth s c front).2.priv c).enable_flipping &&
                    (enable_front_attach depth s c front).1 })
         else if (((enable_back_attach depth s c front back).2.setPriv c
              { (enable_back_attach depth s c front back).2.priv c with
                enable_flipping :=
                  ((enable_back_attach depth s c front back).2.priv c).enable_flipping &&
                    (enable_back_attach depth s c front back).1 }).priv c).enable_flipping = false
         then (false, (drmmode_set_target_scanout_pixmap depth
              ((enable_back_attach depth s c front back).2.setPriv c
              { (enable_back_attach depth s c front back).2.priv c with
                enable_flipping :=
                  ((enable_back_attach depth s c front back).2.priv c).enable_flipping &&
                    (enable_back_attach depth s c front back).1 }) c 0 Target.front).2)
         else (true, (enable_back_attach depth s c front back).2.setPriv c
              { (enable_back_attach depth s c front back).2.priv c with
                enable_flipping :=
                  ((enable_back_attach depth s c front back).2.priv c).enable_flipping &&
                    (enable_back_attach depth s c front back).1 })) := rfl

/-- The result and the final shared-scanout configuration of
`drmmode_EnableSharedPixmapFlipping`, by the outcome of the two attaches. -/
theorem enable_cases (depth : Nat) (s : ScrnState) (c front back : Nat) :
    ((enable_front_attach depth s c front).1 = false ∧
      (drmmode_EnableSharedPixmapFlipping depth s c front back).1 = false ∧
      flipcfg (drmmode_EnableSharedPixmapFlipping depth s c front back).2 c
        = (0, (s.priv c).prime_pixmap_back, false)) ∨
    ((enable_front_attach depth s c front).1 = true ∧
      (enable_back_attach depth s c front back).1 = false ∧
      (drmmode_EnableSharedPixmapFlipping depth s c front back).1 = false ∧
      flipcfg (drmmode_EnableSharedPixmapFlipping depth s c front back).2 c
        = (0, 0, false)) ∨
    ((enable_front_attach depth s c front).1 = true ∧
      (enable_back_attach depth s c front back).1 = true ∧
      (drmmode_EnableSharedPixmapFlipping depth s c front back).1 = true ∧
      (drmmode_EnableSharedPixmapFlipping depth s c front back).2
        = (enable_back_attach depth s c front back).2.setPriv c
            { (enable_back_attach depth s c front back).2.priv c with
              enable_flipping := true } ∧
      flipcfg (drmmode_EnableSharedPixmapFlipping depth s c front back).2 c
        = (front, back, true)) := by
  have hf := enable_front_cfg depth s c front
  have hb := enable_back_cfg depth s c front back
  have ef : ((enable_front_attach depth s c front).2.priv c).enable_flipping = true :=
    congrArg (fun x => x.2.2) hf
  have eb : ((enable_back_attach depth s c front back).2.priv c).enable_flipping
      = (enable_front_attach depth s c front).1 := congrArg (fun x => x.2.2) hb
  rw [enable_unfold]
  generalize enable_back_attach depth s c front back = r2 at hb eb ⊢
  generalize enable_front_attach depth s c front = r1 at hf hb ef eb ⊢
  simp only [setPriv_priv_same, ef, eb, Bool.true_and]
  cases h1 : r1.1
  · left
    simp only [if_true, Bool.false_and, true_and]
    rw [flipcfg_set_enable, hf, h1]
    simp
  · right
    cases h2 : r2.1
    · left
      simp only [Bool.true_and, Bool.true_eq_false, if_false, if_true, true_and, Bool.and_false]
      rw [set_target_null_cfg, flipcfg_set_enable, hb, h1, h2]
      simp [slotcfg]
    · right
      simp only [Bool.true_and, Bool.true_eq_false, if_false, true_and, Bool.and_true]
      rw [flipcfg_set_enable, hb, h1, h2]
      simp

/-- C5 (counterexample): on a screen in reverse PRIME offload mode where a previous
enable attached the pixmaps 5 and 7 to CRTC 0, enabling flipping again with a front
pixmap of another size makes the screen resize fail, so the front attach fails and
`drmmode_EnableSharedPixmapFlipping` returns FALSE; the back slot still holds the
pixmap 7 of the previous enable. -/
theorem enable_front_failure_keeps_back :
    (drmmode_EnableSharedPixmapFlipping 0 offload_screen 0 5 7).1 = true ∧
    (enable_front_attach 0 offload_enabled 0 6).1 = false ∧
    (drmmode_EnableSharedPixmapFlipping 0 offload_enabled 0 6 7).1 = false ∧
    ((drmmode_EnableSharedPixmapFlipping 0 offload_enabled 0 6 7).2.priv 0).prime_pixmap_back
      = 7 := by
  decide

/-- C5 (amended): if attaching the front target or the back target fails inside
`drmmode_EnableSharedPixmapFlipping`, the function returns FALSE and after the call
`enable_flipping` is FALSE and `prime_pixmap` is null; `prime_pixmap_back` is null when
the front attach succeeded and the back attach failed, and is left as it was before
the call when the front attach failed. -/
theorem enable_flipping_failure (depth : Nat) (s : ScrnState) (c front back : Nat)
    (h : (enable_front_attach depth s c front).1 = false ∨
      (enable_back_attach depth s c front back).1 = false) :
    (drmmode_EnableSharedPixmapFlipping depth s c front back).1 = false ∧
    ((drmmode_EnableSharedPixmapFlipping depth s c front back).2.priv c).enable_flipping
      = false ∧
    ((drmmode_EnableSharedPixmapFlipping depth s c front back).2.priv c).prime_pixmap = 0 ∧
    ((drmmode_EnableSharedPixmapFlipping depth s c front back).2.priv c).prime_pixmap_back
      = (if (enable_front_attach depth s c front).1 = false then (s.priv c).prime_pixmap_back
         else 0) := by
  rcases enable_cases depth s c front back with ⟨h1, hr, hc⟩ | ⟨h1, h2, hr, hc⟩ | ⟨h1, h2, _⟩
  · refine ⟨hr, congrArg (fun x => x.2.2) hc, congrArg (fun x => x.1) hc, ?_⟩
    rw [if_pos h1]
    exact congrArg (fun x => x.2.1) hc
  · refine ⟨hr, congrArg (fun x => x.2.2) hc, congrArg (fun x => x.1) hc, ?_⟩
    rw [if_neg (by simp [h1])]
    exact congrArg (fun x => x.2.1) hc
  · rcases h with h | h
    · rw [h1] at h; cases h
    · rw [h2] at h; cases h

/-- Witness of the amended C5: the second enable on `offload_enabled`, whose front attach
fails in the screen resize. -/
theorem enable_flipping_failure_witness :
    (drmmode_EnableSharedPixmapFlipping 1 offload_enabled 0 6 7).1 = false ∧
    ((drmmode_EnableSharedPixmapFlipping 1 offload_enabled 0 6 7).2.priv 0).enable_flipping
      = false ∧
    ((drmmode_EnableSharedPixmapFlipping 1 offload_enabled 0 6 7).2.priv 0).prime_pixmap = 0 ∧
    ((drmmode_EnableSharedPixmapFlipping 1 offload_enabled 0 6 7).2.priv 0).prime_pixmap_back
      = (if (enable_front_attach 1 offload_enabled 0 6).1 = false
         then (offload_enabled.priv 0).prime_pixmap_back else 0) :=
  enable_flipping_failure 1 offload_enabled 0 6 7 (Or.inl (by decide))

/-! ## The flip state machine -/

theorem queue_take_sub (seq : Nat) (q : List (Nat × vblank_event_args))
    (a : vblank_event_args) (rest : List (Nat × vblank_event_args))
    (h : queue_take seq q = some (a, rest)) :
    (seq, a) ∈ q ∧ ∀ e ∈ rest, e ∈ q := by
  induction q generalizing a rest with
  | nil => simp [queue_take] at h
  | cons x xs ih =>
    unfold queue_take at h
    by_cases hx : x.1 = seq
    · rw [if_pos hx] at h
      simp only [Option.some.injEq, Prod.mk.injEq] at h
      obtain ⟨h1, h2⟩ := h
      subst h1 h2
      refine ⟨?_, fun e he => List.mem_cons_of_mem _ he⟩
      rw [← hx]
      exact List.mem_cons_self _ _
    · rw [if_neg hx] at h
      cases hq : queue_take seq xs with
      | none => rw [hq] at h; simp at h
      | some r =>
        rw [hq] at h
        simp only [Option.map_some', Option.some.injEq, Prod.mk.injEq] at h
        obtain ⟨h1, h2⟩ := h
        have := ih r.1 r.2 hq
        subst h1 h2
        refine ⟨List.mem_cons_of_mem _ this.1, fun e he => ?_⟩
        rcases List.mem_cons.mp he with he | he
        · rw [he]; exact List.mem_cons_self _ _
        · exact List.mem_cons_of_mem _ (this.2 e he)

theorem abort_seq_queue (s : ScrnState) (seq : Nat) :
    ∀ e ∈ (ms_drm_abort_seq s seq).ms_drm_queue, e ∈ s.ms_drm_queue := by
  unfold ms_drm_abort_seq
  cases h : queue_take seq s.ms_drm_queue with
  | none => exact fun e he => he
  | some r =>
    intro e he
    exact (queue_take_sub seq _ r.1 r.2 h).2 e he

theorem queue_alloc_queue (s : ScrnState) (a : vblank_event_args) :
    (ms_drm_queue_alloc s a).2.ms_drm_queue
      = ((ms_drm_queue_alloc s a).1, a) :: s.ms_drm_queue := rfl

theorem queue_alloc_priv (s : ScrnState) (a : vblank_event_args) (c : Nat) :
    (ms_drm_queue_alloc s a).2.priv c = s.priv c := rfl

theorem queueNew_refl (s : ScrnState) (c p : Nat) : QueueNew s s c p :=
  fun _ he => Or.inl he

theorem queueNew_of_queue (s t : ScrnState) (c p : Nat)
    (h : t.ms_drm_queue = s.ms_drm_queue) : QueueNew s t c p :=
  fun _ he => Or.inl (h ▸ he)

theorem queueNew_trans (s t u : ScrnState) (c p : Nat) (hc : t.crtc = s.crtc)
    (h1 : QueueNew s t c p) (h2 : QueueNew t u c p) : QueueNew s u c p := by
  intro e he
  rcases h2 e he with h | h
  · exact h1 e h
  · right
    have : t.priv c = s.priv c := by simp [ScrnState.priv, hc]
    rw [← this]
    exact h

theorem PresentOnVBlank_queue (s : ScrnState) (p c : Nat) :
    ∀ e ∈ (drmmode_SharedPixmapPresentOnVBlank s p c).2.ms_drm_queue, e ∈ s.ms_drm_queue ∨
      (p = (s.priv c).prime_pixmap_back ∧ e.2.crtc = c ∧ e.2.frontTarget = p ∧
        e.2.backTarget = (s.priv c).prime_pixmap) := by
  unfold drmmode_SharedPixmapPresentOnVBlank
  simp only
  split_ifs with h1 h2 h3
  · exact fun _ he => Or.inl he
  · exact fun _ he => Or.inl he
  · intro e he
    left
    simpa using he
  · intro e he
    simp only [emit_queue, ask_queue, setPpriv_queue, queue_alloc_queue,
      List.mem_cons] at he
    rcases he with he | he
    · right
      rw [he]
      exact ⟨not_not.mp h2, rfl, rfl, rfl⟩
    · exact Or.inl he

theorem PresentOnVBlank_new (s : ScrnState) (p c : Nat) :
    QueueNew s (drmmode_SharedPixmapPresentOnVBlank s p c).2 c p := by
  intro e he
  rcases PresentOnVBlank_queue s p c e he with h | h
  · exact Or.inl h
  · exact Or.inr h.2

theorem Flip_new (s : ScrnState) (p c : Nat) :
    QueueNew s (drmmode_SharedPixmapFlip s p c).2 c p := by
  unfold drmmode_SharedPixmapFlip
  simp only
  split_ifs with h1 h2
  · intro e he
    left
    simpa using he
  · intro e he
    have he := abort_seq_queue _ _ e he
    simp only [emit_queue, ask_queue, setPpriv_queue, queue_alloc_queue,
      List.mem_cons] at he
    rcases he with he | he
    · right
      rw [he]
      exact ⟨rfl, rfl, rfl⟩
    · exact Or.inl he
  · intro e he
    simp only [emit_queue, ask_queue, setPpriv_queue, queue_alloc_queue,
      List.mem_cons] at he
    rcases he with he | he
    · right
      rw [he]
      exact ⟨rfl, rfl, rfl⟩
    · exact Or.inl he

theorem Present_new (s : ScrnState) (p c : Nat) :
    QueueNew s (drmmode_SharedPixmapPresent s p c).2 c p := by
  unfold drmmode_SharedPixmapPresent
  simp only
  have hbase : ∀ t : ScrnState, t.crtc = s.crtc → t.ms_drm_queue = s.ms_drm_queue →
      QueueNew s (drmmode_SharedPixmapPresentOnVBlank t p c).2 c p := fun t hc hq =>
    queueNew_trans s t _ c p hc (queueNew_of_queue s t c p hq) (PresentOnVBlank_new t p c)
  have hflip : QueueNew s (drmmode_SharedPixmapFlip
      (s.ask.2.emit (Call.PresentSharedPixmap p (decide (s.ask.1 ≠ 0)))) p c).2 c p :=
    queueNew_trans s (s.ask.2.emit (Call.PresentSharedPixmap p (decide (s.ask.1 ≠ 0)))) _ c p
      (by simp) (queueNew_of_queue _ _ c p (by simp)) (Flip_new _ p c)
  split_ifs with h1 h2 h3 h4
  · exact hflip
  · exact queueNew_trans s _ _ c p (by simp [Flip_crtc]) hflip (PresentOnVBlank_new _ p c)
  · exact queueNew_of_queue _ _ c p (by simp)
  · exact hbase _ (by simp) (by simp)
  · exact hbase _ (by simp) (by simp)

theorem inv_step (c f b : Nat) (s t : ScrnState) (hp : t.priv c = s.priv c)
    (hq : ∀ e ∈ t.ms_drm_queue, e ∈ s.ms_drm_queue ∨
      (e.2.crtc = c → e.2.frontTarget = (s.priv c).prime_pixmap_back ∧
        e.2.backTarget = (s.priv c).prime_pixmap))
    (h : FlipInv c f b s) : FlipInv c f b t := by
  unfold FlipInv at h ⊢
  rw [hp]
  refine ⟨h.1, h.2.1, fun e he hc => ?_⟩
  rcases hq e he with h1 | h1
  · exact h.2.2 e h1 hc
  · exact h1 hc

theorem inv_new (c f b : Nat) (s t : ScrnState) (k p : Nat) (hc : t.crtc = s.crtc)
    (hq : QueueNew s t k p) (hk : k = c → p = (s.priv c).prime_pixmap_back)
    (h : FlipInv c f b s) : FlipInv c f b t := by
  refine inv_step c f b s t (by simp [ScrnState.priv, hc]) (fun e he => ?_) h
  rcases hq e he with h1 | ⟨h1, h2, h3⟩
  · exact Or.inl h1
  · right
    intro hec
    have hkc : k = c := h1.symm.trans hec
    subst hkc
    exact ⟨h2.trans (hk rfl), h3⟩

theorem inv_retry (c f b : Nat) (s : ScrnState) (p : Nat) (h : FlipInv c f b s) :
    FlipInv c f b (drmmode_SharedPixmapPresentOnVBlank s p c).2 := by
  refine inv_step c f b s _ (by simp [ScrnState.priv, PresentOnVBlank_crtc]) (fun e he => ?_) h
  rcases PresentOnVBlank_queue s p c e he with h1 | ⟨h0, _, h2, h3⟩
  · exact Or.inl h1
  · exact Or.inr (fun _ => ⟨h2.trans h0, h3⟩)

theorem inv_abort (c f b : Nat) (s : ScrnState) (seq : Nat) (h : FlipInv c f b s) :
    FlipInv c f b (ms_drm_abort_seq s seq) :=
  inv_step c f b s _ (by simp [ScrnState.priv, abort_seq_crtc])
    (fun e he => Or.inl (abort_seq_queue s seq e he)) h

theorem inv_emit (c f b : Nat) (s : ScrnState) (x : Call) (h : FlipInv c f b s) :
    FlipInv c f b (s.emit x) := h

theorem inv_handler (c f b : Nat) (s : ScrnState) (args : vblank_event_args)
    (hgood : args.crtc = c → args.frontTarget = (s.priv c).prime_pixmap_back ∧
      args.backTarget = (s.priv c).prime_pixmap)
    (halone : args.crtc = c → args.flip = true → ∀ e ∈ s.ms_drm_queue, e.2.crtc ≠ c)
    (h : FlipInv c f b s) :
    FlipInv c f b (drmmode_SharedPixmapVBlankEventHandler s args) := by
  unfold drmmode_SharedPixmapVBlankEventHandler
  simp only
  apply inv_emit
  by_cases hfl : args.flip = true
  · rw [if_pos hfl]
    refine inv_new c f b _ _ args.crtc args.backTarget (Present_crtc _ _ _)
      (Present_new _ _ _) ?_ ?_
    · intro hk
      subst hk
      simp
    · by_cases hk : args.crtc = c
      · obtain ⟨g1, g2⟩ := hgood hk
        have hal := halone hk hfl
        subst hk
        unfold FlipInv at h ⊢
        simp only [setPriv_priv_same, setPriv_queue]
        rw [g1, g2]
        refine ⟨fun e => h.1 e.symm, ?_, fun e he hc => absurd hc (hal e he)⟩
        rcases h.2.1 with ⟨a1, a2⟩ | ⟨a1, a2⟩
        · exact Or.inr ⟨a2, a1⟩
        · exact Or.inl ⟨a2, a1⟩
      · exact inv_step c f b s _ (setPriv_priv_ne _ _ _ _ (Ne.symm hk))
          (fun e he => Or.inl he) h
  · rw [if_neg hfl]
    refine inv_new c f b _ _ args.crtc args.frontTarget (Present_crtc _ _ _)
      (Present_new _ _ _) ?_ h
    intro hk
    exact (hgood hk).1

theorem inv_complete (c f b : Nat) (s : ScrnState) (seq : Nat)
    (hok : (FlipOp.complete seq).ok c s = true) (h : FlipInv c f b s) :
    FlipInv c f b (ms_drm_handler s seq) := by
  unfold ms_drm_handler
  simp only [FlipOp.ok] at hok
  cases hq : queue_take seq s.ms_drm_queue with
  | none => exact h
  | some r =>
    rw [hq] at hok
    simp only [Bool.or_eq_true, Bool.not_eq_true', Bool.and_eq_false_imp, decide_eq_true_eq,
      List.all_eq_true, decide_not, Bool.not_eq_true', decide_eq_false_iff_not] at hok
    have hsub := queue_take_sub seq _ r.1 r.2 hq
    refine inv_handler c f b _ r.1 ?_ ?_ ?_
    · intro hc
      exact h.2.2 _ hsub.1 hc
    · intro hc hfl e he
      rcases hok with h1 | h1
      · have := h1 hc
        rw [hfl] at this
        cases this
      · exact h1 e he
    · exact inv_step c f b s _ rfl (fun e he => Or.inl (hsub.2 e he)) h

theorem inv_run (c f b : Nat) (s : ScrnState) (op : FlipOp) (hok : op.ok c s = true)
    (h : FlipInv c f b s) : FlipInv c f b (op.run c s) := by
  cases op with
  | present p =>
    have hp : p = (s.priv c).prime_pixmap_back := by simpa [FlipOp.ok] using hok
    exact inv_new c f b s _ c p (Present_crtc _ _ _) (Present_new _ _ _) (fun _ => hp) h
  | flip p =>
    have hp : p = (s.priv c).prime_pixmap_back := by simpa [FlipOp.ok] using hok
    exact inv_new c f b s _ c p (Flip_crtc _ _ _) (Flip_new _ _ _) (fun _ => hp) h
  | retry p => exact inv_retry c f b s p h
  | complete seq => exact inv_complete c f b s seq hok h
  | abort seq => exact inv_abort c f b s seq h

theorem inv_run_ops (c f b : Nat) (ops : List FlipOp) (s : ScrnState)
    (hok : ops_ok c s ops = true) (h : FlipInv c f b s) : FlipInv c f b (run_ops c s ops) := by
  induction ops generalizing s with
  | nil => exact h
  | cons op rest ih =>
    simp only [ops_ok, Bool.and_eq_true] at hok
    exact ih _ hok.2 (inv_run c f b s op hok.1 h)

theorem inv_enable (depth : Nat) (s : ScrnState) (c front back : Nat) (hne : front ≠ back)
    (hen : (drmmode_EnableSharedPixmapFlipping depth s c front back).1 = true)
    (hq : ∀ e ∈ (drmmode_EnableSharedPixmapFlipping depth s c front back).2.ms_drm_queue,
      e.2.crtc ≠ c) :
    FlipInv c front back (drmmode_EnableSharedPixmapFlipping depth s c front back).2 := by
  rcases enable_cases depth s c front back with ⟨_, hr, _⟩ | ⟨_, _, hr, _⟩ | ⟨_, _, _, _, hc⟩
  · rw [hr] at hen; cases hen
  · rw [hr] at hen; cases hen
  · have h1 : ((drmmode_EnableSharedPixmapFlipping depth s c front back).2.priv c).prime_pixmap
        = front := congrArg (fun x => x.1) hc
    have h2 : ((drmmode_EnableSharedPixmapFlipping depth s c front back).2.priv c).prime_pixmap_back
        = back := congrArg (fun x => x.2.1) hc
    unfold FlipInv
    rw [h1, h2]
    exact ⟨hne, Or.inl ⟨rfl, rfl⟩, fun e he hec => absurd hec (hq e he)⟩

/-- C9 (counterexample): flipping is enabled on CRTC 0 with the surfaces 5 (front) and
7 (back); a vblank retry for the back surface 7 is queued (event 1), a present on 7
submits a flip (event 2), the flip completes (7 is displayed, 5 is the back surface),
then the retry event completes: its present on 7, now the displayed surface, submits a
flip recorded with front 7 and back 7 (event 3), and when that completes the displayed
and the back surface are both 7.  Every present attempt of the sequence was made on
the back surface of the moment. -/
theorem flip_two_events_break_exclusion :
    (drmmode_EnableSharedPixmapFlipping 0 (flip_screen [1, 0, 1, 1, 0, 0, 0, 1, 1, 0]) 0 5 7).1
      = true ∧
    ops_on_back 0
      (drmmode_EnableSharedPixmapFlipping 0 (flip_screen [1, 0, 1, 1, 0, 0, 0, 1, 1, 0]) 0 5 7).2
      [FlipOp.retry 7, FlipOp.present 7, FlipOp.complete 2, FlipOp.complete 1,
        FlipOp.complete 3] = true ∧
    ((run_ops 0
      (drmmode_EnableSharedPixmapFlipping 0 (flip_screen [1, 0, 1, 1, 0, 0, 0, 1, 1, 0]) 0 5 7).2
      [FlipOp.retry 7, FlipOp.present 7, FlipOp.complete 2, FlipOp.complete 1,
        FlipOp.complete 3]).priv 0).prime_pixmap = 7 ∧
    ((run_ops 0
      (drmmode_EnableSharedPixmapFlipping 0 (flip_screen [1, 0, 1, 1, 0, 0, 0, 1, 1, 0]) 0 5 7).2
      [FlipOp.retry 7, FlipOp.present 7, FlipOp.complete 2, FlipOp.complete 1,
        FlipOp.complete 3]).priv 0).prime_pixmap_back = 7 := by
  decide

/-- C9 (amended): in every state reached from a successful
`drmmode_EnableSharedPixmapFlipping(crtc, front, back)` with `front` different from
`back` and no event of the CRTC outstanding, through any sequence of present attempts
and flip submissions on the current back surface, vblank retries, abort-handler
invocations, and completion-handler invocations in which a flip event of the CRTC
completes only while no other event of the CRTC is outstanding, `prime_pixmap` and
`prime_pixmap_back` are different and together are exactly `front` and `back`. -/
theorem flip_exclusion (depth : Nat) (s : ScrnState) (c front back : Nat) (ops : List FlipOp)
    (hne : front ≠ back)
    (hen : (drmmode_EnableSharedPixmapFlipping depth s c front back).1 = true)
    (hq : ∀ e ∈ (drmmode_EnableSharedPixmapFlipping depth s c front back).2.ms_drm_queue,
      e.2.crtc ≠ c)
    (hok : ops_ok c (drmmode_EnableSharedPixmapFlipping depth s c front back).2 ops = true) :
    ((run_ops c (drmmode_EnableSharedPixmapFlipping depth s c front back).2 ops).priv
        c).prime_pixmap ≠
      ((run_ops c (drmmode_EnableSharedPixmapFlipping depth s c front back).2 ops).priv
        c).prime_pixmap_back ∧
    ((((run_ops c (drmmode_EnableSharedPixmapFlipping depth s c front back).2 ops).priv
          c).prime_pixmap = front ∧
        ((run_ops c (drmmode_EnableSharedPixmapFlipping depth s c front back).2 ops).priv
          c).prime_pixmap_back = back) ∨
      (((run_ops c (drmmode_EnableSharedPixmapFlipping depth s c front back).2 ops).priv
          c).prime_pixmap = back ∧
        ((run_ops c (drmmode_EnableSharedPixmapFlipping depth s c front back).2 ops).priv
          c).prime_pixmap_back = front)) := by
  have h := inv_run_ops c front back ops _ hok (inv_enable depth s c front back hne hen hq)
  exact ⟨h.1, h.2.1⟩

/-- Witness of the amended C9: after the enable with the surfaces 5 and 7 a present on
the back surface 7 submits a flip (event 1), its completion presents on 5 and submits the
next flip (event 2), which completes too; one event is outstanding at a time. -/
theorem flip_exclusion_witness :
    ((run_ops 0 (drmmode_EnableSharedPixmapFlipping 0 (flip_screen [1, 1, 0, 1, 1, 0]) 0 5 7).2
        [FlipOp.present 7, FlipOp.complete 1, FlipOp.complete 2]).priv 0).prime_pixmap ≠
      ((run_ops 0 (drmmode_EnableSharedPixmapFlipping 0 (flip_screen [1, 1, 0, 1, 1, 0]) 0 5 7).2
        [FlipOp.present 7, FlipOp.complete 1, FlipOp.complete 2]).priv 0).prime_pixmap_back ∧
    ((((run_ops 0 (drmmode_EnableSharedPixmapFlipping 0 (flip_screen [1, 1, 0, 1, 1, 0]) 0 5 7).2
          [FlipOp.present 7, FlipOp.complete 1, FlipOp.complete 2]).priv 0).prime_pixmap = 5 ∧
        ((run_ops 0 (drmmode_EnableSharedPixmapFlipping 0 (flip_screen [1, 1, 0, 1, 1, 0]) 0 5 7).2
          [FlipOp.present 7, FlipOp.complete 1, FlipOp.complete 2]).priv 0).prime_pixmap_back
          = 7) ∨
      (((run_ops 0 (drmmode_EnableSharedPixmapFlipping 0 (flip_screen [1, 1, 0, 1, 1, 0]) 0 5 7).2
          [FlipOp.present 7, FlipOp.complete 1, FlipOp.complete 2]).priv 0).prime_pixmap = 7 ∧
        ((run_ops 0 (drmmode_EnableSharedPixmapFlipping 0 (flip_screen [1, 1, 0, 1, 1, 0]) 0 5 7).2
          [FlipOp.present 7, FlipOp.complete 1, FlipOp.complete 2]).priv 0).prime_pixmap_back
          = 5)) :=
  flip_exclusion 0 (flip_screen [1, 1, 0, 1, 1, 0]) 0 5 7
    [FlipOp.present 7, FlipOp.complete 1, FlipOp.complete 2] (by decide) (by decide)
    (by decide) (by decide)

/-! ## Stopping and disabling shared-pixmap flipping -/

theorem setPriv_self (s : ScrnState) (c : Nat) : s.setPriv c (s.priv c) = s := by
  unfold ScrnState.setPriv ScrnState.setCrtc ScrnState.priv
  have : ({ s.crtc c with driver_private := (s.crtc c).driver_private } : xf86CrtcRec)
      = s.crtc c := rfl
  rw [this, Function.update_eq_self]

theorem set_flipping_active_self (s : ScrnState) (c : Nat)
    (h : (s.priv c).flipping_active = false) :
    s.setPriv c { s.priv c with flipping_active := false } = s := by
  have : ({ s.priv c with flipping_active := false } : drmmode_crtc_private_rec) = s.priv c := by
    rw [← h]
  rw [this, setPriv_self]

theorem set_enable_flipping_self (s : ScrnState) (c : Nat)
    (h : (s.priv c).enable_flipping = false) :
    s.setPriv c { s.priv c with enable_flipping := false } = s := by
  have : ({ s.priv c with enable_flipping := false } : drmmode_crtc_private_rec) = s.priv c := by
    rw [← h]
  rw [this, setPriv_self]

theorem abort_seq_fault (s : ScrnState) (seq : Nat) :
    (ms_drm_abort_seq s seq).fault = s.fault := by
  unfold ms_drm_abort_seq
  split <;> rfl

theorem Fini_idle (s : ScrnState) (c : Nat)
    (h : (s.priv c).flipping_active = false ∨
      ((s.priv c).prime_pixmap ≠ 0 ∧ (s.priv c).prime_pixmap_back ≠ 0 ∧
        (s.ppriv (s.priv c).prime_pixmap).flip_seq = 0 ∧
        (s.ppriv (s.priv c).prime_pixmap_back).flip_seq = 0)) :
    drmmode_FiniSharedPixmapFlipping s c
      = s.setPriv c { s.priv c with flipping_active := false } := by
  unfold drmmode_FiniSharedPixmapFlipping
  by_cases ha : (s.priv c).flipping_active = false
  · rw [if_pos ha, set_flipping_active_self s c ha]
  · rw [if_neg ha]
    rcases h with h | ⟨hp, hb, h1, h2⟩
    · exact absurd h ha
    · simp [h1, h2, hp, hb]

theorem Fini_inactive (s : ScrnState) (c : Nat) :
    ((drmmode_FiniSharedPixmapFlipping s c).priv c).flipping_active = false := by
  rcases Fini_crtc s c with h | h
  · unfold ScrnState.priv
    rw [h]
    by_cases ha : (s.priv c).flipping_active = false
    · exact ha
    · exfalso
      have h2 := Fini_crtc s c
      unfold drmmode_FiniSharedPixmapFlipping at h
      rw [if_neg ha] at h
      simp only at h
      have hc : ∀ t : ScrnState,
          t.crtc = (s.setPriv c { s.priv c with flipping_active := false }).crtc →
          t.crtc ≠ s.crtc := by
        intro t ht hts
        have := congrFun (ht.symm.trans hts) c
        simp only [ScrnState.setPriv, ScrnState.setCrtc, Function.update_same] at this
        have h3 := congrArg (fun (x : xf86CrtcRec) => x.driver_private.flipping_active) this
        simp only [ScrnState.priv] at ha h3
        exact ha h3.symm
      refine hc _ ?_ h
      split_ifs <;> first | rfl | simp only [abort_seq_crtc]
  · unfold ScrnState.priv
    rw [h]
    simp [ScrnState.setPriv, ScrnState.setCrtc]

/-- With flipping active and the displayed target null,
`drmmode_FiniSharedPixmapFlipping` ends in the null dereference. -/
theorem Fini_null_front (s : ScrnState) (c : Nat) (ha : (s.priv c).flipping_active = true)
    (hp : (s.priv c).prime_pixmap = 0) : (drmmode_FiniSharedPixmapFlipping s c).fault = true := by
  unfold drmmode_FiniSharedPixmapFlipping
  rw [if_neg (by rw [ha]; decide)]
  simp only [setPriv_priv_same, hp, if_true]

/-- With flipping not active, or with both targets set,
`drmmode_FiniSharedPixmapFlipping` dereferences no null pointer. -/
theorem Fini_no_fault (s : ScrnState) (c : Nat)
    (h : (s.priv c).flipping_active = false ∨
      ((s.priv c).prime_pixmap ≠ 0 ∧ (s.priv c).prime_pixmap_back ≠ 0)) :
    (drmmode_FiniSharedPixmapFlipping s c).fault = s.fault := by
  unfold drmmode_FiniSharedPixmapFlipping
  by_cases ha : (s.priv c).flipping_active = false
  · rw [if_pos ha]
  · rw [if_neg ha]
    rcases h with h | ⟨hp, hb⟩
    · exact absurd h ha
    · simp only [setPriv_priv_same, setPriv_ppriv, hp, if_false]
      have hb2 : ∀ t : ScrnState,
          t.crtc = (s.setPriv c { s.priv c with flipping_active := false }).crtc →
          (t.priv c).prime_pixmap_back ≠ 0 := by
        intro t ht
        simp only [ScrnState.priv, ht, ScrnState.setPriv, ScrnState.setCrtc,
          Function.update_same]
        exact hb
      split_ifs with h1 h2 h3 h4 h5
      · exact absurd h2 (hb2 _ (abort_seq_crtc _ _))
      · rw [abort_seq_fault, abort_seq_fault]; rfl
      · rw [abort_seq_fault]; rfl
      · exact absurd h4 (hb2 _ rfl)
      · rw [abort_seq_fault]; rfl
      · rfl

theorem set_target_null_eq (depth : Nat) (s : ScrnState) (c : Nat) (t : Target) :
    (drmmode_set_target_scanout_pixmap depth s c 0 t).2
      = if s.drmmode.reverse_prime_offload_mode = true then scanout_release_gpu s c t
        else scanout_release_cpu s c t := by
  unfold drmmode_set_target_scanout_pixmap drmmode_set_target_scanout_pixmap_gpu
    drmmode_set_target_scanout_pixmap_cpu
  simp only [if_true]
  split_ifs <;> rfl

theorem set_target_null_idle (depth : Nat) (s : ScrnState) (c : Nat) (t : Target)
    (h : t.get (s.priv c) = 0) :
    (drmmode_set_target_scanout_pixmap depth s c 0 t).2 = s := by
  rw [set_target_null_eq]
  unfold scanout_release_gpu scanout_release_cpu
  simp [h]

theorem target_set_flipping_active (t : Target) (p : drmmode_crtc_private_rec) (v : Nat) :
    (t.set p v).flipping_active = p.flipping_active := by
  cases t <;> rfl

theorem set_target_null_active (depth : Nat) (s : ScrnState) (c : Nat) (t : Target) :
    ((drmmode_set_target_scanout_pixmap depth s c 0 t).2.priv c).flipping_active
      = (s.priv c).flipping_active := by
  rw [set_target_null_eq]
  unfold scanout_release_gpu scanout_release_cpu
  split_ifs <;>
    simp only [setPriv_priv_same, target_set_flipping_active, emit_priv, setDrmmode_priv,
      setPpriv_priv]
  all_goals split_ifs <;>
    simp only [setPriv_priv_same, target_set_flipping_active, emit_priv, setDrmmode_priv,
      setPpriv_priv]

theorem setPriv_fault (s : ScrnState) (c : Nat) (v : drmmode_crtc_private_rec) :
    (s.setPriv c v).fault = s.fault := rfl

theorem setPpriv_fault (s : ScrnState) (p : Nat) (v : msPixmapPrivRec) :
    (s.setPpriv p v).fault = s.fault := rfl

theorem emit_fault (s : ScrnState) (c : Call) : (s.emit c).fault = s.fault := rfl

theorem setDrmmode_fault (s : ScrnState) (v : drmmode_rec) :
    (s.setDrmmode v).fault = s.fault := rfl

theorem set_target_null_fault (depth : Nat) (s : ScrnState) (c : Nat) (t : Target) :
    (drmmode_set_target_scanout_pixmap depth s c 0 t).2.fault = s.fault := by
  rw [set_target_null_eq]
  unfold scanout_release_gpu scanout_release_cpu
  split_ifs <;> simp only [setPriv_fault, emit_fault, setPpriv_fault]
  all_goals split_ifs <;> rfl

theorem Disable_unfold (depth : Nat) (s : ScrnState) (c : Nat)
    (hf : (drmmode_FiniSharedPixmapFlipping
      (s.setPriv c { s.priv c with enable_flipping := false }) c).fault = false) :
    drmmode_DisableSharedPixmapFlipping depth s c
      = (drmmode_set_target_scanout_pixmap depth
          (drmmode_set_target_scanout_pixmap depth
            (drmmode_FiniSharedPixmapFlipping
              (s.setPriv c { s.priv c with enable_flipping := false }) c) c 0
            Target.front).2 c 0 Target.back).2 := by
  unfold drmmode_DisableSharedPixmapFlipping
  simp only [hf, Bool.false_eq_true, if_false]

/-- The state `drmmode_DisableSharedPixmapFlipping` leaves when no null pointer is
dereferenced: both targets null and both flags off. -/
theorem Disable_post (depth : Nat) (s : ScrnState) (c : Nat)
    (hf : (drmmode_FiniSharedPixmapFlipping
      (s.setPriv c { s.priv c with enable_flipping := false }) c).fault = false) :
    flipcfg (drmmode_DisableSharedPixmapFlipping depth s c) c = (0, 0, false) ∧
    ((drmmode_DisableSharedPixmapFlipping depth s c).priv c).flipping_active = false ∧
    (drmmode_DisableSharedPixmapFlipping depth s c).fault = false := by
  rw [Disable_unfold depth s c hf]
  refine ⟨?_, ?_, ?_⟩
  · rw [set_target_null_cfg, set_target_null_cfg, congrFun (Fini_flipcfg _ _) c,
      flipcfg_set_enable]
    rfl
  · rw [set_target_null_active, set_target_null_active, Fini_inactive]
  · rw [set_target_null_fault, set_target_null_fault, hf]

theorem Disable_idle (depth : Nat) (s : ScrnState) (c : Nat)
    (h : flipcfg s c = (0, 0, false)) (ha : (s.priv c).flipping_active = false) :
    drmmode_DisableSharedPixmapFlipping depth s c = s := by
  have h1 : (s.priv c).prime_pixmap = 0 := congrArg (fun x => x.1) h
  have h2 : (s.priv c).prime_pixmap_back = 0 := congrArg (fun x => x.2.1) h
  have h3 : (s.priv c).enable_flipping = false := congrArg (fun x => x.2.2) h
  unfold drmmode_DisableSharedPixmapFlipping
  simp only
  rw [set_enable_flipping_self s c h3]
  have hf : drmmode_FiniSharedPixmapFlipping s c = s := by
    unfold drmmode_FiniSharedPixmapFlipping
    rw [if_pos ha]
  rw [hf, set_target_null_idle depth s c Target.front h1,
    set_target_null_idle depth s c Target.back h2]
  split_ifs <;> rfl

/-- On a CRTC with no outstanding flip event (flipping not active, or both targets set
with both pending sequence numbers zero) `drmmode_FiniSharedPixmapFlipping` makes no
call, leaves the event queue alone and changes nothing except clearing
`flipping_active`; and from a state in which flipping is not active or both targets
are set, calling `drmmode_DisableSharedPixmapFlipping` twice leaves the same state as
calling it once: both targets null, `enable_flipping` and `flipping_active` FALSE. -/
theorem disable_twice_when_attached (depth : Nat) (s : ScrnState) (c : Nat) :
    (((s.priv c).flipping_active = false ∨
        ((s.priv c).prime_pixmap ≠ 0 ∧ (s.priv c).prime_pixmap_back ≠ 0 ∧
          (s.ppriv (s.priv c).prime_pixmap).flip_seq = 0 ∧
          (s.ppriv (s.priv c).prime_pixmap_back).flip_seq = 0)) →
      drmmode_FiniSharedPixmapFlipping s c
          = s.setPriv c { s.priv c with flipping_active := false } ∧
        (drmmode_FiniSharedPixmapFlipping s c).trace = s.trace ∧
        (drmmode_FiniSharedPixmapFlipping s c).ms_drm_queue = s.ms_drm_queue) ∧
    (s.fault = false →
      ((s.priv c).flipping_active = false ∨
        ((s.priv c).prime_pixmap ≠ 0 ∧ (s.priv c).prime_pixmap_back ≠ 0)) →
      drmmode_DisableSharedPixmapFlipping depth (drmmode_DisableSharedPixmapFlipping depth s c) c
        = drmmode_DisableSharedPixmapFlipping depth s c ∧
      (drmmode_DisableSharedPixmapFlipping depth s c).fault = false ∧
      ((drmmode_DisableSharedPixmapFlipping depth s c).priv c).prime_pixmap = 0 ∧
      ((drmmode_DisableSharedPixmapFlipping depth s c).priv c).prime_pixmap_back = 0 ∧
      ((drmmode_DisableSharedPixmapFlipping depth s c).priv c).enable_flipping = false ∧
      ((drmmode_DisableSharedPixmapFlipping depth s c).priv c).flipping_active = false) := by
  refine ⟨fun h => ?_, fun hs h => ?_⟩
  · rw [Fini_idle s c h]
    exact ⟨rfl, rfl, rfl⟩
  · have hf : (drmmode_FiniSharedPixmapFlipping
        (s.setPriv c { s.priv c with enable_flipping := false }) c).fault = false := by
      rw [Fini_no_fault _ c (by simpa only [setPriv_priv_same] using h)]
      exact hs
    have hp := Disable_post depth s c hf
    exact ⟨Disable_idle depth _ c hp.1 hp.2.1, hp.2.2, congrArg (fun x => x.1) hp.1,
      congrArg (fun x => x.2.1) hp.1, congrArg (fun x => x.2.2) hp.1, hp.2.1⟩

set_option maxHeartbeats 4000000 in
/-- C10: flipping is enabled on CRTC 0 with the pixmaps 5 and 7 and started, then
enabled again with the pixmap 6 as front; the second enable releases the old front
target and fails in the resize of the screen, so the CRTC is left with
`flipping_active` TRUE and a null front target.  `drmmode_DisableSharedPixmapFlipping`
on that state ends in the null dereference of `drmmode_FiniSharedPixmapFlipping`: the
back target is not released, and no state "both targets null" is reached, neither by
one call nor by two. -/
theorem disable_after_failed_enable_faults :
    (drmmode_EnableSharedPixmapFlipping 0 { offload_screen with answers := [1, 64, 0] }
      0 5 7).1 = true ∧
    (offload_flipping.priv 0).flipping_active = true ∧
    (drmmode_EnableSharedPixmapFlipping 0 offload_flipping 0 6 7).1 = false ∧
    (offload_reenable_failed.priv 0).flipping_active = true ∧
    (offload_reenable_failed.priv 0).prime_pixmap = 0 ∧
    (offload_reenable_failed.priv 0).prime_pixmap_back = 7 ∧
    offload_reenable_failed.fault = false ∧
    (drmmode_DisableSharedPixmapFlipping 0 offload_reenable_failed 0).fault = true ∧
    ((drmmode_DisableSharedPixmapFlipping 0 offload_reenable_failed 0).priv 0).prime_pixmap_back
      = 7 := by
  decide

/-! ## The nesting depth of the mode-set is immaterial

`drmmode_set_mode_major` clears `need_modeset` before it calls the output hook, and the
hook enters a nested mode-set only when `need_modeset` is set: the nested call is never
made from inside a mode-set, so the result does not depend on `depth`. -/

theorem Init_need_modeset (s : ScrnState) (c : Nat) :
    ((drmmode_InitSharedPixmapFlipping s c).2.priv c).need_modeset
      = (s.priv c).need_modeset := by
  unfold drmmode_InitSharedPixmapFlipping
  split_ifs
  · rfl
  · rfl
  · simp only [setPriv_priv_same]
    simp [ScrnState.priv, Present_crtc]

theorem output_dpms_body_stable
    (f g : ScrnState → Nat → Option DisplayModeRec → Nat → Int → Int → Bool × ScrnState)
    (s : ScrnState) (o : xf86OutputRec) (c : Nat) (ho : o.crtc = some c)
    (hn : (s.priv c).need_modeset = false) :
    output_dpms_body f s o DPMSModeOn = output_dpms_body g s o DPMSModeOn ∧
    ((output_dpms_body g s o DPMSModeOn).priv c).need_modeset = false := by
  unfold output_dpms_body
  cases o.driver_private.mode_output with
  | none => exact ⟨rfl, hn⟩
  | some k =>
    simp only [ho, if_true, emit_priv, hn, Bool.false_eq_true, if_false]
    refine ⟨trivial, ?_⟩
    split_ifs
    · rw [Init_need_modeset]; exact hn
    · exact hn

theorem dpms_foldl_stable
    (f g : ScrnState → Nat → Option DisplayModeRec → Nat → Int → Int → Bool × ScrnState)
    (c : Nat) (outs : List xf86OutputRec) (s : ScrnState)
    (hn : (s.priv c).need_modeset = false) :
    outs.foldl (fun st o =>
        if output_on_crtc c o = true then output_dpms_body f st o DPMSModeOn else st) s
      = outs.foldl (fun st o =>
        if output_on_crtc c o = true then output_dpms_body g st o DPMSModeOn else st) s := by
  induction outs generalizing s with
  | nil => rfl
  | cons o rest ih =>
    simp only [List.foldl_cons]
    by_cases h : output_on_crtc c o = true
    · have ho : o.crtc = some c := by
        unfold output_on_crtc at h
        simp only [Bool.and_eq_true, decide_eq_true_eq] at h
        exact h.1
      have hs := output_dpms_body_stable f g s o c ho hn
      rw [if_pos h, if_pos h, hs.1]
      exact ih _ hs.2
    · rw [if_neg h, if_neg h]
      exact ih _ hn

theorem finish_stable
    (f g : ScrnState → Nat → Option DisplayModeRec → Nat → Int → Int → Bool × ScrnState)
    (s : ScrnState) (c : Nat) :
    set_mode_major_finish (output_dpms_body f) s c
      = set_mode_major_finish (output_dpms_body g) s c := by
  unfold set_mode_major_finish
  simp only
  have e : ∀ t : ScrnState, (t.priv c).need_modeset = false →
      t.output.foldl (fun st o =>
        if output_on_crtc c o = true then output_dpms_body f st o DPMSModeOn else st) t
      = t.output.foldl (fun st o =>
        if output_on_crtc c o = true then output_dpms_body g st o DPMSModeOn else st) t :=
    fun t ht => dpms_foldl_stable f g c t.output t ht
  apply e
  have base : ∀ t : ScrnState,
      ((drmmode_crtc_dpms (t.setPriv c { t.priv c with need_modeset := false }) c
        DPMSModeOn).priv c).need_modeset = false := by
    intro t
    simp [drmmode_crtc_dpms]
  split_ifs <;> first
    | exact base _
    | (rw [Init_need_modeset]; exact base _)

theorem body_stable
    (f g : ScrnState → Nat → Option DisplayModeRec → Nat → Int → Int → Bool × ScrnState)
    (s : ScrnState) (c : Nat) (mode : Option DisplayModeRec) (rotation : Nat) (x y : Int) :
    set_mode_major_body (output_dpms_body f) s c mode rotation x y
      = set_mode_major_body (output_dpms_body g) s c mode rotation x y := by
  unfold set_mode_major_body set_mode_major_apply
  simp only [finish_stable f g]

/-- The result of `drmmode_set_mode_major` is the same at every nesting depth. -/
theorem set_mode_major_depth (depth : Nat) (s : ScrnState) (c : Nat)
    (mode : Option DisplayModeRec) (rotation : Nat) (x y : Int) :
    drmmode_set_mode_major depth s c mode rotation x y
      = drmmode_set_mode_major 0 s c mode rotation x y := by
  cases depth with
  | zero => rfl
  | succ n => exact body_stable _ _ s c mode rotation x y

/-! ## The cursor fallback, output detection and buffer mapping -/

/-- C17: `drmmode_set_cursor` returns FALSE exactly when the basic variant
`drmModeSetCursor` was called (the extended variant is switched off, or was tried in
this call and failed) and failed; in that case the last call made is that
`drmModeSetCursor`, `MaxWidth` and `MaxHeight` are zero and `sw_cursor` is set; in every
other case it returns TRUE and `MaxWidth`, `MaxHeight` and `sw_cursor` are unchanged. -/
theorem set_cursor_result (c : CursorCall) (s : CursorState) :
    ((drmmode_set_cursor c s).1 = false ↔
      ((s.use_set_cursor2 = false ∨ c.ret2 ≠ 0) ∧ c.ret ≠ 0)) ∧
    ((s.use_set_cursor2 = false ∨ c.ret2 ≠ 0) →
      (drmmode_set_cursor c s).2.trace.getLast?
        = some (Call.drmModeSetCursor c.crtc_id c.handle c.ret)) ∧
    ((drmmode_set_cursor c s).1 = false →
      (drmmode_set_cursor c s).2.MaxWidth = 0 ∧ (drmmode_set_cursor c s).2.MaxHeight = 0 ∧
      (drmmode_set_cursor c s).2.sw_cursor = true) ∧
    ((drmmode_set_cursor c s).1 = true →
      (drmmode_set_cursor c s).2.MaxWidth = s.MaxWidth ∧
      (drmmode_set_cursor c s).2.MaxHeight = s.MaxHeight ∧
      (drmmode_set_cursor c s).2.sw_cursor = s.sw_cursor) := by
  unfold drmmode_set_cursor drmmode_set_cursor_basic
  by_cases h1 : s.use_set_cursor2 = true <;> by_cases h2 : c.ret2 = 0 <;>
    by_cases h3 : c.ret = 0 <;> simp [h1, h2, h3]

/-- Witness of C17: the extended variant is switched off and the basic variant fails
with -22. -/
theorem set_cursor_result_witness :
    (drmmode_set_cursor { crtc_id := 40, handle := 7, ret2 := 0, ret := -22 }
        { use_set_cursor2 := false, MaxWidth := 64, MaxHeight := 64, sw_cursor := false }).1
      = false ∧
    (drmmode_set_cursor { crtc_id := 40, handle := 7, ret2 := 0, ret := -22 }
        { use_set_cursor2 := false, MaxWidth := 64, MaxHeight := 64,
          sw_cursor := false }).2.MaxWidth = 0 :=
  ⟨(set_cursor_result _ _).1.mpr ⟨Or.inl rfl, by decide⟩,
    ((set_cursor_result { crtc_id := 40, handle := 7, ret2 := 0, ret := -22 }
        { use_set_cursor2 := false, MaxWidth := 64, MaxHeight := 64,
          sw_cursor := false }).2.2.1 (by decide)).1⟩

/-- C18: for an output whose identifier is -1 `drmmode_output_detect` returns
Disconnected, makes no call and leaves the output as it is; otherwise it frees the
cached descriptor and queries the connector of that identifier once, stores the answer,
and returns Connected for a connected descriptor, Disconnected for a disconnected
descriptor or a failed query, and Unknown for every other connection value. -/
theorem output_detect_status (q : Nat → Option drmModeConnector) (o : xf86OutputRec)
    (t : List Call) :
    (o.driver_private.output_id = -1 →
      drmmode_output_detect q o t
        = { status := xf86OutputStatus.XF86OutputStatusDisconnected, output := o,
            trace := t }) ∧
    (o.driver_private.output_id ≠ -1 →
      (drmmode_output_detect q o t).trace
        = t ++ [Call.drmModeFreeConnector,
            Call.drmModeGetConnector (toU32 o.driver_private.output_id)] ∧
      (drmmode_output_detect q o t).output
        = { o with driver_private :=
              { o.driver_private with
                mode_output := q (toU32 o.driver_private.output_id) } } ∧
      (q (toU32 o.driver_private.output_id) = none →
        (drmmode_output_detect q o t).status
          = xf86OutputStatus.XF86OutputStatusDisconnected) ∧
      (∀ k, q (toU32 o.driver_private.output_id) = some k →
        (k.connection = DRM_MODE_CONNECTED →
          (drmmode_output_detect q o t).status
            = xf86OutputStatus.XF86OutputStatusConnected) ∧
        (k.connection = DRM_MODE_DISCONNECTED →
          (drmmode_output_detect q o t).status
            = xf86OutputStatus.XF86OutputStatusDisconnected) ∧
        (k.connection ≠ DRM_MODE_CONNECTED → k.connection ≠ DRM_MODE_DISCONNECTED →
          (drmmode_output_detect q o t).status
            = xf86OutputStatus.XF86OutputStatusUnknown))) := by
  refine ⟨fun h => ?_, fun h => ?_⟩
  · unfold drmmode_output_detect
    rw [if_pos h]
  · unfold drmmode_output_detect
    rw [if_neg h]
    simp only
    cases hq : q (toU32 o.driver_private.output_id) with
    | none => simp
    | some k =>
      refine ⟨rfl, rfl, fun hh => by simp at hh, fun k' hk => ?_⟩
      simp only [Option.some.injEq] at hk
      subst hk
      refine ⟨fun hc => by simp [hc], fun hd => ?_, fun h1 h2 => by simp [h1, h2]⟩
      simp [hd, DRM_MODE_CONNECTED, DRM_MODE_DISCONNECTED]

/-- Witness of C18: an invalidated output, with a kernel that would report every
connector connected. -/
theorem output_detect_status_witness :
    drmmode_output_detect (fun id => some { connector_id := id, connection := 1 })
        { name := "DP-1".toList, driver_private := { output_id := -1 } } []
      = { status := xf86OutputStatus.XF86OutputStatusDisconnected,
          output := { name := "DP-1".toList, driver_private := { output_id := -1 } },
          trace := [] } :=
  (output_detect_status (fun id => some { connector_id := id, connection := 1 })
    { name := "DP-1".toList, driver_private := { output_id := -1 } } []).1 (by decide)

theorem dumb_bo_map_trace (s : ScrnState) (bo : Nat) :
    (dumb_bo_map s bo).2.trace = s.trace ++ [Call.dumb_bo_map bo s.ask.1] := by
  unfold dumb_bo_map
  simp only
  split_ifs <;> simp [ScrnState.setDumb]

theorem dumb_bo_map_ptr (s : ScrnState) (bo : Nat) (h : (dumb_bo_map s bo).1 = 0) :
    ((dumb_bo_map s bo).2.dumb bo).ptr = s.ask.2.ask.1.toNat := by
  unfold dumb_bo_map at h ⊢
  simp only at h ⊢
  by_cases h0 : s.ask.1 = 0
  · simp [h0, ScrnState.setDumb]
  · rw [if_neg h0] at h
    exact absurd h h0

theorem dumb_bo_map_fst (s : ScrnState) (bo : Nat) : (dumb_bo_map s bo).1 = s.ask.1 := by
  unfold dumb_bo_map
  simp only
  split_ifs with h0
  · exact h0.symm
  · rfl

theorem dumb_bo_map_cfg (s : ScrnState) (bo : Nat) : (dumb_bo_map s bo).2.cfg = s.cfg := by
  have ha : ∀ t : ScrnState, t.ask.2.cfg = t.cfg := by
    intro t
    unfold ScrnState.ask
    split <;> rfl
  unfold dumb_bo_map
  simp only
  split_ifs
  · exact (ha _).trans (ha _)
  · exact (ha _).trans (ha _)

theorem bo_map_gbm (s : ScrnState) (bo : drmmode_bo)
    (hg : s.cfg.GLAMOR_HAS_GBM = true ∧ bo.gbm ≠ 0) : drmmode_bo_map s bo = (0, s) := by
  unfold drmmode_bo_map
  rw [if_pos hg]

theorem bo_map_stored (s : ScrnState) (bo : drmmode_bo)
    (hg : ¬(s.cfg.GLAMOR_HAS_GBM = true ∧ bo.gbm ≠ 0)) (hp : (s.dumb bo.dumb).ptr ≠ 0) :
    drmmode_bo_map s bo = ((s.dumb bo.dumb).ptr, s) := by
  unfold drmmode_bo_map
  rw [if_neg hg, if_pos hp]

theorem bo_map_fresh (s : ScrnState) (bo : drmmode_bo)
    (hg : ¬(s.cfg.GLAMOR_HAS_GBM = true ∧ bo.gbm ≠ 0)) (hp : (s.dumb bo.dumb).ptr = 0) :
    drmmode_bo_map s bo
      = if s.ask.1 ≠ 0 then (0, (dumb_bo_map s bo.dumb).2)
        else (((dumb_bo_map s bo.dumb).2.dumb bo.dumb).ptr, (dumb_bo_map s bo.dumb).2) := by
  unfold drmmode_bo_map
  rw [if_neg hg, if_neg (not_not.mpr hp)]
  simp only [dumb_bo_map_fst]

/-- C20: `drmmode_bo_map` returns null and makes no call when the buffer object has a
GPU-native backend (a build with `GLAMOR_HAS_GBM`); for a simple buffer it returns the
stored mapped pointer and makes no call when one is present; otherwise it makes exactly
one kernel map call and returns the pointer the map stored, or null when the map
fails; and after a map that returned a non-null pointer, a second map returns the
same pointer and changes nothing. -/
theorem bo_map_lazy (s : ScrnState) (bo : drmmode_bo) :
    (s.cfg.GLAMOR_HAS_GBM = true ∧ bo.gbm ≠ 0 → drmmode_bo_map s bo = (0, s)) ∧
    (¬(s.cfg.GLAMOR_HAS_GBM = true ∧ bo.gbm ≠ 0) → (s.dumb bo.dumb).ptr ≠ 0 →
      drmmode_bo_map s bo = ((s.dumb bo.dumb).ptr, s)) ∧
    (¬(s.cfg.GLAMOR_HAS_GBM = true ∧ bo.gbm ≠ 0) → (s.dumb bo.dumb).ptr = 0 →
      (drmmode_bo_map s bo).2.trace = s.trace ++ [Call.dumb_bo_map bo.dumb s.ask.1] ∧
      (s.ask.1 ≠ 0 → (drmmode_bo_map s bo).1 = 0) ∧
      (s.ask.1 = 0 → (drmmode_bo_map s bo).1 = s.ask.2.ask.1.toNat ∧
        ((drmmode_bo_map s bo).2.dumb bo.dumb).ptr = s.ask.2.ask.1.toNat)) ∧
    ((drmmode_bo_map s bo).1 ≠ 0 →
      drmmode_bo_map (drmmode_bo_map s bo).2 bo
        = ((drmmode_bo_map s bo).1, (drmmode_bo_map s bo).2)) := by
  refine ⟨bo_map_gbm s bo, bo_map_stored s bo, fun hg hp => ?_, fun hne => ?_⟩
  · rw [bo_map_fresh s bo hg hp]
    refine ⟨?_, fun hr => by rw [if_pos hr], fun hr => ?_⟩
    · split_ifs <;> exact dumb_bo_map_trace s bo.dumb
    · have h0 : (dumb_bo_map s bo.dumb).1 = 0 := by rw [dumb_bo_map_fst]; exact hr
      rw [if_neg (not_not.mpr hr)]
      exact ⟨dumb_bo_map_ptr s bo.dumb h0, dumb_bo_map_ptr s bo.dumb h0⟩
  · by_cases hg : s.cfg.GLAMOR_HAS_GBM = true ∧ bo.gbm ≠ 0
    · rw [bo_map_gbm s bo hg] at hne
      exact absurd rfl hne
    · by_cases hp : (s.dumb bo.dumb).ptr = 0
      · rw [bo_map_fresh s bo hg hp] at hne ⊢
        by_cases hr : s.ask.1 ≠ 0
        · rw [if_pos hr] at hne
          exact absurd rfl hne
        · rw [if_neg hr] at hne ⊢
          exact bo_map_stored _ bo (by rw [dumb_bo_map_cfg]; exact hg) hne
      · rw [bo_map_stored s bo hg hp]
        exact bo_map_stored s bo hg hp

/-- Witness of C20: the first map of the unmapped front buffer calls the kernel and
returns 4096, the second map returns 4096 again from the stored pointer. -/
theorem bo_map_lazy_witness :
    (drmmode_bo_map unmapped_screen unmapped_screen.drmmode.front_bo).1 = 4096 ∧
    drmmode_bo_map (drmmode_bo_map unmapped_screen unmapped_screen.drmmode.front_bo).2
        unmapped_screen.drmmode.front_bo
      = ((drmmode_bo_map unmapped_screen unmapped_screen.drmmode.front_bo).1,
          (drmmode_bo_map unmapped_screen unmapped_screen.drmmode.front_bo).2) :=
  ⟨by decide,
    (bo_map_lazy unmapped_screen unmapped_screen.drmmode.front_bo).2.2.2 (by decide)⟩

/-! ## What a mode-set keeps -/

theorem Frame.emit_r {R : ScrnState → ScrnState → Prop} (F : Frame R) (t s : ScrnState)
    (c : Call) (h : R t s) : R t (s.emit c) :=
  F.trans _ _ _ h (F.emit s c)

theorem Frame.ask_r {R : ScrnState → ScrnState → Prop} (F : Frame R) (t s : ScrnState)
    (h : R t s) : R t s.ask.2 :=
  F.trans _ _ _ h (F.ask s)

theorem Frame.setCrtc_r {R : ScrnState → ScrnState → Prop} (F : Frame R) (t s : ScrnState)
    (c : Nat) (v : xf86CrtcRec) (h : R t s) : R t (s.setCrtc c v) :=
  F.trans _ _ _ h (F.setCrtc s c v)

theorem Frame.setPriv_r {R : ScrnState → ScrnState → Prop} (F : Frame R) (t s : ScrnState)
    (c : Nat) (v : drmmode_crtc_private_rec) (h : R t s) : R t (s.setPriv c v) :=
  F.trans _ _ _ h (F.setCrtc s c _)

theorem Frame.setDrmmode_r {R : ScrnState → ScrnState → Prop} (F : Frame R) (t s : ScrnState)
    (v : drmmode_rec) (h : R t s) : R t (s.setDrmmode v) :=
  F.trans _ _ _ h (F.setDrmmode s v)

theorem Frame.present_r {R : ScrnState → ScrnState → Prop} (F : Frame R) (t s : ScrnState)
    (p c : Nat) (h : R t s) : R t (drmmode_SharedPixmapPresent s p c).2 :=
  F.trans _ _ _ h (F.present s p c)

theorem Frame.ite_r {R : ScrnState → ScrnState → Prop} (p : Prop) [Decidable p]
    (t a b : ScrnState) (ha : R t a) (hb : R t b) : R t (if p then a else b) := by
  split_ifs
  · exact ha
  · exact hb

theorem Frame.foldl_r {R : ScrnState → ScrnState → Prop} {α : Type}
    (f : ScrnState → α → ScrnState) (t : ScrnState) (hf : ∀ s a, R t s → R t (f s a))
    (l : List α) (s : ScrnState) (h : R t s) : R t (l.foldl f s) := by
  induction l generalizing s with
  | nil => exact h
  | cons a rest ih => exact ih (f s a) (hf s a h)

theorem Frame.init_r {R : ScrnState → ScrnState → Prop} (F : Frame R) (t s : ScrnState)
    (c : Nat) (h : R t s) : R t (drmmode_InitSharedPixmapFlipping s c).2 := by
  unfold drmmode_InitSharedPixmapFlipping
  split_ifs
  · exact h
  · exact h
  · exact F.setPriv_r _ _ _ _ (F.present_r _ _ _ _ h)

theorem Frame.dpms_on_r {R : ScrnState → ScrnState → Prop} (F : Frame R)
    (smm : ScrnState → Nat → Option DisplayModeRec → Nat → Int → Int → Bool × ScrnState)
    (t : ScrnState) (hsmm : ∀ s c m r x y, R t s → R t (smm s c m r x y).2)
    (s : ScrnState) (o : xf86OutputRec) (h : R t s) :
    R t (output_dpms_body smm s o DPMSModeOn) := by
  unfold output_dpms_body
  split
  · exact h
  · split
    · exact F.emit_r _ _ _ h
    · simp only [if_true]
      apply Frame.ite_r
      · apply F.init_r
        apply Frame.ite_r
        · exact hsmm _ _ _ _ _ _ (F.emit_r _ _ _ h)
        · exact F.emit_r _ _ _ h
      · apply Frame.ite_r
        · exact hsmm _ _ _ _ _ _ (F.emit_r _ _ _ h)
        · exact F.emit_r _ _ _ h

theorem Frame.addfb_r {R : ScrnState → ScrnState → Prop} (F : Frame R) (t s : ScrnState)
    (fb : Nat) (h : R t s) : R t (set_mode_major_addfb s fb).2.2 := by
  unfold set_mode_major_addfb
  simp only
  have h1 := F.emit_r t _ (Call.drmModeAddFB s.virtualX s.virtualY s.depth
      s.drmmode.kbpp (drmmode_bo_get_pitch s s.drmmode.front_bo)
      (drmmode_bo_get_handle s s.drmmode.front_bo) s.ask.1) (F.ask_r t _ (F.ask_r t s h))
  split_ifs
  · exact F.emit_r _ _ _ (F.setDrmmode_r _ _ _ h1)
  · exact F.emit_r _ _ _ h1
  · exact F.setDrmmode_r _ _ _ h1
  · exact h1
  · exact h

theorem Frame.finish_r {R : ScrnState → ScrnState → Prop} (F : Frame R)
    (hook : ScrnState → xf86OutputRec → Int → ScrnState) (t : ScrnState)
    (hh : ∀ s o, R t s → R t (hook s o DPMSModeOn)) (s : ScrnState) (c : Nat) (h : R t s) :
    R t (set_mode_major_finish hook s c) := by
  unfold set_mode_major_finish
  simp only
  apply Frame.foldl_r
  · intro st o hst
    exact Frame.ite_r _ _ _ _ (hh _ _ hst) hst
  · have h0 : R t (if s.has_pScreen = true then s.emit Call.xf86CrtcSetScreenSubpixelOrder
        else s) := Frame.ite_r _ _ _ _ (F.emit_r _ _ _ h) h
    have base := F.setPriv_r t _ c
      { ((if s.has_pScreen = true then s.emit Call.xf86CrtcSetScreenSubpixelOrder
          else s).setPriv c
            { (if s.has_pScreen = true then s.emit Call.xf86CrtcSetScreenSubpixelOrder
                else s).priv c with need_modeset := false }).priv c with
        dpms_mode := DPMSModeOn }
      (F.setPriv_r t _ c
        { (if s.has_pScreen = true then s.emit Call.xf86CrtcSetScreenSubpixelOrder
            else s).priv c with need_modeset := false } h0)
    exact Frame.ite_r _ _ _ _ (F.init_r _ _ _ base) base

theorem Frame.apply_r {R : ScrnState → ScrnState → Prop} (F : Frame R)
    (hook : ScrnState → xf86OutputRec → Int → ScrnState) (t : ScrnState)
    (hh : ∀ s o, R t s → R t (hook s o DPMSModeOn)) (s : ScrnState) (c : Nat)
    (m : DisplayModeRec) (x y : Int) (h : R t s) :
    R t (set_mode_major_apply hook s c m x y).2 := by
  unfold set_mode_major_apply
  simp only [drmmode_crtc_gamma_set]
  have h1 := F.emit_r t _ (Call.xf86CrtcRotate c (decide (s.ask.1 ≠ 0))) (F.ask_r t s h)
  have h2 := F.emit_r t _ (Call.drmModeCrtcSetGamma
    ((s.ask.2.emit (Call.xf86CrtcRotate c (decide (s.ask.1 ≠ 0)))).priv c).crtc_id) h1
  split_ifs
  · exact h1
  · exact F.addfb_r _ _ _ h2
  · exact F.emit_r _ _ _ (F.ask_r _ _ (F.addfb_r _ _ _ h2))
  · exact F.finish_r hook t hh _ c (F.emit_r _ _ _ (F.ask_r _ _ (F.addfb_r _ _ _ h2)))

theorem Frame.tentative_r {R : ScrnState → ScrnState → Prop} (F : Frame R) (t s : ScrnState)
    (c : Nat) (mode : Option DisplayModeRec) (rotation : Nat) (x y : Int) (h : R t s) :
    R t (set_mode_major_tentative s c mode rotation x y) := by
  unfold set_mode_major_tentative
  cases mode with
  | none => exact h
  | some m => exact F.setCrtc_r _ _ _ _ h

theorem Frame.done_r {R : ScrnState → ScrnState → Prop} (F : Frame R) (t s : ScrnState)
    (c : Nat) (ret : Bool) (saved : xf86CrtcRec) (h : R t s) :
    R t (set_mode_major_done s c ret saved).2 := by
  unfold set_mode_major_done
  split_ifs
  · exact F.setCrtc_r _ _ _ _ h
  · exact F.setCrtc_r _ _ _ _ h

theorem Frame.body_r {R : ScrnState → ScrnState → Prop} (F : Frame R)
    (hook : ScrnState → xf86OutputRec → Int → ScrnState) (t : ScrnState)
    (hh : ∀ s o, R t s → R t (hook s o DPMSModeOn)) (s : ScrnState) (c : Nat)
    (mode : Option DisplayModeRec) (rotation : Nat) (x y : Int) (h : R t s) :
    R t (set_mode_major_body hook s c mode rotation x y).2 := by
  unfold set_mode_major_body
  simp only
  apply F.done_r
  have h2 := F.emit_r t _ (Call.calloc (set_mode_major_tentative s c mode rotation x y).ask.1)
    (F.ask_r t _ (F.tentative_r t s c mode rotation x y h))
  split_ifs
  · exact h2
  · cases mode with
    | none => exact h2
    | some m => exact F.apply_r hook t hh _ c m x y h2

/-- Every relation of the kind `Frame` holds between the state before and the state
after `drmmode_set_mode_major`. -/
theorem Frame.set_mode_major_r {R : ScrnState → ScrnState → Prop} (F : Frame R) (depth : Nat)
    (t s : ScrnState) (c : Nat) (mode : Option DisplayModeRec) (rotation : Nat) (x y : Int)
    (h : R t s) : R t (drmmode_set_mode_major depth s c mode rotation x y).2 := by
  induction depth generalizing s c mode rotation x y with
  | zero =>
    exact F.body_r _ t
      (fun s o hs => F.dpms_on_r _ t (fun _ _ _ _ _ _ hq => hq) s o hs) s c mode rotation x y h
  | succ n ih =>
    exact F.body_r _ t
      (fun s o hs => F.dpms_on_r _ t (fun s c m r x y hq => ih s c m r x y hq) s o hs)
      s c mode rotation x y h

theorem Frame.resize_set_modes_r {R : ScrnState → ScrnState → Prop} (F : Frame R)
    (depth : Nat) (t s : ScrnState) (h : R t s) : R t (resize_set_modes depth s) := by
  unfold resize_set_modes
  apply Frame.foldl_r
  · intro st i hst
    exact Frame.ite_r _ _ _ _ (F.set_mode_major_r depth t st _ _ _ _ _ hst) hst
  · exact h

theorem resize_fail_restores (s : ScrnState) (sv : ResizeSaved) :
    ResizeRestores sv (resize_fail s sv) := by
  intro _
  unfold resize_fail
  exact ⟨rfl, rfl, rfl, rfl, rfl⟩

theorem resize_finish_restores (depth : Nat) (s : ScrnState) (sv : ResizeSaved) :
    ResizeRestores sv (resize_finish depth s sv) := by
  intro h
  rw [resize_finish_fst] at h
  cases h

theorem resize_rebind_restores (depth : Nat) (s : ScrnState) (sv : ResizeSaved) (w h : Int)
    (np : Nat) : ResizeRestores sv (resize_rebind depth s sv w h np) := by
  unfold resize_rebind
  simp only
  split_ifs
  · exact resize_fail_restores _ _
  · exact resize_finish_restores _ _ _

theorem resize_map_restores (depth : Nat) (s : ScrnState) (sv : ResizeSaved) (w h : Int) :
    ResizeRestores sv (resize_map depth s sv w h) := by
  unfold resize_map
  simp only
  generalize (if s.drmmode.gbm = 0 then drmmode_bo_map s s.drmmode.front_bo else (0, s)) = mp
  by_cases h1 : s.drmmode.gbm = 0 ∧ mp.1 = 0
  · rw [if_pos h1]
    exact resize_fail_restores _ _
  · rw [if_neg h1]
    by_cases h2 : (resize_shadow mp.2 mp.1).1 = true
    · rw [if_pos h2]
      exact resize_fail_restores _ _
    · rw [if_neg h2]
      exact resize_rebind_restores _ _ _ _ _ _

/-- C14: whenever `drmmode_xf86crtc_resize` returns FALSE, the virtual width and
height, the front buffer object and the primary framebuffer id are what they were
before the call, and `displayWidth` is the old pitch divided by the kernel bytes per
pixel: it equals its value before the call whenever it had that value. -/
theorem resize_failure_restores (depth : Nat) (s : ScrnState) (width height : Int)
    (h : (drmmode_xf86crtc_resize depth s width height).1 = false) :
    (drmmode_xf86crtc_resize depth s width height).2.virtualX = s.virtualX ∧
    (drmmode_xf86crtc_resize depth s width height).2.virtualY = s.virtualY ∧
    (drmmode_xf86crtc_resize depth s width height).2.drmmode.front_bo = s.drmmode.front_bo ∧
    (drmmode_xf86crtc_resize depth s width height).2.drmmode.fb_id = s.drmmode.fb_id ∧
    (drmmode_xf86crtc_resize depth s width height).2.displayWidth
      = Int.tdiv (toInt32 (drmmode_bo_get_pitch s s.drmmode.front_bo))
          (Int.tdiv (s.drmmode.kbpp + 7) 8) ∧
    (s.displayWidth = Int.tdiv (toInt32 (drmmode_bo_get_pitch s s.drmmode.front_bo))
        (Int.tdiv (s.drmmode.kbpp + 7) 8) →
      (drmmode_xf86crtc_resize depth s width height).2.displayWidth = s.displayWidth) := by
  have key : ResizeRestores
      { old_width := s.virtualX, old_height := s.virtualY,
        old_pitch := toInt32 (drmmode_bo_get_pitch s s.drmmode.front_bo),
        old_front := s.drmmode.front_bo, old_fb_id := s.drmmode.fb_id,
        kcpp := Int.tdiv (s.drmmode.kbpp + 7) 8 }
      (drmmode_xf86crtc_resize depth s width height) := by
    unfold drmmode_xf86crtc_resize
    simp only
    split_ifs
    · intro hh
      cases hh
    · exact resize_fail_restores _ _
    · exact resize_map_restores _ _ _ _ _
  obtain ⟨h1, h2, h3, h4, h5⟩ := key h
  exact ⟨h1, h2, h3, h4, h5, fun hd => h5.trans hd.symm⟩

/-- Witness of C14: the 100x100 screen is resized to 200x200 and the allocation of the
new front buffer fails. -/
theorem resize_failure_restores_witness :
    (drmmode_xf86crtc_resize 0 small_screen 200 200).1 = false ∧
    (drmmode_xf86crtc_resize 0 small_screen 200 200).2.virtualX = 100 ∧
    (drmmode_xf86crtc_resize 0 small_screen 200 200).2.drmmode.front_bo = { dumb := 9 } ∧
    (drmmode_xf86crtc_resize 0 small_screen 200 200).2.drmmode.fb_id = 3 ∧
    (drmmode_xf86crtc_resize 0 small_screen 200 200).2.displayWidth = 100 :=
  ⟨by decide,
    (resize_failure_restores 0 small_screen 200 200 (by decide)).1,
    (resize_failure_restores 0 small_screen 200 200 (by decide)).2.2.1,
    (resize_failure_restores 0 small_screen 200 200 (by decide)).2.2.2.1,
    (resize_failure_restores 0 small_screen 200 200 (by decide)).2.2.2.2.2 (by decide)⟩

theorem addfb_crtc (s : ScrnState) (fb : Nat) : (set_mode_major_addfb s fb).2.2.crtc = s.crtc := by
  unfold set_mode_major_addfb
  simp only
  split_ifs <;> simp

theorem apply_false_crtc (hook : ScrnState → xf86OutputRec → Int → ScrnState)
    (s : ScrnState) (c : Nat) (m : DisplayModeRec) (x y : Int)
    (h : (set_mode_major_apply hook s c m x y).1 = false) :
    (set_mode_major_apply hook s c m x y).2.crtc = s.crtc := by
  unfold set_mode_major_apply at h ⊢
  simp only [drmmode_crtc_gamma_set] at h ⊢
  split_ifs at h ⊢
  all_goals simp [addfb_crtc]

theorem tentative_active (s : ScrnState) (c : Nat) (mode : Option DisplayModeRec)
    (rotation : Nat) (x y : Int) :
    ((set_mode_major_tentative s c mode rotation x y).crtc c).active = (s.crtc c).active := by
  unfold set_mode_major_tentative
  cases mode <;> simp

theorem body_false_active (hook : ScrnState → xf86OutputRec → Int → ScrnState)
    (s : ScrnState) (c : Nat) (mode : Option DisplayModeRec) (rotation : Nat) (x y : Int)
    (h : (set_mode_major_body hook s c mode rotation x y).1 = false) :
    ((set_mode_major_body hook s c mode rotation x y).2.crtc c).active = (s.crtc c).active := by
  unfold set_mode_major_body at h ⊢
  simp only at h ⊢
  rw [set_mode_major_done_fst] at h
  rw [h]
  have hd : ∀ t sv, ((set_mode_major_done t c false sv).2.crtc c).active = (t.crtc c).active := by
    intro t sv
    simp [set_mode_major_done]
  rw [hd]
  by_cases h0 : (set_mode_major_tentative s c mode rotation x y).ask.1 = 0
  · simp only [if_pos h0, emit_crtc, ask_crtc]
    exact tentative_active s c mode rotation x y
  · rw [if_neg h0] at h ⊢
    cases mode with
    | none => cases h
    | some m =>
      simp only at h ⊢
      rw [apply_false_crtc _ _ _ _ _ _ h]
      simp only [emit_crtc, ask_crtc]
      exact tentative_active s c (some m) rotation x y

theorem ask_of_answers (s t : ScrnState) (h : t.answers = s.answers) :
    t.ask.1 = s.ask.1 ∧ t.ask.2.answers = s.ask.2.answers := by
  unfold ScrnState.ask
  rw [h]
  cases s.answers <;> simp [h]

theorem tentative_answers (s : ScrnState) (c : Nat) (mode : Option DisplayModeRec)
    (rotation : Nat) (x y : Int) :
    (set_mode_major_tentative s c mode rotation x y).answers = s.answers := by
  unfold set_mode_major_tentative
  cases mode <;> rfl

theorem tentative_ask (s : ScrnState) (c : Nat) (mode : Option DisplayModeRec)
    (rotation : Nat) (x y : Int) :
    (set_mode_major_tentative s c mode rotation x y).ask.1 = s.ask.1 ∧
    (set_mode_major_tentative s c mode rotation x y).ask.2.ask.1 = s.ask.2.ask.1 := by
  have h1 := ask_of_answers s _ (tentative_answers s c mode rotation x y)
  exact ⟨h1.1, (ask_of_answers _ _ h1.2).1⟩

theorem body_alloc_failure (hook : ScrnState → xf86OutputRec → Int → ScrnState)
    (s : ScrnState) (c : Nat) (mode : Option DisplayModeRec) (rotation : Nat) (x y : Int)
    (h : s.ask.1 = 0) : (set_mode_major_body hook s c mode rotation x y).1 = false := by
  unfold set_mode_major_body
  simp only
  rw [set_mode_major_done_fst, if_pos ((tentative_ask s c mode rotation x y).1.trans h)]

theorem apply_rotate_failure (hook : ScrnState → xf86OutputRec → Int → ScrnState)
    (s : ScrnState) (c : Nat) (m : DisplayModeRec) (x y : Int) (h : s.ask.1 = 0) :
    (set_mode_major_apply hook s c m x y).1 = true ∧
    (set_mode_major_apply hook s c m x y).2.crtc = s.crtc := by
  simp [set_mode_major_apply, h]

theorem body_rotate_failure (hook : ScrnState → xf86OutputRec → Int → ScrnState)
    (s : ScrnState) (c : Nat) (m : DisplayModeRec) (rotation : Nat) (x y : Int)
    (h1 : s.ask.1 ≠ 0) (h2 : s.ask.2.ask.1 = 0) :
    (set_mode_major_body hook s c (some m) rotation x y).1 = true ∧
    ((set_mode_major_body hook s c (some m) rotation x y).2.crtc c).active = true ∧
    ((set_mode_major_body hook s c (some m) rotation x y).2.crtc c).mode = m ∧
    ((set_mode_major_body hook s c (some m) rotation x y).2.crtc c).x = x ∧
    ((set_mode_major_body hook s c (some m) rotation x y).2.crtc c).y = y ∧
    ((set_mode_major_body hook s c (some m) rotation x y).2.crtc c).rotation = rotation := by
  have ht := tentative_ask s c (some m) rotation x y
  have hrot : (((set_mode_major_tentative s c (some m) rotation x y).ask.2.emit
      (Call.calloc (set_mode_major_tentative s c (some m) rotation x y).ask.1)).ask.1) = 0 := by
    rw [(ask_of_answers _ _ (emit_answers _ _)).1, ht.2, h2]
  have ha := apply_rotate_failure hook _ c m x y hrot
  unfold set_mode_major_body
  simp only
  rw [if_neg (by rw [ht.1]; exact h1)]
  rw [set_mode_major_done_fst, ha.1]
  refine ⟨rfl, ?_⟩
  have hc : ((set_mode_major_apply hook
      ((set_mode_major_tentative s c (some m) rotation x y).ask.2.emit
        (Call.calloc (set_mode_major_tentative s c (some m) rotation x y).ask.1)) c m x y).2.crtc c)
      = { s.crtc c with mode := m, x := x, y := y, rotation := rotation } := by
    rw [ha.2]
    simp [set_mode_major_tentative]
  simp [set_mode_major_done, hc]

/-- Failure paths of `drmmode_set_mode_major` with a non-null mode: whenever the call
returns FALSE the x/y/rotation/mode snapshot is restored and `active` is what it was;
the call returns FALSE when the output-id array cannot be allocated; when the array
is allocated and `xf86CrtcRotate` fails the call returns TRUE, marks the CRTC active
and leaves the requested mode, position and rotation in the CRTC. -/
theorem set_mode_major_failure (depth : Nat) (s : ScrnState) (c : Nat) (m : DisplayModeRec)
    (rotation : Nat) (x y : Int) :
    ((drmmode_set_mode_major depth s c (some m) rotation x y).1 = false →
      ((drmmode_set_mode_major depth s c (some m) rotation x y).2.crtc c).mode
        = (s.crtc c).mode ∧
      ((drmmode_set_mode_major depth s c (some m) rotation x y).2.crtc c).x = (s.crtc c).x ∧
      ((drmmode_set_mode_major depth s c (some m) rotation x y).2.crtc c).y = (s.crtc c).y ∧
      ((drmmode_set_mode_major depth s c (some m) rotation x y).2.crtc c).rotation
        = (s.crtc c).rotation ∧
      ((drmmode_set_mode_major depth s c (some m) rotation x y).2.crtc c).active
        = (s.crtc c).active) ∧
    (s.ask.1 = 0 → (drmmode_set_mode_major depth s c (some m) rotation x y).1 = false) ∧
    (s.ask.1 ≠ 0 → s.ask.2.ask.1 = 0 →
      (drmmode_set_mode_major depth s c (some m) rotation x y).1 = true ∧
      ((drmmode_set_mode_major depth s c (some m) rotation x y).2.crtc c).active = true ∧
      ((drmmode_set_mode_major depth s c (some m) rotation x y).2.crtc c).mode = m ∧
      ((drmmode_set_mode_major depth s c (some m) rotation x y).2.crtc c).x = x ∧
      ((drmmode_set_mode_major depth s c (some m) rotation x y).2.crtc c).y = y ∧
      ((drmmode_set_mode_major depth s c (some m) rotation x y).2.crtc c).rotation
        = rotation) := by
  cases depth with
  | zero =>
    refine ⟨fun h => ?_, body_alloc_failure _ s c _ rotation x y,
      body_rotate_failure _ s c m rotation x y⟩
    obtain ⟨a1, a2, a3, a4⟩ := set_mode_major_body_rollback _ s c (some m) rotation x y h
    exact ⟨a1, a2, a3, a4, body_false_active _ s c (some m) rotation x y h⟩
  | succ n =>
    refine ⟨fun h => ?_, body_alloc_failure _ s c _ rotation x y,
      body_rotate_failure _ s c m rotation x y⟩
    obtain ⟨a1, a2, a3, a4⟩ := set_mode_major_body_rollback _ s c (some m) rotation x y h
    exact ⟨a1, a2, a3, a4, body_false_active _ s c (some m) rotation x y h⟩

/-- Example of a failing mode-set: the kernel rejects the mode-set with -22; the call
returns FALSE, the CRTC is back at (3, 4) and is not marked active. -/
theorem set_mode_major_failure_witness :
    (drmmode_set_mode_major 1 modeset_rejected 0 (some mode_1080p) 1 10 20).1 = false ∧
    ((drmmode_set_mode_major 1 modeset_rejected 0 (some mode_1080p) 1 10 20).2.crtc 0).x = 3 ∧
    ((drmmode_set_mode_major 1 modeset_rejected 0 (some mode_1080p) 1 10 20).2.crtc 0).active
      = false :=
  ⟨by decide,
    ((set_mode_major_failure 1 modeset_rejected 0 mode_1080p 1 10 20).1 (by decide)).2.1,
    ((set_mode_major_failure 1 modeset_rejected 0 mode_1080p 1 10 20).1
      (by decide)).2.2.2.2.trans (by decide)⟩

/-- C16: the code evaluated at the failing input.  The allocation of the output-id
array succeeds and `xf86CrtcRotate` fails: `drmmode_set_mode_major` leaves through
`done` with `ret` still TRUE, so it returns TRUE, the CRTC is marked active and holds
the requested position (10, 20), not the snapshot (3, 4).  On the sibling failure, the
kernel rejecting the mode-set, the same call returns FALSE, restores the position
(3, 4) and does not mark the CRTC active. -/
theorem set_mode_major_rotate_failure_reports_success :
    (drmmode_set_mode_major 0 rotate_refused 0 (some mode_1080p) 1 10 20).1 = true ∧
    Call.xf86CrtcRotate 0 false ∈
      (drmmode_set_mode_major 0 rotate_refused 0 (some mode_1080p) 1 10 20).2.trace ∧
    ((drmmode_set_mode_major 0 rotate_refused 0 (some mode_1080p) 1 10 20).2.crtc 0).active
      = true ∧
    ((drmmode_set_mode_major 0 rotate_refused 0 (some mode_1080p) 1 10 20).2.crtc 0).x = 10 ∧
    (rotate_refused.crtc 0).x = 3 ∧ (rotate_refused.crtc 0).active = false ∧
    (drmmode_set_mode_major 1 modeset_rejected 0 (some mode_1080p) 1 10 20).1 = false ∧
    ((drmmode_set_mode_major 1 modeset_rejected 0 (some mode_1080p) 1 10 20).2.crtc 0).x = 3 ∧
    ((drmmode_set_mode_major 1 modeset_rejected 0 (some mode_1080p) 1 10 20).2.crtc 0).active
      = false := by
  decide


/-! ## Hot-plug: outputs are kept in place -/

theorem sameObject_refl (o : xf86OutputRec) : SameObject o o := rfl

theorem sameObject_trans (a b c : xf86OutputRec) (h1 : SameObject a b) (h2 : SameObject b c) :
    SameObject a c := by
  unfold SameObject at *
  rw [← h1, ← h2]

theorem sameObject_rebind (o : xf86OutputRec) (id : Int) (k : Option drmModeConnector) :
    SameObject o
      { o with driver_private := { o.driver_private with output_id := id, mode_output := k } } :=
  rfl

theorem outputsKept_refl (l : List xf86OutputRec) : OutputsKept l l :=
  fun _ o h => ⟨o, h, sameObject_refl o⟩

theorem outputsKept_trans (a b c : List xf86OutputRec) (h1 : OutputsKept a b)
    (h2 : OutputsKept b c) : OutputsKept a c := by
  intro i o h
  obtain ⟨o1, e1, s1⟩ := h1 i o h
  obtain ⟨o2, e2, s2⟩ := h2 i o1 e1
  exact ⟨o2, e2, sameObject_trans _ _ _ s1 s2⟩

theorem outputsKept_cons (x y : xf86OutputRec) (a b : List xf86OutputRec)
    (hx : SameObject x y) (h : OutputsKept a b) : OutputsKept (x :: a) (y :: b) := by
  intro i o hi
  cases i with
  | zero =>
    simp only [List.getElem?_cons_zero, Option.some.injEq] at hi ⊢
    subst hi
    exact ⟨y, rfl, hx⟩
  | succ n =>
    simp only [List.getElem?_cons_succ] at hi ⊢
    exact h n o hi

theorem outputsKept_append (l : List xf86OutputRec) (x : xf86OutputRec) :
    OutputsKept l (l ++ [x]) := by
  intro i o hi
  have hlt : i < l.length := by
    by_contra hge
    rw [List.getElem?_eq_none (by omega)] at hi
    cases hi
  exact ⟨o, by rw [List.getElem?_append_left hlt]; exact hi, sameObject_refl o⟩

theorem outputsKept_length (a b : List xf86OutputRec) (h : OutputsKept a b) :
    a.length ≤ b.length := by
  by_contra hlt
  have hb : b.length < a.length := by omega
  obtain ⟨o', e, _⟩ := h b.length (a.get ⟨b.length, hb⟩) (by simp [List.getElem?_eq_getElem hb])
  rw [List.getElem?_eq_none (le_refl _)] at e
  cases e

theorem uevents_invalidate_kept (r : drmModeRes) (outs : List xf86OutputRec) :
    OutputsKept outs (uevents_invalidate r outs).1 := by
  induction outs with
  | nil => exact outputsKept_refl _
  | cons o rest ih =>
    simp only [uevents_invalidate]
    split_ifs
    · exact outputsKept_cons _ _ _ _ (sameObject_refl o) ih
    · exact outputsKept_cons _ _ _ _ (sameObject_rebind o _ _) ih

theorem reuse_output_kept (name : List Char) (id : Nat) (k : drmModeConnector)
    (outs res : List xf86OutputRec) (h : reuse_output name id k outs = some res) :
    OutputsKept outs res := by
  induction outs generalizing res with
  | nil => simp [reuse_output] at h
  | cons o rest ih =>
    unfold reuse_output at h
    by_cases hn : o.name.take 32 = name.take 32
    · rw [if_pos hn] at h
      simp only [Option.some.injEq] at h
      subst h
      exact outputsKept_cons _ _ _ _ (sameObject_rebind o _ _) (outputsKept_refl _)
    · rw [if_neg hn] at h
      cases hr : reuse_output name id k rest with
      | none => rw [hr] at h; simp at h
      | some r0 =>
        rw [hr] at h
        simp only [Option.map_some', Option.some.injEq] at h
        subst h
        exact outputsKept_cons _ _ _ _ (sameObject_refl o) (ih r0 hr)

theorem output_init_kept (env : DrmEnv) (s : OutputConfig) (r : drmModeRes) (i : Nat)
    (dyn : Bool) (sh : Nat) :
    OutputsKept s.output (drmmode_output_init env s r i dyn sh).2.output := by
  rcases output_init_cases env s r i dyn sh with h | ⟨name, k, h⟩ | ⟨o, _, h⟩
  · rw [h]; exact outputsKept_refl _
  · exact reuse_output_kept _ _ _ _ _ h
  · rw [h]; exact outputsKept_append _ _

theorem uevents_discover_kept (env : DrmEnv) (r : drmModeRes) (l : List Nat)
    (acc : Bool × OutputConfig) :
    OutputsKept acc.2.output (l.foldl (uevents_discover_one env r) acc).2.output := by
  induction l generalizing acc with
  | nil => exact outputsKept_refl _
  | cons i rest ih =>
    simp only [List.foldl_cons]
    refine outputsKept_trans _ _ _ ?_ (ih _)
    simp only [uevents_discover_one]
    split_ifs
    · exact outputsKept_refl _
    · exact output_init_kept _ _ _ _ _ _

theorem uevents_invalidate_at (r : drmModeRes) (outs : List xf86OutputRec) (i : Nat)
    (o : xf86OutputRec) (h : outs[i]? = some o)
    (habs : r.connectors.any (fun c => c = toU32 o.driver_private.output_id) = false) :
    (uevents_invalidate r outs).1[i]?
      = some { o with driver_private :=
                { o.driver_private with mode_output := none, output_id := -1 } } := by
  induction outs generalizing i with
  | nil => simp at h
  | cons x rest ih =>
    cases i with
    | zero =>
      simp only [List.getElem?_cons_zero, Option.some.injEq] at h
      subst h
      simp only [uevents_invalidate, habs, Bool.false_eq_true, if_false,
        List.getElem?_cons_zero]
    | succ n =>
      simp only [List.getElem?_cons_succ] at h
      have := ih n h
      simp only [uevents_invalidate]
      split_ifs <;> simpa using this

theorem handle_uevents_kept (env : DrmEnv) (r : drmModeRes) (s : OutputConfig)
    (hc : r.count_crtcs = s.num_crtc) :
    OutputsKept s.output (drmmode_handle_uevents env true (some r) s).output := by
  rw [handle_uevents_output env r s hc]
  unfold uevents_discover
  exact outputsKept_trans _ _ _ (uevents_invalidate_kept r s.output)
    (uevents_discover_kept env r (List.range r.connectors.length)
      ((uevents_invalidate r s.output).2.1,
        { s with output := (uevents_invalidate r s.output).1,
                 trace := s.trace ++ (uevents_invalidate r s.output).2.2 }))

theorem handle_uevents_settled (env : DrmEnv) (r : drmModeRes) (s : OutputConfig)
    (hc : r.count_crtcs = s.num_crtc) (hw : ∀ c ∈ r.connectors, c < 4294967296) :
    ∀ o ∈ (drmmode_handle_uevents env true (some r) s).output, Settled r o := by
  rw [handle_uevents_output env r s hc]
  exact uevents_discover_settled env r hw _ (fun i hi => List.mem_range.mp hi) _
    (uevents_invalidate_settled r s.output)

/-- C19 (counterexample): the output "DP-1" is bound to connector 1; a hot-plug event
lists connector 2 only, which derives the same name and carries a `PATH` blob.  The
identifier 1 is absent from the new connector set, yet after the reconciliation the
output has the identifier 2 and a cached descriptor: `drmmode_output_init` re-bound
the output that the first loop had invalidated. -/
theorem hotplug_rebinds_invalidated_output :
    replug_before.output.map (fun o => o.driver_private.output_id) = [1] ∧
    ((uevents_invalidate { count_crtcs := 1, connectors := [2] } replug_before.output).1.map
      (fun o => (o.driver_private.output_id, o.driver_private.mode_output.isSome)))
      = [(-1, false)] ∧
    replug_after.output.map
      (fun o => (o.driver_private.output_id, o.driver_private.mode_output.isSome))
      = [(2, true)] := by
  decide

/-- C19 (amended): for every hot-plug reconciliation with a matching CRTC count, every
output that existed before the event is still in the output list at the same position
afterwards (the list never shrinks; the output object is the same up to the connector
it is bound to); the first loop sets the identifier of each output whose identifier is
absent from the newly enumerated connector set to -1 and clears its cached descriptor;
and after the reconciliation such an output is either still invalidated (identifier
-1, no descriptor) or bound to a connector of the new set, `drmmode_output_init`
having re-bound the output of that name. -/
theorem hotplug_keeps_outputs (env : DrmEnv) (r : drmModeRes) (s : OutputConfig)
    (hc : r.count_crtcs = s.num_crtc) (hw : ∀ c ∈ r.connectors, c < 4294967296) :
    s.output.length ≤ (drmmode_handle_uevents env true (some r) s).output.length ∧
    (∀ (i : Nat) (o : xf86OutputRec), s.output[i]? = some o →
      ∃ o' : xf86OutputRec,
        (drmmode_handle_uevents env true (some r) s).output[i]? = some o' ∧
        SameObject o o' ∧
        ((o'.driver_private.output_id = -1 ∧ o'.driver_private.mode_output = none) ∨
          r.connectors.any (fun c => c = toU32 o'.driver_private.output_id) = true)) ∧
    (∀ (i : Nat) (o : xf86OutputRec), s.output[i]? = some o →
      r.connectors.any (fun c => c = toU32 o.driver_private.output_id) = false →
      (uevents_invalidate r s.output).1[i]?
        = some { o with driver_private :=
                  { o.driver_private with mode_output := none, output_id := -1 } }) := by
  have hk := handle_uevents_kept env r s hc
  refine ⟨outputsKept_length _ _ hk, fun i o h => ?_,
    fun i o h habs => uevents_invalidate_at r s.output i o h habs⟩
  obtain ⟨o', e, so⟩ := hk i o h
  refine ⟨o', e, so, ?_⟩
  have hm : o' ∈ (drmmode_handle_uevents env true (some r) s).output :=
    List.mem_iff_getElem?.mpr ⟨i, e⟩
  rcases handle_uevents_settled env r s hc hw o' hm with h1 | h1
  · exact Or.inr h1
  · exact Or.inl h1

/-- Witness of the amended C19: the event in which connector 1 is replaced by
connector 2. -/
theorem hotplug_keeps_outputs_witness :
    replug_before.output.length ≤ replug_after.output.length :=
  (hotplug_keeps_outputs twin_env { count_crtcs := 1, connectors := [2] } replug_before
    (by decide) (by decide)).1

/-! ## The event records -/

theorem balance_ask (s : ScrnState) : event_balance s.ask.2 = event_balance s := by
  unfold event_balance
  rw [ask_trace, ask_queue]

theorem balance_emit (s : ScrnState) (c : Call) :
    event_balance (s.emit c) = event_balance s + c.allocs - c.frees := by
  unfold event_balance
  simp only [emit_trace, emit_queue, List.map_append, List.sum_append, List.map_cons,
    List.map_nil, List.sum_cons, List.sum_nil]
  ring

theorem balance_setPpriv (s : ScrnState) (p : Nat) (v : msPixmapPrivRec) :
    event_balance (s.setPpriv p v) = event_balance s := rfl

theorem balance_setPriv (s : ScrnState) (c : Nat) (v : drmmode_crtc_private_rec) :
    event_balance (s.setPriv c v) = event_balance s := rfl

theorem balance_alloc (s : ScrnState) (a : vblank_event_args) :
    event_balance (ms_drm_queue_alloc s a).2 = event_balance s - 1 := by
  unfold event_balance
  simp only [queue_alloc_queue, List.length_cons]
  have : (ms_drm_queue_alloc s a).2.trace = s.trace := rfl
  rw [this]
  push_cast
  ring

theorem queue_take_length (seq : Nat) (q : List (Nat × vblank_event_args))
    (a : vblank_event_args) (rest : List (Nat × vblank_event_args))
    (h : queue_take seq q = some (a, rest)) : q.length = rest.length + 1 := by
  induction q generalizing a rest with
  | nil => simp [queue_take] at h
  | cons x xs ih =>
    unfold queue_take at h
    by_cases hx : x.1 = seq
    · rw [if_pos hx] at h
      simp only [Option.some.injEq, Prod.mk.injEq] at h
      rw [← h.2]
      rfl
    · rw [if_neg hx] at h
      cases hq : queue_take seq xs with
      | none => rw [hq] at h; simp at h
      | some r =>
        rw [hq] at h
        simp only [Option.map_some', Option.some.injEq, Prod.mk.injEq] at h
        rw [← h.2]
        simp only [List.length_cons]
        rw [ih r.1 r.2 hq]

theorem balance_take (s : ScrnState) (rest : List (Nat × vblank_event_args))
    (h : s.ms_drm_queue.length = rest.length + 1) :
    event_balance { s with ms_drm_queue := rest } = event_balance s + 1 := by
  unfold event_balance
  simp only
  rw [h]
  push_cast
  ring

theorem balance_abort_handler (s : ScrnState) (args : vblank_event_args) :
    event_balance (drmmode_SharedPixmapVBlankEventAbort s args) = event_balance s - 1 := by
  unfold drmmode_SharedPixmapVBlankEventAbort
  simp only
  rw [balance_emit, balance_setPpriv]
  simp [Call.allocs, Call.frees]

theorem balance_abort_seq (s : ScrnState) (seq : Nat) :
    event_balance (ms_drm_abort_seq s seq) = event_balance s := by
  unfold ms_drm_abort_seq
  cases h : queue_take seq s.ms_drm_queue with
  | none => rfl
  | some r =>
    simp only
    rw [balance_abort_handler, balance_take s r.2 (queue_take_length seq _ r.1 r.2 h)]
    ring

theorem balance_PresentOnVBlank (s : ScrnState) (p c : Nat) :
    event_balance (drmmode_SharedPixmapPresentOnVBlank s p c).2 = event_balance s := by
  unfold drmmode_SharedPixmapPresentOnVBlank
  simp only
  split_ifs with h1 h2 h3
  · rfl
  · rfl
  · rw [balance_emit, balance_ask]
    simp [Call.allocs, Call.frees, h3]
  · rw [balance_emit, balance_ask, balance_setPpriv, balance_alloc, balance_emit, balance_ask]
    simp [Call.allocs, Call.frees, h3]

theorem balance_Flip (s : ScrnState) (p c : Nat) :
    event_balance (drmmode_SharedPixmapFlip s p c).2 = event_balance s := by
  unfold drmmode_SharedPixmapFlip
  simp only
  split_ifs with h1 h2
  · rw [balance_emit, balance_ask]
    simp [Call.allocs, Call.frees, h1]
  · rw [balance_abort_seq, balance_emit, balance_ask, balance_setPpriv, balance_alloc,
      balance_emit, balance_ask]
    simp [Call.allocs, Call.frees, h1]
  · rw [balance_emit, balance_ask, balance_setPpriv, balance_alloc, balance_emit, balance_ask]
    simp [Call.allocs, Call.frees, h1]

theorem balance_Present (s : ScrnState) (p c : Nat) :
    event_balance (drmmode_SharedPixmapPresent s p c).2 = event_balance s := by
  have h0 : ∀ b : Bool, event_balance (s.ask.2.emit (Call.PresentSharedPixmap p b))
      = event_balance s := by
    intro b
    rw [balance_emit, balance_ask]
    simp [Call.allocs, Call.frees]
  unfold drmmode_SharedPixmapPresent
  simp only
  split_ifs
  · rw [balance_Flip, h0]
  · rw [balance_PresentOnVBlank, balance_Flip, h0]
  · rw [balance_emit, balance_ask, balance_setPpriv, h0]
    simp [Call.allocs, Call.frees]
  · rw [balance_PresentOnVBlank, balance_setPpriv, balance_emit, balance_ask, balance_setPpriv,
      h0]
    simp [Call.allocs, Call.frees]
  · rw [balance_PresentOnVBlank, h0]

theorem balance_handler (s : ScrnState) (args : vblank_event_args) :
    event_balance (drmmode_SharedPixmapVBlankEventHandler s args) = event_balance s - 1 := by
  unfold drmmode_SharedPixmapVBlankEventHandler
  simp only
  rw [balance_emit]
  split_ifs
  · rw [balance_Present, balance_setPriv]
    simp [Call.allocs, Call.frees]
  · rw [balance_Present]
    simp [Call.allocs, Call.frees]

theorem balance_ms_drm_handler (s : ScrnState) (seq : Nat) :
    event_balance (ms_drm_handler s seq) = event_balance s := by
  unfold ms_drm_handler
  cases h : queue_take seq s.ms_drm_queue with
  | none => rfl
  | some r =>
    simp only
    rw [balance_handler, balance_take s r.2 (queue_take_length seq _ r.1 r.2 h)]
    ring

theorem balance_run (c : Nat) (s : ScrnState) (op : FlipOp) :
    event_balance (op.run c s) = event_balance s := by
  cases op with
  | present p => exact balance_Present s p c
  | flip p => exact balance_Flip s p c
  | retry p => exact balance_PresentOnVBlank s p c
  | complete seq => exact balance_ms_drm_handler s seq
  | abort seq => exact balance_abort_seq s seq

theorem balance_run_ops (c : Nat) (ops : List FlipOp) (s : ScrnState) :
    event_balance (run_ops c s ops) = event_balance s := by
  induction ops generalizing s with
  | nil => rfl
  | cons op rest ih =>
    unfold run_ops at ih ⊢
    simp only [List.foldl_cons]
    rw [ih, balance_run]

theorem queue_take_head (seq : Nat) (a : vblank_event_args)
    (q : List (Nat × vblank_event_args)) : queue_take seq ((seq, a) :: q) = some (a, q) := by
  simp [queue_take]

theorem Flip_false (s : ScrnState) (p c : Nat)
    (h : (drmmode_SharedPixmapFlip s p c).1 = false) :
    (drmmode_SharedPixmapFlip s p c).2.ms_drm_queue = s.ms_drm_queue ∧
    (((drmmode_SharedPixmapFlip s p c).2.ppriv p).flip_seq = 0 ∨
      ((drmmode_SharedPixmapFlip s p c).2.ppriv p).flip_seq = (s.ppriv p).flip_seq) := by
  unfold drmmode_SharedPixmapFlip at h ⊢
  simp only at h ⊢
  split_ifs at h ⊢ with h1 h2
  · exact ⟨by simp, Or.inr (by simp)⟩
  · unfold ms_drm_abort_seq
    simp only [emit_queue, ask_queue, setPpriv_queue, queue_alloc_queue, emit_ppriv, ask_ppriv,
      setPpriv_ppriv_same, queue_take_head]
    refine ⟨rfl, Or.inl ?_⟩
    unfold drmmode_SharedPixmapVBlankEventAbort
    simp [ScrnState.ppriv, ScrnState.setPpriv, ScrnState.emit]

theorem PresentOnVBlank_false (s : ScrnState) (p c : Nat)
    (h : (drmmode_SharedPixmapPresentOnVBlank s p c).1 = false) :
    ((drmmode_SharedPixmapPresentOnVBlank s p c).2.ms_drm_queue = s.ms_drm_queue ∧
      ((drmmode_SharedPixmapPresentOnVBlank s p c).2.ppriv p).flip_seq = (s.ppriv p).flip_seq) ∨
    ((drmmode_SharedPixmapPresentOnVBlank s p c).2.ms_drm_queue
        = (((drmmode_SharedPixmapPresentOnVBlank s p c).2.ppriv p).flip_seq,
            { frontTarget := p, backTarget := (s.priv c).prime_pixmap, crtc := c,
              flip := false }) :: s.ms_drm_queue ∧
      ((drmmode_SharedPixmapPresentOnVBlank s p c).2.ppriv p).flip_seq ≠ 0 ∧
      ∃ r : Int, r < 0 ∧
        (drmmode_SharedPixmapPresentOnVBlank s p c).2.trace.getLast?
          = some (Call.drmWaitVBlank (s.priv c).vblank_pipe
              ((drmmode_SharedPixmapPresentOnVBlank s p c).2.ppriv p).flip_seq r)) := by
  unfold drmmode_SharedPixmapPresentOnVBlank at h ⊢
  simp only at h ⊢
  split_ifs at h ⊢ with h1 h2 h3
  · exact Or.inl ⟨rfl, rfl⟩
  · exact Or.inl ⟨rfl, rfl⟩
  · exact Or.inl ⟨by simp, by simp⟩
  · right
    refine ⟨?_, ?_, ?_⟩
    · simp [queue_alloc_queue]
    · simp only [emit_ppriv, ask_ppriv, setPpriv_ppriv_same]
      unfold ms_drm_queue_alloc
      simp only
      split_ifs <;> omega
    · simp only [decide_eq_false_iff_not, not_le] at h
      exact ⟨_, h, by simp⟩

/-- Accounting of the event records: over every sequence of present attempts, flip
submissions, vblank retries, completions and aborts, the number of event records
allocated minus the number freed minus the number still registered does not change.
Whenever `drmmode_SharedPixmapFlip` returns FALSE, the event queue is what it was
before the call and the surface's pending sequence number is zero or unchanged.
Whenever `drmmode_SharedPixmapPresentOnVBlank` returns FALSE, either the queue and the
pending sequence number are unchanged, or `drmWaitVBlank` failed and the record
allocated by the call is still registered under the surface's pending sequence
number. -/
theorem event_records_accounted (c : Nat) (s : ScrnState) (ops : List FlipOp) (p : Nat) :
    event_balance (run_ops c s ops) = event_balance s ∧
    ((drmmode_SharedPixmapFlip s p c).1 = false →
      (drmmode_SharedPixmapFlip s p c).2.ms_drm_queue = s.ms_drm_queue ∧
      (((drmmode_SharedPixmapFlip s p c).2.ppriv p).flip_seq = 0 ∨
        ((drmmode_SharedPixmapFlip s p c).2.ppriv p).flip_seq = (s.ppriv p).flip_seq)) ∧
    ((drmmode_SharedPixmapPresentOnVBlank s p c).1 = false →
      ((drmmode_SharedPixmapPresentOnVBlank s p c).2.ms_drm_queue = s.ms_drm_queue ∧
        ((drmmode_SharedPixmapPresentOnVBlank s p c).2.ppriv p).flip_seq
          = (s.ppriv p).flip_seq) ∨
      ((drmmode_SharedPixmapPresentOnVBlank s p c).2.ms_drm_queue
          = (((drmmode_SharedPixmapPresentOnVBlank s p c).2.ppriv p).flip_seq,
              { frontTarget := p, backTarget := (s.priv c).prime_pixmap, crtc := c,
                flip := false }) :: s.ms_drm_queue ∧
        ((drmmode_SharedPixmapPresentOnVBlank s p c).2.ppriv p).flip_seq ≠ 0 ∧
        ∃ r : Int, r < 0 ∧
          (drmmode_SharedPixmapPresentOnVBlank s p c).2.trace.getLast?
            = some (Call.drmWaitVBlank (s.priv c).vblank_pipe
                ((drmmode_SharedPixmapPresentOnVBlank s p c).2.ppriv p).flip_seq r))) :=
  ⟨balance_run_ops c ops s, Flip_false s p c, PresentOnVBlank_false s p c⟩

/-- Example of a failing flip submission: on surface 7 `drmModePageFlip` fails with -1;
the call returns FALSE and leaves the event queue as it was. -/
theorem event_records_accounted_witness :
    (drmmode_SharedPixmapFlip
      (drmmode_EnableSharedPixmapFlipping 0 (flip_screen [1, -1]) 0 5 7).2 7 0).1 = false ∧
    (drmmode_SharedPixmapFlip
      (drmmode_EnableSharedPixmapFlipping 0 (flip_screen [1, -1]) 0 5 7).2 7 0).2.ms_drm_queue
      = (drmmode_EnableSharedPixmapFlipping 0 (flip_screen [1, -1]) 0 5 7).2.ms_drm_queue :=
  ⟨by decide,
    ((event_records_accounted 0
      (drmmode_EnableSharedPixmapFlipping 0 (flip_screen [1, -1]) 0 5 7).2 [] 7).2.1
      (by decide)).1⟩

/-- C13: the code evaluated at the failing input.  Flipping is enabled on CRTC 0 with
the surfaces 5 and 7; a vblank retry for the back surface 7 allocates and registers
its record (event 1) and `drmWaitVBlank` fails with -1.
`drmmode_SharedPixmapPresentOnVBlank` returns FALSE without aborting the event: the
record is still registered in the event queue, it was not freed, and the pending
sequence number of surface 7 refers to it.  The sibling `drmmode_SharedPixmapFlip`, in
the same state with `drmModePageFlip` failing with -1, aborts its event: it returns
FALSE with an empty queue, the record freed and the pending sequence number zero. -/
theorem retry_failure_leaves_record_registered :
    (drmmode_SharedPixmapPresentOnVBlank
      (drmmode_EnableSharedPixmapFlipping 0 (flip_screen [1, -1]) 0 5 7).2 7 0).1 = false ∧
    (drmmode_SharedPixmapPresentOnVBlank
      (drmmode_EnableSharedPixmapFlipping 0 (flip_screen [1, -1]) 0 5 7).2 7 0).2.ms_drm_queue
      = [(1, { frontTarget := 7, backTarget := 5, crtc := 0, flip := false })] ∧
    ((drmmode_SharedPixmapPresentOnVBlank
      (drmmode_EnableSharedPixmapFlipping 0 (flip_screen [1, -1]) 0 5 7).2 7 0).2.ppriv
        7).flip_seq = 1 ∧
    (drmmode_EnableSharedPixmapFlipping 0 (flip_screen [1, -1]) 0 5 7).2.ms_drm_queue = [] ∧
    (drmmode_SharedPixmapFlip
      (drmmode_EnableSharedPixmapFlipping 0 (flip_screen [1, -1]) 0 5 7).2 7 0).1 = false ∧
    (drmmode_SharedPixmapFlip
      (drmmode_EnableSharedPixmapFlipping 0 (flip_screen [1, -1]) 0 5 7).2 7 0).2.ms_drm_queue
      = [] ∧
    ((drmmode_SharedPixmapFlip
      (drmmode_EnableSharedPixmapFlipping 0 (flip_screen [1, -1]) 0 5 7).2 7 0).2.ppriv
        7).flip_seq = 0 := by
  decide


/-! ## Which events a disable aborts -/

theorem queue_take_sublist (seq : Nat) (q : List (Nat × vblank_event_args))
    (a : vblank_event_args) (rest : List (Nat × vblank_event_args))
    (h : queue_take seq q = some (a, rest)) : rest.Sublist q := by
  induction q generalizing a rest with
  | nil => simp [queue_take] at h
  | cons x xs ih =>
    unfold queue_take at h
    by_cases hx : x.1 = seq
    · rw [if_pos hx] at h
      simp only [Option.some.injEq, Prod.mk.injEq] at h
      rw [← h.2]
      exact List.sublist_cons_self _ _
    · rw [if_neg hx] at h
      cases hq : queue_take seq xs with
      | none => rw [hq] at h; simp at h
      | some r =>
        rw [hq] at h
        simp only [Option.map_some', Option.some.injEq, Prod.mk.injEq] at h
        rw [← h.2]
        exact (ih r.1 r.2 hq).cons₂ x

theorem queue_take_none (seq : Nat) (q : List (Nat × vblank_event_args))
    (h : queue_take seq q = none) : ∀ e ∈ q, e.1 ≠ seq := by
  induction q with
  | nil => simp
  | cons x xs ih =>
    unfold queue_take at h
    by_cases hx : x.1 = seq
    · rw [if_pos hx] at h
      cases h
    · rw [if_neg hx] at h
      cases hq : queue_take seq xs with
      | none =>
        intro e he
        rcases List.mem_cons.mp he with he | he
        · rw [he]; exact hx
        · exact ih hq e he
      | some r => rw [hq] at h; simp at h

theorem queue_take_removes (seq : Nat) (q : List (Nat × vblank_event_args))
    (a : vblank_event_args) (rest : List (Nat × vblank_event_args))
    (hnd : (q.map Prod.fst).Nodup) (h : queue_take seq q = some (a, rest)) :
    ∀ e ∈ rest, e.1 ≠ seq := by
  induction q generalizing a rest with
  | nil => simp [queue_take] at h
  | cons x xs ih =>
    simp only [List.map_cons, List.nodup_cons, List.mem_map, not_exists, not_and] at hnd
    unfold queue_take at h
    by_cases hx : x.1 = seq
    · rw [if_pos hx] at h
      simp only [Option.some.injEq, Prod.mk.injEq] at h
      rw [← h.2]
      intro e he hes
      exact hnd.1 e he (hes.trans hx.symm)
    · rw [if_neg hx] at h
      cases hq : queue_take seq xs with
      | none => rw [hq] at h; simp at h
      | some r =>
        rw [hq] at h
        simp only [Option.map_some', Option.some.injEq, Prod.mk.injEq] at h
        rw [← h.2]
        intro e he
        rcases List.mem_cons.mp he with he | he
        · rw [he]; exact hx
        · exact ih r.1 r.2 hnd.2 hq e he

theorem abort_seq_removes (s : ScrnState) (seq : Nat)
    (hnd : (s.ms_drm_queue.map Prod.fst).Nodup) :
    ∀ e ∈ (ms_drm_abort_seq s seq).ms_drm_queue, e.1 ≠ seq := by
  unfold ms_drm_abort_seq
  cases h : queue_take seq s.ms_drm_queue with
  | none => exact queue_take_none seq _ h
  | some r => exact queue_take_removes seq _ r.1 r.2 hnd h

theorem abort_seq_nodup (s : ScrnState) (seq : Nat)
    (hnd : (s.ms_drm_queue.map Prod.fst).Nodup) :
    ((ms_drm_abort_seq s seq).ms_drm_queue.map Prod.fst).Nodup := by
  unfold ms_drm_abort_seq
  cases h : queue_take seq s.ms_drm_queue with
  | none => exact hnd
  | some r => exact hnd.sublist ((queue_take_sublist seq _ r.1 r.2 h).map _)

theorem abort_seq_ppriv (s : ScrnState) (seq : Nat) (x : Nat)
    (h : ∀ a, (seq, a) ∈ s.ms_drm_queue → a.frontTarget ≠ x) :
    (ms_drm_abort_seq s seq).ppriv x = s.ppriv x := by
  unfold ms_drm_abort_seq
  cases hq : queue_take seq s.ms_drm_queue with
  | none => rfl
  | some r =>
    have hne := h r.1 (queue_take_sub seq _ r.1 r.2 hq).1
    unfold drmmode_SharedPixmapVBlankEventAbort
    simp only [emit_ppriv]
    exact setPpriv_ppriv_ne _ _ _ _ (Ne.symm hne)

theorem set_target_null_queue (depth : Nat) (s : ScrnState) (c : Nat) (t : Target) :
    (drmmode_set_target_scanout_pixmap depth s c 0 t).2.ms_drm_queue = s.ms_drm_queue := by
  rw [set_target_null_eq]
  unfold scanout_release_gpu scanout_release_cpu
  split_ifs <;> simp only [setPriv_queue, emit_queue, setPpriv_queue]
  all_goals split_ifs <;> rfl

/-- With flipping active and both targets set, `drmmode_FiniSharedPixmapFlipping` takes
the events registered under the pending sequence numbers of the displayed and of the
back target off the queue. -/
theorem Fini_aborts (s : ScrnState) (c : Nat) (ha : (s.priv c).flipping_active = true)
    (hp : (s.priv c).prime_pixmap ≠ 0) (hb : (s.priv c).prime_pixmap_back ≠ 0)
    (hnd : (s.ms_drm_queue.map Prod.fst).Nodup)
    (hwf : ∀ e ∈ s.ms_drm_queue, e.1 = (s.ppriv (s.priv c).prime_pixmap).flip_seq →
      (s.ppriv e.2.frontTarget).flip_seq = (s.ppriv (s.priv c).prime_pixmap).flip_seq) :
    ((s.ppriv (s.priv c).prime_pixmap).flip_seq ≠ 0 →
      ∀ e ∈ (drmmode_FiniSharedPixmapFlipping s c).ms_drm_queue,
        e.1 ≠ (s.ppriv (s.priv c).prime_pixmap).flip_seq) ∧
    ((s.ppriv (s.priv c).prime_pixmap_back).flip_seq ≠ 0 →
      ∀ e ∈ (drmmode_FiniSharedPixmapFlipping s c).ms_drm_queue,
        e.1 ≠ (s.ppriv (s.priv c).prime_pixmap_back).flip_seq) := by
  unfold drmmode_FiniSharedPixmapFlipping
  rw [if_neg (by rw [ha]; decide)]
  simp only [setPriv_ppriv, setPriv_priv_same, hp, if_false]
  generalize hs2 : s.setPriv c { s.priv c with flipping_active := false } = s2
  have hq2 : s2.ms_drm_queue = s.ms_drm_queue := by rw [← hs2]; rfl
  have hp2 : ∀ x, s2.ppriv x = s.ppriv x := by intro x; rw [← hs2]; rfl
  generalize hq1 : (s.ppriv (s.priv c).prime_pixmap).flip_seq = q1 at hwf ⊢
  generalize hqb : (s.ppriv (s.priv c).prime_pixmap_back).flip_seq = qb
  -- the state after the first abort
  have h3nd : ((if q1 ≠ 0 then ms_drm_abort_seq s2 q1 else s2).ms_drm_queue.map
      Prod.fst).Nodup := by
    split_ifs
    · exact abort_seq_nodup _ _ (by rw [hq2]; exact hnd)
    · rw [hq2]; exact hnd
  have h3q1 : q1 ≠ 0 → ∀ e ∈ (if q1 ≠ 0 then ms_drm_abort_seq s2 q1 else s2).ms_drm_queue,
      e.1 ≠ q1 := by
    intro h0
    rw [if_pos h0]
    exact abort_seq_removes _ _ (by rw [hq2]; exact hnd)
  have h3b : q1 ≠ qb →
      ((if q1 ≠ 0 then ms_drm_abort_seq s2 q1 else s2).ppriv (s.priv c).prime_pixmap_back).flip_seq
        = qb := by
    intro hne
    split_ifs with h0
    · rw [abort_seq_ppriv s2 q1 _ (fun a hmem hft => ?_), hp2, hqb]
      rw [hq2] at hmem
      have := hwf (q1, a) hmem rfl
      rw [hft, hqb] at this
      exact hne this.symm
    · rw [hp2, hqb]
  have h3p : ((if q1 ≠ 0 then ms_drm_abort_seq s2 q1 else s2).priv c).prime_pixmap_back
      = (s.priv c).prime_pixmap_back := by
    have e2 : (s2.priv c).prime_pixmap_back = (s.priv c).prime_pixmap_back := by
      rw [← hs2, setPriv_priv_same]
    split_ifs
    · simp only [ScrnState.priv, abort_seq_crtc] at e2 ⊢
      exact e2
    · exact e2
  generalize (if q1 ≠ 0 then ms_drm_abort_seq s2 q1 else s2) = s3 at h3nd h3q1 h3b h3p ⊢
  rw [h3p, if_neg hb]
  have hsub : ∀ e ∈ (if (s3.ppriv (s.priv c).prime_pixmap_back).flip_seq ≠ 0 then
        ms_drm_abort_seq s3 (s3.ppriv (s.priv c).prime_pixmap_back).flip_seq
      else s3).ms_drm_queue, e ∈ s3.ms_drm_queue := by
    intro e he
    split_ifs at he
    · exact abort_seq_queue _ _ e he
    · exact he
  refine ⟨fun h0 e he => h3q1 h0 e (hsub e he), fun hb e he => ?_⟩
  by_cases hne : q1 = qb
  · rw [← hne] at hb ⊢
    exact h3q1 hb e (hsub e he)
  · rw [h3b hne, if_pos hb] at he
    exact abort_seq_removes _ _ h3nd e he

theorem disable_before_release_idle (s : ScrnState) (c : Nat)
    (ha : (s.priv c).flipping_active = false) :
    disable_before_release s c = s.setPriv c { s.priv c with enable_flipping := false } := by
  unfold disable_before_release drmmode_FiniSharedPixmapFlipping
  rw [if_pos (by rw [setPriv_priv_same]; exact ha)]

set_option maxHeartbeats 4000000 in
/-- C11 (counterexample): flipping is enabled on CRTC 0 with the surfaces 5 and 7 and
its start stalled, so `flipping_active` is FALSE while the back surface 7 has the
pending event 1.  `drmmode_DisableSharedPixmapFlipping` releases both targets and the
event is still registered, with the pending sequence number of surface 7 still 1:
`drmmode_FiniSharedPixmapFlipping` returned at once. -/
theorem disable_keeps_event_when_inactive :
    (stalled_start.priv 0).flipping_active = false ∧
    (stalled_start.priv 0).prime_pixmap_back = 7 ∧
    (stalled_start.ppriv 7).flip_seq = 1 ∧
    stalled_start.ms_drm_queue.map Prod.fst = [1] ∧
    (drmmode_DisableSharedPixmapFlipping 0 stalled_start 0).ms_drm_queue.map Prod.fst = [1] ∧
    ((drmmode_DisableSharedPixmapFlipping 0 stalled_start 0).ppriv 7).flip_seq = 1 ∧
    ((drmmode_DisableSharedPixmapFlipping 0 stalled_start 0).priv 0).prime_pixmap = 0 ∧
    ((drmmode_DisableSharedPixmapFlipping 0 stalled_start 0).priv 0).prime_pixmap_back = 0 := by
  decide

/-- C11 (amended): when `flipping_active` is TRUE at the time of the call and both
scanout targets are attached (non-null), with the sequence numbers in the queue
distinct and the event under the displayed target's pending number recorded for a
surface with that pending number, the events registered under the non-zero pending
sequence numbers of the displayed target and of the back target are off the queue
before `drmmode_DisableSharedPixmapFlipping` releases the targets.  When
`flipping_active` is FALSE, nothing is aborted: the queue and every pending sequence
number are what they were while both targets are released.  In both cases the two
releases run in the state `drmmode_FiniSharedPixmapFlipping` leaves and do not touch
the event queue. -/
theorem disable_aborts_when_active (depth : Nat) (s : ScrnState) (c : Nat) :
    (s.fault = false →
      ((s.priv c).flipping_active = false ∨
        ((s.priv c).prime_pixmap ≠ 0 ∧ (s.priv c).prime_pixmap_back ≠ 0)) →
      drmmode_DisableSharedPixmapFlipping depth s c
        = (drmmode_set_target_scanout_pixmap depth
            (drmmode_set_target_scanout_pixmap depth (disable_before_release s c) c 0
              Target.front).2 c 0 Target.back).2 ∧
      (drmmode_DisableSharedPixmapFlipping depth s c).ms_drm_queue
        = (disable_before_release s c).ms_drm_queue) ∧
    ((s.priv c).flipping_active = true →
      (s.priv c).prime_pixmap ≠ 0 → (s.priv c).prime_pixmap_back ≠ 0 →
      (s.ms_drm_queue.map Prod.fst).Nodup →
      (∀ e ∈ s.ms_drm_queue, e.1 = (s.ppriv (s.priv c).prime_pixmap).flip_seq →
        (s.ppriv e.2.frontTarget).flip_seq = (s.ppriv (s.priv c).prime_pixmap).flip_seq) →
      (disable_before_release s c).fault = s.fault ∧
      ((s.ppriv (s.priv c).prime_pixmap).flip_seq ≠ 0 →
        ∀ e ∈ (disable_before_release s c).ms_drm_queue,
          e.1 ≠ (s.ppriv (s.priv c).prime_pixmap).flip_seq) ∧
      ((s.ppriv (s.priv c).prime_pixmap_back).flip_seq ≠ 0 →
        ∀ e ∈ (disable_before_release s c).ms_drm_queue,
          e.1 ≠ (s.ppriv (s.priv c).prime_pixmap_back).flip_seq)) ∧
    ((s.priv c).flipping_active = false →
      (disable_before_release s c).fault = s.fault ∧
      (disable_before_release s c).ms_drm_queue = s.ms_drm_queue ∧
      ∀ p, ((disable_before_release s c).ppriv p).flip_seq = (s.ppriv p).flip_seq) := by
  refine ⟨fun hs hor => ?_, fun ha hp hb hnd hwf => ?_, fun ha => ?_⟩
  · have hf : (drmmode_FiniSharedPixmapFlipping
        (s.setPriv c { s.priv c with enable_flipping := false }) c).fault = false := by
      rw [Fini_no_fault _ c (by simpa only [setPriv_priv_same] using hor), setPriv_fault]
      exact hs
    have e := Disable_unfold depth s c hf
    refine ⟨e, ?_⟩
    rw [e, set_target_null_queue, set_target_null_queue]
    rfl
  · have h := Fini_aborts (s.setPriv c { s.priv c with enable_flipping := false }) c
      (by rw [setPriv_priv_same]; exact ha)
      (by rw [setPriv_priv_same]; exact hp) (by rw [setPriv_priv_same]; exact hb) hnd
      (by simpa only [setPriv_ppriv, setPriv_priv_same, setPriv_queue] using hwf)
    have hnf := Fini_no_fault (s.setPriv c { s.priv c with enable_flipping := false }) c
      (Or.inr ⟨by rw [setPriv_priv_same]; exact hp, by rw [setPriv_priv_same]; exact hb⟩)
    refine ⟨hnf, ?_⟩
    simpa only [setPriv_ppriv, setPriv_priv_same, setPriv_queue] using h
  · rw [disable_before_release_idle s c ha]
    exact ⟨rfl, rfl, fun _ => rfl⟩

/-- Witness of the amended C11: flipping is active with the flip event 1 pending on the
back surface 7; before the targets are released no event is registered under 1. -/
theorem disable_aborts_when_active_witness :
    (flipping_started.ppriv (flipping_started.priv 0).prime_pixmap_back).flip_seq = 1 ∧
    flipping_started.ms_drm_queue.map Prod.fst = [1] ∧
    ∀ e ∈ (disable_before_release flipping_started 0).ms_drm_queue,
      e.1 ≠ (flipping_started.ppriv (flipping_started.priv 0).prime_pixmap_back).flip_seq :=
  ⟨by decide, by decide,
    ((disable_aborts_when_active 0 flipping_started 0).2.1 (by decide) (by decide) (by decide)
      (by decide) (by decide)).2.2 (by decide)⟩

/-! ## Which events an enable aborts -/

theorem eventsKept_refl (s : ScrnState) : EventsKept s s := fun _ h => h

theorem eventsKept_trans (a b c : ScrnState) (h1 : EventsKept a b) (h2 : EventsKept b c) :
    EventsKept a c := fun e he => h2 e (h1 e he)

theorem eventsKept_of_queue (t s u : ScrnState) (hq : u.ms_drm_queue = s.ms_drm_queue)
    (h : EventsKept t s) : EventsKept t u := by
  intro e he
  rw [hq]
  exact h e he

theorem PresentOnVBlank_kept (s : ScrnState) (p c : Nat) :
    EventsKept s (drmmode_SharedPixmapPresentOnVBlank s p c).2 := by
  unfold drmmode_SharedPixmapPresentOnVBlank
  simp only
  split_ifs
  · exact eventsKept_refl s
  · exact eventsKept_refl s
  · exact eventsKept_of_queue s s _ (by simp) (eventsKept_refl s)
  · intro e he
    simp only [emit_queue, ask_queue, setPpriv_queue, queue_alloc_queue]
    exact List.mem_cons_of_mem _ he

theorem Flip_kept (s : ScrnState) (p c : Nat) :
    EventsKept s (drmmode_SharedPixmapFlip s p c).2 := by
  unfold drmmode_SharedPixmapFlip
  simp only
  split_ifs
  · exact eventsKept_of_queue s s _ (by simp) (eventsKept_refl s)
  · intro e he
    unfold ms_drm_abort_seq
    simp only [emit_queue, ask_queue, setPpriv_queue, queue_alloc_queue, emit_ppriv, ask_ppriv,
      setPpriv_ppriv_same, queue_take_head]
    exact he
  · intro e he
    simp only [emit_queue, ask_queue, setPpriv_queue, queue_alloc_queue]
    exact List.mem_cons_of_mem _ he

theorem Present_kept (s : ScrnState) (p c : Nat) :
    EventsKept s (drmmode_SharedPixmapPresent s p c).2 := by
  unfold drmmode_SharedPixmapPresent
  simp only
  have h1 : ∀ b, EventsKept s (s.ask.2.emit (Call.PresentSharedPixmap p b)) :=
    fun b => eventsKept_of_queue s s _ (by simp) (eventsKept_refl s)
  split_ifs
  · exact eventsKept_trans _ _ _ (h1 _) (Flip_kept _ _ _)
  · exact eventsKept_trans _ _ _ (eventsKept_trans _ _ _ (h1 _) (Flip_kept _ _ _))
      (PresentOnVBlank_kept _ _ _)
  · exact eventsKept_of_queue s s _ (by simp) (eventsKept_refl s)
  · refine eventsKept_trans _ _ _ ?_ (PresentOnVBlank_kept _ _ _)
    exact eventsKept_of_queue s s _ (by simp) (eventsKept_refl s)
  · exact eventsKept_trans _ _ _ (h1 _) (PresentOnVBlank_kept _ _ _)

/-- The registered events are a frame of the mode-set: a mode-set takes no event off
the queue. -/
theorem eventsKept_frame : Frame EventsKept where
  refl := eventsKept_refl
  trans := eventsKept_trans
  ask := fun s => eventsKept_of_queue s s _ (ask_queue s) (eventsKept_refl s)
  emit := fun s _ => eventsKept_refl s
  setCrtc := fun s _ _ => eventsKept_refl s
  setDrmmode := fun s _ => eventsKept_refl s
  present := Present_kept

@[simp] theorem setDumb_queue (s : ScrnState) (p : Nat) (v : dumb_bo) :
    (s.setDumb p v).ms_drm_queue = s.ms_drm_queue := rfl

@[simp] theorem setGbm_queue (s : ScrnState) (p : Nat) (v : gbm_bo) :
    (s.setGbm p v).ms_drm_queue = s.ms_drm_queue := rfl

@[simp] theorem setDrmmode_queue (s : ScrnState) (v : drmmode_rec) :
    (s.setDrmmode v).ms_drm_queue = s.ms_drm_queue := rfl

theorem create_bo_queue (s : ScrnState) (bo : drmmode_bo) (w h b : Int) :
    (drmmode_create_bo s bo w h b).2.2.ms_drm_queue = s.ms_drm_queue := by
  unfold drmmode_create_bo
  simp only
  split_ifs <;> simp

theorem dumb_bo_map_queue (s : ScrnState) (bo : Nat) :
    (dumb_bo_map s bo).2.ms_drm_queue = s.ms_drm_queue := by
  unfold dumb_bo_map
  simp only
  split_ifs <;> simp

theorem bo_map_queue (s : ScrnState) (bo : drmmode_bo) :
    (drmmode_bo_map s bo).2.ms_drm_queue = s.ms_drm_queue := by
  unfold drmmode_bo_map
  simp only
  split_ifs <;> first | rfl | exact dumb_bo_map_queue _ _

theorem map_slave_bo_queue (s : ScrnState) (p : msPixmapPrivRec) :
    (drmmode_map_slave_bo s p).2.ms_drm_queue = s.ms_drm_queue := by
  unfold drmmode_map_slave_bo
  simp only
  split_ifs <;> first | rfl | exact dumb_bo_map_queue _ _

theorem bo_destroy_st_queue (s : ScrnState) (bo : drmmode_bo) :
    (bo_destroy_st s bo).2.ms_drm_queue = s.ms_drm_queue := by
  unfold bo_destroy_st
  split_ifs <;> simp

theorem glamor_handle_queue (s : ScrnState) :
    (drmmode_glamor_handle_new_screen_pixmap s).2.ms_drm_queue = s.ms_drm_queue := by
  have hp : ∀ p bo, (drmmode_set_pixmap_bo s p bo).2.ms_drm_queue = s.ms_drm_queue := by
    intro p bo
    unfold drmmode_set_pixmap_bo
    split_ifs <;> simp
  unfold drmmode_glamor_handle_new_screen_pixmap
  simp only
  split_ifs <;> simp [hp]

theorem resize_fail_queue (s : ScrnState) (sv : ResizeSaved) :
    (resize_fail s sv).2.ms_drm_queue = s.ms_drm_queue := by
  unfold resize_fail
  exact bo_destroy_st_queue _ _

theorem resize_shadow_queue (s : ScrnState) (np : Nat) :
    (resize_shadow s np).2.2.ms_drm_queue = s.ms_drm_queue := by
  unfold resize_shadow
  simp only
  split_ifs <;> simp

theorem resize_finish_kept (depth : Nat) (t s : ScrnState) (sv : ResizeSaved)
    (h : EventsKept t s) : EventsKept t (resize_finish depth s sv).2 := by
  unfold resize_finish
  simp only
  have h1 := eventsKept_frame.resize_set_modes_r depth t s h
  split_ifs
  · exact eventsKept_of_queue t _ _ (by rw [bo_destroy_st_queue]; rfl) h1
  · exact h1

theorem resize_rebind_kept (depth : Nat) (t s : ScrnState) (sv : ResizeSaved) (w h : Int)
    (np : Nat) (hs : EventsKept t s) : EventsKept t (resize_rebind depth s sv w h np).2 := by
  unfold resize_rebind
  simp only
  have hg : EventsKept t (drmmode_glamor_handle_new_screen_pixmap
      (s.emit (Call.ModifyPixmapHeader s.screen_pixmap w h
        (s.displayWidth * Int.tdiv (s.bitsPerPixel + 7) 8) np))).2 :=
    eventsKept_of_queue t s _ (by rw [glamor_handle_queue]; rfl) hs
  split_ifs
  · exact eventsKept_of_queue t _ _ (resize_fail_queue _ _) hg
  · exact resize_finish_kept _ _ _ _ hg

theorem resize_map_kept (depth : Nat) (t s : ScrnState) (sv : ResizeSaved) (w h : Int)
    (hs : EventsKept t s) : EventsKept t (resize_map depth s sv w h).2 := by
  unfold resize_map
  simp only
  have hmp : EventsKept t
      (if s.drmmode.gbm = 0 then drmmode_bo_map s s.drmmode.front_bo else (0, s)).2 := by
    split_ifs
    · exact eventsKept_of_queue t s _ (bo_map_queue _ _) hs
    · exact hs
  generalize (if s.drmmode.gbm = 0 then drmmode_bo_map s s.drmmode.front_bo else (0, s)) = mp
    at hmp ⊢
  have hsh : EventsKept t (resize_shadow mp.2 mp.1).2.2 :=
    eventsKept_of_queue t _ _ (resize_shadow_queue _ _) hmp
  by_cases h1 : s.drmmode.gbm = 0 ∧ mp.1 = 0
  · rw [if_pos h1]
    exact eventsKept_of_queue t _ _ (resize_fail_queue _ _) hmp
  · rw [if_neg h1]
    by_cases h2 : (resize_shadow mp.2 mp.1).1 = true
    · rw [if_pos h2]
      exact eventsKept_of_queue t _ _ (resize_fail_queue _ _) hsh
    · rw [if_neg h2]
      exact resize_rebind_kept _ _ _ _ _ _ _ hsh

theorem resize_kept (depth : Nat) (t s : ScrnState) (w h : Int) (hs : EventsKept t s) :
    EventsKept t (drmmode_xf86crtc_resize depth s w h).2 := by
  unfold drmmode_xf86crtc_resize
  simp only
  have h1 : EventsKept t
      ((drmmode_create_bo (s.setDrmmode { s.drmmode with fb_id := 0 })
        (s.setDrmmode { s.drmmode with fb_id := 0 }).drmmode.front_bo w h
        (s.setDrmmode { s.drmmode with fb_id := 0 }).drmmode.kbpp).2.2) :=
    eventsKept_of_queue t s _ (by rw [create_bo_queue]; rfl) hs
  split_ifs
  · exact hs
  · exact eventsKept_of_queue t _ _ (by rw [resize_fail_queue]; rfl) h1
  · exact resize_map_kept _ _ _ _ _ _ (eventsKept_of_queue t _ _ rfl h1)

theorem release_gpu_queue (s : ScrnState) (c : Nat) (t : Target) :
    (scanout_release_gpu s c t).ms_drm_queue = s.ms_drm_queue := by
  unfold scanout_release_gpu
  split_ifs <;> simp only [setPriv_queue, emit_queue, setDrmmode_queue]
  split_ifs <;> rfl

theorem set_target_gpu_kept (depth : Nat) (t s : ScrnState) (c ppix : Nat) (tg : Target)
    (hs : EventsKept t s) :
    EventsKept t (drmmode_set_target_scanout_pixmap_gpu depth s c ppix tg).2 := by
  unfold drmmode_set_target_scanout_pixmap_gpu
  simp only
  have hrel : EventsKept t (scanout_release_gpu s c tg) :=
    eventsKept_of_queue t s _ (release_gpu_queue s c tg) hs
  generalize scanout_release_gpu s c tg = s1 at hrel ⊢
  have hrz : EventsKept t (scanout_resize_gpu depth s1 (scanout_bounding_box s1 c ppix).1
      (scanout_bounding_box s1 c ppix).2.1).2 := by
    unfold scanout_resize_gpu
    simp only
    split_ifs
    · exact resize_kept _ _ _ _ _ hrel
    · exact eventsKept_of_queue t _ _ rfl (resize_kept depth t s1 _ _ hrel)
    · exact hrel
  split_ifs
  · exact hrel
  · exact hrz
  · exact eventsKept_of_queue t _ _ rfl hrz

theorem eventsUntouched_refl (s : ScrnState) : EventsUntouched s s :=
  fun h => ⟨h, rfl, fun _ => rfl⟩

theorem eventsUntouched_trans (a b c : ScrnState) (h1 : EventsUntouched a b)
    (h2 : EventsUntouched b c) : EventsUntouched a c := by
  intro h
  obtain ⟨m1, q1, p1⟩ := h1 h
  obtain ⟨m2, q2, p2⟩ := h2 m1
  exact ⟨m2, q2.trans q1, fun p => (p2 p).trans (p1 p)⟩

/-- Stores that leave the path, the queue and the pending sequence numbers alone. -/
theorem eventsUntouched_of_eq (s u : ScrnState)
    (hm : u.drmmode.reverse_prime_offload_mode = s.drmmode.reverse_prime_offload_mode)
    (hq : u.ms_drm_queue = s.ms_drm_queue)
    (hp : ∀ p, (u.ppriv p).flip_seq = (s.ppriv p).flip_seq) : EventsUntouched s u :=
  fun h => ⟨hm.trans h, hq, hp⟩

theorem setPpriv_flip_seq (s : ScrnState) (x : Nat) (v : msPixmapPrivRec)
    (hv : v.flip_seq = (s.ppriv x).flip_seq) (p : Nat) :
    ((s.setPpriv x v).ppriv p).flip_seq = (s.ppriv p).flip_seq := by
  by_cases h : p = x
  · subst h
    rw [setPpriv_ppriv_same, hv]
  · rw [setPpriv_ppriv_ne _ _ _ _ h]

theorem release_cpu_untouched (s : ScrnState) (c : Nat) (t : Target) :
    EventsUntouched s (scanout_release_cpu s c t) := by
  unfold scanout_release_cpu
  split_ifs with h
  · simp only
    refine eventsUntouched_of_eq _ _ ?_ ?_ ?_
    · split_ifs <;> rfl
    · split_ifs <;> rfl
    · intro p
      simp only [setPriv_ppriv]
      by_cases hp : p = t.get (s.priv c)
      · rw [hp]
        split_ifs <;> simp
      · split_ifs <;> simp [setPpriv_ppriv_ne _ _ _ _ hp]
  · exact eventsUntouched_refl s

theorem eventsUntouched_emit_r (t s : ScrnState) (c : Call) (h : EventsUntouched t s) :
    EventsUntouched t (s.emit c) := h

theorem eventsUntouched_ask_r (t s : ScrnState) (h : EventsUntouched t s) :
    EventsUntouched t s.ask.2 :=
  eventsUntouched_trans _ _ _ h
    (eventsUntouched_of_eq _ _ (by rw [ask_drmmode]) (ask_queue s) (fun p => by rw [ask_ppriv]))

theorem eventsUntouched_setPriv_r (t s : ScrnState) (c : Nat) (v : drmmode_crtc_private_rec)
    (h : EventsUntouched t s) : EventsUntouched t (s.setPriv c v) := h

theorem eventsUntouched_setPpriv_r (t s : ScrnState) (x : Nat) (v : msPixmapPrivRec)
    (hv : v.flip_seq = (s.ppriv x).flip_seq) (h : EventsUntouched t s) :
    EventsUntouched t (s.setPpriv x v) :=
  eventsUntouched_trans _ _ _ h
    (eventsUntouched_of_eq _ _ rfl rfl (setPpriv_flip_seq s x v hv))

theorem eventsUntouched_setDumb_r (t s : ScrnState) (x : Nat) (v : dumb_bo)
    (h : EventsUntouched t s) : EventsUntouched t (s.setDumb x v) := h

theorem eventsUntouched_dumb_bo_map_r (t s : ScrnState) (bo : Nat) (h : EventsUntouched t s) :
    EventsUntouched t (dumb_bo_map s bo).2 := by
  unfold dumb_bo_map
  simp only
  have h1 : EventsUntouched t (s.ask.2.ask.2.emit (Call.dumb_bo_map bo s.ask.1)) :=
    eventsUntouched_emit_r _ _ _ (eventsUntouched_ask_r _ _ (eventsUntouched_ask_r _ _ h))
  split_ifs
  · exact eventsUntouched_setDumb_r _ _ _ _ h1
  · exact h1

theorem eventsUntouched_map_slave_r (t s : ScrnState) (p : msPixmapPrivRec)
    (h : EventsUntouched t s) : EventsUntouched t (drmmode_map_slave_bo s p).2 := by
  unfold drmmode_map_slave_bo
  simp only
  split_ifs
  · exact h
  · exact eventsUntouched_dumb_bo_map_r _ _ _ h
  · exact eventsUntouched_dumb_bo_map_r _ _ _ h

theorem eventsUntouched_devptr_r (t s : ScrnState) (x v : Nat) (h : EventsUntouched t s) :
    EventsUntouched t
      { s with pixmap := Function.update s.pixmap x { s.pixmap x with devPrivate_ptr := v } } := by
  refine eventsUntouched_trans _ _ _ h (eventsUntouched_of_eq _ _ rfl rfl (fun p => ?_))
  by_cases hp : p = x
  · subst hp
    simp [ScrnState.ppriv]
  · simp [ScrnState.ppriv, Function.update_noteq hp]

theorem attach_cpu_untouched (t s : ScrnState) (c ppix : Nat) (tg : Target)
    (h : EventsUntouched t s) : EventsUntouched t (scanout_attach_cpu s c ppix tg) := by
  unfold scanout_attach_cpu
  simp only
  apply eventsUntouched_setPriv_r
  have h1 : EventsUntouched t
      (if (s.ppriv ppix).slave_damage = 0 then
        (s.ask.2.emit (Call.DamageCreate s.ask.1.toNat)).setPpriv ppix
          { s.ppriv ppix with slave_damage := s.ask.1.toNat }
      else s) := by
    split_ifs
    · apply eventsUntouched_setPpriv_r
      · simp
      · exact eventsUntouched_emit_r _ _ _ (eventsUntouched_ask_r _ _ h)
    · exact h
  generalize (if (s.ppriv ppix).slave_damage = 0 then
        (s.ask.2.emit (Call.DamageCreate s.ask.1.toNat)).setPpriv ppix
          { s.ppriv ppix with slave_damage := s.ask.1.toNat }
      else s) = s1 at h1 ⊢
  have h3 := eventsUntouched_emit_r t _
    (Call.DamageRegister ppix
      (({ (drmmode_map_slave_bo s1 (s1.ppriv ppix)).2 with
          pixmap := Function.update (drmmode_map_slave_bo s1 (s1.ppriv ppix)).2.pixmap ppix
            { (drmmode_map_slave_bo s1 (s1.ppriv ppix)).2.pixmap ppix with
              devPrivate_ptr := (drmmode_map_slave_bo s1 (s1.ppriv ppix)).1 } } :
          ScrnState).ppriv ppix).slave_damage)
    (eventsUntouched_devptr_r t _ ppix (drmmode_map_slave_bo s1 (s1.ppriv ppix)).1
      (eventsUntouched_map_slave_r t s1 (s1.ppriv ppix) h1))
  generalize (({ (drmmode_map_slave_bo s1 (s1.ppriv ppix)).2 with
          pixmap := Function.update (drmmode_map_slave_bo s1 (s1.ppriv ppix)).2.pixmap ppix
            { (drmmode_map_slave_bo s1 (s1.ppriv ppix)).2.pixmap ppix with
              devPrivate_ptr := (drmmode_map_slave_bo s1 (s1.ppriv ppix)).1 } } :
          ScrnState).emit _) = s3 at h3 ⊢
  split_ifs
  · apply eventsUntouched_setPpriv_r
    · simp
    · exact eventsUntouched_emit_r _ _ _ (eventsUntouched_ask_r _ _ (eventsUntouched_ask_r _ _ h3))
  · exact eventsUntouched_emit_r _ _ _ (eventsUntouched_ask_r _ _ (eventsUntouched_ask_r _ _ h3))
  · exact h3

theorem set_target_cpu_untouched (s : ScrnState) (c ppix : Nat) (tg : Target) :
    EventsUntouched s (drmmode_set_target_scanout_pixmap_cpu s c ppix tg).2 := by
  unfold drmmode_set_target_scanout_pixmap_cpu
  simp only
  split_ifs
  · exact release_cpu_untouched s c tg
  · exact attach_cpu_untouched s _ c ppix tg (release_cpu_untouched s c tg)

theorem set_target_untouched (depth : Nat) (t s : ScrnState) (c ppix : Nat) (tg : Target)
    (h : EventsUntouched t s) :
    EventsUntouched t (drmmode_set_target_scanout_pixmap depth s c ppix tg).2 := by
  intro ht
  have hm := (h ht).1
  unfold drmmode_set_target_scanout_pixmap
  rw [if_neg (by rw [hm]; decide)]
  exact eventsUntouched_trans _ _ _ h (set_target_cpu_untouched s c ppix tg) ht

theorem set_target_kept (depth : Nat) (t s : ScrnState) (c ppix : Nat) (tg : Target)
    (h : EventsKept t s) :
    EventsKept t (drmmode_set_target_scanout_pixmap depth s c ppix tg).2 := by
  unfold drmmode_set_target_scanout_pixmap
  split_ifs with hm
  · exact set_target_gpu_kept depth t s c ppix tg h
  · have hf : s.drmmode.reverse_prime_offload_mode = false := by
      cases hv : s.drmmode.reverse_prime_offload_mode
      · rfl
      · exact absurd hv hm
    exact eventsKept_of_queue t s _ (set_target_cpu_untouched s c ppix tg hf).2.1 h

/-- A relation that the stores of the CRTC private record and the attach calls respect
holds between the state before and after `drmmode_EnableSharedPixmapFlipping`. -/
theorem enable_rel (R : ScrnState → ScrnState → Prop) (depth : Nat)
    (hpriv : ∀ t s c v, R t s → R t (s.setPriv c v))
    (hst : ∀ t s c p tg, R t s → R t (drmmode_set_target_scanout_pixmap depth s c p tg).2)
    (s : ScrnState) (c front back : Nat) (h : R s s) :
    R s (drmmode_EnableSharedPixmapFlipping depth s c front back).2 := by
  have hf : R s (enable_front_attach depth s c front).2 := hst _ _ _ _ _ (hpriv _ _ _ _ h)
  have hb : R s (enable_back_attach depth s c front back).2 :=
    hst _ _ _ _ _ (hpriv _ _ _ _ hf)
  rw [enable_unfold]
  split_ifs
  · exact hpriv _ _ _ _ hf
  · exact hst _ _ _ _ _ (hpriv _ _ _ _ hb)
  · exact hpriv _ _ _ _ hb

/-- C12 (counterexample): flipping is active on CRTC 0 with the targets 5 and 7
attached and the flip event 1 armed on the back target 7.
`drmmode_EnableSharedPixmapFlipping` releases and re-attaches the targets and returns
TRUE; no event record is freed, event 1 is still registered and the pending sequence
number of target 7 is still 1: nothing was aborted. -/
theorem enable_keeps_armed_event :
    (flipping_started.priv 0).prime_pixmap_back = 7 ∧
    (flipping_started.ppriv 7).flip_seq = 1 ∧
    flipping_started.ms_drm_queue.map Prod.fst = [1] ∧
    (drmmode_EnableSharedPixmapFlipping 0 flipping_started 0 5 7).1 = true ∧
    (drmmode_EnableSharedPixmapFlipping 0 flipping_started 0 5 7).2.ms_drm_queue.map Prod.fst
      = [1] ∧
    ((drmmode_EnableSharedPixmapFlipping 0 flipping_started 0 5 7).2.ppriv 7).flip_seq = 1 ∧
    ((drmmode_EnableSharedPixmapFlipping 0 flipping_started 0 5 7).2.trace.map Call.frees).sum
      = 0 := by
  decide

/-- C12 (amended): `drmmode_EnableSharedPixmapFlipping` aborts no event.  Every event
registered before the call is still registered after it; and in the CPU scanout path
(no reverse PRIME offload) the event queue and the pending sequence number of every
pixmap are exactly what they were: a previously attached target is released
(framebuffer removed, damage unregistered) with its armed event left in place. -/
theorem enable_aborts_nothing (depth : Nat) (s : ScrnState) (c front back : Nat) :
    (∀ e ∈ s.ms_drm_queue,
      e ∈ (drmmode_EnableSharedPixmapFlipping depth s c front back).2.ms_drm_queue) ∧
    (s.drmmode.reverse_prime_offload_mode = false →
      (drmmode_EnableSharedPixmapFlipping depth s c front back).2.ms_drm_queue
        = s.ms_drm_queue ∧
      ∀ p, ((drmmode_EnableSharedPixmapFlipping depth s c front back).2.ppriv p).flip_seq
        = (s.ppriv p).flip_seq) := by
  refine ⟨?_, fun hm => ?_⟩
  · exact enable_rel EventsKept depth (fun _ _ _ _ h => h)
      (fun t u c p tg h => set_target_kept depth t u c p tg h) s c front back
      (eventsKept_refl s)
  · exact (enable_rel EventsUntouched depth (fun _ _ _ _ h => h)
      (fun t u c p tg h => set_target_untouched depth t u c p tg h) s c front back
      (eventsUntouched_refl s) hm).2

/-- Witness of the amended C12: the enable on `flipping_started`, which is in the CPU
scanout path, leaves the event queue as it was. -/
theorem enable_aborts_nothing_witness :
    (drmmode_EnableSharedPixmapFlipping 0 flipping_started 0 5 7).2.ms_drm_queue
      = flipping_started.ms_drm_queue :=
  ((enable_aborts_nothing 0 flipping_started 0 5 7).2 (by decide)).1
/-! ## Buffer objects and the backend in use (C21) -/

theorem bo_destroy_dumb_cases (cfg : BuildConfig) (r : Int) (bo : drmmode_bo) :
    (drmmode_bo_destroy cfg r bo).bo.dumb = 0 ∨
    (drmmode_bo_destroy cfg r bo).bo.dumb = bo.dumb := by
  unfold drmmode_bo_destroy
  by_cases h1 : cfg.GLAMOR_HAS_GBM = true ∧ bo.gbm ≠ 0 <;> by_cases h2 : bo.dumb = 0 <;>
    by_cases h3 : r = 0 <;> simp [h1, h2, h3]

theorem bo_destroy_gbm_cases (cfg : BuildConfig) (r : Int) (bo : drmmode_bo) :
    (drmmode_bo_destroy cfg r bo).bo.gbm = 0 ∨
    (drmmode_bo_destroy cfg r bo).bo.gbm = bo.gbm := by
  unfold drmmode_bo_destroy
  by_cases h1 : cfg.GLAMOR_HAS_GBM = true ∧ bo.gbm ≠ 0 <;> by_cases h2 : bo.dumb = 0 <;>
    by_cases h3 : r = 0 <;> simp [h1, h2, h3]

/-- C21 (counterexample): with GPU-native buffers in use, `drmmode_create_bo` on a
buffer object that holds a simple buffer only (at most one backend field non-null)
leaves both backend fields non-null. -/
theorem create_bo_leaves_both_backends :
    drmmode_bo.AtMostOne { dumb := 5, gbm := 0 } ∧
    (drmmode_create_bo gbm_screen { dumb := 5, gbm := 0 } 100 100 32).1 = true ∧
    (drmmode_create_bo gbm_screen { dumb := 5, gbm := 0 } 100 100 32).2.1
      = { dumb := 5, gbm := 7 } ∧
    ¬ drmmode_bo.AtMostOne
        (drmmode_create_bo gbm_screen { dumb := 5, gbm := 0 } 100 100 32).2.1 := by
  decide

/-- C21 (amended): a buffer object that has no backend of the kind that is not in use
(no simple buffer when buffers are GPU-native, no GPU-native buffer otherwise) is left
so by `drmmode_create_bo`, `drmmode_bo_destroy` and `drmmode_bo_for_pixmap`, and it
has at most one non-null backend field, before and after; `drmmode_bo_destroy` leaves
at most one non-null field whenever it starts from at most one. -/
theorem bo_operations_keep_backend (s : ScrnState) (bo : drmmode_bo) (w h b : Int)
    (free_ret : Int) (pixmap : Nat) (hbo : bo.OfBackend s) :
    bo.AtMostOne ∧
    (drmmode_create_bo s bo w h b).2.1.OfBackend s ∧
    (drmmode_create_bo s bo w h b).2.1.AtMostOne ∧
    (drmmode_bo_destroy s.cfg free_ret bo).bo.OfBackend s ∧
    (drmmode_bo_destroy s.cfg free_ret bo).bo.AtMostOne ∧
    (drmmode_bo_for_pixmap s bo pixmap).2.1.OfBackend s ∧
    (drmmode_bo_for_pixmap s bo pixmap).2.1.AtMostOne ∧
    (∀ bo1 : drmmode_bo, bo1.AtMostOne →
      (drmmode_bo_destroy s.cfg free_ret bo1).bo.AtMostOne) := by
  have key : ∀ x : drmmode_bo, x.OfBackend s → x.AtMostOne := by
    intro x hx
    unfold drmmode_bo.OfBackend at hx
    unfold drmmode_bo.AtMostOne
    split_ifs at hx
    · exact Or.inl hx
    · exact Or.inr hx
  have hc : (drmmode_create_bo s bo w h b).2.1.OfBackend s := by
    unfold drmmode_bo.OfBackend at hbo ⊢
    unfold drmmode_create_bo
    by_cases hg : s.cfg.GLAMOR_HAS_GBM = true ∧ s.drmmode.glamor = true
    · simp only [if_pos hg] at hbo ⊢
      split_ifs <;> exact hbo
    · simp only [if_neg hg] at hbo ⊢
      split_ifs <;> exact hbo
  have hd : ∀ x : drmmode_bo, x.OfBackend s →
      (drmmode_bo_destroy s.cfg free_ret x).bo.OfBackend s := by
    intro x hx
    unfold drmmode_bo.OfBackend at hx ⊢
    by_cases hg : s.cfg.GLAMOR_HAS_GBM = true ∧ s.drmmode.glamor = true
    · simp only [if_pos hg] at hx ⊢
      rcases bo_destroy_dumb_cases s.cfg free_ret x with e | e
      · exact e
      · exact e.trans hx
    · simp only [if_neg hg] at hx ⊢
      rcases bo_destroy_gbm_cases s.cfg free_ret x with e | e
      · exact e
      · exact e.trans hx
  have hp : (drmmode_bo_for_pixmap s bo pixmap).2.1.OfBackend s := by
    unfold drmmode_bo.OfBackend at hbo ⊢
    unfold drmmode_bo_for_pixmap
    by_cases hg : s.cfg.GLAMOR_HAS_GBM = true ∧ s.drmmode.glamor = true
    · simp only [if_pos hg] at hbo ⊢
      split_ifs <;> first | exact hbo | rfl
    · simp only [if_neg hg] at hbo ⊢
      split_ifs <;> exact hbo
  refine ⟨key bo hbo, hc, key _ hc, hd bo hbo, key _ (hd bo hbo), hp, key _ hp, ?_⟩
  intro bo1 h1
  unfold drmmode_bo.AtMostOne at h1 ⊢
  rcases h1 with h1 | h1
  · left
    rcases bo_destroy_dumb_cases s.cfg free_ret bo1 with e | e
    · exact e
    · exact e.trans h1
  · right
    rcases bo_destroy_gbm_cases s.cfg free_ret bo1 with e | e
    · exact e
    · exact e.trans h1

/-- C21 (witness): a buffer object holding the GPU-native buffer 3 on a screen with
GPU-native buffers in use. -/
theorem bo_operations_keep_backend_witness :
    drmmode_bo.OfBackend gbm_screen { dumb := 0, gbm := 3 } ∧
    (drmmode_create_bo gbm_screen { dumb := 0, gbm := 3 } 100 100 32).2.1.AtMostOne ∧
    (drmmode_bo_for_pixmap gbm_screen { dumb := 0, gbm := 3 } 9).2.1.AtMostOne :=
  ⟨by decide,
   (bo_operations_keep_backend gbm_screen { dumb := 0, gbm := 3 } 100 100 32 0 9
      (by decide)).2.2.1,
   (bo_operations_keep_backend gbm_screen { dumb := 0, gbm := 3 } 100 100 32 0 9
      (by decide)).2.2.2.2.2.2.1⟩
/-! ## The type bits of a converted mode (C28) -/

theorem ConvertFromKMode_type_eq (f : DisplayModeRec → Int → CrtcTimings) (adj : Int)
    (k : drmModeModeInfo) :
    (drmmode_ConvertFromKMode f adj k).type =
      (if k.type &&& DRM_MODE_TYPE_DRIVER ≠ 0 then M_T_DRIVER else 0) |||
      (if k.type &&& DRM_MODE_TYPE_PREFERRED ≠ 0 then M_T_PREFERRED else 0) := by
  unfold drmmode_ConvertFromKMode
  by_cases h1 : k.type &&& DRM_MODE_TYPE_DRIVER ≠ 0 <;>
    by_cases h2 : k.type &&& DRM_MODE_TYPE_PREFERRED ≠ 0 <;> simp [h1, h2]

/-- C28: the type of the mode `drmmode_ConvertFromKMode` produces is the union of
`M_T_DRIVER`, present iff the kernel mode has `DRM_MODE_TYPE_DRIVER`, and
`M_T_PREFERRED`, present iff the kernel mode has `DRM_MODE_TYPE_PREFERRED`; with both
kernel bits both internal bits are set, and no other bit is ever set, whatever the
other kernel type bits are. -/
theorem ConvertFromKMode_type (f : DisplayModeRec → Int → CrtcTimings) (adj : Int)
    (k : drmModeModeInfo) :
    (drmmode_ConvertFromKMode f adj k).type =
      ((if k.type &&& DRM_MODE_TYPE_DRIVER ≠ 0 then M_T_DRIVER else 0) |||
       (if k.type &&& DRM_MODE_TYPE_PREFERRED ≠ 0 then M_T_PREFERRED else 0)) ∧
    ((drmmode_ConvertFromKMode f adj k).type &&& M_T_DRIVER ≠ 0 ↔
      k.type &&& DRM_MODE_TYPE_DRIVER ≠ 0) ∧
    ((drmmode_ConvertFromKMode f adj k).type &&& M_T_PREFERRED ≠ 0 ↔
      k.type &&& DRM_MODE_TYPE_PREFERRED ≠ 0) ∧
    (k.type &&& DRM_MODE_TYPE_DRIVER ≠ 0 → k.type &&& DRM_MODE_TYPE_PREFERRED ≠ 0 →
      (drmmode_ConvertFromKMode f adj k).type = M_T_DRIVER ||| M_T_PREFERRED) ∧
    (drmmode_ConvertFromKMode f adj k).type &&& (M_T_DRIVER ||| M_T_PREFERRED)
      = (drmmode_ConvertFromKMode f adj k).type := by
  rw [ConvertFromKMode_type_eq]
  by_cases h1 : k.type &&& DRM_MODE_TYPE_DRIVER ≠ 0 <;>
    by_cases h2 : k.type &&& DRM_MODE_TYPE_PREFERRED ≠ 0 <;>
    simp [h1, h2, M_T_DRIVER, M_T_PREFERRED] <;> decide

/-- C28 (witness): a kernel mode of type `DRIVER | PREFERRED | USERDEF` (0x68). -/
theorem ConvertFromKMode_type_witness :
    (drmmode_ConvertFromKMode (fun _ _ => {}) 0 { type := 104 }).type = 72 :=
  ((ConvertFromKMode_type (fun _ _ => {}) 0 { type := 104 }).2.2.2.1 (by decide)
    (by decide)).trans (by decide)
/-! ## Output names and path blobs (C29, C30) -/

theorem create_name_length (env : DrmEnv) (outputs : List xf86OutputRec)
    (koutput : drmModeConnector) (path_blob : Option drmModePropertyBlobRes) :
    (drmmode_create_name env outputs koutput path_blob).length ≤ 31 := by
  unfold drmmode_create_name
  simp only
  split_ifs <;> first
    | exact (List.length_take_le _ _)
    | (split <;> exact (List.length_take_le _ _))

theorem take_eq_of_short (a name : List Char) (hl : name.length ≤ 31)
    (h : a.take 32 = name.take 32) : a = name := by
  have hn : name.take 32 = name := List.take_of_length_le (by omega)
  rw [hn] at h
  have hlen : (a.take 32).length ≤ 31 := by rw [h]; exact hl
  rw [List.length_take] at hlen
  have ha : a.length ≤ 32 := by omega
  rw [List.take_of_length_le ha] at h
  exact h

theorem reuse_output_found (name : List Char) (id : Nat) (k : drmModeConnector)
    (outs : List xf86OutputRec) (o : xf86OutputRec) (ho : o ∈ outs)
    (hn : o.name.take 32 = name.take 32) :
    ∃ pre o1 post, outs = pre ++ o1 :: post ∧ o1.name.take 32 = name.take 32 ∧
      (∀ p ∈ pre, p.name.take 32 ≠ name.take 32) ∧
      reuse_output name id k outs =
        some (pre ++ { o1 with driver_private :=
                        { o1.driver_private with
                          output_id := toInt32 id, mode_output := some k } } :: post) := by
  induction outs with
  | nil => simp at ho
  | cons x rest ih =>
    by_cases hx : x.name.take 32 = name.take 32
    · refine ⟨[], x, rest, rfl, hx, by simp, ?_⟩
      simp [reuse_output, hx]
    · have ho1 : o ∈ rest := by
        rcases List.mem_cons.mp ho with e | e
        · subst e; exact absurd hn hx
        · exact e
      obtain ⟨pre, o1, post, e1, e2, e3, e4⟩ := ih ho1
      refine ⟨x :: pre, o1, post, by simp [e1], e2, ?_, ?_⟩
      · intro p hp
        rcases List.mem_cons.mp hp with e | e
        · subst e; exact hx
        · exact e3 p e
      · unfold reuse_output
        rw [if_neg hx, e4]
        simp

/-- C29: when the output list contains an output whose name is the name
`drmmode_create_name` derives for the connector, the connector carries a PATH blob
and `drmmode_output_init` is called for hot-plug (`dynamic`), the first output of
that name is reused: the call returns 1, the output's identifier becomes the
connector id and its cached descriptor the new connector descriptor, every other
output is untouched and the number of outputs is unchanged; the only call recorded
is the connector query. -/
theorem output_init_reuses_named (env : DrmEnv) (s : OutputConfig) (mode_res : drmModeRes)
    (num crtcshift : Nat) (koutput : drmModeConnector) (blob : drmModePropertyBlobRes)
    (o : xf86OutputRec)
    (hid : mode_res.connectors.getD num 0 < 4294967296)
    (hk : env.drmModeGetConnector (mode_res.connectors.getD num 0) = some koutput)
    (hb : find_path_blob env koutput.props = some blob)
    (ho : o ∈ s.output)
    (hn : o.name = drmmode_create_name env s.output koutput (some blob)) :
    ∃ pre o1 post, s.output = pre ++ o1 :: post ∧ o1.name = o.name ∧
      (∀ p ∈ pre, p.name ≠ o.name) ∧
      drmmode_output_init env s mode_res num true crtcshift =
        (1, { s with
              output := pre ++ { o1 with driver_private :=
                                  { o1.driver_private with
                                    output_id := toInt32 (mode_res.connectors.getD num 0),
                                    mode_output := some koutput } } :: post,
              trace := s.trace ++ [Call.drmModeGetConnector (mode_res.connectors.getD num 0)] }) ∧
      toU32 (toInt32 (mode_res.connectors.getD num 0)) = mode_res.connectors.getD num 0 ∧
      (drmmode_output_init env s mode_res num true crtcshift).2.output.length
        = s.output.length := by
  have hlen := create_name_length env s.output koutput (some blob)
  have hn32 : o.name.take 32 =
      (drmmode_create_name env s.output koutput (some blob)).take 32 := by rw [hn]
  obtain ⟨pre, o1, post, e1, e2, e3, e4⟩ :=
    reuse_output_found _ (mode_res.connectors.getD num 0) koutput s.output o ho hn32
  have hinit : drmmode_output_init env s mode_res num true crtcshift =
        (1, { s with
              output := pre ++ { o1 with driver_private :=
                                  { o1.driver_private with
                                    output_id := toInt32 (mode_res.connectors.getD num 0),
                                    mode_output := some koutput } } :: post,
              trace := s.trace ++
                [Call.drmModeGetConnector (mode_res.connectors.getD num 0)] }) := by
    unfold drmmode_output_init
    simp only [hk, hb, OutputConfig.emit, Option.isSome_some, and_self, if_true, e4]
  refine ⟨pre, o1, post, e1, ?_, ?_, hinit, toU32_toInt32 _ hid, ?_⟩
  · rw [hn]; exact take_eq_of_short _ _ hlen e2
  · intro p hp hpn
    apply e3 p hp
    rw [hpn, hn]
  · rw [hinit, e1]
    simp

/-- C29 (witness): output "DP-1" was bound to connector 1; connector 2 of `twin_env`
carries a PATH blob and derives the same name. -/
theorem output_init_reuses_named_witness :
    (drmmode_output_init twin_env
        { output := [{ name := "DP-1".toList, driver_private := { output_id := -1 } }],
          num_crtc := 1 } twin_res 1 true 0).2.output.length = 1 := by
  obtain ⟨_, _, _, _, _, _, _, _, h⟩ :=
    output_init_reuses_named twin_env
      { output := [{ name := "DP-1".toList, driver_private := { output_id := -1 } }],
        num_crtc := 1 } twin_res 1 0
      { connector_id := 2, connector_type := 10, connector_type_id := 1, props := [(7, 9)] }
      { id := 9, data := "mst:7-1".toList }
      { name := "DP-1".toList, driver_private := { output_id := -1 } }
      (by decide) (by decide) (by decide) (by decide) (by decide)
  exact h

/-- C30: the path blob "mst:1234-1" has four characters between the prefix and the
first '-': `parse_path_blob` returns 0 and its terminator is written at offset 5 of
the 5-byte buffer `conn_id`, one byte past its end, while offset 4 keeps the byte
found there; with the blob "mst:7-1" and the digit '3' found at offset 1 of the
buffer the base connector id stored is 73, not 7. -/
theorem parse_path_blob_overruns_buffer :
    (parse_path_blob [' ', ' ', ' ', ' ', ' ', ' ']
      (some { data := "mst:1234-1".toList })).ret = 0 ∧
    (parse_path_blob [' ', ' ', ' ', ' ', ' ', ' ']
      (some { data := "mst:1234-1".toList })).writes = [0, 1, 2, 3, 5] ∧
    (parse_path_blob [' ', ' ', ' ', ' ', ' ', ' ']
      (some { data := "mst:1234-1".toList })).conn_id
        = ['1', '2', '3', '4', ' ', Char.ofNat 0] ∧
    (parse_path_blob [' ', '3', ' ', ' ', ' ', ' ']
      (some { data := "mst:7-1".toList })).conn_base_id = some 73 ∧
    (parse_path_blob [' ', '3', ' ', ' ', ' ', ' ']
      (some { data := "mst:7-1".toList })).path = some ['1'] := by
  decide
/-! ## Calls are only ever appended -/

theorem traceKept_refl (s : ScrnState) : TraceKept s s := List.prefix_refl _

theorem traceKept_trans (a b c : ScrnState) (h1 : TraceKept a b) (h2 : TraceKept b c) :
    TraceKept a c := List.IsPrefix.trans h1 h2

theorem traceKept_of_trace (t s u : ScrnState) (h : TraceKept t s) (e : u.trace = s.trace) :
    TraceKept t u := by
  unfold TraceKept at h ⊢
  rw [e]; exact h

theorem traceKept_emit_r (t s : ScrnState) (c : Call) (h : TraceKept t s) :
    TraceKept t (s.emit c) := by
  unfold TraceKept at h ⊢
  rw [emit_trace]
  exact h.trans (List.prefix_append _ _)

theorem traceKept_ask_r (t s : ScrnState) (h : TraceKept t s) : TraceKept t s.ask.2 :=
  traceKept_of_trace t s _ h (ask_trace s)

theorem traceKept_setPpriv_r (t s : ScrnState) (p : Nat) (v : msPixmapPrivRec)
    (h : TraceKept t s) : TraceKept t (s.setPpriv p v) :=
  traceKept_of_trace t s _ h rfl

theorem traceKept_alloc_r (t s : ScrnState) (a : vblank_event_args) (h : TraceKept t s) :
    TraceKept t (ms_drm_queue_alloc s a).2 :=
  traceKept_of_trace t s _ h rfl

theorem traceKept_abort_r (t s : ScrnState) (seq : Nat) (h : TraceKept t s) :
    TraceKept t (ms_drm_abort_seq s seq) := by
  unfold ms_drm_abort_seq
  split
  · exact h
  · unfold drmmode_SharedPixmapVBlankEventAbort
    exact traceKept_emit_r _ _ _ (traceKept_setPpriv_r _ _ _ _ (traceKept_of_trace t s _ h rfl))

theorem PresentOnVBlank_trace_r (t s : ScrnState) (p c : Nat) (h : TraceKept t s) :
    TraceKept t (drmmode_SharedPixmapPresentOnVBlank s p c).2 := by
  unfold drmmode_SharedPixmapPresentOnVBlank
  simp only
  split_ifs
  · exact h
  · exact h
  · exact traceKept_emit_r _ _ _ (traceKept_ask_r _ _ h)
  · apply traceKept_emit_r
    apply traceKept_ask_r
    apply traceKept_setPpriv_r
    apply traceKept_alloc_r
    exact traceKept_emit_r _ _ _ (traceKept_ask_r _ _ h)

theorem Flip_trace_r (t s : ScrnState) (p c : Nat) (h : TraceKept t s) :
    TraceKept t (drmmode_SharedPixmapFlip s p c).2 := by
  unfold drmmode_SharedPixmapFlip
  simp only
  have h1 : TraceKept t (((ms_drm_queue_alloc (s.ask.2.emit (Call.calloc s.ask.1))
      { frontTarget := p, backTarget := (s.priv c).prime_pixmap, crtc := c,
        flip := true }).2.setPpriv p
      { (ms_drm_queue_alloc (s.ask.2.emit (Call.calloc s.ask.1))
          { frontTarget := p, backTarget := (s.priv c).prime_pixmap, crtc := c,
            flip := true }).2.ppriv p with
        flip_seq := (ms_drm_queue_alloc (s.ask.2.emit (Call.calloc s.ask.1))
          { frontTarget := p, backTarget := (s.priv c).prime_pixmap, crtc := c,
            flip := true }).1 })) := by
    apply traceKept_setPpriv_r
    apply traceKept_alloc_r
    exact traceKept_emit_r _ _ _ (traceKept_ask_r _ _ h)
  split_ifs
  · exact traceKept_emit_r _ _ _ (traceKept_ask_r _ _ h)
  · exact traceKept_abort_r _ _ _ (traceKept_emit_r _ _ _ (traceKept_ask_r _ _ h1))
  · exact traceKept_emit_r _ _ _ (traceKept_ask_r _ _ h1)

theorem Present_trace_r (t s : ScrnState) (p c : Nat) (h : TraceKept t s) :
    TraceKept t (drmmode_SharedPixmapPresent s p c).2 := by
  unfold drmmode_SharedPixmapPresent
  simp only
  have h1 := traceKept_emit_r t _ (Call.PresentSharedPixmap p (decide (s.ask.1 ≠ 0)))
    (traceKept_ask_r t s h)
  split_ifs
  · exact Flip_trace_r _ _ _ _ h1
  · exact PresentOnVBlank_trace_r _ _ _ _ (Flip_trace_r _ _ _ _ h1)
  · exact traceKept_emit_r _ _ _ (traceKept_ask_r _ _ (traceKept_setPpriv_r _ _ _ _ h1))
  · apply PresentOnVBlank_trace_r
    apply traceKept_setPpriv_r
    exact traceKept_emit_r _ _ _ (traceKept_ask_r _ _ (traceKept_setPpriv_r _ _ _ _ h1))
  · exact PresentOnVBlank_trace_r _ _ _ _ h1

theorem traceKept_frame : Frame TraceKept where
  refl := traceKept_refl
  trans := traceKept_trans
  ask := fun s => traceKept_ask_r s s (traceKept_refl s)
  emit := fun s c => traceKept_emit_r s s c (traceKept_refl s)
  setCrtc := fun s _ _ => traceKept_of_trace s s _ (traceKept_refl s) rfl
  setDrmmode := fun s _ => traceKept_of_trace s s _ (traceKept_refl s) rfl
  present := fun s p c => Present_trace_r s s p c (traceKept_refl s)

/-- The first call a present attempt makes is `PresentSharedPixmap` on its surface. -/
theorem Present_first_call (s : ScrnState) (p c : Nat) :
    ∃ post, (drmmode_SharedPixmapPresent s p c).2.trace
      = s.trace ++ Call.PresentSharedPixmap p (decide (s.ask.1 ≠ 0)) :: post := by
  have h1 : TraceKept (s.ask.2.emit (Call.PresentSharedPixmap p (decide (s.ask.1 ≠ 0))))
      (drmmode_SharedPixmapPresent s p c).2 := by
    unfold drmmode_SharedPixmapPresent
    simp only
    have h0 := traceKept_refl (s.ask.2.emit (Call.PresentSharedPixmap p (decide (s.ask.1 ≠ 0))))
    split_ifs
    · exact Flip_trace_r _ _ _ _ h0
    · exact PresentOnVBlank_trace_r _ _ _ _ (Flip_trace_r _ _ _ _ h0)
    · exact traceKept_emit_r _ _ _ (traceKept_ask_r _ _ (traceKept_setPpriv_r _ _ _ _ h0))
    · apply PresentOnVBlank_trace_r
      apply traceKept_setPpriv_r
      exact traceKept_emit_r _ _ _ (traceKept_ask_r _ _ (traceKept_setPpriv_r _ _ _ _ h0))
    · exact PresentOnVBlank_trace_r _ _ _ _ h0
  obtain ⟨post, hpost⟩ := h1
  refine ⟨post, ?_⟩
  rw [← hpost]
  simp
/-! ## Retry, completion and flip failure (C25, C26, C27) -/

theorem alloc_setPpriv_ask (s : ScrnState) (c : Call) (a : vblank_event_args) (p : Nat)
    (v : msPixmapPrivRec) :
    ((ms_drm_queue_alloc (s.emit c) a).2.setPpriv p v).ask.1 = s.ask.1 :=
  (ask_of_answers s ((ms_drm_queue_alloc (s.emit c) a).2.setPpriv p v) rfl).1

theorem queue_alloc_trace (s : ScrnState) (a : vblank_event_args) :
    (ms_drm_queue_alloc s a).2.trace = s.trace := rfl

theorem queue_alloc_ppriv (s : ScrnState) (a : vblank_event_args) (p : Nat) :
    (ms_drm_queue_alloc s a).2.ppriv p = s.ppriv p := rfl

theorem queue_alloc_fst (s : ScrnState) (a : vblank_event_args) :
    (ms_drm_queue_alloc s a).1 = (if s.ms_drm_seq = 0 then 1 else s.ms_drm_seq) := rfl

/-- C25 (counterexample): CRTC 0 displays surface 5 and has surface 7 as its back
surface.  The candidate 5 is the displayed surface, yet
`drmmode_SharedPixmapPresentOnVBlank` rejects it: it returns FALSE, makes no call and
queues nothing. -/
theorem PresentOnVBlank_rejects_displayed_surface :
    (retry_screen.priv 0).prime_pixmap = 5 ∧
    (drmmode_SharedPixmapPresentOnVBlank retry_screen 5 0).1 = false ∧
    (drmmode_SharedPixmapPresentOnVBlank retry_screen 5 0).2.trace = [] ∧
    (drmmode_SharedPixmapPresentOnVBlank retry_screen 5 0).2.ms_drm_queue = [] := by
  decide

/-- C25 (amended): `drmmode_SharedPixmapPresentOnVBlank` rejects the attempt before
anything else (FALSE, no allocation attempted, state unchanged) when the candidate is
the CRTC's displayed surface or is not its back surface.  For the remaining candidate
(the back surface, when it is not also the displayed one) it allocates a record: when
the allocation fails it returns FALSE with nothing queued; when it succeeds the
record {front = candidate, back = displayed surface, CRTC, retry} is registered under
a fresh sequence number, which becomes the candidate's pending sequence number, the
vblank request is made with that number, and the result is whether the kernel
accepted the request. -/
theorem PresentOnVBlank_outcome (s : ScrnState) (ppix crtc : Nat) :
    ((ppix = (s.priv crtc).prime_pixmap ∨ ppix ≠ (s.priv crtc).prime_pixmap_back) →
      drmmode_SharedPixmapPresentOnVBlank s ppix crtc = (false, s)) ∧
    (ppix ≠ (s.priv crtc).prime_pixmap → ppix = (s.priv crtc).prime_pixmap_back →
      s.ask.1 = 0 →
      (drmmode_SharedPixmapPresentOnVBlank s ppix crtc).1 = false ∧
      (drmmode_SharedPixmapPresentOnVBlank s ppix crtc).2.ms_drm_queue = s.ms_drm_queue ∧
      (drmmode_SharedPixmapPresentOnVBlank s ppix crtc).2.trace
        = s.trace ++ [Call.calloc 0]) ∧
    (ppix ≠ (s.priv crtc).prime_pixmap → ppix = (s.priv crtc).prime_pixmap_back →
      s.ask.1 ≠ 0 →
      (drmmode_SharedPixmapPresentOnVBlank s ppix crtc).2.ms_drm_queue
        = ((if s.ms_drm_seq = 0 then 1 else s.ms_drm_seq),
            { frontTarget := ppix, backTarget := (s.priv crtc).prime_pixmap, crtc := crtc,
              flip := false }) :: s.ms_drm_queue ∧
      ((drmmode_SharedPixmapPresentOnVBlank s ppix crtc).2.ppriv ppix).flip_seq
        = (if s.ms_drm_seq = 0 then 1 else s.ms_drm_seq) ∧
      (drmmode_SharedPixmapPresentOnVBlank s ppix crtc).2.trace
        = s.trace ++ [Call.calloc s.ask.1,
            Call.drmWaitVBlank (s.priv crtc).vblank_pipe
              (if s.ms_drm_seq = 0 then 1 else s.ms_drm_seq) s.ask.2.ask.1] ∧
      (drmmode_SharedPixmapPresentOnVBlank s ppix crtc).1 = decide (0 ≤ s.ask.2.ask.1)) := by
  refine ⟨?_, ?_, ?_⟩
  · intro h
    unfold drmmode_SharedPixmapPresentOnVBlank
    simp only
    by_cases h1 : ppix = (s.priv crtc).prime_pixmap
    · rw [if_pos h1]
    · rw [if_neg h1]
      have h2 : ppix ≠ (s.priv crtc).prime_pixmap_back := by
        rcases h with h | h
        · exact absurd h h1
        · exact h
      rw [if_pos h2]
  · intro h1 h2 ha
    unfold drmmode_SharedPixmapPresentOnVBlank
    simp only
    rw [if_neg h1, if_neg (not_not.mpr h2), if_pos ha]
    simp [ha]
  · intro h1 h2 ha
    unfold drmmode_SharedPixmapPresentOnVBlank
    simp only
    rw [if_neg h1, if_neg (not_not.mpr h2), if_neg ha]
    simp only [alloc_setPpriv_ask, emit_queue, ask_queue, setPpriv_queue, queue_alloc_queue,
      emit_ppriv, ask_ppriv, setPpriv_ppriv_same, emit_trace, ask_trace, setPpriv_trace,
      queue_alloc_trace, queue_alloc_fst, emit_seq, ask_seq, List.append_assoc,
      List.singleton_append, and_self]

/-- C25 (witness): the back surface 7 of `retry_screen` is queued as event 1. -/
theorem PresentOnVBlank_outcome_witness :
    (drmmode_SharedPixmapPresentOnVBlank retry_screen 7 0).2.ms_drm_queue
      = [(1, { frontTarget := 7, backTarget := 5, crtc := 0, flip := false })] :=
  ((PresentOnVBlank_outcome retry_screen 7 0).2.2 (by decide) (by decide) (by decide)).1

theorem emit_priv_eq (s : ScrnState) (c : Call) (k : Nat) : (s.emit c).priv k = s.priv k := rfl

theorem priv_of_crtc (s t : ScrnState) (h : t.crtc = s.crtc) (k : Nat) : t.priv k = s.priv k := by
  unfold ScrnState.priv
  rw [h]

theorem Present_first_ok (s : ScrnState) (p c : Nat) :
    ∃ ok post, (drmmode_SharedPixmapPresent s p c).2.trace
      = s.trace ++ Call.PresentSharedPixmap p ok :: post := by
  obtain ⟨post, h⟩ := Present_first_call s p c
  exact ⟨_, post, h⟩

/-- C26: the completion handler `drmmode_SharedPixmapVBlankEventHandler`.  For a record
with directionality flip it stores the record's front as the CRTC's displayed surface
and the record's back as its back surface, then runs a present attempt on the record's
back surface (the first call made is `PresentSharedPixmap` on it) and frees the
record; for a record with directionality retry it runs a present attempt on the
record's front surface and frees the record.  When the handler returns, the
displayed/back references are the record's front and back after a flip, and what
they were before after a retry. -/
theorem vblank_handler_references (s : ScrnState) (args : vblank_event_args) :
    (args.flip = true →
      drmmode_SharedPixmapVBlankEventHandler s args
        = (drmmode_SharedPixmapPresent
            (s.setPriv args.crtc
              { s.priv args.crtc with prime_pixmap := args.frontTarget,
                                      prime_pixmap_back := args.backTarget })
            args.backTarget args.crtc).2.emit (Call.free_event_args args) ∧
      (∃ ok post, (drmmode_SharedPixmapVBlankEventHandler s args).trace
        = s.trace ++ Call.PresentSharedPixmap args.backTarget ok :: post) ∧
      ((drmmode_SharedPixmapVBlankEventHandler s args).priv args.crtc).prime_pixmap
        = args.frontTarget ∧
      ((drmmode_SharedPixmapVBlankEventHandler s args).priv args.crtc).prime_pixmap_back
        = args.backTarget) ∧
    (args.flip = false →
      drmmode_SharedPixmapVBlankEventHandler s args
        = (drmmode_SharedPixmapPresent s args.frontTarget args.crtc).2.emit
            (Call.free_event_args args) ∧
      (∃ ok post, (drmmode_SharedPixmapVBlankEventHandler s args).trace
        = s.trace ++ Call.PresentSharedPixmap args.frontTarget ok :: post) ∧
      ((drmmode_SharedPixmapVBlankEventHandler s args).priv args.crtc).prime_pixmap
        = (s.priv args.crtc).prime_pixmap ∧
      ((drmmode_SharedPixmapVBlankEventHandler s args).priv args.crtc).prime_pixmap_back
        = (s.priv args.crtc).prime_pixmap_back) := by
  constructor
  · intro hf
    have e : drmmode_SharedPixmapVBlankEventHandler s args
        = (drmmode_SharedPixmapPresent
            (s.setPriv args.crtc
              { s.priv args.crtc with prime_pixmap := args.frontTarget,
                                      prime_pixmap_back := args.backTarget })
            args.backTarget args.crtc).2.emit (Call.free_event_args args) := by
      unfold drmmode_SharedPixmapVBlankEventHandler
      simp only [hf, if_true]
    have hp := priv_of_crtc _ _ (Present_crtc
      (s.setPriv args.crtc
        { s.priv args.crtc with prime_pixmap := args.frontTarget,
                                prime_pixmap_back := args.backTarget })
      args.backTarget args.crtc) args.crtc
    obtain ⟨ok, post, hpost⟩ := Present_first_ok
      (s.setPriv args.crtc
        { s.priv args.crtc with prime_pixmap := args.frontTarget,
                                prime_pixmap_back := args.backTarget })
      args.backTarget args.crtc
    refine ⟨e, ⟨ok, post ++ [Call.free_event_args args], ?_⟩, ?_, ?_⟩
    · rw [e, emit_trace, hpost, setPriv_trace]
      simp
    · rw [e, emit_priv_eq, hp, setPriv_priv_same]
    · rw [e, emit_priv_eq, hp, setPriv_priv_same]
  · intro hf
    have e : drmmode_SharedPixmapVBlankEventHandler s args
        = (drmmode_SharedPixmapPresent s args.frontTarget args.crtc).2.emit
            (Call.free_event_args args) := by
      unfold drmmode_SharedPixmapVBlankEventHandler
      simp [hf]
    have hp := priv_of_crtc _ _ (Present_crtc s args.frontTarget args.crtc) args.crtc
    obtain ⟨ok, post, hpost⟩ := Present_first_ok s args.frontTarget args.crtc
    refine ⟨e, ⟨ok, post ++ [Call.free_event_args args], ?_⟩, ?_, ?_⟩
    · rw [e, emit_trace, hpost]
      simp
    · rw [e, emit_priv_eq, hp]
    · rw [e, emit_priv_eq, hp]

/-- C26 (witness): the flip event {front 7, back 5} completes on `retry_screen`. -/
theorem vblank_handler_references_witness :
    ((drmmode_SharedPixmapVBlankEventHandler retry_screen
        { frontTarget := 7, backTarget := 5, crtc := 0, flip := true }).priv 0).prime_pixmap
      = 7 ∧
    ((drmmode_SharedPixmapVBlankEventHandler retry_screen
        { frontTarget := 7, backTarget := 5, crtc := 0, flip := true }).priv 0).prime_pixmap_back
      = 5 :=
  ((vblank_handler_references retry_screen
      { frontTarget := 7, backTarget := 5, crtc := 0, flip := true }).1 rfl).2.2

theorem Flip_failure_facts (s : ScrnState) (front crtc : Nat)
    (ha : s.ask.1 ≠ 0) (hr : s.ask.2.ask.1 < 0) :
    (drmmode_SharedPixmapFlip s front crtc).1 = false ∧
    (drmmode_SharedPixmapFlip s front crtc).2.trace
      = s.trace ++ [Call.calloc s.ask.1,
          Call.drmModePageFlip (s.priv crtc).crtc_id (s.ppriv front).fb_id
            (if s.ms_drm_seq = 0 then 1 else s.ms_drm_seq) s.ask.2.ask.1,
          Call.free_event_args
            { frontTarget := front, backTarget := (s.priv crtc).prime_pixmap, crtc := crtc,
              flip := true }] ∧
    (drmmode_SharedPixmapFlip s front crtc).2.ms_drm_queue = s.ms_drm_queue ∧
    ((drmmode_SharedPixmapFlip s front crtc).2.ppriv front).flip_seq = 0 := by
  unfold drmmode_SharedPixmapFlip
  simp only
  rw [if_neg ha]
  simp only [alloc_setPpriv_ask, if_pos hr]
  unfold ms_drm_abort_seq
  simp only [emit_queue, ask_queue, setPpriv_queue, queue_alloc_queue, emit_ppriv, ask_ppriv,
    setPpriv_ppriv_same, queue_take_head]
  unfold drmmode_SharedPixmapVBlankEventAbort
  refine ⟨trivial, ?_, ?_, ?_⟩
  · simp only [emit_trace, setPpriv_trace, ask_trace, queue_alloc_trace, queue_alloc_fst,
      emit_seq, ask_seq, List.append_assoc, List.singleton_append, List.cons_append,
      List.nil_append, queue_alloc_ppriv, emit_ppriv, ask_ppriv]
  · rfl
  · simp only [emit_ppriv, setPpriv_ppriv_same]

/-- C27: when the kernel rejects the page flip submitted by `drmmode_SharedPixmapFlip`
(the record was allocated and registered), the abort path for the sequence number
just allocated runs before the call returns: the record is taken off the queue again
and freed (the last call made), the front surface's pending sequence number is zero,
and the call returns FALSE.  `drmmode_SharedPixmapPresent`, whose present succeeded
and whose flip failed so, continues with `drmmode_SharedPixmapPresentOnVBlank` and
returns its result. -/
theorem flip_submission_failure (s : ScrnState) (front crtc : Nat)
    (ha : s.ask.1 ≠ 0) (hr : s.ask.2.ask.1 < 0) :
    (drmmode_SharedPixmapFlip s front crtc).1 = false ∧
    (drmmode_SharedPixmapFlip s front crtc).2.trace
      = s.trace ++ [Call.calloc s.ask.1,
          Call.drmModePageFlip (s.priv crtc).crtc_id (s.ppriv front).fb_id
            (if s.ms_drm_seq = 0 then 1 else s.ms_drm_seq) s.ask.2.ask.1,
          Call.free_event_args
            { frontTarget := front, backTarget := (s.priv crtc).prime_pixmap, crtc := crtc,
              flip := true }] ∧
    (drmmode_SharedPixmapFlip s front crtc).2.ms_drm_queue = s.ms_drm_queue ∧
    ((drmmode_SharedPixmapFlip s front crtc).2.ppriv front).flip_seq = 0 ∧
    (∀ s0 : ScrnState, s0.ask.1 ≠ 0 →
      s0.ask.2.emit (Call.PresentSharedPixmap front true) = s →
      drmmode_SharedPixmapPresent s0 front crtc
        = drmmode_SharedPixmapPresentOnVBlank (drmmode_SharedPixmapFlip s front crtc).2
            front crtc) := by
  have e := Flip_failure_facts s front crtc ha hr
  refine ⟨e.1, e.2.1, e.2.2.1, e.2.2.2, ?_⟩
  intro s0 h0 hs
  unfold drmmode_SharedPixmapPresent
  simp only
  rw [if_pos h0]
  have hd : decide (s0.ask.1 ≠ 0) = true := decide_eq_true h0
  rw [hd, hs, e.1]
  simp

/-- C27 (witness): the page flip of surface 7 is refused on `flip_refused_screen`. -/
theorem flip_submission_failure_witness :
    (drmmode_SharedPixmapFlip flip_refused_screen 7 0).1 = false ∧
    ((drmmode_SharedPixmapFlip flip_refused_screen 7 0).2.ppriv 7).flip_seq = 0 ∧
    (drmmode_SharedPixmapFlip flip_refused_screen 7 0).2.trace
      = [Call.calloc 64, Call.drmModePageFlip 40 12 1 (-16),
          Call.free_event_args { frontTarget := 7, backTarget := 5, crtc := 0, flip := true }] :=
  ⟨(flip_submission_failure flip_refused_screen 7 0 (by decide) (by decide)).1,
   (flip_submission_failure flip_refused_screen 7 0 (by decide) (by decide)).2.2.2.1,
   (flip_submission_failure flip_refused_screen 7 0 (by decide) (by decide)).2.1⟩
/-! ## The rotation shadow surface (C22) -/

theorem select_scanout_congr (s t : ScrnState) (c : Nat) (x y : Int)
    (hc : t.priv c = s.priv c) (hp : t.pixmap = s.pixmap) (hd : t.drmmode = s.drmmode) :
    select_scanout t c x y = select_scanout s c x y := by
  unfold select_scanout ScrnState.ppriv
  rw [hc, hp, hd]

theorem addfb_nonzero (s : ScrnState) (fb : Nat) (h : fb ≠ 0) :
    set_mode_major_addfb s fb = (false, fb, s) := by
  unfold set_mode_major_addfb
  rw [if_neg h]

theorem addfb_zero (s : ScrnState) (h : (set_mode_major_addfb s 0).1 = false) :
    (set_mode_major_addfb s 0).2.2.trace
      = s.trace ++ [Call.drmModeAddFB s.virtualX s.virtualY s.depth s.drmmode.kbpp
          (drmmode_bo_get_pitch s s.drmmode.front_bo)
          (drmmode_bo_get_handle s s.drmmode.front_bo) s.ask.1] ∧
    (set_mode_major_addfb s 0).2.1
      = (if s.ask.1 = 0 then toU32 s.ask.2.ask.1 else s.drmmode.fb_id) ∧
    (set_mode_major_addfb s 0).2.2.answers = s.ask.2.ask.2.answers ∧
    (set_mode_major_addfb s 0).2.2.crtc = s.crtc := by
  unfold set_mode_major_addfb at h ⊢
  simp only [if_true] at h ⊢
  by_cases h0 : s.ask.1 = 0
  · have hlt : ¬ s.ask.1 < 0 := by omega
    simp only [h0, if_true, lt_self_iff_false, if_false] at h ⊢
    refine ⟨?_, ?_, ?_, ?_⟩ <;> simp [ScrnState.setDrmmode]
  · by_cases hlt : s.ask.1 < 0
    · simp [h0, hlt] at h
    · simp only [h0, if_false, hlt] at h ⊢
      refine ⟨?_, ?_, ?_, ?_⟩ <;> simp

theorem apply_setcrtc (hook : ScrnState → xf86OutputRec → Int → ScrnState)
    (hh : ∀ t s o, TraceKept t s → TraceKept t (hook s o DPMSModeOn))
    (s : ScrnState) (c : Nat) (m : DisplayModeRec) (x y : Int) (hrot : s.ask.1 ≠ 0)
    (hret : (set_mode_major_apply hook s c m x y).1 = true)
    (s4 : ScrnState)
    (hs4 : s4 = (s.ask.2.emit (Call.xf86CrtcRotate c true)).emit
      (Call.drmModeCrtcSetGamma (s.priv c).crtc_id)) :
    (set_mode_major_addfb s4 (select_scanout s c x y).1).1 = false ∧
    ∃ post, (set_mode_major_apply hook s c m x y).2.trace =
      (set_mode_major_addfb s4 (select_scanout s c x y).1).2.2.trace ++
        Call.drmModeSetCrtc (s.priv c).crtc_id
          (set_mode_major_addfb s4 (select_scanout s c x y).1).2.1
          (select_scanout s c x y).2.1 (select_scanout s c x y).2.2
          (collect_output_ids s.output c) (drmmode_ConvertToKMode m) 0 :: post := by
  have hd : decide (s.ask.1 ≠ 0) = true := decide_eq_true hrot
  have hsel : select_scanout s4 c x y = select_scanout s c x y := by
    rw [hs4]
    exact select_scanout_congr s _ c x y (by simp) (by simp) (by simp)
  have hpriv : (set_mode_major_addfb s4 (select_scanout s c x y).1).2.2.priv c = s.priv c := by
    rw [priv_of_crtc _ _ (addfb_crtc s4 _) c, hs4]
    simp
  unfold set_mode_major_apply at hret ⊢
  simp only [drmmode_crtc_gamma_set, if_neg hrot, hd, emit_priv, ask_priv, hsel, ← hs4,
    hpriv] at hret ⊢
  generalize set_mode_major_addfb s4 (select_scanout s c x y).1 = add at hret ⊢
  by_cases h1 : add.1 = true
  · rw [if_pos h1] at hret
    exact absurd hret (by simp)
  · rw [if_neg h1] at hret ⊢
    by_cases h2 : add.2.2.ask.1 ≠ 0
    · rw [if_pos h2] at hret
      exact absurd hret (by simp)
    · rw [if_neg h2] at hret ⊢
      have h0 : add.2.2.ask.1 = 0 := not_not.mp h2
      refine ⟨by simpa using h1, ?_⟩
      obtain ⟨post, hpost⟩ := traceKept_frame.finish_r hook
        (add.2.2.ask.2.emit (Call.drmModeSetCrtc (s.priv c).crtc_id add.2.1
          (select_scanout s c x y).2.1 (select_scanout s c x y).2.2
          (collect_output_ids s.output c) (drmmode_ConvertToKMode m) add.2.2.ask.1))
        (fun st o hst => hh _ st o hst) _ c (traceKept_refl _)
      refine ⟨post, ?_⟩
      simp only
      rw [← hpost, h0]
      simp

theorem done_trace (s : ScrnState) (c : Nat) (ret : Bool) (saved : xf86CrtcRec) :
    (set_mode_major_done s c ret saved).2.trace = s.trace := by
  unfold set_mode_major_done
  split_ifs <;> rfl

theorem tentative_some_facts (s : ScrnState) (c : Nat) (m : DisplayModeRec) (rotation : Nat)
    (x y : Int) :
    (set_mode_major_tentative s c (some m) rotation x y).trace = s.trace ∧
    (set_mode_major_tentative s c (some m) rotation x y).priv c = s.priv c ∧
    (set_mode_major_tentative s c (some m) rotation x y).pixmap = s.pixmap ∧
    (set_mode_major_tentative s c (some m) rotation x y).drmmode = s.drmmode ∧
    (set_mode_major_tentative s c (some m) rotation x y).output = s.output := by
  unfold set_mode_major_tentative
  refine ⟨rfl, ?_, rfl, rfl, rfl⟩
  simp [ScrnState.priv]

theorem body_setcrtc (hook : ScrnState → xf86OutputRec → Int → ScrnState)
    (hh : ∀ t s o, TraceKept t s → TraceKept t (hook s o DPMSModeOn))
    (s : ScrnState) (c : Nat) (m : DisplayModeRec) (rotation : Nat) (x y : Int)
    (hret : (set_mode_major_body hook s c (some m) rotation x y).1 = true)
    (hrot : s.ask.2.ask.1 ≠ 0) :
    ∃ pre fb x1 y1 post,
      (set_mode_major_body hook s c (some m) rotation x y).2.trace
        = s.trace ++ pre ++
            Call.drmModeSetCrtc (s.priv c).crtc_id fb x1 y1 (collect_output_ids s.output c)
              (drmmode_ConvertToKMode m) 0 :: post ∧
      ((select_scanout s c x y).1 ≠ 0 →
        fb = (select_scanout s c x y).1 ∧
        pre = [Call.calloc s.ask.1, Call.xf86CrtcRotate c true,
                Call.drmModeCrtcSetGamma (s.priv c).crtc_id]) ∧
      ((select_scanout s c x y).1 = 0 →
        fb = (if s.ask.2.ask.2.ask.1 = 0 then toU32 s.ask.2.ask.2.ask.2.ask.1
              else s.drmmode.fb_id) ∧
        ∃ w h d b p hd,
          pre = [Call.calloc s.ask.1, Call.xf86CrtcRotate c true,
                  Call.drmModeCrtcSetGamma (s.priv c).crtc_id,
                  Call.drmModeAddFB w h d b p hd s.ask.2.ask.2.ask.1]) := by
  unfold set_mode_major_body at hret ⊢
  simp only [set_mode_major_done_fst, done_trace] at hret ⊢
  obtain ⟨hTt, hTp, hTx, hTd, hTo⟩ := tentative_some_facts s c m rotation x y
  have hT := tentative_answers s c (some m) rotation x y
  have h1 := ask_of_answers s _ hT
  generalize set_mode_major_tentative s c (some m) rotation x y = T at *
  have h2 := ask_of_answers s.ask.2 (T.ask.2.emit (Call.calloc T.ask.1)) h1.2
  have h3 := ask_of_answers s.ask.2.ask.2
    (((T.ask.2.emit (Call.calloc T.ask.1)).ask.2.emit (Call.xf86CrtcRotate c true)).emit
      (Call.drmModeCrtcSetGamma (s.priv c).crtc_id)) h2.2
  have h4 := ask_of_answers _ _ h3.2
  by_cases ha : T.ask.1 = 0
  · rw [if_pos ha] at hret
    exact absurd hret (by simp)
  · rw [if_neg ha] at hret ⊢
    have hsel : select_scanout (T.ask.2.emit (Call.calloc T.ask.1)) c x y
        = select_scanout s c x y :=
      select_scanout_congr s _ c x y (by simpa using hTp) (by simpa using hTx)
        (by simpa using hTd)
    have hpr : (T.ask.2.emit (Call.calloc T.ask.1)).priv c = s.priv c := by simpa using hTp
    have hout : (T.ask.2.emit (Call.calloc T.ask.1)).output = s.output := by simpa using hTo
    have hrot2 : (T.ask.2.emit (Call.calloc T.ask.1)).ask.1 ≠ 0 := by rw [h2.1]; exact hrot
    obtain ⟨hadd, post, hpost⟩ := apply_setcrtc hook hh _ c m x y hrot2 hret _ rfl
    rw [hsel, hpr, hout] at hpost
    rw [hsel, hpr] at hadd
    have htr : (((T.ask.2.emit (Call.calloc T.ask.1)).ask.2.emit
        (Call.xf86CrtcRotate c true)).emit (Call.drmModeCrtcSetGamma (s.priv c).crtc_id)).trace
        = s.trace ++ [Call.calloc s.ask.1, Call.xf86CrtcRotate c true,
            Call.drmModeCrtcSetGamma (s.priv c).crtc_id] := by
      simp [hTt, h1.1]
    by_cases hz : (select_scanout s c x y).1 = 0
    · rw [hz] at hpost hadd
      obtain ⟨z1, z2, _, z4⟩ := addfb_zero _ hadd
      rw [z1, z2, htr, h3.1, h4.1] at hpost
      generalize (((T.ask.2.emit (Call.calloc T.ask.1)).ask.2.emit
        (Call.xf86CrtcRotate c true)).emit
          (Call.drmModeCrtcSetGamma (s.priv c).crtc_id)).virtualX = w at hpost
      generalize (((T.ask.2.emit (Call.calloc T.ask.1)).ask.2.emit
        (Call.xf86CrtcRotate c true)).emit
          (Call.drmModeCrtcSetGamma (s.priv c).crtc_id)).virtualY = h at hpost
      generalize (((T.ask.2.emit (Call.calloc T.ask.1)).ask.2.emit
        (Call.xf86CrtcRotate c true)).emit
          (Call.drmModeCrtcSetGamma (s.priv c).crtc_id)).depth = d at hpost
      generalize drmmode_bo_get_pitch _ _ = pt at hpost
      generalize drmmode_bo_get_handle _ _ = hd at hpost
      have hdm : (((T.ask.2.emit (Call.calloc T.ask.1)).ask.2.emit
        (Call.xf86CrtcRotate c true)).emit
          (Call.drmModeCrtcSetGamma (s.priv c).crtc_id)).drmmode = s.drmmode := by
        simp [hTd]
      rw [hdm] at hpost
      refine ⟨[Call.calloc s.ask.1, Call.xf86CrtcRotate c true,
          Call.drmModeCrtcSetGamma (s.priv c).crtc_id,
          Call.drmModeAddFB w h d s.drmmode.kbpp pt hd s.ask.2.ask.2.ask.1],
        (if s.ask.2.ask.2.ask.1 = 0 then toU32 s.ask.2.ask.2.ask.2.ask.1 else s.drmmode.fb_id),
        (select_scanout s c x y).2.1, (select_scanout s c x y).2.2, post, ?_,
        fun hne => absurd hz hne,
        fun _ => ⟨rfl, w, h, d, s.drmmode.kbpp, pt, hd, rfl⟩⟩
      rw [hpost]
      simp
    · rw [addfb_nonzero _ _ hz] at hpost
      simp only at hpost
      rw [htr] at hpost
      exact ⟨_, _, _, _, post, hpost, fun _ => ⟨rfl, rfl⟩, fun h0 => absurd h0 hz⟩

/-- C23 (counterexample): in reverse PRIME offload mode CRTC 0 has the prime pixmap 5
attached, whose own framebuffer is 11; the successful mode-set hands the primary
framebuffer 5 to the kernel, at the offset of the prime pixmap. -/
theorem set_mode_major_reverse_prime_uses_primary :
    (reverse_prime_screen.priv 0).prime_pixmap = 5 ∧
    (reverse_prime_screen.ppriv 5).fb_id = 11 ∧
    reverse_prime_screen.drmmode.fb_id = 5 ∧
    (drmmode_set_mode_major 0 reverse_prime_screen 0 (some mode_1080p) 1 0 0).1 = true ∧
    (drmmode_set_mode_major 0 reverse_prime_screen 0 (some mode_1080p) 1 0 0).2.trace
      = [Call.calloc 1, Call.xf86CrtcRotate 0 true, Call.drmModeCrtcSetGamma 40,
          Call.drmModeSetCrtc 40 5 1920 0 [] (drmmode_ConvertToKMode mode_1080p) 0] := by
  decide

/-- C23 (amended): for every successful `drmmode_set_mode_major` call with a non-null
mode whose rotation setup succeeded, the first calls are the allocation, the rotation
setup, the gamma upload and then the kernel mode-set (preceded by `drmModeAddFB` only
when the framebuffer chosen is 0).  The framebuffer chosen is: with a prime pixmap
attached, the prime pixmap's own framebuffer id when reverse PRIME offload mode is
off and the primary framebuffer id when it is on (the rotated shadow is not looked
at); without a prime pixmap, the rotated-shadow framebuffer id when it is non-zero and
the primary framebuffer id otherwise.  When the id chosen is non-zero it is the one
passed to the kernel; when it is zero the primary framebuffer is created first and
the id then stored for it is passed. -/
theorem set_mode_major_framebuffer (depth : Nat) (s : ScrnState) (c : Nat)
    (m : DisplayModeRec) (rotation : Nat) (x y : Int)
    (hret : (drmmode_set_mode_major depth s c (some m) rotation x y).1 = true)
    (hrot : s.ask.2.ask.1 ≠ 0) :
    (select_scanout s c x y).1 =
      (if (s.priv c).prime_pixmap ≠ 0 then
        (if s.drmmode.reverse_prime_offload_mode = false then
          (s.ppriv (s.priv c).prime_pixmap).fb_id
         else s.drmmode.fb_id)
       else if (s.priv c).rotate_fb_id ≠ 0 then (s.priv c).rotate_fb_id
       else s.drmmode.fb_id) ∧
    ∃ pre fb x1 y1 post,
      (drmmode_set_mode_major depth s c (some m) rotation x y).2.trace
        = s.trace ++ pre ++
            Call.drmModeSetCrtc (s.priv c).crtc_id fb x1 y1 (collect_output_ids s.output c)
              (drmmode_ConvertToKMode m) 0 :: post ∧
      ((select_scanout s c x y).1 ≠ 0 →
        fb = (select_scanout s c x y).1 ∧
        pre = [Call.calloc s.ask.1, Call.xf86CrtcRotate c true,
                Call.drmModeCrtcSetGamma (s.priv c).crtc_id]) ∧
      ((select_scanout s c x y).1 = 0 →
        fb = (if s.ask.2.ask.2.ask.1 = 0 then toU32 s.ask.2.ask.2.ask.2.ask.1
              else s.drmmode.fb_id) ∧
        ∃ w h d b p hd,
          pre = [Call.calloc s.ask.1, Call.xf86CrtcRotate c true,
                  Call.drmModeCrtcSetGamma (s.priv c).crtc_id,
                  Call.drmModeAddFB w h d b p hd s.ask.2.ask.2.ask.1]) := by
  constructor
  · unfold select_scanout
    simp only
    split_ifs <;> rfl
  · cases depth with
    | zero =>
      exact body_setcrtc _
        (fun t st o h => traceKept_frame.dpms_on_r _ t (fun _ _ _ _ _ _ hq => hq) st o h)
        s c m rotation x y hret hrot
    | succ n =>
      exact body_setcrtc _
        (fun t st o h => traceKept_frame.dpms_on_r _ t
          (fun s1 c1 m1 r1 x1 y1 hq => traceKept_frame.set_mode_major_r n t s1 c1 m1 r1 x1 y1 hq)
          st o h)
        s c m rotation x y hret hrot

/-- C23 (witness): the mode-set on `reverse_prime_screen` succeeds and its rotation
setup succeeds. -/
theorem set_mode_major_framebuffer_witness :
    (select_scanout reverse_prime_screen 0 0 0).1 = 5 :=
  (set_mode_major_framebuffer 0 reverse_prime_screen 0 mode_1080p 1 0 0 (by decide)
    (by decide)).1.trans (by decide)
/-! ## Clone candidates (C24) -/

theorem or_bits_foldl (P : Nat → Prop) [DecidablePred P] (l : List Nat) (m0 j : Nat) :
    (l.foldl (fun m i => if P i then m ||| (1 <<< i) else m) m0).testBit j = true ↔
      (m0.testBit j = true ∨ (j ∈ l ∧ P j)) := by
  induction l generalizing m0 with
  | nil => simp
  | cons i rest ih =>
    rw [List.foldl_cons, ih]
    by_cases hp : P i
    · rw [if_pos hp, Nat.testBit_or, Nat.one_shiftLeft, Nat.testBit_two_pow]
      simp only [Bool.or_eq_true, decide_eq_true_eq, List.mem_cons]
      constructor
      · rintro ((h | h) | h)
        · exact Or.inl h
        · exact Or.inr ⟨Or.inl h.symm, h ▸ hp⟩
        · exact Or.inr ⟨Or.inr h.1, h.2⟩
      · rintro (h | ⟨h | h, hpj⟩)
        · exact Or.inl (Or.inl h)
        · exact Or.inl (Or.inr h.symm)
        · exact Or.inr ⟨h, hpj⟩
    · rw [if_neg hp]
      simp only [List.mem_cons]
      constructor
      · rintro (h | h)
        · exact Or.inl h
        · exact Or.inr ⟨Or.inr h.1, h.2⟩
      · rintro (h | ⟨h | h, hpj⟩)
        · exact Or.inl h
        · exact absurd (h ▸ hpj) hp
        · exact Or.inr ⟨h, hpj⟩

theorem find_clones_bit (outputs : List xf86OutputRec) (i j : Nat) :
    (find_clones outputs i).testBit j = true ↔
      ((outputs.getD i {}).driver_private.enc_clone_mask ≠ 0 ∧ j < outputs.length ∧ i ≠ j ∧
        (outputs.getD j {}).driver_private.enc_mask ≠ 0 ∧
        (outputs.getD i {}).driver_private.enc_clone_mask
          = (outputs.getD j {}).driver_private.enc_mask) := by
  unfold find_clones
  simp only
  by_cases h0 : (outputs.getD i {}).driver_private.enc_clone_mask = 0
  · rw [if_pos h0]
    constructor
    · intro h
      rw [Nat.zero_testBit] at h
      exact absurd h (by decide)
    · rintro ⟨h, _⟩
      exact absurd h0 h
  · rw [if_neg h0]
    have hf : (fun (index_mask : Nat) (k : Nat) =>
          if i = k then index_mask
          else if (outputs.getD k {}).driver_private.enc_mask = 0 then index_mask
          else if (outputs.getD i {}).driver_private.enc_clone_mask
              = (outputs.getD k {}).driver_private.enc_mask then index_mask ||| (1 <<< k)
          else index_mask)
        = (fun m k =>
            if (i ≠ k ∧ (outputs.getD k {}).driver_private.enc_mask ≠ 0 ∧
                (outputs.getD i {}).driver_private.enc_clone_mask
                  = (outputs.getD k {}).driver_private.enc_mask)
            then m ||| (1 <<< k) else m) := by
      funext m k
      by_cases h1 : i = k
      · rw [if_pos h1, if_neg (fun h => h.1 h1)]
      · rw [if_neg h1]
        by_cases h2 : (outputs.getD k {}).driver_private.enc_mask = 0
        · rw [if_pos h2, if_neg (fun h => h.2.1 h2)]
        · rw [if_neg h2]
          by_cases h3 : (outputs.getD i {}).driver_private.enc_clone_mask
              = (outputs.getD k {}).driver_private.enc_mask
          · rw [if_pos h3, if_pos ⟨h1, h2, h3⟩]
          · rw [if_neg h3, if_neg (fun h => h3 h.2.2)]
    rw [hf, or_bits_foldl]
    simp only [Nat.zero_testBit, Bool.false_eq_true, false_or, List.mem_range]
    constructor
    · rintro ⟨hj, h1, h2, h3⟩
      exact ⟨h0, hj, h1, h2, h3⟩
    · rintro ⟨_, hj, h1, h2, h3⟩
      exact ⟨hj, h1, h2, h3⟩

theorem clones_init_getD (outputs : List xf86OutputRec) (mode_res : drmModeRes) (i : Nat)
    (hi : i < outputs.length) :
    (drmmode_clones_init outputs mode_res).getD i {} =
      { clones_init_masks mode_res (outputs.getD i {}) with
        possible_clones := find_clones (outputs.map (clones_init_masks mode_res)) i } := by
  unfold drmmode_clones_init
  simp only
  have hlen : i < (outputs.map (clones_init_masks mode_res)).length := by
    rw [List.length_map]; exact hi
  rw [List.getD_eq_getElem?_getD, List.getElem?_map, List.getElem?_range hlen]
  simp only [Option.map_some', Option.getD_some]
  have hm : (outputs.map (clones_init_masks mode_res)).getD i {}
      = clones_init_masks mode_res (outputs.getD i {}) := by
    rw [List.getD_eq_getElem _ _ hlen, List.getD_eq_getElem _ _ hi, List.getElem_map]
  rw [hm]

theorem masks_getD (outputs : List xf86OutputRec) (mode_res : drmModeRes) (i : Nat)
    (hi : i < outputs.length) :
    (outputs.map (clones_init_masks mode_res)).getD i {}
      = clones_init_masks mode_res (outputs.getD i {}) := by
  have hlen : i < (outputs.map (clones_init_masks mode_res)).length := by
    rw [List.length_map]; exact hi
  rw [List.getD_eq_getElem _ _ hlen, List.getD_eq_getElem _ _ hi, List.getElem_map]

theorem pair_foldl {α β γ : Type} (F : α → γ → α) (G : β → γ → β) (l : List γ) (a : α) (b : β) :
    l.foldl (fun (acc : α × β) e => (F acc.1 e, G acc.2 e)) (a, b)
      = (l.foldl F a, l.foldl G b) := by
  induction l generalizing a b with
  | nil => rfl
  | cons e rest ih => exact ih _ _

theorem and_bits_foldl (l : List drmModeEncoder) (m0 b : Nat) :
    (l.foldl (fun a e => a &&& e.possible_clones) m0).testBit b = true ↔
      (m0.testBit b = true ∧ ∀ e ∈ l, e.possible_clones.testBit b = true) := by
  induction l generalizing m0 with
  | nil => simp
  | cons e rest ih =>
    rw [List.foldl_cons, ih, Nat.testBit_and]
    simp only [Bool.and_eq_true, List.mem_cons, forall_eq_or_imp]
    tauto

theorem reach_bits_foldl (encoders : List Nat) (l : List drmModeEncoder) (m0 k : Nat) :
    (l.foldl
      (fun em enc =>
        (List.range encoders.length).foldl
          (fun enc_mask k =>
            if encoders.getD k 0 = enc.encoder_id then enc_mask ||| (1 <<< k) else enc_mask)
          em) m0).testBit k = true ↔
      (m0.testBit k = true ∨
        (k < encoders.length ∧ ∃ enc ∈ l, encoders.getD k 0 = enc.encoder_id)) := by
  induction l generalizing m0 with
  | nil => simp
  | cons e rest ih =>
    rw [List.foldl_cons, ih,
      or_bits_foldl (fun k => encoders.getD k 0 = e.encoder_id) (List.range encoders.length)]
    simp only [List.mem_range, List.mem_cons, exists_eq_or_imp]
    tauto

theorem clones_init_masks_fields (mode_res : drmModeRes) (o : xf86OutputRec) :
    (clones_init_masks mode_res o).driver_private.enc_clone_mask
      = (o.driver_private.mode_encoders.take
          ((o.driver_private.mode_output.map (fun k => k.encoders.length)).getD 0)).foldl
          (fun a e => a &&& e.possible_clones) 255 ∧
    (clones_init_masks mode_res o).driver_private.enc_mask
      = (o.driver_private.mode_encoders.take
          ((o.driver_private.mode_output.map (fun k => k.encoders.length)).getD 0)).foldl
          (fun em enc =>
            (List.range mode_res.encoders.length).foldl
              (fun enc_mask k =>
                if mode_res.encoders.getD k 0 = enc.encoder_id then enc_mask ||| (1 <<< k)
                else enc_mask) em) o.driver_private.enc_mask := by
  unfold clones_init_masks
  simp only
  rw [pair_foldl
    (fun em (enc : drmModeEncoder) =>
      (List.range mode_res.encoders.length).foldl
        (fun enc_mask k =>
          if mode_res.encoders.getD k 0 = enc.encoder_id then enc_mask ||| (1 <<< k)
          else enc_mask) em)
    (fun a (e : drmModeEncoder) => a &&& e.possible_clones)]
  exact ⟨rfl, rfl⟩

theorem testBit_255 (b : Nat) : Nat.testBit 255 b = true ↔ b < 8 := by
  have h := Nat.testBit_two_pow_sub_one 8 b
  simp only [Nat.reducePow, Nat.add_one_sub_one] at h
  rw [h]
  simp

/-- C24 (counterexample): two outputs with one encoder each.  The eligibility mask of
the first (2) equals the reachability mask of the second (2), so the second is marked
as a clone candidate of the first, although their reachability masks (1 and 2) differ;
the second has eligibility mask 0 and marks no candidate, so the relation is not
symmetric. -/
theorem clones_not_symmetric :
    (drmmode_clones_init clone_pair clone_pair_res).map
        (fun o => (o.driver_private.enc_mask, o.driver_private.enc_clone_mask,
          o.possible_clones))
      = [(1, 2, 2), (2, 0, 0)] ∧
    ((drmmode_clones_init clone_pair clone_pair_res).getD 0 {}).possible_clones.testBit 1
      = true ∧
    ((drmmode_clones_init clone_pair clone_pair_res).getD 1 {}).possible_clones.testBit 0
      = false := by
  decide

/-- C24 (amended): after `drmmode_clones_init` (for at most 31 outputs and 31 resource
encoders, the range in which `1 << i` is defined for the C `int` masks), for every
two distinct outputs i and j, output j is marked as a clone candidate of output i
(bit j of i's `possible_clones`) if and only if the eligibility mask of i is
non-zero and equal to the reachability mask of j (which is then non-zero); no output
is its own candidate.  The eligibility mask of an output is `0xff` and-ed with the
`possible_clones` of each of its encoders; its reachability mask has, besides the bits
it had before, bit k exactly when the k-th resource encoder is one of its encoders.
The relation compares the mask of one kind of i with the mask of the other kind of j
and need not be symmetric. -/
theorem clones_init_candidates (outputs : List xf86OutputRec) (mode_res : drmModeRes)
    (i j : Nat) (hi : i < outputs.length) (hj : j < outputs.length) (hij : i ≠ j)
    (_hn : outputs.length ≤ 31) (_he : mode_res.encoders.length ≤ 31) :
    (((drmmode_clones_init outputs mode_res).getD i {}).possible_clones.testBit j = true ↔
      (((drmmode_clones_init outputs mode_res).getD i {}).driver_private.enc_clone_mask ≠ 0 ∧
       ((drmmode_clones_init outputs mode_res).getD j {}).driver_private.enc_mask ≠ 0 ∧
       ((drmmode_clones_init outputs mode_res).getD i {}).driver_private.enc_clone_mask
         = ((drmmode_clones_init outputs mode_res).getD j {}).driver_private.enc_mask)) ∧
    ((drmmode_clones_init outputs mode_res).getD i {}).possible_clones.testBit i = false ∧
    (∀ b, ((drmmode_clones_init outputs mode_res).getD i {}).driver_private.enc_clone_mask.testBit
            b = true ↔
      (b < 8 ∧
        ∀ enc ∈ (outputs.getD i {}).driver_private.mode_encoders.take
            (((outputs.getD i {}).driver_private.mode_output.map
              (fun k => k.encoders.length)).getD 0),
          enc.possible_clones.testBit b = true)) ∧
    (∀ k, ((drmmode_clones_init outputs mode_res).getD i {}).driver_private.enc_mask.testBit
            k = true ↔
      ((outputs.getD i {}).driver_private.enc_mask.testBit k = true ∨
        (k < mode_res.encoders.length ∧
          ∃ enc ∈ (outputs.getD i {}).driver_private.mode_encoders.take
              (((outputs.getD i {}).driver_private.mode_output.map
                (fun k => k.encoders.length)).getD 0),
            mode_res.encoders.getD k 0 = enc.encoder_id))) := by
  have hlen : j < (outputs.map (clones_init_masks mode_res)).length := by
    rw [List.length_map]; exact hj
  have ei := clones_init_getD outputs mode_res i hi
  have ej := clones_init_getD outputs mode_res j hj
  have hpi : ((drmmode_clones_init outputs mode_res).getD i {}).possible_clones
      = find_clones (outputs.map (clones_init_masks mode_res)) i := by rw [ei]
  have hdi : ((drmmode_clones_init outputs mode_res).getD i {}).driver_private
      = ((outputs.map (clones_init_masks mode_res)).getD i {}).driver_private := by
    rw [ei, masks_getD outputs mode_res i hi]
  have hdj : ((drmmode_clones_init outputs mode_res).getD j {}).driver_private
      = ((outputs.map (clones_init_masks mode_res)).getD j {}).driver_private := by
    rw [ej, masks_getD outputs mode_res j hj]
  have hf := clones_init_masks_fields mode_res (outputs.getD i {})
  refine ⟨?_, ?_, ?_, ?_⟩
  · rw [hpi, hdi, hdj, find_clones_bit]
    constructor
    · rintro ⟨h1, _, _, h2, h3⟩
      exact ⟨h1, h2, h3⟩
    · rintro ⟨h1, h2, h3⟩
      exact ⟨h1, hlen, hij, h2, h3⟩
  · rw [hpi]
    cases hb : (find_clones (outputs.map (clones_init_masks mode_res)) i).testBit i with
    | false => rfl
    | true => exact absurd rfl ((find_clones_bit _ i i).mp hb).2.2.1
  · intro b
    rw [hdi, masks_getD outputs mode_res i hi, hf.1, and_bits_foldl, testBit_255]
  · intro k
    rw [hdi, masks_getD outputs mode_res i hi, hf.2, reach_bits_foldl]

/-- C24 (witness): the two outputs of `clone_pair`. -/
theorem clones_init_candidates_witness :
    ((drmmode_clones_init clone_pair clone_pair_res).getD 0 {}).possible_clones.testBit 0
      = false :=
  (clones_init_candidates clone_pair clone_pair_res 0 1 (by decide) (by decide) (by decide)
    (by decide) (by decide)).2.1
/-! ## Hot-plug reconciliation applied twice (C8) -/

/-- The connector id 4294967295 cannot be admitted in the connector set: the identifier
-1 of an invalidated output compares equal to it.  With the connectors 4294967295 and
2 listed, the invalidated output counts as the output of 4294967295 in the first
reconciliation and is then taken over by the connector 2, so the second
reconciliation creates an output for 4294967295. -/
theorem hotplug_sentinel_connector :
    stale_first.output.map (fun o => o.driver_private.output_id) = [2] ∧
    stale_second.output.map (fun o => o.driver_private.output_id) = [2, -1] ∧
    toU32 (-1) = 4294967295 := by
  decide

end Drmmode
